import Mathlib

set_option maxRecDepth 100000

/-!
MarFS datastream engine: a shallow embedding of `src/datastream/datastream.c`.

The C code is translated function by function.  Conventions:

* `size_t` values are natural numbers below `2 ^ 64`; every `size_t` operation
  that can leave that range is written with an explicit reduction (`uadd`,
  `usub`, `umul`).  An `off_t` variable is carried as its 64-bit pattern and
  read as a signed number only where the C code compares it with zero.
* Pointers that may be `NULL` are `Option`s; MDAL / NE handles are numbers.
* Calls into the MDAL, into libne and into the C allocator are answered by an
  environment `Env`; every backend call is appended, with its answer, to the
  trace kept in `Sys`, which also holds `errno`.
* `stream->files` is a list; `filealloc` is kept next to it as in the C struct.
-/

namespace Marfs

/-! ## Machine integers -/

/-- The number of values of a `size_t` / `off_t` (both 64 bits wide). -/
def SIZE_MOD : Nat := 2 ^ 64

/-- The first bit pattern that a signed 64-bit reading takes as negative. -/
def OFF_NEG : Nat := 2 ^ 63

/-- Addition on `size_t`. -/
def uadd (a b : Nat) : Nat := (a + b) % SIZE_MOD

/-- Subtraction on `size_t` (wraps below zero). -/
def usub (a b : Nat) : Nat := (a + (SIZE_MOD - b % SIZE_MOD)) % SIZE_MOD

/-- Multiplication on `size_t`. -/
def umul (a b : Nat) : Nat := (a * b) % SIZE_MOD

/-- Conversion of a signed `off_t` argument to its 64-bit pattern. -/
def ofOff (i : Int) : Nat := (i % (SIZE_MOD : Int)).toNat

/-! ## errno values (Linux numbering) and `lseek` whence values -/

def EPERM : Nat := 1
def ENOENT : Nat := 2
def ENOMEM : Nat := 12
def EACCES : Nat := 13
def EFAULT : Nat := 14
def EBUSY : Nat := 16
def EEXIST : Nat := 17
def EINVAL : Nat := 22
def ENAMETOOLONG : Nat := 36
def ENOMSG : Nat := 42
def EBADFD : Nat := 77

def SEEK_SET : Int := 0
def SEEK_CUR : Int := 1
def SEEK_END : Int := 2

/-! ## `tagging.h` -/

def FTAG_CURRENT_MAJORVERSION : Nat := 0
def FTAG_CURRENT_MINORVERSION : Nat := 1

def FTAG_RESERVED_CHARS : List Char := ['(', ')', '|']

def FTAG_NAME : String := "MARFS-FTAG"
def RTAG_NAME : String := "MARFS-RTAG"

def FTAG_INIT : Nat := 0
def FTAG_SIZED : Nat := 1
def FTAG_FIN : Nat := 2
def FTAG_COMP : Nat := 3
def FTAG_DATASTATE : Nat := FTAG_COMP
def FTAG_WRITEABLE : Nat := 4
def FTAG_READABLE : Nat := 8

/-- The C expression `~(FTAG_DATASTATE)` on the 32-bit enum type. -/
def NOT_DATASTATE : Nat := 0xFFFFFFFC

/-- Erasure definition `ne_erasure` of libne. -/
structure ne_erasure where
  N : Nat
  E : Nat
  O : Nat
  partsz : Nat
deriving DecidableEq, Repr, Inhabited

structure FTAG where
  majorversion : Nat
  minorversion : Nat
  ctag : Option String
  streamid : Option String
  objfiles : Nat
  objsize : Nat
  fileno : Nat
  objno : Nat
  offset : Nat
  endofstream : Nat
  protection : ne_erasure
  bytes : Nat
  availbytes : Nat
  recoverybytes : Nat
  state : Nat
deriving DecidableEq, Repr, Inhabited

/-! ## `config.h` -/

structure marfs_ds where
  protection : ne_erasure
  objfiles : Nat
  objsize : Nat
deriving DecidableEq, Repr, Inhabited

/-- A namespace; `addr` stands for the address of the C struct, which is what
`newstream->ns != pos->ns` compares. -/
structure marfs_ns where
  addr : Nat
  idstr : String
  datascheme : marfs_ds
deriving DecidableEq, Repr, Inhabited

structure marfs_position where
  ns : marfs_ns
  depth : Nat
  ctxt : Nat
deriving DecidableEq, Repr, Inhabited

/-! ## Stream state (`datastream.h`, reconstructed from its uses) -/

inductive STREAM_TYPE where
  | CREATE_STREAM
  | EDIT_STREAM
  | READ_STREAM
  | ERROR_STREAM
deriving DecidableEq, Repr, Inhabited

open STREAM_TYPE

structure timespec where
  tv_sec : Int
  tv_nsec : Int
deriving DecidableEq, Repr, Inhabited

structure STREAMFILE where
  metahandle : Option Nat
  ftag : FTAG
  atime : timespec
  mtime : timespec
  dotimes : Nat
deriving DecidableEq, Repr, Inhabited

structure RECOVERY_FINFO where
  inode : Nat
  mode : Nat
  owner : Nat
  group : Nat
  size : Nat
  mtime : timespec
  eof : Nat
  path : Option String
deriving DecidableEq, Repr, Inhabited

structure DATASTREAM where
  type : STREAM_TYPE
  ctag : Option String
  streamid : Option String
  ns : marfs_ns
  recoveryheaderlen : Nat
  fileno : Nat
  objno : Nat
  offset : Nat
  datahandle : Option Nat
  files : List STREAMFILE
  curfile : Nat
  filealloc : Nat
  ftagstrsize : Nat
  finfostrlen : Nat
  finfo : RECOVERY_FINFO
deriving DecidableEq, Repr, Inhabited

/-- The slot `stream->files[i]`. -/
def getfile (files : List STREAMFILE) (i : Nat) : STREAMFILE := files.getD i default

/-- The store `stream->files[i] = f`.  In C a store at an index that is not below
the allocated length writes outside the allocation, which is undefined behaviour.
Here such a store pads the list with blank slots up to `i`, so that it can be
exhibited (the list grows past `filealloc`); what the model computes after such
a store says nothing about the C program, and the theorems that depend on where a
file reference is stored assume that the index is below `filealloc` at the store. -/
def setfile (files : List STREAMFILE) (i : Nat) (f : STREAMFILE) : List STREAMFILE :=
  if i < files.length then files.set i f
  else files ++ List.replicate (i - files.length) default ++ [f]

/-- The current file `stream->files[stream->curfile]`. -/
def DATASTREAM.cur (stream : DATASTREAM) : STREAMFILE := getfile stream.files stream.curfile

/-! ## `gettargets` -/

/-- The four outputs of `gettargets`. -/
structure Targets where
  tgtobjno : Nat
  tgtoffset : Nat
  remaining : Nat
  maxobjdata : Nat
deriving DecidableEq, Repr, Inhabited

/-- First part of `gettargets`: the bit pattern of `offset` once it has been
converted to a seek from the start of the file; `none` for an unknown whence. -/
def gettargets_abs (stream : DATASTREAM) (offset : Int) (whence : Int) : Option Nat :=
  let curtag := stream.cur.ftag
  let dataperobj := usub curtag.objsize (uadd curtag.recoverybytes stream.recoveryheaderlen)
  let minobj := curtag.objno
  let minoffset := usub curtag.offset stream.recoveryheaderlen
  let off0 := ofOff offset
  if whence = SEEK_END then
    some (uadd off0 curtag.availbytes)
  else if whence = SEEK_CUR then
    if stream.objno > minobj then
      let off1 := uadd off0 (usub dataperobj minoffset)
      let off2 := uadd off1 (umul (usub stream.objno (uadd minobj 1)) dataperobj)
      if stream.offset ≠ 0 then
        some (uadd off2 (usub stream.offset stream.recoveryheaderlen))
      else some off2
    else if stream.offset ≠ 0 then
      some (uadd off0 (usub (usub stream.offset stream.recoveryheaderlen) minoffset))
    else some off0
  else if whence ≠ SEEK_SET then none
  else some off0

/-- Translation of `gettargets`.  The result is the errno of a failing call, or
the values the C function stores through its four output pointers.  The C
function divides by `dataperobj`: with `dataperobj = 0` an accepted offset past
the first object is a division by zero, which is undefined behaviour, while here
`n / 0 = 0`.  The model agrees with the C function where `dataperobj ≠ 0`, and the
theorems about accepted calls assume it. -/
def gettargets (stream : DATASTREAM) (offset : Int) (whence : Int) : Except Nat Targets :=
  let curtag := stream.cur.ftag
  let dataperobj := usub curtag.objsize (uadd curtag.recoverybytes stream.recoveryheaderlen)
  let minobj := curtag.objno
  let minoffset := usub curtag.offset stream.recoveryheaderlen
  match gettargets_abs stream offset whence with
  | none => .error EINVAL
  | some off =>
    if off > curtag.availbytes then .error EINVAL
    else if off ≥ OFF_NEG then .error EINVAL
    else
      let remain := usub curtag.availbytes off
      if uadd off minoffset > dataperobj then
        let off' := usub off (usub dataperobj minoffset)
        .ok { tgtobjno := uadd minobj (uadd (off' / dataperobj) 1),
              tgtoffset := off' % dataperobj,
              remaining := remain, maxobjdata := dataperobj }
      else
        .ok { tgtobjno := minobj, tgtoffset := uadd minoffset off,
              remaining := remain, maxobjdata := dataperobj }

/-- The data capacity of an object, `dataperobj` of `gettargets`: the object size
less the recovery info of the current file and the recovery header.  It is the
divisor of the division in `gettargets`. -/
def dataperobj (stream : DATASTREAM) : Nat :=
  usub stream.cur.ftag.objsize (uadd stream.cur.ftag.recoverybytes stream.recoveryheaderlen)

/-! ## Well-formedness of the values held in C variables -/

/-- Every `size_t` field of the tag holds a `size_t` value. -/
def FTAG.typed (t : FTAG) : Prop :=
  t.objfiles < SIZE_MOD ∧ t.objsize < SIZE_MOD ∧ t.fileno < SIZE_MOD ∧ t.objno < SIZE_MOD ∧
  t.offset < SIZE_MOD ∧ t.bytes < SIZE_MOD ∧ t.availbytes < SIZE_MOD ∧
  t.recoverybytes < SIZE_MOD

instance (t : FTAG) : Decidable t.typed := by unfold FTAG.typed; infer_instance

/-- The cursor fields of the stream and the current tag hold `size_t` values. -/
def DATASTREAM.typed (s : DATASTREAM) : Prop :=
  s.recoveryheaderlen < SIZE_MOD ∧ s.objno < SIZE_MOD ∧ s.offset < SIZE_MOD ∧ s.cur.ftag.typed

instance (s : DATASTREAM) : Decidable s.typed := by unfold DATASTREAM.typed; infer_instance

/-- Stream position within the current file, as the unbounded integer that the
`SEEK_CUR` branch of `gettargets` adds to the requested offset. -/
def curpos (stream : DATASTREAM) : Int :=
  let curtag := stream.cur.ftag
  let dataperobj : Int := (curtag.objsize : Int) - (curtag.recoverybytes + stream.recoveryheaderlen)
  let minoffset : Int := (curtag.offset : Int) - stream.recoveryheaderlen
  if stream.objno > curtag.objno then
    (dataperobj - minoffset) + ((stream.objno : Int) - (curtag.objno + 1)) * dataperobj +
      (if stream.offset ≠ 0 then (stream.offset : Int) - stream.recoveryheaderlen else 0)
  else if stream.offset ≠ 0 then
    ((stream.offset : Int) - stream.recoveryheaderlen) - minoffset
  else 0

/-- The absolute file offset that a seek request denotes, as an unbounded
integer: `offset` itself for `SEEK_SET`, `offset` plus the stream position for
`SEEK_CUR`, `offset` plus the file size for `SEEK_END`. -/
def absoluteOffset (stream : DATASTREAM) (offset : Int) (whence : Int) : Option Int :=
  if whence = SEEK_SET then some offset
  else if whence = SEEK_CUR then some (offset + curpos stream)
  else if whence = SEEK_END then some (offset + stream.cur.ftag.availbytes)
  else none

/-- A stream whose current file is the striping scenario of the specification:
`objsize = 8192`, header 64, trailer 128, file at object 0 / offset 64 with
20000 readable bytes. -/
def stripeStream : DATASTREAM :=
  { (default : DATASTREAM) with
    type := READ_STREAM, recoveryheaderlen := 64, objno := 0, offset := 64, filealloc := 1,
    files := [{ (default : STREAMFILE) with
      metahandle := some 1,
      ftag := { (default : FTAG) with
        objsize := 8192, objno := 0, offset := 64, bytes := 20000, availbytes := 20000,
        recoverybytes := 128, state := 11 } }] }

deriving instance DecidableEq for Except

/-! ## Backends: MDAL, libne, allocator, codecs -/

/-- Value of an extended attribute: an encoded FTAG (kept as the tag it encodes)
or a rebuild-tag string. -/
inductive XVal where
  | ftag (t : FTAG)
  | rtag (s : String)
deriving DecidableEq, Repr, Inhabited

structure stat where
  st_ino : Nat
  st_mode : Nat
  st_uid : Nat
  st_gid : Nat
  st_size : Nat
  st_atim : timespec
  st_mtim : timespec
deriving DecidableEq, Repr, Inhabited

inductive ne_mode where
  | NE_RDALL
  | NE_WRALL
deriving DecidableEq, Repr, Inhabited

structure ne_location where
  pod : Int
  cap : Int
  scatter : Int
deriving DecidableEq, Repr, Inhabited

/-- The calls the datastream code issues to the MDAL, to libne and to the clock. -/
inductive Call where
  | openref (ctxt : Nat) (rpath : String) (flags : Nat) (mode : Nat)
  | unlinkref (ctxt : Nat) (rpath : String)
  | linkref (ctxt : Nat) (rpath : String) (tgtpath : String)
  | unlink (ctxt : Nat) (path : String)
  | mdopen (ctxt : Nat) (path : String) (flags : Nat)
  | mdclose (h : Option Nat)
  | ftruncate (h : Option Nat) (len : Nat)
  | futimens (h : Option Nat) (atime : timespec) (mtime : timespec)
  | fstat (h : Option Nat)
  | fsetxattr (h : Option Nat) (name : String) (value : XVal) (len : Nat)
  | fgetxattr (h : Option Nat) (name : String) (len : Nat)
  | ne_open (objname : String) (loc : ne_location) (erasure : ne_erasure) (mode : ne_mode)
  | ne_seek (h : Option Nat) (off : Nat)
  | ne_read (h : Option Nat) (count : Nat)
  | ne_write (h : Option Nat) (data : List Nat) (count : Nat)
  | ne_close (h : Option Nat)
  | ne_abort (h : Option Nat)
  | clock_gettime
deriving DecidableEq, Repr, Inhabited

/-- Answer of a backend call.  `ret` is the integer result, `err` the value the
call leaves in `errno` (if it touches it), `handle` the handle of an open-style
call, `ftag` the tag that `ftag_initstr` parses out of a fetched attribute,
`data` the bytes an `ne_read` stores, `nestate` the `ne_state` of an `ne_close`. -/
structure Resp where
  ret : Int
  err : Option Nat
  handle : Option Nat
  ftag : Option FTAG
  st : stat
  data : List Nat
  nestate : Nat
  time : timespec
deriving DecidableEq, Repr, Inhabited

abbrev Trace := List (Call × Resp)

/-- Everything outside `datastream.c`: the backends (answering a call in view of
the calls so far), the allocator (answering the n-th request), and the pure
library functions of the tagging, recovery, hash and config modules. -/
structure Env where
  backend : Trace → Call → Resp
  alloc : Nat → Bool
  ftag_tostr : FTAG → Nat
  ftag_metatgt : FTAG → String
  ftag_datatgt : FTAG → String
  reftable : String → Option String
  podtable : String → Option String
  captable : String → Option String
  scattertable : String → Option String
  strtoull : String → Nat × Bool
  hash_rangevalue : String → Nat → Nat
  recovery_finfotostr : RECOVERY_FINFO → List Nat
  recovery_headertostr : Option String → Option String → List Nat
  rtag_tostr : Nat → String
  config_nsinfo : String → Option (String × String)
  SIZE_DIGITS : Nat

/-- The observable state around the stream: the calls made so far with their
answers, `errno`, and the number of allocation requests made. -/
structure Sys where
  trace : Trace
  errno : Nat
  allocs : Nat
deriving DecidableEq, Repr, Inhabited

/-- Issue a backend call. -/
def call (env : Env) (sys : Sys) (c : Call) : Resp × Sys :=
  let r := env.backend sys.trace c
  (r, { sys with trace := sys.trace ++ [(c, r)], errno := r.err.getD sys.errno })

/-- A request to `malloc` / `realloc` / `strdup`. -/
def malloc (env : Env) (sys : Sys) : Bool × Sys :=
  let ok := env.alloc sys.allocs
  (ok, { sys with allocs := sys.allocs + 1, errno := if ok then sys.errno else ENOMEM })

def O_RDONLY : Nat := 0
def O_WRONLY : Nat := 1
def O_CREAT : Nat := 64
def O_EXCL : Nat := 128
def INT_MAX : Nat := 2147483647

def RECOVERY_CURRENT_MAJORVERSION : Nat := 0
def RECOVERY_CURRENT_MINORVERSION : Nat := 1

/-! ## Internal definitions and functions of `datastream.c` -/

def INITIAL_FILE_ALLOC : Nat := 64
def FILE_ALLOC_MULT : Nat := 2

/-- The loop of `freestream` closing the meta handles of slots `i, i+1, ...`
(`n` slots). -/
def freestream_files (env : Env) (files : List STREAMFILE) : Nat → Nat → Sys → Sys
  | 0, _, sys => sys
  | n + 1, i, sys =>
    match (getfile files i).metahandle with
    | some h => freestream_files env files n (i + 1) (call env sys (.mdclose (some h))).2
    | none => freestream_files env files n (i + 1) sys

/-- Translation of `freestream`.  The empty list stands for `stream->files == NULL`. -/
def freestream (env : Env) (stream : DATASTREAM) (sys : Sys) : Sys :=
  let sys1 := match stream.datahandle with
    | some h => (call env sys (.ne_abort (some h))).2
    | none => sys
  if stream.files ≠ [] then
    freestream_files env stream.files (uadd stream.curfile 1) 0 sys1
  else sys1

/-- Translation of `allocfiles`: the new capacity (0 on failure) and the
reallocated list, whose slots from `current` on have a `NULL` meta handle. -/
def allocfiles (env : Env) (files : List STREAMFILE) (current max : Nat) (sys : Sys) :
    Nat × List STREAMFILE × Sys :=
  let allocsize0 :=
    if current < INITIAL_FILE_ALLOC then INITIAL_FILE_ALLOC else umul current FILE_ALLOC_MULT
  let allocsize := if max ≠ 0 ∧ allocsize0 > max then max else allocsize0
  match malloc env sys with
  | (ok, sys1) =>
    if ok = false then (0, files, sys1) else
    let moved := files.take allocsize ++ List.replicate (allocsize - files.length) default
    let newfiles := moved.enum.map fun (i, f) =>
      if current ≤ i then { f with metahandle := none } else f
    (allocsize, newfiles, sys1)

/-- Second half of `putftag`: the length check and the `fsetxattr`. -/
def putftag_attach (env : Env) (stream : DATASTREAM) (file : STREAMFILE) (prres : Nat)
    (sys : Sys) : Int × DATASTREAM × Sys :=
  if prres ≤ 0 then (-1, stream, sys)
  else
    match call env sys (.fsetxattr file.metahandle FTAG_NAME (.ftag file.ftag) prres) with
    | (r, sys1) => if r.ret ≠ 0 then (-1, stream, sys1) else (0, stream, sys1)

/-- Translation of `putftag`. -/
def putftag (env : Env) (stream : DATASTREAM) (file : STREAMFILE) (sys : Sys) :
    Int × DATASTREAM × Sys :=
  let prres := env.ftag_tostr file.ftag
  if prres ≥ stream.ftagstrsize then
    match malloc env sys with
    | (ok, sys1) =>
      if ok = false then (-1, { stream with ftagstrsize := 0 }, sys1) else
      let stream1 := { stream with ftagstrsize := uadd prres 1 }
      let prres2 := env.ftag_tostr file.ftag
      if prres2 ≥ stream1.ftagstrsize then (-1, stream1, { sys1 with errno := EFAULT })
      else putftag_attach env stream1 file prres2 sys1
  else putftag_attach env stream file prres sys

/-- Second half of `getftag`: the length check and `ftag_initstr`. -/
def getftag_parse (stream : DATASTREAM) (file : STREAMFILE) (r : Resp) (sys : Sys) :
    Int × DATASTREAM × STREAMFILE × Sys :=
  if r.ret ≤ 0 then (-1, stream, file, sys)
  else
    match r.ftag with
    | none => (-1, stream, file, sys)
    | some t => (0, stream, { file with ftag := t }, sys)

/-- Translation of `getftag`.  (`getres` is a `size_t`: a negative answer of
`fgetxattr` is read as a huge length.) -/
def getftag (env : Env) (stream : DATASTREAM) (file : STREAMFILE) (sys : Sys) :
    Int × DATASTREAM × STREAMFILE × Sys :=
  match call env sys (.fgetxattr file.metahandle FTAG_NAME (usub stream.ftagstrsize 1)) with
  | (r, sys1) =>
    if ofOff r.ret ≥ stream.ftagstrsize then
      match malloc env sys1 with
      | (ok, sys2) =>
        if ok = false then (-1, { stream with ftagstrsize := 0 }, file, sys2) else
        let stream1 := { stream with ftagstrsize := uadd (ofOff r.ret) 1 }
        match call env sys2
            (.fgetxattr file.metahandle FTAG_NAME (usub stream1.ftagstrsize 1)) with
        | (r2, sys3) =>
          if ofOff r2.ret ≥ stream1.ftagstrsize then
            (-1, stream1, file, { sys3 with errno := EBUSY })
          else getftag_parse stream1 file { r2 with ret := (ofOff r2.ret : Int) } sys3
    else getftag_parse stream file { r with ret := (ofOff r.ret : Int) } sys1

/-- Translation of `linkfile`. -/
def linkfile (env : Env) (refpath tgtpath : String) (ctxt : Nat) (sys : Sys) : Int × Sys :=
  match call env sys (.linkref ctxt refpath tgtpath) with
  | (r, sys1) =>
    if r.ret ≠ 0 then
      if sys1.errno ≠ EEXIST then (-1, sys1)
      else
        match call env sys1 (.unlink ctxt tgtpath) with
        | (r2, sys2) =>
          if r2.ret ≠ 0 ∧ sys2.errno ≠ ENOENT then (-1, sys2)
          else
            match call env sys2 (.linkref ctxt refpath tgtpath) with
            | (r3, sys3) => if r3.ret ≠ 0 then (-1, sys3) else (0, sys3)
    else (0, sys1)

/-- Translation of `genrpath`: the reference path, or `none` for `NULL`. -/
def genrpath (env : Env) (file : STREAMFILE) (sys : Sys) : Option String × Sys :=
  let refname := env.ftag_metatgt file.ftag
  if refname.length < 1 then (none, sys)
  else
    match malloc env sys with
    | (ok, sys1) =>
      if ok = false then (none, sys1) else
      if (env.ftag_metatgt file.ftag).length ≠ refname.length then (none, sys1)
      else
        match env.reftable refname with
        | none => (none, sys1)
        | some nodename =>
          match malloc env sys1 with
          | (ok, sys2) =>
            if ok = false then (none, sys2) else
            let rpath := nodename ++ refname
            if rpath.length ≠ nodename.length + refname.length then
              (none, { sys2 with errno := EFAULT })
            else (some rpath, sys2)

/-- Translation of `genrecoveryinfo`. -/
def genrecoveryinfo (env : Env) (stream : DATASTREAM) (finfo : RECOVERY_FINFO)
    (file : STREAMFILE) (path : String) (sys : Sys) :
    Int × RECOVERY_FINFO × STREAMFILE × Sys :=
  match call env sys (.fstat file.metahandle) with
  | (r, sys1) =>
    if r.ret ≠ 0 then (-1, finfo, file, sys1)
    else
      let finfo1 : RECOVERY_FINFO :=
        { finfo with inode := r.st.st_ino, mode := r.st.st_mode, owner := r.st.st_uid,
                     group := r.st.st_gid, size := 0, mtime := r.st.st_mtim, eof := 0 }
      if stream.type = READ_STREAM then
        (0, { finfo1 with size := r.st.st_size }, file, sys1)
      else
        match malloc env sys1 with
        | (ok, sys2) =>
          if ok = false then (-1, { finfo1 with path := none }, file, sys2) else
          let finfo2 := { finfo1 with path := some path }
          let file1 := { file with atime := r.st.st_atim, mtime := r.st.st_mtim }
          let recoverybytes := (env.recovery_finfotostr finfo2).length
          if recoverybytes = 0 then (-1, { finfo2 with path := none }, file1, sys2)
          else if file1.ftag.recoverybytes = 0 then
            (0, finfo2, { file1 with ftag := { file1.ftag with recoverybytes := recoverybytes } },
              sys2)
          else (0, finfo2, file1, sys2)

/-- The errno clean-up `if ( errno == EBADFD ) { errno = ENOMSG; }`. -/
def noBADFD (sys : Sys) : Sys :=
  if sys.errno = EBADFD then { sys with errno := ENOMSG } else sys

/-- The file reference that `create_new_file` starts from. -/
def create_new_file_init (stream : DATASTREAM) : STREAMFILE :=
  { metahandle := none,
    ftag := {
      majorversion := FTAG_CURRENT_MAJORVERSION,
      minorversion := FTAG_CURRENT_MINORVERSION,
      ctag := stream.ctag,
      streamid := stream.streamid,
      objfiles := stream.ns.datascheme.objfiles,
      objsize := stream.ns.datascheme.objsize,
      fileno := stream.fileno,
      objno := stream.objno,
      offset := stream.offset,
      endofstream := 0,
      protection := stream.ns.datascheme.protection,
      bytes := 0,
      availbytes := 0,
      recoverybytes := 0,
      state := FTAG_INIT },
    atime := ⟨0, 0⟩,
    mtime := ⟨0, 0⟩,
    dotimes := 1 }

/-- The placement step of `create_new_file`: move the new file to the next
object when the current one cannot take its recovery info or another file. -/
def create_new_file_place (stream : DATASTREAM) (newfile : STREAMFILE) : STREAMFILE :=
  if newfile.ftag.objsize ≠ 0 ∧
      usub newfile.ftag.objsize stream.offset < newfile.ftag.recoverybytes then
    { newfile with ftag := { newfile.ftag with
        objno := uadd newfile.ftag.objno 1, offset := stream.recoveryheaderlen } }
  else if newfile.ftag.objfiles ≠ 0 ∧ stream.curfile ≥ newfile.ftag.objfiles then
    { newfile with ftag := { newfile.ftag with
        objno := uadd newfile.ftag.objno 1, offset := stream.recoveryheaderlen } }
  else newfile

/-- Last part of `create_new_file`: from the placement of the file to the
update of the stream. -/
def create_new_file_install (env : Env) (stream : DATASTREAM) (path : String) (ctxt : Nat)
    (newrpath : String) (newfile0 : STREAMFILE) (newfinfo : RECOVERY_FINFO) (sys : Sys) :
    Int × DATASTREAM × Sys :=
  let newfile := create_new_file_place stream newfile0
  match putftag env stream newfile sys with
  | (pres, stream1, sys1) =>
    if pres ≠ 0 then
      (-1, stream1, noBADFD (call env sys1 (.unlinkref ctxt newrpath)).2)
    else
      match linkfile env newrpath path ctxt sys1 with
      | (lres, sys2) =>
        if lres ≠ 0 then
          (-1, stream1, noBADFD (call env sys2 (.unlinkref ctxt newrpath)).2)
        else
          let finish (s : DATASTREAM) (sy : Sys) : Int × DATASTREAM × Sys :=
            (0, { s with files := setfile s.files s.curfile newfile,
                         finfo := newfinfo,
                         fileno := newfile.ftag.fileno,
                         objno := newfile.ftag.objno,
                         offset := newfile.ftag.offset }, sy)
          if stream1.curfile ≥ stream1.filealloc then
            match allocfiles env stream1.files stream1.filealloc
                stream1.ns.datascheme.objfiles sys2 with
            | (newalloc, newfiles, sys3) =>
              if newalloc = 0 then
                (-1, { stream1 with files := newfiles, filealloc := usub stream1.curfile 1 },
                  noBADFD (call env sys3 (.unlinkref ctxt newrpath)).2)
              else finish { stream1 with files := newfiles, filealloc := newalloc } sys3
          else finish stream1 sys2

/-- Translation of `create_new_file`. -/
def create_new_file (env : Env) (stream : DATASTREAM) (path : String) (ctxt : Nat)
    (mode : Nat) (sys : Sys) : Int × DATASTREAM × Sys :=
  let newfile0 := create_new_file_init stream
  match genrpath env newfile0 sys with
  | (none, sys1) => (-1, stream, noBADFD sys1)
  | (some newrpath, sys1) =>
    match call env sys1 (.openref ctxt newrpath (O_CREAT ||| O_EXCL ||| O_WRONLY) mode) with
    | (r, sys2) =>
      match r.handle with
      | none =>
        -- `if ( errno = EEXIST ) { errno = EBUSY; }` assigns: the branch is always taken
        (-1, stream, { sys2 with errno := EBUSY })
      | some h =>
        let newfile1 := { newfile0 with metahandle := some h }
        match genrecoveryinfo env stream default newfile1 path sys2 with
        | (gres, newfinfo, newfile, sys3) =>
          if gres ≠ 0 then
            (-1, stream, noBADFD (call env sys3 (.unlinkref ctxt newrpath)).2)
          else if newfile.ftag.objsize ≠ 0 ∧
              uadd stream.recoveryheaderlen newfile.ftag.recoverybytes
                ≥ newfile.ftag.objsize then
            (-1, stream,
              { (call env sys3 (.unlinkref ctxt newrpath)).2 with errno := ENAMETOOLONG })
          else create_new_file_install env stream path ctxt newrpath newfile newfinfo sys3

/-- Translation of `open_existing_file`. -/
def open_existing_file (env : Env) (stream : DATASTREAM) (path : String) (ctxt : Nat)
    (sys : Sys) : Int × DATASTREAM × Sys :=
  match call env sys (.mdopen ctxt path
      (if stream.type = READ_STREAM then O_RDONLY else O_WRONLY)) with
  | (r, sys1) =>
    let file0 := { stream.cur with metahandle := r.handle }
    let stream0 := { stream with files := setfile stream.files stream.curfile file0 }
    match r.handle with
    | none => (-1, stream0, sys1)
    | some h =>
      match getftag env stream0 file0 sys1 with
      | (gres, stream1, file1, sys2) =>
        if gres ≠ 0 then
          let files' := setfile stream1.files stream1.curfile { file1 with metahandle := none }
          (-1, { stream1 with files := files' }, (call env sys2 (.mdclose (some h))).2)
        else
          let file2 := { file1 with dotimes := 0 }
          match genrecoveryinfo env stream1 stream1.finfo file2 path sys2 with
          | (rres, finfo, file3, sys3) =>
            if rres ≠ 0 then
              let files' :=
                setfile stream1.files stream1.curfile { file3 with metahandle := none }
              (-1, { stream1 with finfo := finfo, files := files' },
                (call env sys3 (.mdclose (some h))).2)
            else
              (0, { stream1 with finfo := finfo,
                                 files := setfile stream1.files stream1.curfile file3,
                                 ctag := file3.ftag.ctag,
                                 streamid := file3.ftag.streamid }, sys3)

/-- One round of the placement loop of `open_current_obj`: look the object name
up in a table and parse the node name as an `int`. -/
def open_current_obj_locate (env : Env) (table : String → Option String) (objname : String) :
    Option Int :=
  match table objname with
  | none => none
  | some nodename =>
    match env.strtoull nodename with
    | (parseval, whole) =>
      if whole = false ∨ parseval ≥ INT_MAX then none else some (parseval : Int)

/-- The write-side tail of `open_current_obj`: emit the recovery header. -/
def open_current_obj_header (env : Env) (stream : DATASTREAM) (sys : Sys) :
    Int × DATASTREAM × Sys :=
  if stream.offset ≠ stream.recoveryheaderlen then
    (-1, { stream with datahandle := none }, (call env sys (.ne_abort stream.datahandle)).2)
  else
    match malloc env sys with
    | (ok, sys1) =>
      if ok = false then
        (-1, { stream with datahandle := none }, (call env sys1 (.ne_abort stream.datahandle)).2)
      else
      let recovheader := env.recovery_headertostr stream.ctag stream.streamid
      if recovheader.length ≠ stream.recoveryheaderlen then
        (-1, { stream with datahandle := none },
          { (call env sys1 (.ne_abort stream.datahandle)).2 with errno := EFAULT })
      else
        match call env sys1
            (.ne_write stream.datahandle recovheader stream.recoveryheaderlen) with
        | (w, sys2) =>
          if ofOff w.ret ≠ stream.recoveryheaderlen then
            (-1, { stream with datahandle := none },
              (call env sys2 (.ne_abort stream.datahandle)).2)
          else (0, stream, sys2)

/-- Translation of `open_current_obj`. -/
def open_current_obj (env : Env) (stream : DATASTREAM) (sys : Sys) : Int × DATASTREAM × Sys :=
  let tgttag := { stream.cur.ftag with objno := stream.objno, offset := stream.offset }
  let objname := env.ftag_datatgt tgttag
  if objname.length ≤ 0 then (-1, stream, sys)
  else
    match malloc env sys with
    | (ok, sys1) =>
      if ok = false then (-1, stream, sys1) else
      if objname.length ≠ (env.ftag_datatgt tgttag).length then (-1, stream, sys1)
      else
        match open_current_obj_locate env env.podtable objname with
        | none => (-1, stream, sys1)
        | some pod =>
          match open_current_obj_locate env env.captable objname with
          | none => (-1, stream, sys1)
          | some cap =>
            match open_current_obj_locate env env.scattertable objname with
            | none => (-1, stream, sys1)
            | some scatter =>
              let tmperasure := { tgttag.protection with
                O := env.hash_rangevalue objname (tgttag.protection.N + tgttag.protection.E) }
              match call env sys1 (.ne_open objname ⟨pod, cap, scatter⟩ tmperasure
                  (if stream.type = READ_STREAM then .NE_RDALL else .NE_WRALL)) with
              | (r, sys2) =>
                match r.handle with
                | none => (-1, { stream with datahandle := none }, sys2)
                | some h =>
                  let stream1 := { stream with datahandle := some h }
                  if stream.type = READ_STREAM then
                    if stream.offset ≠ 0 then
                      match call env sys2 (.ne_seek (some h) stream.offset) with
                      | (s, sys3) =>
                        if stream.offset ≠ ofOff s.ret then (-1, stream1, sys3)
                        else (0, stream1, sys3)
                    else (0, stream1, sys2)
                  else open_current_obj_header env stream1 sys2

/-- The part of `close_current_obj` after `ne_close`: `c` is the answer of
`ne_close` with the system state after it. -/
def close_current_obj_rtag (env : Env) (stream : DATASTREAM) (c : Resp × Sys) :
    Int × DATASTREAM × Option String × Sys :=
  if c.1.ret > 0 then
    let rtagstrlen := (env.rtag_tostr c.1.nestate).length
    match malloc env c.2 with
    | (ok, sys2) =>
      let rtagstr : Option String :=
        if (env.rtag_tostr c.1.nestate).length ≠ rtagstrlen then none
        else if ok then some (env.rtag_tostr c.1.nestate) else none
      if rtagstrlen = 0 ∨ ok = false ∨ (env.rtag_tostr c.1.nestate).length ≠ rtagstrlen then
        (-1, stream, rtagstr, sys2)
      else (0, stream, rtagstr, sys2)
  else if c.1.ret < 0 then (-1, stream, none, c.2)
  else (0, stream, none, c.2)

/-- Translation of `close_current_obj` (the receiver is the stream passed in).
The third component is what the call leaves in `*rtagstr`. -/
def close_current_obj (env : Env) (stream : DATASTREAM) (sys : Sys) :
    Int × DATASTREAM × Option String × Sys :=
  match stream.datahandle with
  | some h =>
    close_current_obj_rtag env { stream with datahandle := none }
      (call env sys (.ne_close (some h)))
  | none => (0, stream, none, sys)

/-- Translation of `putfinfo`. -/
def putfinfo (env : Env) (stream : DATASTREAM) (sys : Sys) : Int × DATASTREAM × Sys :=
  let recoverybytes := stream.cur.ftag.recoverybytes
  match (if recoverybytes > stream.finfostrlen then
      match malloc env sys with
      | (ok, sys1) =>
        (ok, if ok = false then stream else { stream with finfostrlen := recoverybytes }, sys1)
    else (true, stream, sys)) with
  | (ok, stream1, sys1) =>
    if ok = false then (-1, stream1, sys1) else
    let finfostr := env.recovery_finfotostr stream1.finfo
    let genbytes := finfostr.length
    if genbytes > recoverybytes then (-1, stream1, sys1)
    else
      let buf := finfostr ++ List.replicate (recoverybytes - genbytes) 0
      match call env sys1 (.ne_write stream1.datahandle buf recoverybytes) with
      | (w, sys2) =>
        if ofOff w.ret ≠ recoverybytes then (-1, stream1, sys2)
        else (0, { stream1 with offset := uadd stream1.offset recoverybytes }, sys2)

/-- Store a new state in the tag of slot `i`. -/
def setstate (stream : DATASTREAM) (i : Nat) (state : Nat) : DATASTREAM :=
  let file := getfile stream.files i
  { stream with files := setfile stream.files i { file with ftag.state := state } }

/-- First step of `finfile`: open the output object for a zero-length file that
has no data handle yet. -/
def finfile_open (env : Env) (stream : DATASTREAM) (sys : Sys) : Int × DATASTREAM × Sys :=
  if stream.cur.ftag.bytes = 0 ∧ stream.datahandle = none then open_current_obj env stream sys
  else (0, stream, sys)

/-- Second step of `finfile`: with a data handle, emit the recovery info with
`eof = 1`; without one (an extended file), proceed to the next object. -/
def finfile_emit (env : Env) (stream : DATASTREAM) (sys : Sys) : Int × DATASTREAM × Sys :=
  if stream.datahandle ≠ none then
    match putfinfo env { stream with finfo := { stream.finfo with eof := 1 } } sys with
    | (pres, stream2, sys2) =>
      if pres ≠ 0 then (-1, { stream2 with finfo := { stream2.finfo with eof := 0 } }, sys2)
      else (0, stream2, sys2)
  else
    (0, { stream with objno := uadd stream.objno 1, offset := stream.recoveryheaderlen }, sys)

/-- Translation of `finfile`. -/
def finfile (env : Env) (stream : DATASTREAM) (sys : Sys) : Int × DATASTREAM × Sys :=
  if stream.cur.ftag.state &&& FTAG_DATASTATE < FTAG_FIN then
    match finfile_open env stream sys with
    | (ores, stream1, sys1) =>
      if ores ≠ 0 then (-1, stream1, sys1)
      else
        match finfile_emit env stream1 sys1 with
        | (res, stream3, sys3) =>
          if res ≠ 0 then (-1, stream3, sys3)
          else
            (0, setstate stream3 stream3.curfile
              ((stream3.cur.ftag.state &&& NOT_DATASTATE) ||| FTAG_FIN), sys3)
  else (0, stream, sys)

/-- The store `file->metahandle = NULL` on slot `i`. -/
def closeslot (stream : DATASTREAM) (i : Nat) : DATASTREAM :=
  let file := getfile stream.files i
  { stream with files := setfile stream.files i { file with metahandle := none } }

/-- Translation of `completefile`, for the file in slot `i` of the stream. -/
def completefile (env : Env) (stream : DATASTREAM) (i : Nat) (sys : Sys) :
    Int × DATASTREAM × Sys :=
  let file := getfile stream.files i
  if file.metahandle = none then (-1, stream, sys)
  else if file.ftag.state &&& FTAG_WRITEABLE ≠ 0 ∧ stream.type = CREATE_STREAM then
    (-1, stream, sys)
  else if file.ftag.state &&& FTAG_DATASTATE ≠ FTAG_FIN ∧ stream.type = EDIT_STREAM then
    (-1, stream, sys)
  else
    let stream1 := setstate stream i
      ((FTAG_COMP ||| FTAG_READABLE) ||| (file.ftag.state &&& NOT_DATASTATE))
    let file1 := getfile stream1.files i
    match call env sys (.ftruncate file1.metahandle file1.ftag.availbytes) with
    | (t, sys1) =>
      if t.ret ≠ 0 then
        (-1, closeslot stream1 i, (call env sys1 (.mdclose file1.metahandle)).2)
      else
        match putftag env stream1 file1 sys1 with
        | (pres, stream2, sys2) =>
          if pres ≠ 0 then
            (-1, closeslot stream2 i, (call env sys2 (.mdclose file1.metahandle)).2)
          else
            match call env sys2 (.futimens file1.metahandle file1.atime file1.mtime) with
            | (u, sys3) =>
              if u.ret ≠ 0 then
                (-1, closeslot stream2 i, (call env sys3 (.mdclose file1.metahandle)).2)
              else
                match call env sys3 (.mdclose file1.metahandle) with
                | (c, sys4) =>
                  if c.ret ≠ 0 then (-1, closeslot stream2 i, sys4)
                  else (0, closeslot stream2 i, sys4)

/-- The stream that `genstream` has built once its file list is allocated and
the first slot is populated (`files` is the freshly allocated list). -/
def genstream_blank (type : STREAM_TYPE) (pos : marfs_position) (files : List STREAMFILE)
    (filealloc : Nat) : DATASTREAM :=
  let file0 : STREAMFILE :=
    { metahandle := none,
      ftag := {
        majorversion := FTAG_CURRENT_MAJORVERSION,
        minorversion := FTAG_CURRENT_MINORVERSION,
        ctag := none,
        streamid := none,
        objfiles := pos.ns.datascheme.objfiles,
        objsize := pos.ns.datascheme.objsize,
        fileno := 0,
        objno := 0,
        offset := 0,
        endofstream := 0,
        protection := pos.ns.datascheme.protection,
        bytes := 0,
        availbytes := 0,
        recoverybytes := 0,
        state := FTAG_INIT },
      atime := ⟨0, 0⟩,
      mtime := ⟨0, 0⟩,
      dotimes := 0 }
  { type := type,
    ctag := none,
    streamid := none,
    ns := pos.ns,
    recoveryheaderlen := 0,
    fileno := 0,
    objno := 0,
    offset := 0,
    datahandle := none,
    files := setfile files 0 file0,
    curfile := 0,
    filealloc := filealloc,
    ftagstrsize := 512,
    finfostrlen := 512,
    finfo := { inode := 0, mode := 0, owner := 0, group := 0, size := 0, mtime := ⟨0, 0⟩,
               eof := 0, path := none } }

/-- The stream ID minted by `genstream`: `"%s|%s|%zd.%ld"` over the repo name,
the namespace path with every `/` rewritten to `#`, and the current time. -/
def genstream_streamid (nsrepo nspath : String) (curtime : timespec) : String :=
  nsrepo ++ "|" ++ String.mk (nspath.data.map fun c => if c = '/' then '#' else c) ++ "|" ++
    toString curtime.tv_sec ++ "." ++ toString curtime.tv_nsec

/-- The `CREATE_STREAM` initialisation of `genstream`. -/
def genstream_create (env : Env) (stream : DATASTREAM) (path : String) (pos : marfs_position)
    (mode : Nat) (ctag : String) (sys : Sys) : Option DATASTREAM × Sys :=
  match malloc env sys with
  | (ok, sys1) =>
    if ok = false then (none, freestream env stream sys1) else
    let stream1 := { stream with ctag := some ctag }
    match call env sys1 .clock_gettime with
    | (clk, sys2) =>
      if clk.ret ≠ 0 then (none, freestream env stream1 sys2)
      else
        match env.config_nsinfo stream1.ns.idstr with
        | none => (none, freestream env stream1 sys2)
        | some (nsrepo, nspath) =>
          let streamidlen := env.SIZE_DIGITS + env.SIZE_DIGITS +
            (nsrepo.length + nspath.length) + 4
          match malloc env sys2 with
          | (ok, sys3) =>
            if ok = false then (none, freestream env stream1 sys3) else
            let streamid := genstream_streamid nsrepo nspath clk.time
            if streamid.length ≤ 0 ∨ streamid.length ≥ streamidlen then
              (none, freestream env stream1 sys3)
            else
              let stream2 := { stream1 with streamid := some streamid }
              let headerlen := (env.recovery_headertostr stream2.ctag stream2.streamid).length
              if headerlen < 1 then
                (none, freestream env { stream2 with recoveryheaderlen := headerlen } sys3)
              else
                let stream3 := { stream2 with recoveryheaderlen := headerlen,
                                              offset := headerlen }
                match create_new_file env stream3 path pos.ctxt mode sys3 with
                | (cres, stream4, sys4) =>
                  if cres ≠ 0 then (none, freestream env stream4 sys4)
                  else (some stream4, sys4)

/-- The `READ_STREAM` / `EDIT_STREAM` initialisation of `genstream`. -/
def genstream_existing (env : Env) (type : STREAM_TYPE) (stream : DATASTREAM) (path : String)
    (pos : marfs_position) (sys : Sys) : Option DATASTREAM × Sys :=
  match open_existing_file env stream path pos.ctxt sys with
  | (ores, stream1, sys1) =>
    if ores ≠ 0 then (none, freestream env stream1 sys1)
    else
      let curstate := stream1.cur.ftag.state
      if type = EDIT_STREAM ∧ curstate &&& FTAG_WRITEABLE = 0 ∧
          curstate &&& FTAG_DATASTATE ≠ FTAG_COMP then
        (none, { freestream env stream1 sys1 with errno := EPERM })
      else if type = READ_STREAM ∧ curstate &&& FTAG_READABLE = 0 then
        (none, { freestream env stream1 sys1 with errno := EPERM })
      else (some stream1, sys1)

/-- Translation of `genstream`; `none` is the `NULL` result. -/
def genstream (env : Env) (type : STREAM_TYPE) (path : String) (pos : marfs_position)
    (mode : Nat) (ctag : String) (sys : Sys) : Option DATASTREAM × Sys :=
  match malloc env sys with
  | (ok, sys1) =>
    if ok = false then (none, sys1) else
    match malloc env sys1 with
    | (ftagstr, sys2) =>
      match malloc env sys2 with
      | (finfostr, sys3) =>
        if ftagstr = false ∨ finfostr = false then (none, sys3)
        else
          match (if type = READ_STREAM ∨ type = EDIT_STREAM then allocfiles env [] 0 1 sys3
            else if type = CREATE_STREAM then
              allocfiles env [] 0 pos.ns.datascheme.objfiles sys3
            else (0, [], sys3)) with
          | (filealloc, files, sys4) =>
            if filealloc = 0 then (none, sys4)
            else
              let stream := genstream_blank type pos files filealloc
              if type = CREATE_STREAM then genstream_create env stream path pos mode ctag sys4
              else genstream_existing env type stream path pos sys4

/-- The body shared by the completion loops of `datastream_create` and
`datastream_close`, on the file in slot `curfile`: attach the rebuild tag if there
is one, otherwise (or after it) complete the file when `complete` holds. -/
def attach_and_complete (env : Env) (rtagstr : Option String) (complete : Bool)
    (stream : DATASTREAM) (abortflag : Nat) (sys : Sys) : DATASTREAM × Nat × Sys :=
  let compfile := stream.cur
  match rtagstr with
  | some rtag =>
    match call env sys (.fsetxattr compfile.metahandle RTAG_NAME (.rtag rtag) rtag.length) with
    | (x, sys1) =>
      if x.ret ≠ 0 then (stream, 1, sys1)
      else if complete then
        match completefile env stream stream.curfile sys1 with
        | (cres, stream1, sys2) => (stream1, if cres ≠ 0 then 1 else abortflag, sys2)
      else (stream, abortflag, sys1)
  | none =>
    if complete then
      match completefile env stream stream.curfile sys with
      | (cres, stream1, sys1) => (stream1, if cres ≠ 0 then 1 else abortflag, sys1)
    else (stream, abortflag, sys)

/-- The loop `while ( 1 ) { ...; if ( curfile == 0 ) break; curfile--; }` of
`datastream_close`; the first argument bounds the number of further rounds and
is `stream->curfile` at the call. -/
def datastream_close_files (env : Env) (rtagstr : Option String) :
    Nat → DATASTREAM → Nat → Sys → DATASTREAM × Nat × Sys
  | fuel, stream, abortflag, sys =>
    match attach_and_complete env rtagstr (decide (stream.type ≠ READ_STREAM))
        stream abortflag sys with
    | (stream1, abortflag1, sys1) =>
      if stream1.curfile = 0 then (stream1, abortflag1, sys1)
      else
        match fuel with
        | 0 => (stream1, abortflag1, sys1)
        | fuel' + 1 =>
          datastream_close_files env rtagstr fuel'
            { stream1 with curfile := stream1.curfile - 1 } abortflag1 sys1

/-- How `datastream_close` / `datastream_release` leave once the stream is known
to be non-`NULL`. -/
inductive Exit where
  /-- `errno = EINVAL; return -1;` with the stream untouched. -/
  | unsupported
  /-- `freestream; *stream = NULL; errno = EINVAL; return -1;` -/
  | rejected
  /-- `freestream; *stream = NULL; return -1;` -/
  | failed
  /-- `*stream = NULL; freestream; return 0;` -/
  | done
deriving DecidableEq, Repr, Inhabited

/-- The type-specific first part of `datastream_close` / `datastream_release`
for an `EDIT_STREAM`: emit the recovery info if data was output. -/
def edit_putfinfo (env : Env) (tgtstream : DATASTREAM) (sys : Sys) : Int × DATASTREAM × Sys :=
  if tgtstream.datahandle ≠ none then putfinfo env tgtstream sys else (0, tgtstream, sys)

/-- The type-specific first part of `datastream_close` (the stream type is one
of the three supported ones): finalize the current file of a `CREATE_STREAM`,
emit the recovery info of an `EDIT_STREAM`. -/
def datastream_close_prepare (env : Env) (tgtstream : DATASTREAM) (sys : Sys) :
    Exit × DATASTREAM × Sys :=
  let curfile := tgtstream.cur
  if tgtstream.type = CREATE_STREAM then
    if curfile.ftag.state &&& FTAG_WRITEABLE ≠ 0 then (Exit.rejected, tgtstream, sys)
    else
      match finfile env tgtstream sys with
      | (fres, stream1, sys1) => (if fres ≠ 0 then Exit.failed else Exit.done, stream1, sys1)
  else if tgtstream.type = EDIT_STREAM then
    if curfile.ftag.state &&& FTAG_WRITEABLE = 0 ∨
        curfile.ftag.state &&& FTAG_DATASTATE ≠ FTAG_FIN then
      (Exit.rejected, tgtstream, sys)
    else
      match edit_putfinfo env tgtstream sys with
      | (pres, stream1, sys1) => (if pres ≠ 0 then Exit.failed else Exit.done, stream1, sys1)
  else (Exit.done, tgtstream, sys)

/-- Translation of `datastream_close`, from the point where the stream is known
to be non-`NULL`, up to the call of `freestream`: the way the function leaves,
the stream as it is handed to `freestream`, and the system state. -/
def datastream_close_body (env : Env) (tgtstream : DATASTREAM) (sys : Sys) :
    Exit × DATASTREAM × Sys :=
  if tgtstream.type ≠ EDIT_STREAM ∧ tgtstream.type ≠ CREATE_STREAM ∧
      tgtstream.type ≠ READ_STREAM then
    (.unsupported, tgtstream, sys)
  else
    match datastream_close_prepare env tgtstream sys with
    | (Exit.done, stream1, sys1) =>
      match close_current_obj env stream1 sys1 with
      | (cres, stream2, rtagstr, sys2) =>
        if cres ≠ 0 then (.failed, stream2, sys2)
        else
          match datastream_close_files env rtagstr stream2.curfile stream2 0 sys2 with
          | (stream3, abortflag, sys3) =>
            if abortflag ≠ 0 then (.failed, stream3, sys3) else (.done, stream3, sys3)
    | early => early

/-- The common ending of `datastream_close` and `datastream_release`: the
result value, the value left in the caller's reference, and the system state. -/
def finish_exit (env : Env) (tgtstream : DATASTREAM) (x : Exit × DATASTREAM × Sys) :
    Int × Option DATASTREAM × Sys :=
  match x with
  | (.unsupported, _, sys1) => (-1, some tgtstream, { sys1 with errno := EINVAL })
  | (.rejected, stream1, sys1) => (-1, none, { freestream env stream1 sys1 with errno := EINVAL })
  | (.failed, stream1, sys1) => (-1, none, freestream env stream1 sys1)
  | (.done, stream1, sys1) => (0, none, freestream env stream1 sys1)

/-- Translation of `datastream_close`.  The argument is the caller's reference
(`none` for a `NULL` reference, `some none` for a reference to `NULL`); the
result carries the value the reference holds afterwards. -/
def datastream_close (env : Env) (stream : Option (Option DATASTREAM)) (sys : Sys) :
    Int × Option DATASTREAM × Sys :=
  match stream with
  | none => (-1, none, { sys with errno := EINVAL })
  | some none => (-1, none, { sys with errno := EINVAL })
  | some (some tgtstream) => finish_exit env tgtstream (datastream_close_body env tgtstream sys)

/-- The type-specific first part of `datastream_release` (the stream type is
one of the three supported ones): finalize the extended file of a
`CREATE_STREAM`, emit the recovery info otherwise. -/
def datastream_release_prepare (env : Env) (tgtstream : DATASTREAM) (sys : Sys) :
    Exit × DATASTREAM × Sys :=
  let curfile := tgtstream.cur
  if tgtstream.type = CREATE_STREAM then
    if curfile.ftag.state &&& FTAG_WRITEABLE = 0 ∨ tgtstream.curfile ≠ 0 then
      (Exit.rejected, tgtstream, sys)
    else
      match finfile env tgtstream sys with
      | (fres, stream1, sys1) => (if fres ≠ 0 then Exit.failed else Exit.done, stream1, sys1)
  else
    match edit_putfinfo env tgtstream sys with
    | (pres, stream1, sys1) => (if pres ≠ 0 then Exit.failed else Exit.done, stream1, sys1)

/-- The second part of `datastream_release`: close the data object, attach the
rebuild tag to the current file if there is one, persist the FTAG of a
`CREATE_STREAM` and set the times. -/
def datastream_release_finish (env : Env) (stream1 : DATASTREAM) (sys1 : Sys) :
    Exit × DATASTREAM × Sys :=
  let curfile1 := stream1.cur
  match close_current_obj env stream1 sys1 with
  | (cres, stream2, rtagstr, sys2) =>
    if cres ≠ 0 then (.failed, stream2, sys2)
    else
      match (match rtagstr with
        | some rtag =>
          match call env sys2
              (.fsetxattr curfile1.metahandle RTAG_NAME (.rtag rtag) rtag.length) with
          | (x, sys3) => (decide (x.ret ≠ 0), sys3)
        | none => (false, sys2)) with
      | (xfail, sys3) =>
        if xfail = true then (.failed, stream2, sys3) else
        match (if stream2.type = CREATE_STREAM then putftag env stream2 curfile1 sys3
          else (0, stream2, sys3)) with
        | (pres2, stream3, sys4) =>
          if pres2 ≠ 0 then (.failed, stream3, sys4)
          else if stream3.type = CREATE_STREAM ∨ curfile1.dotimes ≠ 0 then
            match call env sys4
                (.futimens curfile1.metahandle curfile1.atime curfile1.mtime) with
            | (u, sys5) =>
              if u.ret ≠ 0 then (.failed, stream3, sys5) else (.done, stream3, sys5)
          else (.done, stream3, sys4)

/-- Translation of `datastream_release`, up to the call of `freestream`. -/
def datastream_release_body (env : Env) (tgtstream : DATASTREAM) (sys : Sys) :
    Exit × DATASTREAM × Sys :=
  if tgtstream.type ≠ EDIT_STREAM ∧ tgtstream.type ≠ CREATE_STREAM ∧
      tgtstream.type ≠ READ_STREAM then
    (.unsupported, tgtstream, sys)
  else
    match datastream_release_prepare env tgtstream sys with
    | (Exit.done, stream1, sys1) => datastream_release_finish env stream1 sys1
    | early => early

/-- Translation of `datastream_release`. -/
def datastream_release (env : Env) (stream : Option (Option DATASTREAM)) (sys : Sys) :
    Int × Option DATASTREAM × Sys :=
  match stream with
  | none => (-1, none, { sys with errno := EINVAL })
  | some none => (-1, none, { sys with errno := EINVAL })
  | some (some tgtstream) =>
    finish_exit env tgtstream (datastream_release_body env tgtstream sys)

/-- The loop `while ( newstream->curfile ) { newstream->curfile--; ... }` of
`datastream_create`, completing the files packed before the new one; the first
argument bounds the number of rounds and is `curfile` at the call. -/
def datastream_create_files (env : Env) (rtagstr : Option String) :
    Nat → DATASTREAM → Nat → Sys → DATASTREAM × Nat × Sys
  | 0, stream, abortflag, sys => (stream, abortflag, sys)
  | fuel + 1, stream, abortflag, sys =>
    if stream.curfile = 0 then (stream, abortflag, sys)
    else
      match attach_and_complete env rtagstr true
          { stream with curfile := stream.curfile - 1 } abortflag sys with
      | (stream1, abortflag1, sys1) =>
        datastream_create_files env rtagstr fuel stream1 abortflag1 sys1

/-- The branch of `datastream_create` that continues the given stream.  (The
undeclared `abortflag` starts at zero, as in `datastream_close`; the length
passed with the rebuild tag is the length of the tag.) -/
def datastream_create_continue (env : Env) (newstream : DATASTREAM) (path : String)
    (pos : marfs_position) (mode : Nat) (sys : Sys) : Int × Option DATASTREAM × Sys :=
  let curobj := newstream.objno
  match finfile env newstream sys with
  | (fres, s1, sys1) =>
    if fres ≠ 0 then (-1, none, { freestream env s1 sys1 with errno := EBADFD })
    else
      let s2 := { s1 with curfile := uadd s1.curfile 1, fileno := uadd s1.fileno 1 }
      match create_new_file env s2 path pos.ctxt mode sys1 with
      | (cres, s3, sys2) =>
        if cres ≠ 0 then
          -- `if ( errno = EBADFD ) { errno = ENOMSG; }` assigns: the branch is always taken
          (-1, some { s3 with curfile := usub s3.curfile 1, fileno := usub s3.fileno 1 },
            { sys2 with errno := ENOMSG })
        else if s3.cur.ftag.objno ≠ curobj then
          let newfilepos := s3.curfile
          match close_current_obj env s3 sys2 with
          | (clres, s4, rtagstr, sys3) =>
            if clres ≠ 0 then (-1, none, { freestream env s4 sys3 with errno := EBADFD })
            else
              match datastream_create_files env rtagstr s4.curfile s4 0 sys3 with
              | (s5, abortflag, sys4) =>
                let s6 := { s5 with files := setfile s5.files 0 (getfile s5.files newfilepos) }
                if abortflag ≠ 0 then
                  (-1, none, { freestream env s6 sys4 with errno := EBADFD })
                else (0, some s6, sys4)
        else
          match putftag env s3 (getfile s3.files (usub s3.curfile 1)) sys2 with
          | (pres, s4, sys3) =>
            if pres ≠ 0 then (-1, none, { freestream env s4 sys3 with errno := EBADFD })
            else (0, some s4, sys3)

/-- The ending shared by `datastream_create` and `datastream_open` when no
stream is continued: `newstream` comes from `genstream`, and `old` is the
previous stream if it has to be closed (`closer` is `datastream_close` or
`datastream_release`). -/
def replace_stream (env : Env)
    (closer : Env → Option (Option DATASTREAM) → Sys → Int × Option DATASTREAM × Sys)
    (old : Option DATASTREAM) (closestream : Bool) (gen : Option DATASTREAM × Sys) :
    Int × Option DATASTREAM × Sys :=
  match gen with
  | (newstream, sys1) =>
    match (if closestream then closer env (some old) sys1 else (0, old, sys1)) with
    | (cres, old1, sys2) =>
      if cres ≠ 0 then
        match newstream with
        | some n => (-1, none, { freestream env n sys2 with errno := EBADFD })
        | none => (-1, none, { sys2 with errno := EBADFD })
      else
        match newstream with
        | none => (-1, old1, sys2)
        | some n => (0, some n, sys2)

/-- Translation of `datastream_create`.  `stream` is the caller's reference
(`none` for a `NULL` reference); the second component of the result is the
value the reference holds afterwards. -/
def datastream_create (env : Env) (stream : Option (Option DATASTREAM)) (path : Option String)
    (pos : Option marfs_position) (mode : Nat) (ctag : String) (sys : Sys) :
    Int × Option DATASTREAM × Sys :=
  match path with
  | none => (-1, stream.join, { sys with errno := EINVAL })
  | some path =>
    match pos with
    | none => (-1, stream.join, { sys with errno := EINVAL })
    | some pos =>
      match stream with
      | none => (-1, none, { sys with errno := EINVAL })
      | some none =>
        replace_stream env datastream_close none false
          (genstream env CREATE_STREAM path pos mode ctag sys)
      | some (some newstream) =>
        if newstream.type ≠ CREATE_STREAM then
          (-1, some newstream, { sys with errno := EINVAL })
        else if newstream.ns.addr ≠ pos.ns.addr then
          replace_stream env datastream_close (some newstream) true
            (genstream env CREATE_STREAM path pos mode ctag sys)
        else datastream_create_continue env newstream path pos mode sys

/-- The branch of `datastream_open` that re-targets the given `READ_STREAM`. -/
def datastream_open_continue (env : Env) (newstream : DATASTREAM) (path : String)
    (pos : marfs_position) (sys : Sys) : Int × Option DATASTREAM × Sys :=
  let curidx := newstream.curfile
  let s1 := { newstream with curfile := uadd newstream.curfile 1 }
  match open_existing_file env s1 path pos.ctxt sys with
  | (ores, s2, sys1) =>
    if ores ≠ 0 then
      -- `if ( errno = EBADFD ) { errno = ENOMSG; }` assigns: the branch is always taken
      (-1, some { s2 with curfile := usub s2.curfile 1 }, { sys1 with errno := ENOMSG })
    else
      let curfile := getfile s2.files curidx
      let newfile := s2.cur
      let finish (s : DATASTREAM) (sy : Sys) : Int × Option DATASTREAM × Sys :=
        let files1 := setfile s.files curidx (getfile s.files s.curfile)
        let moved := getfile files1 s.curfile
        let files2 := setfile files1 s.curfile
          { moved with metahandle := none, ftag.ctag := none, ftag.streamid := none }
        (0, some { s with files := files2, curfile := usub s.curfile 1 }, sy)
      if curfile.ftag.streamid ≠ newfile.ftag.streamid ∨ curfile.ftag.ctag ≠ newfile.ftag.ctag ∨
          curfile.ftag.objno ≠ newfile.ftag.objno then
        match close_current_obj env s2 sys1 with
        | (clres, s3, rtagstr, sys2) =>
          if clres ≠ 0 then (-1, none, { freestream env s3 sys2 with errno := EBADFD })
          else
            match rtagstr with
            | some rtag =>
              match call env sys2
                  (.fsetxattr curfile.metahandle RTAG_NAME (.rtag rtag) rtag.length) with
              | (x, sys3) =>
                if x.ret ≠ 0 then (-1, none, { freestream env s3 sys3 with errno := EBADFD })
                else finish s3 sys3
            | none => finish s3 sys2
      else finish s2 sys1

/-- Translation of `datastream_open`. -/
def datastream_open (env : Env) (stream : Option (Option DATASTREAM)) (type : STREAM_TYPE)
    (path : Option String) (pos : Option marfs_position) (ctag : String) (sys : Sys) :
    Int × Option DATASTREAM × Sys :=
  if type ≠ EDIT_STREAM ∧ type ≠ READ_STREAM then
    (-1, stream.join, { sys with errno := EINVAL })
  else
    match path with
    | none => (-1, stream.join, { sys with errno := EINVAL })
    | some path =>
      match pos with
      | none => (-1, stream.join, { sys with errno := EINVAL })
      | some pos =>
        match stream with
        | none => (-1, none, { sys with errno := EINVAL })
        | some none =>
          replace_stream env datastream_release none false
            (genstream env type path pos 0 ctag sys)
        | some (some newstream) =>
          if newstream.type ≠ type then (-1, some newstream, { sys with errno := EINVAL })
          else if newstream.ns.addr ≠ pos.ns.addr then
            replace_stream env datastream_release (some newstream) true
              (genstream env type path pos 0 ctag sys)
          else if newstream.type = EDIT_STREAM then
            replace_stream env datastream_release (some newstream) true
              (genstream env type path pos 0 ctag sys)
          else datastream_open_continue env newstream path pos sys

/-- Result of `datastream_read`: the value returned, the bytes stored in the
caller's buffer, the stream and the system state afterwards. -/
structure ReadResult where
  ret : Int
  buf : List Nat
  stream : DATASTREAM
  sys : Sys
deriving DecidableEq, Repr, Inhabited

/-- The loop `while ( count ) { ... }` of `datastream_read`.  The flag tells
whether the function returned from inside the loop (`ret` is then the value
returned) or the loop ran to its end (`ret` is then `readbytes`).  The result is
`none` only if the bound on the number of rounds (first argument) is used up. -/
def datastream_read_loop (env : Env) (maxobjdata : Nat) :
    Nat → DATASTREAM → Nat → Nat → List Nat → Sys → Option (Bool × ReadResult)
  | 0, stream, count, readbytes, buf, sys =>
    if count = 0 then some (false, ⟨readbytes, buf, stream, sys⟩) else none
  | fuel + 1, stream, count, readbytes, buf, sys =>
    if count = 0 then some (false, ⟨readbytes, buf, stream, sys⟩)
    else
      let toread0 := usub maxobjdata (usub stream.offset stream.recoveryheaderlen)
      match (if toread0 = 0 then
          match close_current_obj env stream sys with
          | (_, s1, rtagstr, sys1) =>
            let sys2 := match rtagstr with
              | some rtag =>
                (call env sys1
                  (.fsetxattr stream.cur.metahandle RTAG_NAME (.rtag rtag) rtag.length)).2
              | none => sys1
            (maxobjdata, { s1 with objno := uadd s1.objno 1, offset := s1.recoveryheaderlen },
              sys2)
        else (toread0, stream, sys)) with
      | (toread1, s2, sys2) =>
        let toread := if toread1 > count then count else toread1
        match (if s2.datahandle = none then open_current_obj env s2 sys2
          else (0, s2, sys2)) with
        | (ores, s3, sys3) =>
          if ores ≠ 0 then
            some (true, ⟨if readbytes ≠ 0 then readbytes else -1, buf, s3, sys3⟩)
          else
            match call env sys3 (.ne_read s3.datahandle toread) with
            | (r, sys4) =>
              if r.ret ≤ 0 then
                some (true, ⟨if readbytes ≠ 0 then readbytes else -1, buf, s3, sys4⟩)
              else
                datastream_read_loop env maxobjdata fuel
                  { s3 with offset := uadd s3.offset (ofOff r.ret) }
                  (usub count (ofOff r.ret)) (uadd readbytes (ofOff r.ret))
                  (buf ++ r.data) sys4

/-- Translation of `datastream_read`: `none` for a `NULL` stream argument.  The
result is `none` only if the read loop exceeds `count` rounds, which takes a
backend that reports more bytes than it was asked for. -/
def datastream_read (env : Env) (stream : Option DATASTREAM) (count : Nat) (sys : Sys) :
    Option ReadResult :=
  match stream with
  | none => some ⟨-1, [], default, { sys with errno := EINVAL }⟩
  | some stream =>
    if stream.type ≠ READ_STREAM then some ⟨-1, [], stream, { sys with errno := EINVAL }⟩
    else
      match gettargets stream 0 SEEK_CUR with
      | .error e => some ⟨-1, [], stream, { sys with errno := e }⟩
      | .ok tgt =>
        let count1 := if count > stream.finfo.size then stream.finfo.size else count
        let zerotailbytes := if count1 > tgt.remaining then usub count1 tgt.remaining else 0
        let count2 := if count1 > tgt.remaining then tgt.remaining else count1
        match datastream_read_loop env tgt.maxobjdata count2 stream count2 0 [] sys with
        | none => none
        | some (early, res) =>
          if early = true then some res
          else if zerotailbytes ≠ 0 then
            some { res with ret := (uadd res.ret.toNat zerotailbytes : Nat),
                            buf := res.buf ++ List.replicate zerotailbytes 0 }
          else some res

/-! ## Reading traces -/

/-- The bytes that the `ne_read` calls of a trace delivered, in order. -/
def readData : Trace → List Nat
  | [] => []
  | (.ne_read _ _, r) :: rest => r.data ++ readData rest
  | _ :: rest => readData rest

/-- The entry is a successful `fsetxattr` of the rebuild tag on handle `h`. -/
def isRtagSet (h : Option Nat) (e : Call × Resp) : Prop :=
  ∃ rtag len, e.1 = .fsetxattr h RTAG_NAME (.rtag rtag) len ∧ e.2.ret = 0

/-- The entry is an `fsetxattr` of an FTAG on handle `h` (successful or not). -/
def isFtagSet (h : Option Nat) (e : Call × Resp) : Prop :=
  ∃ t len, e.1 = .fsetxattr h FTAG_NAME (.ftag t) len

/-- The entry is an attempt to attach a rebuild tag that failed. -/
def isRtagFailure (e : Call × Resp) : Prop :=
  (∃ h rtag len, e.1 = .fsetxattr h RTAG_NAME (.rtag rtag) len) ∧ e.2.ret ≠ 0

/-- The entry is an attempt to attach a rebuild tag. -/
def isRtagAttach (e : Call × Resp) : Prop :=
  ∃ h rtag len, e.1 = .fsetxattr h RTAG_NAME (.rtag rtag) len

/-- In the trace segment, every write of an FTAG to a handle comes after a
successful attachment of the rebuild tag to the same handle. -/
def RtagBeforeFtag (seg : Trace) : Prop :=
  ∀ pre e post h, seg = pre ++ e :: post → isFtagSet h e → ∃ e' ∈ pre, isRtagSet h e'

/-- In the trace segment, a failed attachment of the rebuild tag is followed
directly by the attachment attempt for the next file, or by nothing. -/
def RtagFailureSkips (seg : Trace) : Prop :=
  ∀ pre e post, seg = pre ++ e :: post → isRtagFailure e →
    post = [] ∨ ∃ e' post', post = e' :: post' ∧ isRtagAttach e'

/-- The state that `completefile` stores for a file found in state `state`. -/
def completedState (state : Nat) : Nat :=
  (FTAG_COMP ||| FTAG_READABLE) ||| (state &&& NOT_DATASTATE)

/-- File `f` of a stream of type `type` has been completed into `f'` by calls
recorded in `seg`: `completefile` accepted the file (open handle, not WRITEABLE
on a `CREATE_STREAM`, FINALIZED on an `EDIT_STREAM`), the handle is closed, the
tag differs only in its state, the reference file was truncated to `availbytes`,
and the completed tag was written to the FTAG attribute. -/
def Completed (type : STREAM_TYPE) (f f' : STREAMFILE) (seg : Trace) : Prop :=
  (f.metahandle ≠ none ∧
    (type = CREATE_STREAM → f.ftag.state &&& FTAG_WRITEABLE = 0) ∧
    (type = EDIT_STREAM → f.ftag.state &&& FTAG_DATASTATE = FTAG_FIN)) ∧
  f'.metahandle = none ∧
  f'.ftag = { f.ftag with state := completedState f.ftag.state } ∧
  (∃ r, (Call.ftruncate f.metahandle f.ftag.availbytes, r) ∈ seg ∧ r.ret = 0) ∧
  (∃ len r, (Call.fsetxattr f.metahandle FTAG_NAME
      (.ftag { f.ftag with state := completedState f.ftag.state }) len, r) ∈ seg ∧ r.ret = 0)

/-! ## Concrete environments -/

/-- An answer reporting success. -/
def okResp : Resp :=
  { ret := 0, err := none, handle := some 1, ftag := none, st := default, data := [],
    nestate := 0, time := ⟨1700000000, 5⟩ }

/-- A backend on which every call succeeds: writes, reads and seeks report the
full amount, `fgetxattr` delivers the tag `t`, and every read byte is `7`. -/
def okBackend (t : FTAG) : Trace → Call → Resp
  | _, .ne_write _ _ n => { okResp with ret := n }
  | _, .ne_read _ n => { okResp with ret := n, data := List.replicate n 7 }
  | _, .ne_seek _ off => { okResp with ret := off }
  | _, .fgetxattr _ _ _ => { okResp with ret := 10, ftag := some t }
  | tr, .openref _ _ _ _ => { okResp with handle := some (tr.length + 1) }
  | tr, .mdopen _ _ _ => { okResp with handle := some (tr.length + 1) }
  | _, _ => okResp

/-- An environment on which everything succeeds; `t` is the tag stored on every
existing file, the recovery header has 64 bytes and a recovery trailer 128. -/
def okEnv (t : FTAG) : Env :=
  { backend := okBackend t,
    alloc := fun _ => true,
    ftag_tostr := fun _ => 10,
    ftag_metatgt := fun f => if f.fileno = 0 then "ref.0" else "ref.n",
    ftag_datatgt := fun f => if f.objno = 0 then "obj.0" else "obj.n",
    reftable := fun _ => some "refdir/",
    podtable := fun _ => some "0",
    captable := fun _ => some "0",
    scattertable := fun _ => some "0",
    strtoull := fun _ => (0, true),
    hash_rangevalue := fun _ _ => 0,
    recovery_finfotostr := fun _ => List.replicate 128 1,
    recovery_headertostr := fun _ _ => List.replicate 64 2,
    rtag_tostr := fun _ => "rtag",
    config_nsinfo := fun _ => some ("repo", "/ns"),
    SIZE_DIGITS := 20 }

/-- Replace the backend's answer to every call selected by `sel`. -/
def Env.answering (env : Env) (sel : Call → Bool) (r : Resp) : Env :=
  { env with backend := fun tr c => if sel c then r else env.backend tr c }

def Call.isOpenref : Call → Bool
  | .openref _ _ _ _ => true
  | _ => false

def Call.isLinkref : Call → Bool
  | .linkref _ _ _ => true
  | _ => false

def Call.isNeClose : Call → Bool
  | .ne_close _ => true
  | _ => false

/-- A namespace with the given packing limits. -/
def sampleNs (objfiles objsize : Nat) : marfs_ns :=
  { addr := 1, idstr := "ns", datascheme := { protection := ⟨10, 2, 0, 1024⟩,
                                               objfiles := objfiles, objsize := objsize } }

def samplePos (objfiles objsize : Nat) : marfs_position :=
  { ns := sampleNs objfiles objsize, depth := 0, ctxt := 0 }

def sampleSys : Sys := { trace := [], errno := 0, allocs := 0 }

/-- The tag of a file that is complete and readable (20000 bytes in 8 KiB objects). -/
def completeTag : FTAG :=
  { (default : FTAG) with
    majorversion := 0, minorversion := 1, ctag := some "ctag", streamid := some "repo|#ns|1.5",
    objsize := 8192, objno := 0, offset := 64, bytes := 20000, availbytes := 20000,
    recoverybytes := 128, state := FTAG_COMP ||| FTAG_READABLE }

/-- The environment `okEnv`, except that creating a reference file fails with
the given errno. -/
def openrefFails (errno : Nat) : Env :=
  (okEnv default).answering Call.isOpenref
    { okResp with ret := -1, err := some errno, handle := none }

/-- A fresh `CREATE_STREAM` as `genstream` hands it to `create_new_file`. -/
def blankCreate (objfiles objsize : Nat) : DATASTREAM :=
  { genstream_blank CREATE_STREAM (samplePos objfiles objsize)
      (allocfiles (okEnv default) [] 0 objfiles sampleSys).2.1
      (allocfiles (okEnv default) [] 0 objfiles sampleSys).1 with
    ctag := some "ctag", streamid := some "repo|#ns|1.5", recoveryheaderlen := 64,
    offset := 64 }

/-- The stream returned by a first `datastream_create` on `okEnv`. -/
def firstCreated (objfiles objsize : Nat) : DATASTREAM :=
  ((datastream_create (okEnv default) (some none) (some "/a")
    (some (samplePos objfiles objsize)) 0 "ctag" sampleSys).2.1).getD default

/-- The environment `okEnv`, except that linking a reference file into the
namespace fails with the given errno. -/
def linkrefFails (errno : Nat) : Env :=
  (okEnv default).answering Call.isLinkref { okResp with ret := -1, err := some errno }

/-- A run of `create_new_file` for a file whose recovery info cannot fit: header 64 and
trailer 128 against `objsize = 100`. -/
def tooLongRun : Int × DATASTREAM × Sys :=
  create_new_file (okEnv default) (blankCreate 0 100) "/a" 0 0 sampleSys

/-- A run of `create_new_file` with `objsize = 0` on a backend whose `linkref` fails with
`ENAMETOOLONG`. -/
def linkTooLongRun : Int × DATASTREAM × Sys :=
  create_new_file (linkrefFails ENAMETOOLONG) (blankCreate 0 0) "/a" 0 0 sampleSys

/-- The environment `okEnv`, except that every `ne_close` reports a degraded
but synced object. -/
def degradedEnv : Env :=
  (okEnv default).answering Call.isNeClose { okResp with ret := 1 }

/-- The tag of a finalized file that is open for extension (WRITEABLE). -/
def editTag : FTAG :=
  { completeTag with state := FTAG_FIN ||| FTAG_WRITEABLE }

/-- The stream returned by `datastream_open` for editing a file tagged `editTag`. -/
def editStream : DATASTREAM :=
  ((datastream_open (okEnv editTag) (some none) EDIT_STREAM (some "/a")
    (some (samplePos 0 8192)) "ctag" sampleSys).2.1).getD default

/-- The states of the FTAGs that a trace writes, in order. -/
def ftagStates : Trace → List Nat
  | [] => []
  | (.fsetxattr _ _ (.ftag t) _, _) :: rest => t.state :: ftagStates rest
  | _ :: rest => ftagStates rest

def Call.isRtagAttach : Call → Bool
  | .fsetxattr _ name _ _ => name == RTAG_NAME
  | _ => false

/-- The environment `degradedEnv`, except that attaching a rebuild tag to a
file fails with `EACCES`. -/
def rtagFailEnv : Env :=
  degradedEnv.answering Call.isRtagAttach { okResp with ret := -1, err := some EACCES }

/-! ## Predicates used in the statements -/

/-- The test on which `genstream` admits an `EDIT_STREAM`. -/
def editGate (state : Nat) : Prop :=
  state &&& FTAG_WRITEABLE ≠ 0 ∨ state &&& FTAG_DATASTATE = FTAG_COMP

/-- The test on which `genstream` admits a `READ_STREAM`. -/
def readGate (state : Nat) : Prop := state &&& FTAG_READABLE ≠ 0

/-- The gate for `EDIT_STREAM` as the specification words it: WRITEABLE together
with a data-state of FINALIZED or COMPLETE. -/
def specEditGate (state : Nat) : Prop :=
  state &&& FTAG_WRITEABLE ≠ 0 ∧
    (state &&& FTAG_DATASTATE = FTAG_FIN ∨ state &&& FTAG_DATASTATE = FTAG_COMP)

instance (s : Nat) : Decidable (editGate s) := by unfold editGate; infer_instance
instance (s : Nat) : Decidable (readGate s) := by unfold readGate; infer_instance
instance (s : Nat) : Decidable (specEditGate s) := by unfold specEditGate; infer_instance

/-- A backend on which opening an existing file goes through: allocations
succeed, `open` returns a handle, `fgetxattr` delivers `len` bytes that parse to
the tag `t`, `fstat` succeeds and the recovery info has an encoding. -/
structure OpensWith (env : Env) (t : FTAG) (len : Nat) : Prop where
  alloc : ∀ n, env.alloc n = true
  mdopen : ∀ tr c p f, ∃ h, (env.backend tr (.mdopen c p f)).handle = some h
  fgetxattr : ∀ tr h n l, (env.backend tr (.fgetxattr h n l)).ret = (len : Int) ∧
    (env.backend tr (.fgetxattr h n l)).ftag = some t
  len_pos : 0 < len
  len_lt : len < OFF_NEG
  fstat : ∀ tr h, (env.backend tr (.fstat h)).ret = 0
  finfo : ∀ f, (env.recovery_finfotostr f).length ≠ 0

/-- The steps of `create_new_file` after the recovery-size check go through:
allocations succeed, the FTAG has an encoding, and `fsetxattr` and `linkref`
succeed. -/
structure InstallsOk (env : Env) : Prop where
  alloc : ∀ n, env.alloc n = true
  tostr_pos : ∀ t, 0 < env.ftag_tostr t
  tostr_lt : ∀ t, env.ftag_tostr t < OFF_NEG
  fsetxattr : ∀ tr h n v l, (env.backend tr (.fsetxattr h n v l)).ret = 0
  linkref : ∀ tr c r p, (env.backend tr (.linkref c r p)).ret = 0

/-- The state `sys'` continues `sys` by calls that all satisfy `P`. -/
def Grows (P : Call → Prop) (sys sys' : Sys) : Prop :=
  ∃ seg, sys'.trace = sys.trace ++ seg ∧ ∀ e ∈ seg, P e.1

/-- The call is not an `ne_read`. -/
def Call.notRead : Call → Prop
  | .ne_read _ _ => False
  | _ => True

/-! ## Further sample values -/

/-- The stream returned by `datastream_open` for editing a file tagged
`completeTag`: a COMPLETE, READABLE file that is not WRITEABLE. -/
def completeEditStream : DATASTREAM :=
  ((datastream_open (okEnv completeTag) (some none) EDIT_STREAM (some "/a")
    (some (samplePos 0 8192)) "ctag" sampleSys).2.1).getD default

/-! ## The state gates of `datastream_close` and `datastream_release` -/

/-- The test on which `datastream_close` rejects a stream of a supported type:
a `CREATE_STREAM` whose current file is WRITEABLE (extended), or an
`EDIT_STREAM` whose current file is not WRITEABLE or not FINALIZED. -/
def closeRejects (s : DATASTREAM) : Prop :=
  (s.type = CREATE_STREAM ∧ s.cur.ftag.state &&& FTAG_WRITEABLE ≠ 0) ∨
  (s.type = EDIT_STREAM ∧ (s.cur.ftag.state &&& FTAG_WRITEABLE = 0 ∨
    s.cur.ftag.state &&& FTAG_DATASTATE ≠ FTAG_FIN))

/-- The test on which `datastream_release` rejects a stream of a supported
type: a `CREATE_STREAM` whose current file is not WRITEABLE, or is not the
first tracked file. -/
def releaseRejects (s : DATASTREAM) : Prop :=
  s.type = CREATE_STREAM ∧ (s.cur.ftag.state &&& FTAG_WRITEABLE = 0 ∨ s.curfile ≠ 0)

instance (s : DATASTREAM) : Decidable (closeRejects s) := by unfold closeRejects; infer_instance
instance (s : DATASTREAM) : Decidable (releaseRejects s) := by
  unfold releaseRejects; infer_instance

/-! ## Counting calls in a trace -/

def Call.isUnlink : Call → Bool
  | .unlink _ _ => true
  | _ => false

/-- The number of `linkref` calls in a trace segment. -/
def linkrefCalls (seg : Trace) : Nat := seg.countP fun e => e.1.isLinkref

/-- The number of `unlink` calls in a trace segment. -/
def unlinkCalls (seg : Trace) : Nat := seg.countP fun e => e.1.isUnlink

/-! ## `datastream_setrecoverypath` -/

/-- The stores `curfile->ftag.recoverybytes = n` on the current slot. -/
def setrecoverybytes (stream : DATASTREAM) (n : Nat) : DATASTREAM :=
  let file := stream.cur
  { stream with files := setfile stream.files stream.curfile { file with ftag.recoverybytes := n } }

/-- The store `stream->finfo.path = p`. -/
def setpath (stream : DATASTREAM) (p : Option String) : DATASTREAM :=
  { stream with finfo := { stream.finfo with path := p } }

/-- Translation of `datastream_setrecoverypath`.  `stream` and `recovpath` are
`none` for `NULL`; the second component of the result is the stream as the call
leaves it. -/
def datastream_setrecoverypath (env : Env) (stream : Option DATASTREAM)
    (recovpath : Option String) (sys : Sys) : Int × Option DATASTREAM × Sys :=
  match stream with
  | none => (-1, none, { sys with errno := EINVAL })
  | some stream =>
    match recovpath with
    | none => (-1, some stream, { sys with errno := EINVAL })
    | some recovpath =>
      if stream.type ≠ CREATE_STREAM ∧ stream.type ≠ EDIT_STREAM then
        (-1, some stream, { sys with errno := EINVAL })
      else if stream.type = CREATE_STREAM ∧ stream.cur.ftag.bytes ≠ 0 then
        (-1, some stream, { sys with errno := EINVAL })
      else
        let oldpath := stream.finfo.path
        match malloc env sys with
        | (ok, sys1) =>
          if ok = false then (-1, some (setpath stream oldpath), sys1) else
          let stream1 := setpath stream (some recovpath)
          let newstrlen := (env.recovery_finfotostr stream1.finfo).length
          if newstrlen < 1 then (-1, some (setpath stream1 oldpath), sys1)
          else if stream1.type = EDIT_STREAM then
            if newstrlen > stream1.cur.ftag.recoverybytes then
              (-1, some (setpath stream1 oldpath), { sys1 with errno := ENAMETOOLONG })
            else (0, some stream1, sys1)
          else
            let oldrecovbytes := stream1.cur.ftag.recoverybytes
            let stream2 := setrecoverybytes stream1 newstrlen
            match putftag env stream2 stream2.cur sys1 with
            | (pres, stream3, sys2) =>
              if pres ≠ 0 then
                (-1, some (setpath (setrecoverybytes stream3 oldrecovbytes) oldpath), sys2)
              else (0, some stream3, sys2)

/-- A recovery-info encoder whose output grows with the path: 100 bytes plus
the length of the path. -/
def pathFinfo (f : RECOVERY_FINFO) : List Nat :=
  List.replicate (100 + (f.path.getD "").length) 7

/-! ## `datastream_truncate` -/

/-- The store `curfile->ftag.availbytes = n` on slot `i`. -/
def setavail (stream : DATASTREAM) (i : Nat) (n : Nat) : DATASTREAM :=
  let file := getfile stream.files i
  { stream with files := setfile stream.files i { file with ftag.availbytes := n } }

/-- The step `if ( length < curfile->ftag.availbytes ) { curfile->ftag.availbytes = length; }`
of `datastream_truncate`, on slot `i`; the comparison is made on `size_t`. -/
def datastream_truncate_adjust (stream : DATASTREAM) (i : Nat) (length : Int) : DATASTREAM :=
  if ofOff length < (getfile stream.files i).ftag.availbytes then setavail stream i (ofOff length)
  else stream

/-- Translation of `datastream_truncate`.  The function stands in the part of
`datastream.c` that is compiled out (`#if 0`) and uses the field `filecount` of
the older stream structure, the number of tracked files: it is the argument
`filecount` here, and the current file is slot `filecount - 1`.  `length` is the
`off_t` argument; the second component of the result is the stream as the call
leaves it. -/
def datastream_truncate (env : Env) (stream : Option DATASTREAM) (filecount : Nat)
    (length : Int) (sys : Sys) : Int × Option DATASTREAM × Sys :=
  match stream with
  | none => (-1, none, { sys with errno := EINVAL })
  | some stream =>
    if stream.type = ERROR_STREAM then (-1, some stream, { sys with errno := EINVAL })
    else if stream.type ≠ EDIT_STREAM then (-1, some stream, { sys with errno := EINVAL })
    else if filecount = 0 then (-1, some stream, { sys with errno := EINVAL })
    else if length < 0 then (-1, some stream, { sys with errno := EINVAL })
    else
      let i := usub filecount 1
      let oldavail := (getfile stream.files i).ftag.availbytes
      if (getfile stream.files i).ftag.state &&& FTAG_DATASTATE ≠ FTAG_COMP then
        (-1, some stream, { sys with errno := EPERM })
      else
        let stream1 := datastream_truncate_adjust stream i length
        match putftag env stream1 (getfile stream1.files i) sys with
        | (pres, stream2, sys1) =>
          if pres ≠ 0 then (-1, some (setavail stream2 i oldavail), sys1)
          else
            match call env sys1
                (.ftruncate (getfile stream2.files i).metahandle (ofOff length)) with
            | (t, sys2) =>
              if t.ret ≠ 0 then (-1, some stream2, sys2) else (0, some stream2, sys2)

/-- The stream `completeEditStream` with 10000 readable bytes (the
truncate-shrink scenario of the specification). -/
def shrinkStream : DATASTREAM :=
  setavail completeEditStream 0 10000

/-! ## The file that `create_new_file` installs -/

/-- The file reference that a successful `create_new_file` stores in the
current slot: the initial reference with the handle of the new reference file,
the times and recovery size found by `genrecoveryinfo`, placed in the current
or the next object. -/
def createdFile (stream : DATASTREAM) (hd : Nat) (ta tm : timespec) (rb : Nat) : STREAMFILE :=
  create_new_file_place stream
    { create_new_file_init stream with
      metahandle := some hd, atime := ta, mtime := tm,
      ftag := { (create_new_file_init stream).ftag with recoverybytes := rb } }

/-- What `create_new_file` leaves in the stream, by result: after a failure the
stream differs from `stream` at most in its file list allocation and FTAG
buffer; after a success the current slot holds the created file and the cursor
is that of the created file. -/
def CreateOutcome (env : Env) (stream : DATASTREAM) (res : Int) (s' : DATASTREAM) : Prop :=
  (res ≠ 0 → ∃ fl fa sz, s' = { stream with files := fl, filealloc := fa, ftagstrsize := sz }) ∧
  (res = 0 → ∃ hd ta tm rb fl fa sz finfo,
    s' = { stream with
      files := setfile fl stream.curfile (createdFile stream hd ta tm rb),
      filealloc := fa, ftagstrsize := sz, finfo := finfo,
      fileno := (createdFile stream hd ta tm rb).ftag.fileno,
      objno := (createdFile stream hd ta tm rb).ftag.objno,
      offset := (createdFile stream hd ta tm rb).ftag.offset } ∧
    (fl = stream.files ∨ (stream.filealloc ≤ stream.curfile ∧ ∃ sysx,
      (allocfiles env stream.files stream.filealloc stream.ns.datascheme.objfiles sysx).1 ≠ 0 ∧
      fl = (allocfiles env stream.files stream.filealloc
        stream.ns.datascheme.objfiles sysx).2.1)))

/-! ## The state machine of a file -/

/-- The data-state of an FTAG state value: `state & FTAG_DATASTATE`. -/
def datastate (state : Nat) : Nat := state &&& FTAG_DATASTATE

/-- The state-machine invariant of a file: if READABLE is set, the data-state
is FINALIZED or COMPLETE. -/
def stateInv (state : Nat) : Prop :=
  state &&& FTAG_READABLE ≠ 0 → datastate state = FTAG_FIN ∨ datastate state = FTAG_COMP

instance (s : Nat) : Decidable (stateInv s) := by unfold stateInv; infer_instance

/-! ## The recovery trailer of a file -/

/-- The buffer that `putfinfo` writes for the current file once `finfile` has
set `eof = 1`: the encoded recovery info, zero-filled to `recoverybytes`. -/
def trailer (env : Env) (stream : DATASTREAM) : List Nat :=
  env.recovery_finfotostr { stream.finfo with eof := 1 } ++
    List.replicate (stream.cur.ftag.recoverybytes -
      (env.recovery_finfotostr { stream.finfo with eof := 1 }).length) 0

/-- The calls by which `open_current_obj` opens an object: `ne_open`, `ne_seek`,
`ne_abort`, and a write of the recovery header `hdr`. -/
def isHeaderStep (hdr : List Nat) : Call → Prop
  | .ne_open _ _ _ _ => True
  | .ne_seek _ _ => True
  | .ne_abort _ => True
  | .ne_write _ d _ => d = hdr
  | _ => False

/-! ## Reserved characters -/

/-- The string contains none of `FTAG_RESERVED_CHARS`. -/
def reservedFree (s : String) : Prop := ∀ c ∈ s.data, c ∉ FTAG_RESERVED_CHARS

instance (s : String) : Decidable (reservedFree s) := by unfold reservedFree; infer_instance

/-- The stream `firstCreated 0 0` after its file has been extended to 1 MiB:
`bytes` and `availbytes` are set, the state is `SIZED | WRITEABLE`, and no data
handle is open. -/
def extendedStream : DATASTREAM :=
  let s := firstCreated 0 0
  let tag : FTAG := { s.cur.ftag with
    bytes := 1048576, availbytes := 1048576, state := FTAG_SIZED ||| FTAG_WRITEABLE }
  let file : STREAMFILE := { s.cur with ftag := tag }
  { s with files := setfile s.files 0 file }

def Call.isClock : Call → Bool
  | .clock_gettime => true
  | _ => false

/-! ## Continuing a stream -/

/-- The stream as `datastream_create` hands it to `create_new_file` when it
continues `newstream`: the current file finalized, `curfile` and `fileno`
advanced by one. -/
def continueStart (env : Env) (newstream : DATASTREAM) (sys : Sys) : DATASTREAM :=
  let s1 := (finfile env newstream sys).2.1
  { s1 with curfile := uadd s1.curfile 1, fileno := uadd s1.fileno 1 }

/-- The call of `create_new_file` in the continuing branch of `datastream_create`. -/
def continueCreate (env : Env) (newstream : DATASTREAM) (path : String) (pos : marfs_position)
    (mode : Nat) (sys : Sys) : Int × DATASTREAM × Sys :=
  create_new_file env (continueStart env newstream sys) path pos.ctxt mode
    (finfile env newstream sys).2.2

/-- The call of `close_current_obj` on an object transition in the continuing
branch of `datastream_create`. -/
def continueClose (env : Env) (newstream : DATASTREAM) (path : String) (pos : marfs_position)
    (mode : Nat) (sys : Sys) : Int × DATASTREAM × Option String × Sys :=
  close_current_obj env (continueCreate env newstream path pos mode sys).2.1
    (continueCreate env newstream path pos mode sys).2.2

/-- The completion loop on an object transition in the continuing branch of
`datastream_create`. -/
def continueLoop (env : Env) (newstream : DATASTREAM) (path : String) (pos : marfs_position)
    (mode : Nat) (sys : Sys) : DATASTREAM × Nat × Sys :=
  datastream_create_files env (continueClose env newstream path pos mode sys).2.2.1
    (continueClose env newstream path pos mode sys).2.1.curfile
    (continueClose env newstream path pos mode sys).2.1 0
    (continueClose env newstream path pos mode sys).2.2.2

/-- The call of `putftag` on the previous file when the continuing branch of
`datastream_create` stays in the same object. -/
def continuePut (env : Env) (newstream : DATASTREAM) (path : String) (pos : marfs_position)
    (mode : Nat) (sys : Sys) : Int × DATASTREAM × Sys :=
  putftag env (continueCreate env newstream path pos mode sys).2.1
    (getfile (continueCreate env newstream path pos mode sys).2.1.files
      (usub (continueCreate env newstream path pos mode sys).2.1.curfile 1))
    (continueCreate env newstream path pos mode sys).2.2

/-- The file in slot `i` after `finfile` has run on the stream. -/
def finalized (env : Env) (newstream : DATASTREAM) (sys : Sys) (i : Nat) : STREAMFILE :=
  getfile (finfile env newstream sys).2.1.files i

/-- The trace segment holds the three successful calls by which `completefile`
completes the file `f`: the truncation to `availbytes`, the write of the FTAG
with the completed state, and the close of the handle. -/
def CompletedIn (f : STREAMFILE) (seg : Trace) : Prop :=
  (∃ r, (Call.ftruncate f.metahandle f.ftag.availbytes, r) ∈ seg ∧ r.ret = 0) ∧
  (∃ len r, (Call.fsetxattr f.metahandle FTAG_NAME
      (.ftag { f.ftag with state := completedState f.ftag.state }) len, r) ∈ seg ∧ r.ret = 0) ∧
  (∃ r, (Call.mdclose f.metahandle, r) ∈ seg ∧ r.ret = 0)

/-! ## Runs of `datastream_create` on one stream -/

/-- A run of `datastream_create` calls on the stream `s`, one call per requested
path and mode, each continuing the stream that the call before returned.  The
result is `none` as soon as a call fails; otherwise it lists, in order, the FTAG
`objno` of the file each call created, with the final stream and system state. -/
def createRun (env : Env) (pos : marfs_position) (ctag : String) :
    List (String × Nat) → DATASTREAM → Sys → Option (List Nat × DATASTREAM × Sys)
  | [], s, sys => some ([], s, sys)
  | (path, mode) :: rest, s, sys =>
    match datastream_create env (some (some s)) (some path) (some pos) mode ctag sys with
    | (res, some s', sys') =>
      if res = 0 then
        match createRun env pos ctag rest s' sys' with
        | some (objnos, fin) => some (s'.cur.ftag.objno :: objnos, fin)
        | none => none
      else none
    | (_, none, _) => none

/-- The number of files that a stream tracks in the object `o`: its tracked
files `0..curfile` all lie in the object `objno`. -/
def trackedIn (s : DATASTREAM) (o : Nat) : Nat := if o = s.objno then s.curfile + 1 else 0

/-! ## Stores inside the file list -/

/-- The store `files[curfile] = newfile` that ends a successful `create_new_file`
(the call made by a continuing `datastream_create`) lies inside the file list: the
index is below `filealloc` as `create_new_file` leaves it, after its regrowth of
the list if there was one.  A `create_new_file` that fails returns before the
store.  Where this fails the C code writes outside its allocation and its behaviour
from there on is undefined. -/
def storeInside (env : Env) (newstream : DATASTREAM) (path : String) (pos : marfs_position)
    (mode : Nat) (sys : Sys) : Prop :=
  (continueCreate env newstream path pos mode sys).1 = 0 →
    (continueCreate env newstream path pos mode sys).2.1.curfile <
      (continueCreate env newstream path pos mode sys).2.1.filealloc

instance (env : Env) (newstream : DATASTREAM) (path : String) (pos : marfs_position)
    (mode : Nat) (sys : Sys) : Decidable (storeInside env newstream path pos mode sys) := by
  unfold storeInside; infer_instance

/-- Every call of the run `createRun` stores its new file inside the file list. -/
def runInside (env : Env) (pos : marfs_position) (ctag : String) :
    List (String × Nat) → DATASTREAM → Sys → Bool
  | [], _, _ => true
  | (path, mode) :: rest, s, sys =>
    decide (storeInside env s path pos mode sys) &&
      match datastream_create env (some (some s)) (some path) (some pos) mode ctag sys with
      | (_, some s', sys') => runInside env pos ctag rest s' sys'
      | (_, none, _) => true

/-! ## Sample runs of two creations -/

/-- The first `datastream_create` of the sample runs: it mints a stream for `/a`. -/
def firstRun (objfiles objsize : Nat) : Int × Option DATASTREAM × Sys :=
  datastream_create (okEnv default) (some none) (some "/a")
    (some (samplePos objfiles objsize)) 0 "ctag" sampleSys

/-- The second `datastream_create` of the sample runs: it continues the stream
of `firstRun` with the file `/b`, from the system state that `firstRun` left. -/
def secondRun (objfiles objsize : Nat) : Int × Option DATASTREAM × Sys :=
  datastream_create (okEnv default) (some (some (firstCreated objfiles objsize))) (some "/b")
    (some (samplePos objfiles objsize)) 0 "ctag" (firstRun objfiles objsize).2.2

/-! ## Definitions for the statements about `completefile`, `putfinfo`, `allocfiles` -/

/-- The three checks at the head of `completefile` for slot `i`: a NULL handle,
a WRITEABLE file on a `CREATE_STREAM`, a file that is not FINALIZED on an
`EDIT_STREAM`. -/
def completeRefuses (stream : DATASTREAM) (i : Nat) : Prop :=
  (getfile stream.files i).metahandle = none ∨
  ((getfile stream.files i).ftag.state &&& FTAG_WRITEABLE ≠ 0 ∧ stream.type = CREATE_STREAM) ∨
  ((getfile stream.files i).ftag.state &&& FTAG_DATASTATE ≠ FTAG_FIN ∧ stream.type = EDIT_STREAM)

instance (s : DATASTREAM) (i : Nat) : Decidable (completeRefuses s i) := by
  unfold completeRefuses; infer_instance

/-- Selects the MDAL `close` calls. -/
def Call.isMdclose : Call → Bool
  | .mdclose _ => true
  | _ => false

/-- The number of MDAL `close` calls on the handle `h` recorded in `seg`. -/
def closeCalls (h : Option Nat) (seg : Trace) : Nat :=
  seg.countP fun e => decide (e.1 = Call.mdclose h)

/-- The READ stream that `datastream_open` generates for the file `/a`, whose
tag is `completeTag`. -/
def openedRead : DATASTREAM :=
  ((datastream_open (okEnv completeTag) (some none) READ_STREAM (some "/a")
    (some (samplePos 0 8192)) "ctag" sampleSys).2.1).getD default

/-- Selects the MDAL `fstat` calls. -/
def Call.isFstat : Call → Bool
  | .fstat _ => true
  | _ => false

/-- The environment `okEnv t`, except that `fstat` reports a file of `size` bytes. -/
def sizedEnv (t : FTAG) (size : Nat) : Env :=
  (okEnv t).answering Call.isFstat { okResp with st := { (default : stat) with st_size := size } }

/-- The tag of a complete and readable file of 20000 bytes whose data starts in
object 3, at offset 500. -/
def farTag : FTAG := { completeTag with objno := 3, offset := 500 }

/-- The READ stream that `datastream_open` generates for a file tagged `farTag`. -/
def openedFar : DATASTREAM :=
  ((datastream_open (sizedEnv farTag 20000) (some none) READ_STREAM (some "/a")
    (some (samplePos 0 8192)) "ctag" sampleSys).2.1).getD default

/-- The object names of the `ne_open` calls of a trace, in order. -/
def openedNames : Trace → List String
  | [] => []
  | (.ne_open name _ _ _, _) :: rest => name :: openedNames rest
  | _ :: rest => openedNames rest

/-- The offsets of the `ne_seek` calls of a trace, in order. -/
def seekOffsets : Trace → List Nat
  | [] => []
  | (.ne_seek _ off, _) :: rest => off :: seekOffsets rest
  | _ :: rest => seekOffsets rest

/-- A READ stream that stands at the end of its file: a file of 100 bytes at
object 0 / offset 64 (header 64, trailer 128, `objsize = 8192`), the cursor at
offset 164 of object 0. -/
def eofStream : DATASTREAM :=
  { (default : DATASTREAM) with
    type := READ_STREAM, recoveryheaderlen := 64, objno := 0, offset := 164, filealloc := 1,
    finfo := { (default : RECOVERY_FINFO) with size := 100 },
    files := [{ (default : STREAMFILE) with
      metahandle := some 1,
      ftag := { (default : FTAG) with
        objsize := 8192, objno := 0, offset := 64, bytes := 100, availbytes := 100,
        recoverybytes := 128, state := 11 } }] }

/-- The environment `okEnv default` with a recovery-info encoder whose output
grows with the recovery path (`pathFinfo`). -/
def pathEnv : Env := { okEnv default with recovery_finfotostr := pathFinfo }

/-- The CREATE stream that `datastream_create` mints under `pathEnv` for the file
`/a` in a repo with objects of 200 bytes: header 64, recovery info 102. -/
def pathCreated : DATASTREAM :=
  ((datastream_create pathEnv (some none) (some "/a") (some (samplePos 0 200)) 0 "ctag"
    sampleSys).2.1).getD default

/-- The invariant that the recovery header and the recovery info of the current
file leave room for data in an object: `recoveryheaderlen + recoverybytes < objsize`
whenever `objsize > 0`. -/
def recoveryFits (s : DATASTREAM) : Prop :=
  s.cur.ftag.objsize > 0 → s.recoveryheaderlen + s.cur.ftag.recoverybytes < s.cur.ftag.objsize

instance (s : DATASTREAM) : Decidable (recoveryFits s) := by unfold recoveryFits; infer_instance

/-- The READ stream `openedFar` after a first `datastream_read` of 10 bytes: its
data object is open. -/
def readStarted : DATASTREAM :=
  ((datastream_read (sizedEnv farTag 20000) (some openedFar) 10 sampleSys).map
    fun r => r.stream).getD default

/-- Selects the object writes. -/
def Call.isNeWrite : Call → Bool
  | .ne_write _ _ _ => true
  | _ => false

/-! ## The rounds of the read loop -/

/-- The first step of a round of the loop of `datastream_read`: the number of
bytes the current object can still deliver and, if there are none, the close
of the object and the move of the cursor to the next one. -/
def readAdvance (env : Env) (maxobjdata : Nat) (stream : DATASTREAM) (sys : Sys) :
    Nat × DATASTREAM × Sys :=
  if usub maxobjdata (usub stream.offset stream.recoveryheaderlen) = 0 then
    match close_current_obj env stream sys with
    | (_, s1, rtagstr, sys1) =>
      let sys2 := match rtagstr with
        | some rtag =>
          (call env sys1
            (.fsetxattr stream.cur.metahandle RTAG_NAME (.rtag rtag) rtag.length)).2
        | none => sys1
      (maxobjdata, { s1 with objno := uadd s1.objno 1, offset := s1.recoveryheaderlen }, sys2)
  else (usub maxobjdata (usub stream.offset stream.recoveryheaderlen), stream, sys)

/-- The second step of a round: open the current data object, if necessary. -/
def readOpen (env : Env) (s2 : DATASTREAM) (sys2 : Sys) : Int × DATASTREAM × Sys :=
  if s2.datahandle = none then open_current_obj env s2 sys2 else (0, s2, sys2)

/-- The backend delivers to every `ne_read` the full amount requested. -/
def ReadsInFull (env : Env) : Prop :=
  ∀ (tr : Trace) (h : Option Nat) (n : Nat),
    (env.backend tr (.ne_read h n)).ret = (n : Int) ∧
    (env.backend tr (.ne_read h n)).data.length = n

/-- Every data object of a READ stream can be opened. -/
def OpensObjects (env : Env) : Prop :=
  ∀ (s : DATASTREAM) (sys : Sys), s.type = READ_STREAM → s.offset < SIZE_MOD →
    (open_current_obj env s sys).1 = 0

/-- A READ stream in the middle of its file of 100 bytes: the cursor stands at
file position 60 (offset 124 of object 0). -/
def midStream : DATASTREAM := { eofStream with offset := 124 }

/-! ## A stream that tracks two files -/

/-- The stream after `/a` and `/b` were created in a repo that packs two files per
object: it tracks both files, in slots 0 and 1 of a list of two slots. -/
def twoCreated : DATASTREAM := ((secondRun 2 0).2.1).getD default

/-- The handle and the attribute name of every `fsetxattr` of a trace, in order. -/
def xattrWrites : Trace → List (Option Nat × String)
  | [] => []
  | (.fsetxattr h name _ _, _) :: rest => (h, name) :: xattrWrites rest
  | _ :: rest => xattrWrites rest

/-! ## The file list -/

theorem getfile_setfile_same (fs : List STREAMFILE) (i : Nat) (f : STREAMFILE) :
    getfile (setfile fs i f) i = f := by
  unfold getfile setfile
  by_cases h : i < fs.length
  · simp [h, List.getD_eq_getElem?_getD]
  · simp only [h, if_false, List.getD_eq_getElem?_getD]
    rw [List.getElem?_append_right (by simp; omega)]
    simp
    have : i - (fs.length + (i - fs.length)) = 0 := by omega
    simp [this]

theorem getfile_setfile_ne (fs : List STREAMFILE) (i j : Nat) (f : STREAMFILE) (hij : i ≠ j) :
    getfile (setfile fs i f) j = getfile fs j := by
  unfold getfile setfile
  by_cases h : i < fs.length
  · simp [h, List.getD_eq_getElem?_getD, List.getElem?_set_ne hij]
  · simp only [h, if_false, List.getD_eq_getElem?_getD]
    by_cases hj : j < fs.length
    · rw [List.append_assoc, List.getElem?_append_left hj]
    · have hnone : fs[j]? = none := List.getElem?_eq_none (by omega)
      rw [hnone]
      by_cases hji : j < i
      · rw [List.getElem?_append_left (by simp; omega),
          List.getElem?_append_right (by omega)]
        simp only [List.getElem?_replicate]
        split <;> rfl
      · rw [List.getElem?_eq_none (by simp; omega)]

/-! ## Arithmetic lemmas -/

theorem usub_eq_sub {a b : Nat} (hb : b ≤ a) (ha : a < SIZE_MOD) : usub a b = a - b := by
  unfold usub SIZE_MOD at *
  omega

theorem uadd_eq_add {a b : Nat} (h : a + b < SIZE_MOD) : uadd a b = a + b := by
  unfold uadd
  exact Nat.mod_eq_of_lt h

theorem usub_lt (a b : Nat) : usub a b < SIZE_MOD := by
  unfold usub
  exact Nat.mod_lt _ (by unfold SIZE_MOD; norm_num)

theorem uadd_lt (a b : Nat) : uadd a b < SIZE_MOD := by
  unfold uadd
  exact Nat.mod_lt _ (by unfold SIZE_MOD; norm_num)

theorem umul_lt (a b : Nat) : umul a b < SIZE_MOD := by
  unfold umul
  exact Nat.mod_lt _ (by unfold SIZE_MOD; norm_num)

theorem ofOff_natCast {p : Nat} (h : p < SIZE_MOD) : ofOff (p : Int) = p := by
  unfold ofOff SIZE_MOD at *
  omega

theorem ofOff_lt (i : Int) : ofOff i < SIZE_MOD := by
  unfold ofOff SIZE_MOD
  omega

theorem uadd_modEq (a b : Nat) : ((uadd a b : Nat) : Int) ≡ (a : Int) + b [ZMOD (SIZE_MOD : Int)] := by
  unfold uadd
  push_cast
  exact Int.mod_modEq _ _

theorem usub_modEq (a b : Nat) : ((usub a b : Nat) : Int) ≡ (a : Int) - b [ZMOD (SIZE_MOD : Int)] := by
  unfold usub Int.ModEq SIZE_MOD
  omega

theorem umul_modEq (a b : Nat) : ((umul a b : Nat) : Int) ≡ (a : Int) * b [ZMOD (SIZE_MOD : Int)] := by
  unfold umul
  push_cast
  exact Int.mod_modEq _ _

theorem ofOff_modEq (i : Int) : ((ofOff i : Nat) : Int) ≡ i [ZMOD (SIZE_MOD : Int)] := by
  unfold ofOff Int.ModEq SIZE_MOD
  omega

/-- The bit pattern that `gettargets` checks is the absolute offset modulo `2 ^ 64`. -/
theorem gettargets_abs_modEq (stream : DATASTREAM) (offset whence : Int) :
    (absoluteOffset stream offset whence = none ∧ gettargets_abs stream offset whence = none) ∨
    ∃ a b, absoluteOffset stream offset whence = some a ∧
      gettargets_abs stream offset whence = some b ∧ b < SIZE_MOD ∧
      (b : Int) ≡ a [ZMOD (SIZE_MOD : Int)] := by
  unfold absoluteOffset gettargets_abs curpos
  have hne1 : SEEK_END ≠ SEEK_SET := by decide
  have hne2 : SEEK_CUR ≠ SEEK_SET := by decide
  have hne3 : SEEK_END ≠ SEEK_CUR := by decide
  by_cases h1 : whence = SEEK_END
  · subst h1
    simp only [hne1, hne3, if_false, if_true]
    refine Or.inr ⟨_, _, rfl, rfl, uadd_lt _ _, ?_⟩
    exact (uadd_modEq _ _).trans ((ofOff_modEq _).add_right _)
  by_cases h2 : whence = SEEK_CUR
  · subst h2
    simp only [hne2, h1, if_false, if_true]
    have hD := usub_modEq stream.cur.ftag.objsize
      (uadd stream.cur.ftag.recoverybytes stream.recoveryheaderlen)
    have hD' := hD.trans ((Int.ModEq.refl _).sub (uadd_modEq _ _))
    have hM := usub_modEq stream.cur.ftag.offset stream.recoveryheaderlen
    have hO := ofOff_modEq offset
    have hS := usub_modEq stream.offset stream.recoveryheaderlen
    by_cases h3 : stream.objno > stream.cur.ftag.objno
    · have hA := (uadd_modEq (ofOff offset) (usub (usub stream.cur.ftag.objsize
        (uadd stream.cur.ftag.recoverybytes stream.recoveryheaderlen))
        (usub stream.cur.ftag.offset stream.recoveryheaderlen))).trans
        (hO.add ((usub_modEq _ _).trans (hD'.sub hM)))
      have hK := (umul_modEq (usub stream.objno (uadd stream.cur.ftag.objno 1))
        (usub stream.cur.ftag.objsize
        (uadd stream.cur.ftag.recoverybytes stream.recoveryheaderlen))).trans
        (((usub_modEq _ _).trans ((Int.ModEq.refl _).sub (uadd_modEq _ _))).mul hD')
      have hB := (uadd_modEq _ _).trans (hA.add hK)
      by_cases h4 : stream.offset ≠ 0
      · simp only [h3, h4, if_true, ne_eq, not_false_eq_true]
        refine Or.inr ⟨_, _, rfl, rfl, uadd_lt _ _, ?_⟩
        refine ((uadd_modEq _ _).trans (hB.add hS)).trans ?_
        ring_nf
        exact Int.ModEq.refl _
      · simp only [h3, h4, if_true, if_false]
        refine Or.inr ⟨_, _, rfl, rfl, uadd_lt _ _, ?_⟩
        refine hB.trans ?_
        ring_nf
        exact Int.ModEq.refl _
    · by_cases h4 : stream.offset ≠ 0
      · simp only [h3, h4, if_true, if_false, ne_eq, not_false_eq_true]
        refine Or.inr ⟨_, _, rfl, rfl, uadd_lt _ _, ?_⟩
        refine ((uadd_modEq _ _).trans (hO.add ((usub_modEq _ _).trans (hS.sub hM)))).trans ?_
        ring_nf
        exact Int.ModEq.refl _
      · simp only [h3, h4, if_true, if_false]
        refine Or.inr ⟨_, _, rfl, rfl, ofOff_lt _, ?_⟩
        simpa using hO
  by_cases h3 : whence = SEEK_SET
  · subst h3
    simp only [h1, h2, if_false, if_true, ne_eq, not_true_eq_false]
    exact Or.inr ⟨_, _, rfl, rfl, ofOff_lt _, ofOff_modEq _⟩
  · simp [h1, h2, h3]


/-- With a file no longer than `off_t` allows and a representable absolute
offset, the two range checks of `gettargets` decide exactly whether the absolute
offset lies within `[0, availbytes]`. -/
theorem range_checks_iff {a : Int} {b avail : Nat} (hb : b < SIZE_MOD)
    (hmod : (b : Int) ≡ a [ZMOD (SIZE_MOD : Int)]) (havail : avail < OFF_NEG)
    (hlo : -(OFF_NEG : Int) ≤ a) (hhi : a < SIZE_MOD) :
    ((b > avail ∨ b ≥ OFF_NEG) ↔ (a < 0 ∨ (avail : Int) < a)) ∧ (0 ≤ a → a ≤ avail → (b : Int) = a) := by
  unfold Int.ModEq at hmod
  unfold SIZE_MOD OFF_NEG at *
  omega

/-- C10. For a stream whose data capacity per object is not zero (the divisor of
the C code), `gettargets` fails exactly when whence is not one of `SEEK_SET`,
`SEEK_CUR`, `SEEK_END`, or the absolute file offset is negative or beyond
`availbytes`; every failure is `EINVAL` and yields no output; an absolute offset
equal to `availbytes` is accepted with `remaining = 0`; and an accepted call
reports that non-zero capacity as `maxobjdata`. -/
theorem gettargets_fails_iff (stream : DATASTREAM) (offset whence : Int)
    (hcap : dataperobj stream ≠ 0)
    (havail : stream.cur.ftag.availbytes < OFF_NEG)
    (hrep : ∀ a, absoluteOffset stream offset whence = some a →
      -(OFF_NEG : Int) ≤ a ∧ a < SIZE_MOD) :
    ((gettargets stream offset whence = .error EINVAL) ↔
      ((whence ≠ SEEK_SET ∧ whence ≠ SEEK_CUR ∧ whence ≠ SEEK_END) ∨
        ∃ a, absoluteOffset stream offset whence = some a ∧
          (a < 0 ∨ (stream.cur.ftag.availbytes : Int) < a))) ∧
    (∀ e, gettargets stream offset whence = .error e → e = EINVAL) ∧
    (absoluteOffset stream offset whence = some (stream.cur.ftag.availbytes : Int) →
      ∃ t, gettargets stream offset whence = .ok t ∧ t.remaining = 0) ∧
    (∀ t, gettargets stream offset whence = .ok t →
      t.maxobjdata = dataperobj stream ∧ t.maxobjdata ≠ 0) := by
  have aux :
      ((gettargets stream offset whence = .error EINVAL) ↔
        ((whence ≠ SEEK_SET ∧ whence ≠ SEEK_CUR ∧ whence ≠ SEEK_END) ∨
          ∃ a, absoluteOffset stream offset whence = some a ∧
            (a < 0 ∨ (stream.cur.ftag.availbytes : Int) < a))) ∧
      (∀ e, gettargets stream offset whence = .error e → e = EINVAL) ∧
      (absoluteOffset stream offset whence = some (stream.cur.ftag.availbytes : Int) →
        ∃ t, gettargets stream offset whence = .ok t ∧ t.remaining = 0) := by
    have hwh : absoluteOffset stream offset whence = none ↔
        (whence ≠ SEEK_SET ∧ whence ≠ SEEK_CUR ∧ whence ≠ SEEK_END) := by
      unfold absoluteOffset
      split_ifs <;> simp_all
    rcases gettargets_abs_modEq stream offset whence with ⟨ha, hb⟩ | ⟨a, b, ha, hb, hlt, hmod⟩
    · have hg : gettargets stream offset whence = .error EINVAL := by
        unfold gettargets
        simp only [hb]
      refine ⟨?_, ?_, ?_⟩
      · simp only [hg, true_iff]
        exact Or.inl (hwh.mp ha)
      · intro e he
        rw [hg] at he
        exact (Except.error.inj he).symm
      · intro h
        rw [ha] at h
        cases h
    · obtain ⟨hlo, hhi⟩ := hrep a ha
      obtain ⟨hiff, heq⟩ := range_checks_iff hlt hmod havail hlo hhi
      have hnone : ¬ (whence ≠ SEEK_SET ∧ whence ≠ SEEK_CUR ∧ whence ≠ SEEK_END) := by
        rw [← hwh, ha]
        simp
      by_cases hbad : b > stream.cur.ftag.availbytes ∨ b ≥ OFF_NEG
      · have hg : gettargets stream offset whence = .error EINVAL := by
          unfold gettargets
          simp only [hb]
          rcases hbad with h | h
          · simp only [h, if_true]
          · by_cases h' : b > stream.cur.ftag.availbytes
            · simp only [h', if_true]
            · simp only [h', h, if_false, if_true]
        refine ⟨?_, ?_, ?_⟩
        · simp only [hg, true_iff]
          exact Or.inr ⟨a, ha, hiff.mp hbad⟩
        · intro e he
          rw [hg] at he
          exact (Except.error.inj he).symm
        · intro h
          rw [ha] at h
          have := Option.some.inj h
          have := hiff.mp hbad
          omega
      · have h1 : ¬ b > stream.cur.ftag.availbytes := fun h => hbad (Or.inl h)
        have h2 : ¬ b ≥ OFF_NEG := fun h => hbad (Or.inr h)
        have hok : ∃ t, gettargets stream offset whence = .ok t ∧
            t.remaining = usub stream.cur.ftag.availbytes b := by
          unfold gettargets
          simp only [hb, h1, h2, if_false]
          split <;> exact ⟨_, rfl, rfl⟩
        obtain ⟨t, ht, hrem⟩ := hok
        refine ⟨?_, ?_, ?_⟩
        · constructor
          · intro h
            rw [ht] at h
            cases h
          · rintro (h | ⟨a', ha', h⟩)
            · exact absurd h hnone
            · rw [ha] at ha'
              cases ha'
              exact absurd (hiff.mpr h) hbad
        · intro e he
          rw [ht] at he
          cases he
        · intro h
          rw [ha] at h
          have hav := Option.some.inj h
          refine ⟨t, ht, ?_⟩
          rw [hrem]
          have hbb : (b : Int) = a := heq (by omega) (by omega)
          have : b = stream.cur.ftag.availbytes := by omega
          rw [this]
          unfold usub SIZE_MOD OFF_NEG at *
          omega
  refine ⟨aux.1, aux.2.1, aux.2.2, fun t ht => ?_⟩
  have hm : t.maxobjdata = dataperobj stream := by
    unfold gettargets at ht
    simp only at ht
    split at ht
    · cases ht
    · split_ifs at ht
      all_goals
        injection ht with ht
        subst ht
        rfl
  exact ⟨hm, by rw [hm]; exact hcap⟩

/-- A seek to end of file on the striping scenario, whose capacity per object is
8000 bytes. -/
theorem gettargets_fails_iff_witness :
    dataperobj stripeStream = 8000 ∧
    (gettargets stripeStream 0 SEEK_END = .error EINVAL ↔
      ((SEEK_END ≠ SEEK_SET ∧ SEEK_END ≠ SEEK_CUR ∧ SEEK_END ≠ SEEK_END) ∨
        ∃ a, absoluteOffset stripeStream 0 SEEK_END = some a ∧
          (a < 0 ∨ (stripeStream.cur.ftag.availbytes : Int) < a))) ∧
    (∀ e, gettargets stripeStream 0 SEEK_END = .error e → e = EINVAL) ∧
    (absoluteOffset stripeStream 0 SEEK_END = some (stripeStream.cur.ftag.availbytes : Int) →
      ∃ t, gettargets stripeStream 0 SEEK_END = .ok t ∧ t.remaining = 0) ∧
    (∀ t, gettargets stripeStream 0 SEEK_END = .ok t →
      t.maxobjdata = dataperobj stripeStream ∧ t.maxobjdata ≠ 0) :=
  ⟨by decide, gettargets_fails_iff stripeStream 0 SEEK_END (by decide) (by decide) (by
    intro a ha
    have : a = 20000 := by
      have h : absoluteOffset stripeStream 0 SEEK_END = some 20000 := by decide
      rw [h] at ha
      exact (Option.some.inj ha).symm
    subst this
    constructor <;> decide)⟩


/-- C3. For a current file with `objsize > recoveryheaderlen + recoverybytes` and
`ftag.offset ≥ recoveryheaderlen`, and an absolute offset `p ≤ availbytes`,
`gettargets (p, SEEK_SET)` succeeds with
`maxobjdata = objsize - recoverybytes - recoveryheaderlen`,
`remaining = availbytes - p` and a target pair with
`(tgtobjno - objno) * maxobjdata + tgtoffset = (ftag.offset - recoveryheaderlen) + p`.
The located position is assumed to be representable in `size_t`. -/
theorem gettargets_seek_set_locates (stream : DATASTREAM) (p : Nat)
    (htyped : stream.typed)
    (hsize : stream.recoveryheaderlen + stream.cur.ftag.recoverybytes < stream.cur.ftag.objsize)
    (hoff : stream.recoveryheaderlen ≤ stream.cur.ftag.offset)
    (hp : p ≤ stream.cur.ftag.availbytes)
    (hpoff : p < OFF_NEG)
    (hfit : (stream.cur.ftag.offset - stream.recoveryheaderlen) + p < SIZE_MOD)
    (hobj : stream.cur.ftag.objno + ((stream.cur.ftag.offset - stream.recoveryheaderlen) + p) /
      (stream.cur.ftag.objsize - stream.cur.ftag.recoverybytes - stream.recoveryheaderlen)
        < SIZE_MOD) :
    ∃ t, gettargets stream (p : Int) SEEK_SET = .ok t ∧
      t.maxobjdata =
        stream.cur.ftag.objsize - stream.cur.ftag.recoverybytes - stream.recoveryheaderlen ∧
      t.remaining = stream.cur.ftag.availbytes - p ∧
      (t.tgtobjno - stream.cur.ftag.objno) * t.maxobjdata + t.tgtoffset =
        (stream.cur.ftag.offset - stream.recoveryheaderlen) + p := by
  obtain ⟨hh, _, _, _, hosz, _, hobjno, hoffs, _, havl, hrb⟩ := htyped
  have hD : usub stream.cur.ftag.objsize
      (uadd stream.cur.ftag.recoverybytes stream.recoveryheaderlen) =
      stream.cur.ftag.objsize - stream.cur.ftag.recoverybytes - stream.recoveryheaderlen := by
    rw [uadd_eq_add (by omega), usub_eq_sub (by omega) hosz]
    omega
  have hM : usub stream.cur.ftag.offset stream.recoveryheaderlen =
      stream.cur.ftag.offset - stream.recoveryheaderlen := usub_eq_sub hoff hoffs
  have hpp : p < SIZE_MOD := by unfold OFF_NEG SIZE_MOD at *; omega
  have habs : gettargets_abs stream (p : Int) SEEK_SET = some p := by
    unfold gettargets_abs
    have hne1 : SEEK_SET ≠ SEEK_END := by decide
    have hne2 : SEEK_SET ≠ SEEK_CUR := by decide
    simp only [hne1, hne2, if_false, ne_eq, not_true_eq_false, ofOff_natCast hpp]
  have hrem : usub stream.cur.ftag.availbytes p = stream.cur.ftag.availbytes - p :=
    usub_eq_sub hp havl
  generalize hDdef : stream.cur.ftag.objsize - stream.cur.ftag.recoverybytes -
    stream.recoveryheaderlen = D at *
  generalize hMdef : stream.cur.ftag.offset - stream.recoveryheaderlen = M at *
  have hDpos : 0 < D := by omega
  have hpM : uadd p M = p + M := uadd_eq_add (by omega)
  unfold gettargets
  simp only [habs, hD, hM, hrem, hpM]
  have h1 : ¬ p > stream.cur.ftag.availbytes := by omega
  have h2 : ¬ p ≥ OFF_NEG := by omega
  simp only [h1, h2, if_false]
  by_cases hc : p + M > D
  · simp only [hc, if_true]
    have hDM : usub D M = (D + (SIZE_MOD - M)) % SIZE_MOD := by
      unfold usub
      rw [Nat.mod_eq_of_lt (by omega : M < SIZE_MOD)]
    have hX : usub p (usub D M) = p + M - D := by
      rw [hDM]
      unfold usub SIZE_MOD at *
      omega
    rw [hX]
    have hq : (M + p) / D = (p + M - D) / D + 1 := by
      have : M + p = (p + M - D) + D := by omega
      rw [this, Nat.add_div_right _ hDpos]
    have hq1 : uadd ((p + M - D) / D) 1 = (p + M - D) / D + 1 := by
      apply uadd_eq_add
      rw [← hq]
      omega
    have hq2 : uadd stream.cur.ftag.objno ((p + M - D) / D + 1) =
        stream.cur.ftag.objno + ((p + M - D) / D + 1) := by
      apply uadd_eq_add
      rw [← hq]
      exact hobj
    refine ⟨_, rfl, rfl, rfl, ?_⟩
    simp only [hq1, hq2]
    rw [Nat.add_sub_cancel_left, Nat.add_mul, Nat.one_mul]
    have := Nat.div_add_mod (p + M - D) D
    rw [Nat.mul_comm] at this
    omega
  · simp only [hc, if_false]
    refine ⟨_, rfl, rfl, rfl, ?_⟩
    simp only [Nat.sub_self, Nat.zero_mul, Nat.zero_add]
    exact uadd_eq_add (by omega)

/-- The striping scenario: `maxobjdata = 8000`, and `p = 20000` is located in
object 2 at data offset 4000. -/
theorem gettargets_seek_set_locates_witness :
    gettargets stripeStream (20000 : Nat) SEEK_SET = .ok ⟨2, 4000, 0, 8000⟩ ∧
    ∃ t, gettargets stripeStream ((20000 : Nat) : Int) SEEK_SET = .ok t ∧
      t.maxobjdata = stripeStream.cur.ftag.objsize - stripeStream.cur.ftag.recoverybytes -
        stripeStream.recoveryheaderlen ∧
      t.remaining = stripeStream.cur.ftag.availbytes - 20000 ∧
      (t.tgtobjno - stripeStream.cur.ftag.objno) * t.maxobjdata + t.tgtoffset =
        (stripeStream.cur.ftag.offset - stripeStream.recoveryheaderlen) + 20000 :=
  ⟨by decide, gettargets_seek_set_locates stripeStream 20000 (by decide) (by decide) (by decide)
    (by decide) (by decide) (by decide) (by decide)⟩

/-! ## The state gate of `genstream` -/

theorem okEnv_opensWith (t : FTAG) : OpensWith (okEnv t) t 10 where
  alloc := fun _ => rfl
  mdopen := fun tr _ _ _ => ⟨tr.length + 1, rfl⟩
  fgetxattr := fun _ _ _ _ => ⟨rfl, rfl⟩
  len_pos := by decide
  len_lt := by decide
  fstat := fun _ _ => rfl
  finfo := fun _ => by simp [okEnv]

theorem getftag_ok (env : Env) (t : FTAG) (len : Nat) (hw : OpensWith env t len)
    (stream : DATASTREAM) (file : STREAMFILE) (sys : Sys) :
    ∃ s' sys', getftag env stream file sys = (0, s', { file with ftag := t }, sys') ∧
      s'.files = stream.files ∧ s'.curfile = stream.curfile ∧ s'.type = stream.type ∧
      s'.datahandle = stream.datahandle ∧ s'.finfo = stream.finfo := by
  have hlen : ofOff (len : Int) = len := ofOff_natCast (by
    have := hw.len_lt; unfold OFF_NEG at this; unfold SIZE_MOD; omega)
  have hpos : ¬ ((len : Int) ≤ 0) := by have := hw.len_pos; omega
  unfold getftag
  simp only [call, (hw.fgetxattr _ _ _ _).1, (hw.fgetxattr _ _ _ _).2, hlen, malloc, hw.alloc]
  by_cases h : len ≥ stream.ftagstrsize
  · have h2 : ¬ (len ≥ uadd len 1) := by
      have := hw.len_lt
      unfold uadd SIZE_MOD OFF_NEG at *
      omega
    simp only [h, if_true, h2, if_false, getftag_parse, hpos]
    exact ⟨_, _, rfl, rfl, rfl, rfl, rfl, rfl⟩
  · simp only [h, if_false, getftag_parse, hpos]
    exact ⟨_, _, rfl, rfl, rfl, rfl, rfl, rfl⟩
theorem genrecoveryinfo_ok (env : Env) (t : FTAG) (len : Nat) (hw : OpensWith env t len)
    (stream : DATASTREAM) (finfo : RECOVERY_FINFO) (file : STREAMFILE) (path : String)
    (sys : Sys) :
    ∃ finfo' file' sys', genrecoveryinfo env stream finfo file path sys = (0, finfo', file', sys') ∧
      file'.ftag.state = file.ftag.state ∧ file'.metahandle = file.metahandle := by
  unfold genrecoveryinfo
  simp only [call, hw.fstat, malloc, hw.alloc, hw.finfo, ne_eq, not_true_eq_false, if_false,
    Bool.true_eq_false]
  by_cases h1 : stream.type = READ_STREAM
  · simp only [h1, if_true]
    exact ⟨_, _, _, rfl, rfl, rfl⟩
  · simp only [h1, if_false]
    split <;> exact ⟨_, _, _, rfl, rfl, rfl⟩

theorem open_existing_file_ok (env : Env) (t : FTAG) (len : Nat) (hw : OpensWith env t len)
    (stream : DATASTREAM) (path : String) (ctxt : Nat) (sys : Sys) :
    ∃ s' sys', open_existing_file env stream path ctxt sys = (0, s', sys') ∧
      s'.cur.ftag.state = t.state ∧ s'.type = stream.type := by
  unfold open_existing_file
  obtain ⟨h, hh⟩ := hw.mdopen sys.trace ctxt path (if stream.type = READ_STREAM then O_RDONLY else O_WRONLY)
  simp only [call, hh]
  obtain ⟨s1, sys1, hg, hfiles, hcur, htype, -, hfinfo⟩ := getftag_ok env t len hw
    { stream with files := setfile stream.files stream.curfile { stream.cur with metahandle := some h } }
    { stream.cur with metahandle := some h }
    { sys with trace := sys.trace ++ [(.mdopen ctxt path (if stream.type = READ_STREAM then O_RDONLY else O_WRONLY), env.backend sys.trace (.mdopen ctxt path (if stream.type = READ_STREAM then O_RDONLY else O_WRONLY)))],
               errno := (env.backend sys.trace (.mdopen ctxt path (if stream.type = READ_STREAM then O_RDONLY else O_WRONLY))).err.getD sys.errno }
  simp only [hg]
  obtain ⟨fi, f3, sys3, hr, hst, hmh⟩ := genrecoveryinfo_ok env t len hw s1 s1.finfo
    { ({ stream.cur with metahandle := some h } : STREAMFILE) with ftag := t, dotimes := 0 } path sys1
  simp only [ne_eq, not_true_eq_false, if_false, hr]
  refine ⟨_, _, rfl, ?_, ?_⟩
  · simp only [DATASTREAM.cur, getfile_setfile_same]
    exact hst
  · exact htype

/-- What `genstream` does for an existing file once the file has been opened:
the state gate decides. -/
theorem genstream_existing_gate (env : Env) (t : FTAG) (len : Nat) (hw : OpensWith env t len)
    (type : STREAM_TYPE) (stream : DATASTREAM) (path : String) (pos : marfs_position)
    (sys : Sys) :
    let r := genstream_existing env type stream path pos sys
    let admitted := (type = EDIT_STREAM → editGate t.state) ∧ (type = READ_STREAM → readGate t.state)
    (admitted → ∃ s, r.1 = some s ∧ s.cur.ftag.state = t.state ∧ s.type = stream.type) ∧
    (¬ admitted → r.1 = none ∧ r.2.errno = EPERM) := by
  intro r admitted
  obtain ⟨s1, sys1, ho, hst, hty⟩ := open_existing_file_ok env t len hw stream path pos.ctxt sys
  have hr : r = genstream_existing env type stream path pos sys := rfl
  unfold genstream_existing at hr
  simp only [ho, ne_eq, not_true_eq_false, if_false, hst] at hr
  by_cases he : type = EDIT_STREAM ∧ t.state &&& FTAG_WRITEABLE = 0 ∧
      t.state &&& FTAG_DATASTATE ≠ FTAG_COMP
  · simp only [he, and_self, if_true, ne_eq, not_false_eq_true] at hr
    have hna : ¬ admitted := by
      intro ha
      rcases ha.1 he.1 with h | h
      · exact h he.2.1
      · exact he.2.2 h
    refine ⟨fun h => absurd h hna, fun _ => ?_⟩
    rw [hr]
    exact ⟨rfl, rfl⟩
  · by_cases hrd : type = READ_STREAM ∧ t.state &&& FTAG_READABLE = 0
    · have hr' : r = (none, { freestream env s1 sys1 with errno := EPERM }) := by
        rw [hr]
        simp only [hrd, and_self, if_true]
        split <;> rfl
      have hna : ¬ admitted := fun ha => ha.2 hrd.1 hrd.2
      refine ⟨fun h => absurd h hna, fun _ => ?_⟩
      rw [hr']
      exact ⟨rfl, rfl⟩
    · have hr' : r = (some s1, sys1) := by
        rw [hr]
        rw [if_neg (by simpa using he), if_neg hrd]
      have ha : admitted := by
        constructor
        · intro h1
          unfold editGate
          by_contra hc
          push_neg at hc
          exact he ⟨h1, hc.1, hc.2⟩
        · intro h1 h2
          exact hrd ⟨h1, h2⟩
      refine ⟨fun _ => ?_, fun h => absurd ha h⟩
      rw [hr']
      exact ⟨s1, rfl, hst, hty⟩

/-- C6 (amended). Opening a fresh stream on an existing file, all backend
calls succeeding: an `EDIT_STREAM` is admitted exactly when the file's FTAG state
has WRITEABLE set or its data-state is COMPLETE, a `READ_STREAM` exactly when
READABLE is set; an admitted open returns the stream, a rejected one returns -1
with `EPERM` and no stream. -/
theorem datastream_open_gate (env : Env) (t : FTAG) (len : Nat) (hw : OpensWith env t len)
    (type : STREAM_TYPE) (htype : type = EDIT_STREAM ∨ type = READ_STREAM)
    (path : String) (pos : marfs_position) (ctag : String) (sys : Sys) :
    let r := datastream_open env (some none) type (some path) (some pos) ctag sys
    (type = EDIT_STREAM → (r.1 = 0 ↔ editGate t.state)) ∧
    (type = READ_STREAM → (r.1 = 0 ↔ readGate t.state)) ∧
    (r.1 = 0 → ∃ s, r.2.1 = some s ∧ s.type = type ∧ s.cur.ftag.state = t.state) ∧
    (r.1 ≠ 0 → r.1 = -1 ∧ r.2.1 = none ∧ r.2.2.errno = EPERM) := by
  intro r
  have hne : ¬ (type ≠ EDIT_STREAM ∧ type ≠ READ_STREAM) := by
    rcases htype with h | h <;> simp [h]
  have hnc : type ≠ CREATE_STREAM := by
    rcases htype with h | h <;> simp [h]
  have hte : type = READ_STREAM ∨ type = EDIT_STREAM := htype.symm
  obtain ⟨blank, sys4, hbt, hgen⟩ : ∃ blank sys4, blank.type = type ∧
      genstream env type path pos 0 ctag sys = genstream_existing env type blank path pos sys4 := by
    unfold genstream
    simp only [malloc, hw.alloc, Bool.true_eq_false, or_self, if_false, if_pos hte, allocfiles]
    rw [if_neg (by decide), if_neg hnc]
    exact ⟨_, _, rfl, rfl⟩
  have hr : r = datastream_open env (some none) type (some path) (some pos) ctag sys := rfl
  unfold datastream_open at hr
  simp only [hne, if_false, hgen] at hr
  obtain ⟨hadm, hrej⟩ := genstream_existing_gate env t len hw type blank path pos sys4
  by_cases ha : (type = EDIT_STREAM → editGate t.state) ∧ (type = READ_STREAM → readGate t.state)
  · obtain ⟨s, hs, hst, hty⟩ := hadm ha
    have hr' : r = (0, some s, (genstream_existing env type blank path pos sys4).2) := by
      rw [hr]
      unfold replace_stream
      rw [← Prod.mk.eta (p := genstream_existing env type blank path pos sys4), hs]
      rfl
    rw [hr']
    refine ⟨fun h => ⟨fun _ => ha.1 h, fun _ => rfl⟩, fun h => ⟨fun _ => ha.2 h, fun _ => rfl⟩,
      fun _ => ⟨s, rfl, hty.trans hbt, hst⟩, fun h => absurd rfl h⟩
  · obtain ⟨hn, he⟩ := hrej ha
    have hr' : r = (-1, none, (genstream_existing env type blank path pos sys4).2) := by
      rw [hr]
      unfold replace_stream
      rw [← Prod.mk.eta (p := genstream_existing env type blank path pos sys4), hn]
      rfl
    rw [hr']
    have hED : type = EDIT_STREAM → ¬ editGate t.state := by
      intro h hg
      apply ha
      refine ⟨fun _ => hg, fun h2 => ?_⟩
      rw [h] at h2
      cases h2
    have hRD : type = READ_STREAM → ¬ readGate t.state := by
      intro h hg
      apply ha
      refine ⟨fun h2 => ?_, fun _ => hg⟩
      rw [h] at h2
      cases h2
    refine ⟨fun h => ⟨fun h0 => ?_, fun hg => absurd hg (hED h)⟩,
      fun h => ⟨fun h0 => ?_, fun hg => absurd hg (hRD h)⟩,
      fun h0 => ?_, fun _ => ⟨rfl, rfl, he⟩⟩
    · simp at h0
    · simp at h0
    · simp at h0

/-- A complete, readable, non-writeable file is admitted for editing. -/
theorem datastream_open_gate_witness :
    let r := datastream_open (okEnv completeTag) (some none) EDIT_STREAM (some "/a")
      (some (samplePos 0 8192)) "ctag" sampleSys
    (EDIT_STREAM = EDIT_STREAM → (r.1 = 0 ↔ editGate completeTag.state)) ∧
    (EDIT_STREAM = READ_STREAM → (r.1 = 0 ↔ readGate completeTag.state)) ∧
    (r.1 = 0 → ∃ s, r.2.1 = some s ∧ s.type = EDIT_STREAM ∧
      s.cur.ftag.state = completeTag.state) ∧
    (r.1 ≠ 0 → r.1 = -1 ∧ r.2.1 = none ∧ r.2.2.errno = EPERM) :=
  datastream_open_gate (okEnv completeTag) completeTag 10 (okEnv_opensWith completeTag)
    EDIT_STREAM (Or.inl rfl) "/a" (samplePos 0 8192) "ctag" sampleSys

/-- C6 as stated fails: a file in state COMPLETE|READABLE (WRITEABLE clear) does
not pass the gate of the specification, yet `datastream_open` admits an
`EDIT_STREAM` on it. -/
theorem datastream_open_edit_gate_counterexample :
    (datastream_open (okEnv completeTag) (some none) EDIT_STREAM (some "/a")
      (some (samplePos 0 8192)) "ctag" sampleSys).1 = 0 ∧
    ¬ specEditGate completeTag.state := by
  decide

/-- C7 at the failing input: the exclusive create fails with `EACCES`, and
`create_new_file` reports `EBUSY`. -/
theorem create_new_file_reports_busy_for_eacces :
    (create_new_file (openrefFails EACCES) (blankCreate 0 0) "/a" 0 0 sampleSys).1 = -1 ∧
    ((create_new_file (openrefFails EACCES) (blankCreate 0 0) "/a" 0 0 sampleSys).2.2.trace.map
      fun e => e.2.err) = [some EACCES] ∧
    (create_new_file (openrefFails EACCES) (blankCreate 0 0) "/a" 0 0 sampleSys).2.2.errno
      = EBUSY := by
  decide

/-- C8 at the failing input: a continued `datastream_create` whose reference
path already exists (`EEXIST`, turned into `EBUSY` by `create_new_file`) fails
with `ENOMSG`; the stream is kept, with `curfile` and `fileno` rolled back. -/
theorem datastream_create_reports_nomsg_for_collision :
    (create_new_file (openrefFails EEXIST)
      { (finfile (openrefFails EEXIST) (firstCreated 0 0) sampleSys).2.1 with
        curfile := 1, fileno := 1 } "/b" 0 0
      (finfile (openrefFails EEXIST) (firstCreated 0 0) sampleSys).2.2).2.2.errno = EBUSY ∧
    (datastream_create (openrefFails EEXIST) (some (some (firstCreated 0 0))) (some "/b")
      (some (samplePos 0 0)) 0 "ctag" sampleSys).1 = -1 ∧
    (datastream_create (openrefFails EEXIST) (some (some (firstCreated 0 0))) (some "/b")
      (some (samplePos 0 0)) 0 "ctag" sampleSys).2.2.errno = ENOMSG ∧
    ((datastream_create (openrefFails EEXIST) (some (some (firstCreated 0 0))) (some "/b")
      (some (samplePos 0 0)) 0 "ctag" sampleSys).2.1.map fun s => (s.curfile, s.fileno))
      = some (0, 0) := by
  decide

/-! ## `create_new_file` -/

theorem okEnv_installsOk (t : FTAG) : InstallsOk (okEnv t) where
  alloc := fun _ => rfl
  tostr_pos := fun _ => by simp [okEnv]
  tostr_lt := fun _ => by simp [okEnv, OFF_NEG]
  fsetxattr := fun _ _ _ _ _ => rfl
  linkref := fun _ _ _ _ => rfl

theorem putftag_ok (env : Env) (hok : InstallsOk env) (stream : DATASTREAM) (file : STREAMFILE)
    (sys : Sys) : ∃ sz sys', putftag env stream file sys =
      (0, { stream with ftagstrsize := sz }, sys') := by
  have hpos := hok.tostr_pos file.ftag
  have hlt := hok.tostr_lt file.ftag
  have h0 : ¬ env.ftag_tostr file.ftag ≤ 0 := by omega
  unfold putftag
  simp only [malloc, hok.alloc, putftag_attach, call, hok.fsetxattr, h0, if_false, ne_eq,
    not_true_eq_false]
  by_cases h : env.ftag_tostr file.ftag ≥ stream.ftagstrsize
  · have h2 : ¬ env.ftag_tostr file.ftag ≥ uadd (env.ftag_tostr file.ftag) 1 := by
      unfold uadd SIZE_MOD OFF_NEG at *
      omega
    simp only [h, if_true, h2, if_false]
    exact ⟨_, _, rfl⟩
  · simp only [h, if_false]
    exact ⟨stream.ftagstrsize, _, rfl⟩

theorem linkfile_ok (env : Env) (hok : InstallsOk env) (r p : String) (c : Nat) (sys : Sys) :
    (linkfile env r p c sys).1 = 0 := by
  unfold linkfile
  simp only [call, hok.linkref, ne_eq, not_true_eq_false, if_false]

theorem allocfiles_ok (env : Env) (hok : InstallsOk env) (files : List STREAMFILE)
    (current max : Nat) (sys : Sys) (hcur : current < OFF_NEG) :
    (allocfiles env files current max sys).1 ≠ 0 := by
  unfold allocfiles
  simp only [malloc, hok.alloc, Bool.true_eq_false, if_false]
  unfold INITIAL_FILE_ALLOC FILE_ALLOC_MULT umul SIZE_MOD
  unfold OFF_NEG at hcur
  split_ifs <;> omega

theorem create_new_file_install_ok (env : Env) (hok : InstallsOk env) (stream : DATASTREAM)
    (path : String) (ctxt : Nat) (rp : String) (newfile : STREAMFILE) (finfo : RECOVERY_FINFO)
    (sys : Sys) (hfa : stream.filealloc < OFF_NEG) :
    (create_new_file_install env stream path ctxt rp newfile finfo sys).1 = 0 := by
  unfold create_new_file_install
  obtain ⟨sz, sys1, hp⟩ := putftag_ok env hok stream (create_new_file_place stream newfile) sys
  simp only [hp, ne_eq, not_true_eq_false, if_false]
  have hl := linkfile_ok env hok rp path ctxt sys1
  obtain ⟨sys2, hl'⟩ : ∃ sys2, linkfile env rp path ctxt sys1 = (0, sys2) :=
    ⟨_, by rw [← hl]⟩
  simp only [hl', ne_eq, not_true_eq_false, if_false]
  by_cases h1 : stream.curfile ≥ stream.filealloc
  · have ha := allocfiles_ok env hok stream.files stream.filealloc
      stream.ns.datascheme.objfiles sys2 hfa
    obtain ⟨a, b, c, hres⟩ : ∃ a b c, allocfiles env stream.files stream.filealloc
      stream.ns.datascheme.objfiles sys2 = (a, b, c) := ⟨_, _, _, rfl⟩
    rw [hres] at ha
    simp only [h1, if_true, hres]
    simp only at ha
    simp only [ha, if_false]
  · simp only [h1, if_false]

theorem genrecoveryinfo_objsize (env : Env) (stream : DATASTREAM) (finfo : RECOVERY_FINFO)
    (file : STREAMFILE) (path : String) (sys : Sys) :
    (genrecoveryinfo env stream finfo file path sys).2.2.1.ftag.objsize = file.ftag.objsize := by
  unfold genrecoveryinfo
  simp only [call, malloc]
  split_ifs <;> rfl

/-- C9 (amended). Given that reference-file creation and recovery-info generation
succeed: if `objsize ≠ 0` and `recoveryheaderlen + recoverybytes ≥ objsize`, then
`create_new_file` fails with `ENAMETOOLONG`, its last backend call being the
unlink of the just-created reference file, and leaves the stream (cursor and file
list) unchanged; otherwise the size check passes, and if the later steps (FTAG
write, link, file-list growth) succeed the call returns 0.  In particular the
check never rejects when `objsize = 0`. -/
theorem create_new_file_recovery_size (env : Env) (stream : DATASTREAM) (path : String)
    (ctxt mode : Nat) (sys : Sys) (rp : String) (sys1 : Sys) (h : Nat)
    (finfo : RECOVERY_FINFO) (newfile : STREAMFILE) (sys3 : Sys)
    (hrp : genrpath env (create_new_file_init stream) sys = (some rp, sys1))
    (hopen : (call env sys1
      (.openref ctxt rp (O_CREAT ||| O_EXCL ||| O_WRONLY) mode)).1.handle = some h)
    (hgen : genrecoveryinfo env stream default
      { create_new_file_init stream with metahandle := some h } path
      (call env sys1 (.openref ctxt rp (O_CREAT ||| O_EXCL ||| O_WRONLY) mode)).2
        = (0, finfo, newfile, sys3))
    (hsum : stream.recoveryheaderlen + newfile.ftag.recoverybytes < SIZE_MOD) :
    let objsize := stream.ns.datascheme.objsize
    let toolong := objsize ≠ 0 ∧ stream.recoveryheaderlen + newfile.ftag.recoverybytes ≥ objsize
    let r := create_new_file env stream path ctxt mode sys
    (toolong → r = (-1, stream,
      { trace := sys3.trace ++ [(.unlinkref ctxt rp, env.backend sys3.trace (.unlinkref ctxt rp))],
        errno := ENAMETOOLONG, allocs := sys3.allocs })) ∧
    (¬ toolong → r = create_new_file_install env stream path ctxt rp newfile finfo sys3) ∧
    (InstallsOk env → stream.filealloc < OFF_NEG → (r.1 ≠ 0 ↔ toolong)) ∧
    (objsize = 0 → ¬ toolong) := by
  intro objsize toolong r
  have hos : newfile.ftag.objsize = objsize := by
    have := genrecoveryinfo_objsize env stream default
      { create_new_file_init stream with metahandle := some h } path
      (call env sys1 (.openref ctxt rp (O_CREAT ||| O_EXCL ||| O_WRONLY) mode)).2
    rw [hgen] at this
    exact this
  have hadd : uadd stream.recoveryheaderlen newfile.ftag.recoverybytes =
      stream.recoveryheaderlen + newfile.ftag.recoverybytes := uadd_eq_add hsum
  have hr : r = create_new_file env stream path ctxt mode sys := rfl
  unfold create_new_file at hr
  simp only [hrp] at hr
  rw [← Prod.mk.eta (p := call env sys1
    (.openref ctxt rp (O_CREAT ||| O_EXCL ||| O_WRONLY) mode))] at hr
  simp only [hopen, hgen, ne_eq, not_true_eq_false, if_false, hos, hadd] at hr
  have hA : toolong → r = (-1, stream,
      { trace := sys3.trace ++ [(.unlinkref ctxt rp, env.backend sys3.trace (.unlinkref ctxt rp))],
        errno := ENAMETOOLONG, allocs := sys3.allocs }) := by
    intro ht
    rw [hr, if_pos ht]
    rfl
  have hB : ¬ toolong → r = create_new_file_install env stream path ctxt rp newfile finfo sys3 := by
    intro ht
    rw [hr, if_neg ht]
  refine ⟨hA, hB, ?_, ?_⟩
  · intro hok hfa
    constructor
    · intro hne
      by_contra ht
      rw [hB ht] at hne
      exact hne (create_new_file_install_ok env hok stream path ctxt rp newfile finfo sys3 hfa)
    · intro ht
      rw [hA ht]
      show (-1 : Int) ≠ 0
      decide
  · intro h0 ht
    exact ht.1 h0

/-- A file whose recovery info cannot fit: header 64 + trailer 128 against
`objsize = 100`. -/
theorem create_new_file_recovery_size_witness :
    tooLongRun.1 = -1 ∧ tooLongRun.2.1 = blankCreate 0 100 ∧
    tooLongRun.2.2.errno = ENAMETOOLONG ∧
    (tooLongRun.2.2.trace.map fun e => e.1) =
      [.openref 0 "refdir/ref.0" (O_CREAT ||| O_EXCL ||| O_WRONLY) 0, .fstat (some 1),
       .unlinkref 0 "refdir/ref.0"] := by
  have h := create_new_file_recovery_size (okEnv default) (blankCreate 0 100) "/a" 0 0 sampleSys
    "refdir/ref.0" (genrpath (okEnv default) (create_new_file_init (blankCreate 0 100)) sampleSys).2
    1 _ _ _ (by decide) (by decide) (by rfl) (by decide)
  have h1 : tooLongRun = _ := h.1 (by decide)
  rw [h1]
  decide

/-- C9 as stated fails: with `objsize = 0`, after the reference file has been
created and its recovery info generated, a `linkref` that fails with
`ENAMETOOLONG` makes `create_new_file` fail with `ENAMETOOLONG`. -/
theorem create_new_file_nametoolong_counterexample :
    (blankCreate 0 0).ns.datascheme.objsize = 0 ∧ linkTooLongRun.1 = -1 ∧
    linkTooLongRun.2.2.errno = ENAMETOOLONG ∧
    (linkTooLongRun.2.2.trace.map fun e => (e.1, e.2.ret)) =
      [(.openref 0 "refdir/ref.0" (O_CREAT ||| O_EXCL ||| O_WRONLY) 0, 0),
       (.fstat (some 1), 0),
       (.fsetxattr (some 1) FTAG_NAME
          (.ftag { (create_new_file_init (blankCreate 0 0)).ftag with recoverybytes := 128 }) 10,
        0),
       (.linkref 0 "refdir/ref.0" "/a", -1),
       (.unlinkref 0 "refdir/ref.0", 0)] := by
  decide

/-! ## Frames and traces of the internal functions -/

theorem putftag_attach_spec {env : Env} {s : DATASTREAM} {file : STREAMFILE} {n : Nat}
    {sy : Sys} {res : Int} {s' : DATASTREAM} {sys' : Sys}
    (h : putftag_attach env s file n sy = (res, s', sys')) :
    s' = s ∧ ∃ seg, sys'.trace = sy.trace ++ seg ∧
      (∀ e ∈ seg, ∃ len, e.1 = .fsetxattr file.metahandle FTAG_NAME (.ftag file.ftag) len) ∧
      (res = 0 →
        ∃ len r, (Call.fsetxattr file.metahandle FTAG_NAME (.ftag file.ftag) len, r) ∈ seg ∧
          r.ret = 0) := by
  unfold putftag_attach at h
  simp only [call] at h
  split_ifs at h with h0 hr <;> simp only [Prod.mk.injEq] at h <;> obtain ⟨rfl, rfl, rfl⟩ := h
  · exact ⟨rfl, [], by simp, by simp, by simp⟩
  · refine ⟨rfl, [_], rfl, ?_, by simp⟩
    intro e he
    simp only [List.mem_singleton] at he
    exact ⟨n, by rw [he]⟩
  · refine ⟨rfl, [_], rfl, ?_, fun _ => ⟨n, _, List.mem_singleton.mpr rfl, by simpa using hr⟩⟩
    intro e he
    simp only [List.mem_singleton] at he
    exact ⟨n, by rw [he]⟩

theorem putftag_spec {env : Env} {stream : DATASTREAM} {file : STREAMFILE} {sys : Sys}
    {res : Int} {s' : DATASTREAM} {sys' : Sys}
    (h : putftag env stream file sys = (res, s', sys')) :
    (∃ sz, s' = { stream with ftagstrsize := sz }) ∧ ∃ seg, sys'.trace = sys.trace ++ seg ∧
      (∀ e ∈ seg, ∃ len, e.1 = .fsetxattr file.metahandle FTAG_NAME (.ftag file.ftag) len) ∧
      (res = 0 →
        ∃ len r, (Call.fsetxattr file.metahandle FTAG_NAME (.ftag file.ftag) len, r) ∈ seg ∧
          r.ret = 0) := by
  unfold putftag at h
  simp only [malloc] at h
  by_cases h1 : env.ftag_tostr file.ftag ≥ stream.ftagstrsize
  · simp only [h1, if_true] at h
    cases ha : env.alloc sys.allocs
    · simp only [ha, Prod.mk.injEq] at h
      obtain ⟨rfl, rfl, rfl⟩ := h
      exact ⟨⟨0, rfl⟩, [], by simp, by simp, by simp⟩
    · simp only [ha] at h
      by_cases h2 : env.ftag_tostr file.ftag ≥ uadd (env.ftag_tostr file.ftag) 1
      · simp only [h2, if_true, Prod.mk.injEq] at h
        obtain ⟨rfl, rfl, rfl⟩ := h
        exact ⟨⟨_, rfl⟩, [], by simp, by simp, by simp⟩
      · simp only [h2, if_false] at h
        obtain ⟨hs, seg, h3, h4, h5⟩ := putftag_attach_spec h
        exact ⟨⟨_, hs⟩, seg, h3, h4, h5⟩
  · simp only [h1, if_false] at h
    obtain ⟨hs, seg, h3, h4, h5⟩ := putftag_attach_spec h
    exact ⟨⟨stream.ftagstrsize, hs⟩, seg, h3, h4, h5⟩

theorem call_trace (env : Env) (sys : Sys) (c : Call) :
    (call env sys c).2.trace = sys.trace ++ [(c, (call env sys c).1)] := rfl

theorem setstate_files_ne (stream : DATASTREAM) (i j state : Nat) (hij : j ≠ i) :
    getfile (setstate stream i state).files j = getfile stream.files j := by
  unfold setstate
  exact getfile_setfile_ne _ _ _ _ (Ne.symm hij)

theorem setstate_files_same (stream : DATASTREAM) (i state : Nat) :
    getfile (setstate stream i state).files i =
      { getfile stream.files i with ftag.state := state } := by
  unfold setstate
  exact getfile_setfile_same _ _ _

theorem setstate_eq (stream : DATASTREAM) (i state : Nat) :
    ∃ fl, setstate stream i state = { stream with files := fl } := ⟨_, rfl⟩

theorem closeslot_files_ne (stream : DATASTREAM) (i j : Nat) (hij : j ≠ i) :
    getfile (closeslot stream i).files j = getfile stream.files j := by
  unfold closeslot
  exact getfile_setfile_ne _ _ _ _ (Ne.symm hij)

theorem closeslot_files_same (stream : DATASTREAM) (i : Nat) :
    getfile (closeslot stream i).files i = { getfile stream.files i with metahandle := none } := by
  unfold closeslot
  exact getfile_setfile_same _ _ _

theorem closeslot_eq (stream : DATASTREAM) (i : Nat) :
    ∃ fl, closeslot stream i = { stream with files := fl } := ⟨_, rfl⟩

theorem completefile_spec {env : Env} {stream : DATASTREAM} {i : Nat} {sys : Sys}
    {res : Int} {s' : DATASTREAM} {sys' : Sys}
    (h : completefile env stream i sys = (res, s', sys')) :
    (∃ fl sz, s' = { stream with files := fl, ftagstrsize := sz }) ∧
    (∀ j, j ≠ i → getfile s'.files j = getfile stream.files j) ∧
    ∃ seg, sys'.trace = sys.trace ++ seg ∧
      (∀ e ∈ seg, ∀ hd, isFtagSet hd e → hd = (getfile stream.files i).metahandle) ∧
      (∀ e ∈ seg, ¬ isRtagAttach e) ∧
      (res = 0 → Completed stream.type (getfile stream.files i) (getfile s'.files i) seg) := by
  unfold completefile at h
  simp only at h
  by_cases cmh : (getfile stream.files i).metahandle = none
  · rw [if_pos cmh] at h
    simp only [Prod.mk.injEq] at h
    obtain ⟨rfl, rfl, rfl⟩ := h
    exact ⟨⟨_, _, rfl⟩, fun _ _ => rfl, [], by simp, by simp, by simp, by simp⟩
  rw [if_neg cmh] at h
  by_cases c2 : (getfile stream.files i).ftag.state &&& FTAG_WRITEABLE ≠ 0 ∧
      stream.type = CREATE_STREAM
  · rw [if_pos c2] at h
    simp only [Prod.mk.injEq] at h
    obtain ⟨rfl, rfl, rfl⟩ := h
    exact ⟨⟨_, _, rfl⟩, fun _ _ => rfl, [], by simp, by simp, by simp, by simp⟩
  rw [if_neg c2] at h
  by_cases c3 : (getfile stream.files i).ftag.state &&& FTAG_DATASTATE ≠ FTAG_FIN ∧
      stream.type = EDIT_STREAM
  · rw [if_pos c3] at h
    simp only [Prod.mk.injEq] at h
    obtain ⟨rfl, rfl, rfl⟩ := h
    exact ⟨⟨_, _, rfl⟩, fun _ _ => rfl, [], by simp, by simp, by simp, by simp⟩
  rw [if_neg c3] at h
  -- the file after the state store
  have hf1 := setstate_files_same stream i (completedState (getfile stream.files i).ftag.state)
  have hne1 := fun j => setstate_files_ne stream i j
    (completedState (getfile stream.files i).ftag.state)
  obtain ⟨fl1, hs1⟩ := setstate_eq stream i (completedState (getfile stream.files i).ftag.state)
  unfold completedState at hf1 hne1 hs1
  generalize setstate stream i (FTAG_COMP ||| FTAG_READABLE |||
    (getfile stream.files i).ftag.state &&& NOT_DATASTATE) = s1 at *
  generalize hfile1 : getfile s1.files i = file1 at *
  have hmh : file1.metahandle = (getfile stream.files i).metahandle := by rw [hf1]
  have hav : file1.ftag.availbytes = (getfile stream.files i).ftag.availbytes := by rw [hf1]
  have hft : file1.ftag = { (getfile stream.files i).ftag with
      state := completedState (getfile stream.files i).ftag.state } := by rw [hf1]; rfl
  have hfr : ∀ (s2 : DATASTREAM), s2.files = s1.files → ∀ j, j ≠ i →
      getfile (closeslot s2 i).files j = getfile stream.files j := by
    intro s2 hs2 j hj
    rw [closeslot_files_ne _ _ _ hj, hs2]
    exact hne1 j hj
  have hsb : ∀ (s2 : DATASTREAM) sz, s2 = { s1 with ftagstrsize := sz } →
      ∃ fl sz, closeslot s2 i = { stream with files := fl, ftagstrsize := sz } := by
    intro s2 sz hs2
    rw [hs2, hs1]
    exact ⟨_, sz, rfl⟩
  have hnotF : ∀ (c : Call) (r : Resp) hd, (∀ a b c' d, c ≠ .fsetxattr a b c' d) →
      isFtagSet hd (c, r) → hd = (getfile stream.files i).metahandle := by
    intro c r hd hc hF
    obtain ⟨t, len, ht⟩ := hF
    exact absurd ht (hc _ _ _ _)
  have hnotR : ∀ (c : Call) (r : Resp), (∀ a b c' d, c ≠ .fsetxattr a b c' d) →
      ¬ isRtagAttach (c, r) := by
    intro c r hc hR
    obtain ⟨a, t, len, ht⟩ := hR
    exact absurd ht (hc _ _ _ _)
  -- the truncation
  have htr1 := call_trace env sys (.ftruncate file1.metahandle file1.ftag.availbytes)
  generalize call env sys (.ftruncate file1.metahandle file1.ftag.availbytes) = c1 at h htr1
  by_cases ct : c1.1.ret ≠ 0
  · rw [if_pos ct] at h
    simp only [Prod.mk.injEq] at h
    obtain ⟨rfl, rfl, rfl⟩ := h
    refine ⟨hsb s1 s1.ftagstrsize rfl, hfr s1 rfl,
      [(.ftruncate file1.metahandle file1.ftag.availbytes, c1.1),
       (.mdclose file1.metahandle, (call env c1.2 (.mdclose file1.metahandle)).1)],
      ?_, ?_, ?_, by simp⟩
    · rw [call_trace, htr1, List.append_assoc]
      rfl
    · intro e he hd hF
      simp only [List.mem_cons, List.mem_singleton, List.not_mem_nil, or_false] at he
      rcases he with rfl | rfl <;> exact hnotF _ _ hd (by intros; simp) hF
    · intro e he
      simp only [List.mem_cons, List.mem_singleton, List.not_mem_nil, or_false] at he
      rcases he with rfl | rfl <;> exact hnotR _ _ (by intros; simp)
  rw [if_neg ct] at h
  -- the FTAG update
  obtain ⟨pres, s2, sys2, hp⟩ : ∃ pres s2 sys2, putftag env s1 file1 c1.2 = (pres, s2, sys2) :=
    ⟨_, _, _, rfl⟩
  rw [hp] at h
  obtain ⟨⟨sz, hs2⟩, segp, htr, hsegp, hpok⟩ := putftag_spec hp
  rw [htr1] at htr
  have hs2f : s2.files = s1.files := by rw [hs2]
  have hpF : ∀ e ∈ segp, ∀ hd, isFtagSet hd e → hd = (getfile stream.files i).metahandle := by
    intro e he hd hF
    obtain ⟨len, hl⟩ := hsegp e he
    obtain ⟨t, len', ht⟩ := hF
    rw [hl] at ht
    injection ht with h1
    rw [← h1, hmh]
  have hpR : ∀ e ∈ segp, ¬ isRtagAttach e := by
    intro e he hR
    obtain ⟨len, hl⟩ := hsegp e he
    obtain ⟨a, t, len', ht⟩ := hR
    rw [hl] at ht
    injection ht with _ _ h3
    cases h3
  simp only at h
  by_cases cp : pres ≠ 0
  · rw [if_pos cp] at h
    simp only [Prod.mk.injEq] at h
    obtain ⟨rfl, rfl, rfl⟩ := h
    refine ⟨hsb s2 sz hs2, hfr s2 hs2f,
      (.ftruncate file1.metahandle file1.ftag.availbytes, c1.1) :: (segp ++
        [(.mdclose file1.metahandle, (call env sys2 (.mdclose file1.metahandle)).1)]),
      ?_, ?_, ?_, by simp⟩
    · rw [call_trace, htr]
      simp
    · intro e he hd hF
      simp only [List.mem_cons, List.mem_append, List.mem_singleton, List.not_mem_nil,
        or_false] at he
      rcases he with rfl | he | rfl
      · exact hnotF _ _ hd (by intros; simp) hF
      · exact hpF e he hd hF
      · exact hnotF _ _ hd (by intros; simp) hF
    · intro e he
      simp only [List.mem_cons, List.mem_append, List.mem_singleton, List.not_mem_nil,
        or_false] at he
      rcases he with rfl | he | rfl
      · exact hnotR _ _ (by intros; simp)
      · exact hpR e he
      · exact hnotR _ _ (by intros; simp)
  rw [if_neg cp] at h
  have hp0 : pres = 0 := by simpa using cp
  obtain ⟨len, rp, hmem, hrp⟩ := hpok hp0
  have hcompl : ∀ (seg : Trace),
      (Call.ftruncate file1.metahandle file1.ftag.availbytes, c1.1) ∈ seg →
      (∀ e ∈ segp, e ∈ seg) →
      Completed stream.type (getfile stream.files i) (getfile (closeslot s2 i).files i) seg := by
    intro seg h1 h2
    refine ⟨⟨cmh, ?_, ?_⟩, ?_, ?_, ⟨_, ?_, by simpa using ct⟩, ⟨len, rp, ?_, hrp⟩⟩
    · intro hty
      by_contra hne
      exact c2 ⟨hne, hty⟩
    · intro hty
      by_contra hne
      exact c3 ⟨hne, hty⟩
    · rw [closeslot_files_same]
    · rw [closeslot_files_same, hs2f, hfile1]
      exact hft
    · rw [← hmh, ← hav]
      exact h1
    · have := h2 _ hmem
      rw [hmh, hft] at this
      exact this
  -- the time stamps and the close
  have htr3 := call_trace env sys2 (.futimens file1.metahandle file1.atime file1.mtime)
  generalize call env sys2 (.futimens file1.metahandle file1.atime file1.mtime) = c3 at h htr3
  have hall : ∀ (x : Call × Resp) (sysx : Sys),
      sysx.trace = c3.2.trace ++ [x] → (∀ a b c' d, x.1 ≠ .fsetxattr a b c' d) →
      ∃ seg, sysx.trace = sys.trace ++ seg ∧
        (∀ e ∈ seg, ∀ hd, isFtagSet hd e → hd = (getfile stream.files i).metahandle) ∧
        (∀ e ∈ seg, ¬ isRtagAttach e) ∧
        Completed stream.type (getfile stream.files i) (getfile (closeslot s2 i).files i)
          seg := by
    intro x sysx hx hxc
    refine ⟨(.ftruncate file1.metahandle file1.ftag.availbytes, c1.1) :: (segp ++
      [(.futimens file1.metahandle file1.atime file1.mtime, c3.1), x]), ?_, ?_, ?_, ?_⟩
    · rw [hx, htr3, htr]
      simp
    · intro e he hd hF
      simp only [List.mem_cons, List.mem_append, List.mem_singleton, List.not_mem_nil,
        or_false] at he
      rcases he with rfl | he | rfl | rfl
      · exact hnotF _ _ hd (by intros; simp) hF
      · exact hpF e he hd hF
      · exact hnotF _ _ hd (by intros; simp) hF
      · exact hnotF _ _ hd hxc hF
    · intro e he
      simp only [List.mem_cons, List.mem_append, List.mem_singleton, List.not_mem_nil,
        or_false] at he
      rcases he with rfl | he | rfl | rfl
      · exact hnotR _ _ (by intros; simp)
      · exact hpR e he
      · exact hnotR _ _ (by intros; simp)
      · exact hnotR _ _ hxc
    · exact hcompl _ (List.mem_cons_self _ _)
        (fun e he => List.mem_cons_of_mem _ (List.mem_append_left _ he))
  have hres : s' = closeslot s2 i ∧ sys' = (call env c3.2 (.mdclose file1.metahandle)).2 := by
    split_ifs at h <;> simp only [Prod.mk.injEq] at h <;> obtain ⟨-, rfl, rfl⟩ := h <;>
      exact ⟨rfl, rfl⟩
  obtain ⟨rfl, rfl⟩ := hres
  obtain ⟨seg, h1, h2, h3, h4⟩ := hall _ _ (call_trace env c3.2 (.mdclose file1.metahandle))
    (by intros; simp)
  exact ⟨hsb s2 sz hs2, hfr s2 hs2f, seg, h1, h2, h3, fun _ => h4⟩

theorem Completed.mono {ty : STREAM_TYPE} {f f' : STREAMFILE} {seg seg2 : Trace}
    (h : Completed ty f f' seg) (hsub : ∀ e ∈ seg, e ∈ seg2) : Completed ty f f' seg2 := by
  obtain ⟨h0, h1, h2, ⟨r, h3, h4⟩, ⟨len, r2, h5, h6⟩⟩ := h
  exact ⟨h0, h1, h2, ⟨r, hsub _ h3, h4⟩, ⟨len, r2, hsub _ h5, h6⟩⟩

theorem append_split {α : Type} {s1 s2 pre post : List α} {e : α}
    (h : s1 ++ s2 = pre ++ e :: post) :
    (∃ post1, s1 = pre ++ e :: post1 ∧ post = post1 ++ s2) ∨
    (∃ pre2, pre = s1 ++ pre2 ∧ s2 = pre2 ++ e :: post) := by
  rcases List.append_eq_append_iff.mp h with ⟨a', h1, h2⟩ | ⟨c', h1, h2⟩
  · exact Or.inr ⟨a', h1, h2⟩
  · cases c' with
    | nil =>
      refine Or.inr ⟨[], ?_, ?_⟩
      · simpa using h1.symm
      · simpa using h2.symm
    | cons x xs =>
      simp only [List.cons_append, List.cons.injEq] at h2
      obtain ⟨rfl, rfl⟩ := h2
      exact Or.inl ⟨xs, h1, rfl⟩

/-- What one round of the completion loops does, in all its outcomes. -/
theorem attach_and_complete_spec {env : Env} {rtagstr : Option String} {complete : Bool}
    {stream : DATASTREAM} {ab : Nat} {sys : Sys} {s' : DATASTREAM} {ab' : Nat} {sys' : Sys}
    (h : attach_and_complete env rtagstr complete stream ab sys = (s', ab', sys')) :
    (∃ fl sz, s' = { stream with files := fl, ftagstrsize := sz }) ∧
    (∀ j, j ≠ stream.curfile → getfile s'.files j = getfile stream.files j) ∧
    (ab ≠ 0 → ab' ≠ 0) ∧
    ∃ seg, sys'.trace = sys.trace ++ seg ∧
      (ab' = 0 → complete = true →
        Completed stream.type stream.cur (getfile s'.files stream.curfile) seg) ∧
      (rtagstr = none → ∀ e ∈ seg, ¬ isRtagAttach e) ∧
      (∀ rtag, rtagstr = some rtag → ∃ x rest, seg = x :: rest ∧ isRtagAttach x ∧
        (x.2.ret ≠ 0 → rest = [] ∧ ab' ≠ 0 ∧ s' = stream) ∧
        (x.2.ret = 0 → isRtagSet stream.cur.metahandle x) ∧
        (∀ e ∈ rest, ¬ isRtagAttach e) ∧
        (∀ e ∈ rest, ∀ hd, isFtagSet hd e → hd = stream.cur.metahandle)) := by
  unfold attach_and_complete at h
  cases rtagstr with
  | none =>
    simp only at h
    cases complete with
    | false =>
      simp only [Bool.false_eq_true, if_false, Prod.mk.injEq] at h
      obtain ⟨rfl, rfl, rfl⟩ := h
      exact ⟨⟨_, _, rfl⟩, fun _ _ => rfl, id, [], by simp, by simp, by simp, by simp⟩
    | true =>
      simp only [if_true] at h
      obtain ⟨cres, s1, sys1, hc⟩ : ∃ cres s1 sys1,
        completefile env stream stream.curfile sys = (cres, s1, sys1) := ⟨_, _, _, rfl⟩
      rw [hc] at h
      simp only [Prod.mk.injEq] at h
      obtain ⟨rfl, rfl, rfl⟩ := h
      obtain ⟨hsb, hfr, seg, htr, -, hnr, hcomp⟩ := completefile_spec hc
      refine ⟨hsb, hfr, ?_, seg, htr, ?_, fun _ => hnr, by simp⟩
      · intro hab
        split_ifs <;> simp [hab]
      · intro h0 _
        apply hcomp
        by_contra hne
        simp [hne] at h0
  | some rtag =>
    simp only at h
    have htr1 := call_trace env sys
      (.fsetxattr stream.cur.metahandle RTAG_NAME (.rtag rtag) rtag.length)
    have hx : isRtagAttach (Call.fsetxattr stream.cur.metahandle RTAG_NAME (.rtag rtag)
        rtag.length, (call env sys (.fsetxattr stream.cur.metahandle RTAG_NAME (.rtag rtag)
        rtag.length)).1) := ⟨_, _, _, rfl⟩
    generalize call env sys
      (.fsetxattr stream.cur.metahandle RTAG_NAME (.rtag rtag) rtag.length) = c1 at h htr1 hx
    by_cases cx : c1.1.ret ≠ 0
    · rw [if_pos cx] at h
      simp only [Prod.mk.injEq] at h
      obtain ⟨rfl, rfl, rfl⟩ := h
      refine ⟨⟨_, _, rfl⟩, fun _ _ => rfl, fun _ => by simp, [_], htr1, by simp, by simp, ?_⟩
      intro r hr
      cases hr
      exact ⟨_, [], rfl, hx, fun _ => ⟨rfl, by simp, rfl⟩, fun h0 => absurd h0 cx,
        by simp, by simp⟩
    · rw [if_neg cx] at h
      have hx0 : c1.1.ret = 0 := by simpa using cx
      have hset : isRtagSet stream.cur.metahandle
          (Call.fsetxattr stream.cur.metahandle RTAG_NAME (.rtag rtag) rtag.length, c1.1) :=
        ⟨_, _, rfl, hx0⟩
      cases complete with
      | false =>
        simp only [Bool.false_eq_true, if_false, Prod.mk.injEq] at h
        obtain ⟨rfl, rfl, rfl⟩ := h
        refine ⟨⟨_, _, rfl⟩, fun _ _ => rfl, id, [_], htr1, by simp, by simp, ?_⟩
        intro r hr
        cases hr
        exact ⟨_, [], rfl, hx, fun h0 => absurd hx0 h0, fun _ => hset, by simp, by simp⟩
      | true =>
        simp only [if_true] at h
        obtain ⟨cres, s1, sys1, hc⟩ : ∃ cres s1 sys1,
          completefile env stream stream.curfile c1.2 = (cres, s1, sys1) := ⟨_, _, _, rfl⟩
        rw [hc] at h
        simp only [Prod.mk.injEq] at h
        obtain ⟨rfl, rfl, rfl⟩ := h
        obtain ⟨hsb, hfr, seg, htr, hF, hnr, hcomp⟩ := completefile_spec hc
        refine ⟨hsb, hfr, ?_, (Call.fsetxattr stream.cur.metahandle RTAG_NAME (.rtag rtag)
          rtag.length, c1.1) :: seg, ?_, ?_, by simp, ?_⟩
        · intro hab
          split_ifs <;> simp [hab]
        · rw [htr, htr1]
          simp
        · intro h0 _
          have hc0 : cres = 0 := by
            by_contra hne
            simp [hne] at h0
          exact (hcomp hc0).mono (fun e he => List.mem_cons_of_mem _ he)
        · intro r hr
          cases hr
          exact ⟨_, seg, rfl, hx, fun h0 => absurd hx0 h0, fun _ => hset, hnr, hF⟩

theorem not_isFtagSet_of_isRtagAttach {x : Call × Resp} (hx : isRtagAttach x) (hd : Option Nat) :
    ¬ isFtagSet hd x := by
  intro hF
  obtain ⟨a, t, len, h1⟩ := hx
  obtain ⟨t', len', h2⟩ := hF
  rw [h1] at h2
  injection h2 with _ _ h3
  cases h3

theorem rtagBeforeFtag_round {x : Call × Resp} {rest tail : Trace} {h : Option Nat}
    (hx : isRtagAttach x) (hset : x.2.ret = 0 → isRtagSet h x)
    (hfail : x.2.ret ≠ 0 → rest = [])
    (hF : ∀ e ∈ rest, ∀ hd, isFtagSet hd e → hd = h) (hL : RtagBeforeFtag tail) :
    RtagBeforeFtag (x :: rest ++ tail) := by
  intro pre e post hd hsplit hFe
  rcases append_split hsplit with ⟨post1, h1, -⟩ | ⟨pre2, h1, h2⟩
  · cases pre with
    | nil =>
      simp only [List.nil_append, List.cons.injEq] at h1
      obtain ⟨rfl, -⟩ := h1
      exact absurd hFe (not_isFtagSet_of_isRtagAttach hx hd)
    | cons y pre' =>
      simp only [List.cons_append, List.cons.injEq] at h1
      obtain ⟨rfl, h1⟩ := h1
      have he : e ∈ rest := by rw [h1]; simp
      have hhd := hF e he hd hFe
      have hx0 : x.2.ret = 0 := by
        by_contra hne
        rw [hfail hne] at he
        simp at he
      rw [hhd]
      exact ⟨x, List.mem_cons_self _ _, hset hx0⟩
  · obtain ⟨e', he', hs⟩ := hL pre2 e post hd h2 hFe
    exact ⟨e', by rw [h1]; exact List.mem_append_right _ he', hs⟩

theorem rtagFailureSkips_round {x : Call × Resp} {rest tail : Trace}
    (hfail : x.2.ret ≠ 0 → rest = [])
    (hnr : ∀ e ∈ rest, ¬ isRtagAttach e) (hL : RtagFailureSkips tail)
    (hhead : tail = [] ∨ ∃ y tail', tail = y :: tail' ∧ isRtagAttach y) :
    RtagFailureSkips (x :: rest ++ tail) := by
  intro pre e post hsplit hfe
  rcases append_split hsplit with ⟨post1, h1, h2⟩ | ⟨pre2, -, h2⟩
  · cases pre with
    | nil =>
      simp only [List.nil_append, List.cons.injEq] at h1
      obtain ⟨rfl, rfl⟩ := h1
      rw [hfail hfe.2] at h2
      rw [h2, List.nil_append]
      rcases hhead with h | ⟨y, t, h, hy⟩
      · exact Or.inl h
      · exact Or.inr ⟨y, t, h, hy⟩
    | cons y pre' =>
      simp only [List.cons_append, List.cons.injEq] at h1
      obtain ⟨rfl, h1⟩ := h1
      have he : e ∈ rest := by rw [h1]; simp
      obtain ⟨⟨a, t, len, h3⟩, -⟩ := hfe
      exact absurd ⟨a, t, len, h3⟩ (hnr e he)
  · exact hL pre2 e post h2 hfe

/-- The completion loop of `datastream_close`, in all its outcomes. -/
theorem datastream_close_files_spec (env : Env) (rtagstr : Option String) :
    ∀ (fuel : Nat) (stream : DATASTREAM) (ab : Nat) (sys : Sys) (s' : DATASTREAM) (ab' : Nat)
      (sys' : Sys), stream.curfile ≤ fuel →
      datastream_close_files env rtagstr fuel stream ab sys = (s', ab', sys') →
      (∃ fl sz, s' = { stream with files := fl, ftagstrsize := sz, curfile := 0 }) ∧
      (∀ j, stream.curfile < j → getfile s'.files j = getfile stream.files j) ∧
      (ab ≠ 0 → ab' ≠ 0) ∧
      ∃ seg, sys'.trace = sys.trace ++ seg ∧
        (ab' = 0 → stream.type ≠ READ_STREAM → ∀ i, i ≤ stream.curfile →
          Completed stream.type (getfile stream.files i) (getfile s'.files i) seg) ∧
        (∀ rtag, rtagstr = some rtag →
          RtagBeforeFtag seg ∧ RtagFailureSkips seg ∧
          (∃ x rest, seg = x :: rest ∧ isRtagAttach x) ∧
          ((∃ e ∈ seg, isRtagFailure e) → ab' ≠ 0)) := by
  intro fuel
  induction fuel with
  | zero =>
    intro stream ab sys s' ab' sys' hcur h
    have hc0 : stream.curfile = 0 := by omega
    rw [datastream_close_files] at h
    obtain ⟨s1, ab1, sys1, hb⟩ : ∃ s1 ab1 sys1, attach_and_complete env rtagstr
      (decide (stream.type ≠ READ_STREAM)) stream ab sys = (s1, ab1, sys1) := ⟨_, _, _, rfl⟩
    rw [hb] at h
    obtain ⟨⟨fl, sz, hs1⟩, hfr, hmono, seg, htr, hcomp, -, hrt⟩ := attach_and_complete_spec hb
    have hres : s' = s1 ∧ ab' = ab1 ∧ sys' = sys1 := by
      simp only at h
      split_ifs at h <;> simp only [Prod.mk.injEq] at h <;> exact ⟨h.1.symm, h.2.1.symm, h.2.2.symm⟩
    obtain ⟨rfl, rfl, rfl⟩ := hres
    refine ⟨⟨fl, sz, by rw [hs1, ← hc0]⟩, fun j hj => hfr j (by omega), hmono, seg, htr, ?_, ?_⟩
    · intro h0 hty i hi
      have hi0 : i = stream.curfile := by omega
      rw [hi0]
      exact hcomp h0 (by simpa using hty)
    · intro rtag hr
      obtain ⟨x, rest, hseg, hx, hfail, hset, hnr, hF⟩ := hrt rtag hr
      have e1 : seg = x :: rest ++ [] := by simp [hseg]
      refine ⟨?_, ?_, ⟨x, rest, hseg, hx⟩, ?_⟩
      · rw [e1]
        exact rtagBeforeFtag_round hx hset (fun h => (hfail h).1) hF
          (fun pre e post hd h _ => by simp at h)
      · rw [e1]
        exact rtagFailureSkips_round (fun h => (hfail h).1) hnr
          (fun pre e post h _ => by simp at h) (Or.inl rfl)
      · rintro ⟨e, he, hfe⟩
        rw [hseg] at he
        rcases List.mem_cons.mp he with rfl | he
        · exact (hfail hfe.2).2.1
        · exact absurd hfe.1 (hnr e he)
  | succ f ih =>
    intro stream ab sys s' ab' sys' hcur h
    rw [datastream_close_files] at h
    obtain ⟨s1, ab1, sys1, hb⟩ : ∃ s1 ab1 sys1, attach_and_complete env rtagstr
      (decide (stream.type ≠ READ_STREAM)) stream ab sys = (s1, ab1, sys1) := ⟨_, _, _, rfl⟩
    rw [hb] at h
    obtain ⟨⟨fl, sz, hs1⟩, hfr, hmono, seg, htr, hcomp, -, hrt⟩ := attach_and_complete_spec hb
    have hcur1 : s1.curfile = stream.curfile := by rw [hs1]
    have hty1 : s1.type = stream.type := by rw [hs1]
    simp only at h
    by_cases hc0 : s1.curfile = 0
    · rw [if_pos hc0] at h
      simp only [Prod.mk.injEq] at h
      obtain ⟨rfl, rfl, rfl⟩ := h
      rw [hcur1] at hc0
      refine ⟨⟨fl, sz, by rw [hs1, ← hc0]⟩, fun j hj => hfr j (by omega), hmono, seg, htr, ?_, ?_⟩
      · intro h0 hty i hi
        have hi0 : i = stream.curfile := by omega
        rw [hi0]
        exact hcomp h0 (by simpa using hty)
      · intro rtag hr
        obtain ⟨x, rest, hseg, hx, hfail, hset, hnr, hF⟩ := hrt rtag hr
        have e1 : seg = x :: rest ++ [] := by simp [hseg]
        refine ⟨?_, ?_, ⟨x, rest, hseg, hx⟩, ?_⟩
        · rw [e1]
          exact rtagBeforeFtag_round hx hset (fun h => (hfail h).1) hF
            (fun pre e post hd h _ => by simp at h)
        · rw [e1]
          exact rtagFailureSkips_round (fun h => (hfail h).1) hnr
            (fun pre e post h _ => by simp at h) (Or.inl rfl)
        · rintro ⟨e, he, hfe⟩
          rw [hseg] at he
          rcases List.mem_cons.mp he with rfl | he
          · exact (hfail hfe.2).2.1
          · exact absurd hfe.1 (hnr e he)
    · rw [if_neg hc0] at h
      obtain ⟨⟨fl2, sz2, hs2⟩, hfr2, hmono2, seg2, htr2, hcomp2, hrt2⟩ :=
        ih { s1 with curfile := s1.curfile - 1 } ab1 sys1 s' ab' sys'
          (by simp only; omega) h
      simp only at hfr2 hcomp2
      refine ⟨⟨fl2, sz2, by rw [hs2, hs1]⟩, ?_, fun h => hmono2 (hmono h), seg ++ seg2,
        by rw [htr2, htr, List.append_assoc], ?_, ?_⟩
      · intro j hj
        rw [hfr2 j (by omega)]
        exact hfr j (by omega)
      · intro h0 hty i hi
        have hab1 : ab1 = 0 := by
          by_contra hne
          exact hmono2 hne h0
        by_cases hi0 : i = stream.curfile
        · rw [hi0, hfr2 _ (by omega)]
          exact (hcomp hab1 (by simpa using hty)).mono (fun e he => List.mem_append_left _ he)
        · have := hcomp2 h0 (by rw [hty1]; exact hty) i (by omega)
          rw [hfr i hi0, hty1] at this
          exact this.mono (fun e he => List.mem_append_right _ he)
      · intro rtag hr
        obtain ⟨x, rest, hseg, hx, hfail, hset, hnr, hF⟩ := hrt rtag hr
        obtain ⟨hB, hS, ⟨y, tail', hy, hyx⟩, hfl⟩ := hrt2 rtag hr
        have e1 : seg ++ seg2 = x :: rest ++ seg2 := by rw [hseg]
        refine ⟨?_, ?_, ⟨x, rest ++ seg2, by rw [hseg]; rfl, hx⟩, ?_⟩
        · rw [e1]
          exact rtagBeforeFtag_round hx hset (fun h => (hfail h).1) hF hB
        · rw [e1]
          exact rtagFailureSkips_round (fun h => (hfail h).1) hnr hS
            (Or.inr ⟨y, tail', hy, hyx⟩)
        · rintro ⟨e, he, hfe⟩
          rcases List.mem_append.mp he with he | he
          · rw [hseg] at he
            rcases List.mem_cons.mp he with rfl | he
            · exact hmono2 (hfail hfe.2).2.1
            · exact absurd hfe.1 (hnr e he)
          · exact hfl ⟨e, he, hfe⟩

theorem Grows.refl (P : Call → Prop) (sys : Sys) : Grows P sys sys := ⟨[], by simp, by simp⟩

theorem Grows.trans {P : Call → Prop} {a b c : Sys} (h1 : Grows P a b) (h2 : Grows P b c) :
    Grows P a c := by
  obtain ⟨s1, e1, p1⟩ := h1
  obtain ⟨s2, e2, p2⟩ := h2
  refine ⟨s1 ++ s2, by rw [e2, e1, List.append_assoc], ?_⟩
  intro e he
  rcases List.mem_append.mp he with h | h
  · exact p1 e h
  · exact p2 e h

theorem Grows.of_trace_eq {P : Call → Prop} {a b c : Sys} (h1 : Grows P a b)
    (h : c.trace = b.trace) : Grows P a c := by
  obtain ⟨s1, e1, p1⟩ := h1
  exact ⟨s1, by rw [h, e1], p1⟩

theorem Grows.step {P : Call → Prop} {a b : Sys} (h1 : Grows P a b) (env : Env) (c : Call)
    (hc : P c) : Grows P a (Marfs.call env b c).2 := by
  refine h1.trans ⟨[(c, (Marfs.call env b c).1)], rfl, ?_⟩
  intro e he
  rw [List.mem_singleton.mp he]
  exact hc

theorem Grows.alloc {P : Call → Prop} {a b : Sys} (h1 : Grows P a b) (env : Env) :
    Grows P a (Marfs.malloc env b).2 := h1.of_trace_eq rfl

theorem Grows.errno {P : Call → Prop} {a b : Sys} (h1 : Grows P a b) (e : Nat) :
    Grows P a { b with errno := e } := h1.of_trace_eq rfl

theorem open_current_obj_header_stream (env : Env) (s : DATASTREAM) (sys : Sys) :
    ∃ dh, (open_current_obj_header env s sys).2.1 = { s with datahandle := dh } := by
  unfold open_current_obj_header
  simp only
  split_ifs <;> exact ⟨_, rfl⟩

theorem open_current_obj_header_grows (env : Env) (s : DATASTREAM) (sys : Sys) :
    Grows Call.notRead sys (open_current_obj_header env s sys).2.2 := by
  unfold open_current_obj_header
  simp only
  split_ifs <;>
    repeat (first
      | exact Grows.refl _ _
      | refine Grows.step ?_ _ _ trivial
      | refine Grows.errno ?_ _
      | refine Grows.alloc ?_ _)

theorem open_current_obj_stream (env : Env) (s : DATASTREAM) (sys : Sys) :
    ∃ dh, (open_current_obj env s sys).2.1 = { s with datahandle := dh } := by
  unfold open_current_obj
  simp only
  repeat' (first | split_ifs | split)
  all_goals first
    | exact ⟨_, rfl⟩
    | (obtain ⟨dh, h1⟩ := open_current_obj_header_stream env
        { s with datahandle := some _ } (call env (malloc env sys).2 _).2
       exact ⟨dh, by rw [h1]⟩)

theorem open_current_obj_grows (env : Env) (s : DATASTREAM) (sys : Sys) :
    Grows Call.notRead sys (open_current_obj env s sys).2.2 := by
  unfold open_current_obj
  simp only
  repeat' (first | split_ifs | split)
  all_goals
    repeat (first
      | exact Grows.refl _ _
      | refine Grows.trans ?_ (open_current_obj_header_grows env _ _)
      | refine Grows.step ?_ _ _ trivial
      | refine Grows.errno ?_ _
      | refine Grows.alloc ?_ _)

theorem close_current_obj_stream (env : Env) (s : DATASTREAM) (sys : Sys) :
    (close_current_obj env s sys).2.1 = { s with datahandle := none } := by
  unfold close_current_obj close_current_obj_rtag
  simp only
  split
  · split_ifs <;> rfl
  · rename_i h0
    cases s
    simp only at h0
    subst h0
    rfl

theorem close_current_obj_grows (env : Env) (s : DATASTREAM) (sys : Sys) :
    Grows Call.notRead sys (close_current_obj env s sys).2.2.2 := by
  unfold close_current_obj close_current_obj_rtag
  simp only
  split
  · split_ifs <;>
    repeat (first
      | exact Grows.refl _ _
      | refine Grows.step ?_ _ _ trivial
      | refine Grows.errno ?_ _
      | refine Grows.alloc ?_ _)
  · exact Grows.refl _ _

theorem putfinfo_stream (env : Env) (s : DATASTREAM) (sys : Sys) :
    ∃ fl off, (putfinfo env s sys).2.1 = { s with finfostrlen := fl, offset := off } := by
  unfold putfinfo
  simp only
  split_ifs <;> exact ⟨_, _, rfl⟩

theorem putfinfo_grows (env : Env) (s : DATASTREAM) (sys : Sys) :
    Grows Call.notRead sys (putfinfo env s sys).2.2 := by
  unfold putfinfo
  simp only
  split_ifs <;>
    repeat (first
      | exact Grows.refl _ _
      | refine Grows.step ?_ _ _ trivial
      | refine Grows.errno ?_ _
      | refine Grows.alloc ?_ _)

theorem finfile_open_spec (env : Env) (s : DATASTREAM) (sys : Sys) :
    (∃ dh, (finfile_open env s sys).2.1 = { s with datahandle := dh }) ∧
    Grows Call.notRead sys (finfile_open env s sys).2.2 := by
  unfold finfile_open
  split_ifs
  · exact ⟨open_current_obj_stream env s sys, open_current_obj_grows env s sys⟩
  · exact ⟨⟨s.datahandle, rfl⟩, Grows.refl _ _⟩

theorem finfile_emit_spec (env : Env) (s : DATASTREAM) (sys : Sys) :
    (∃ fl off ob fi, (finfile_emit env s sys).2.1 =
      { s with finfostrlen := fl, offset := off, objno := ob, finfo := fi } ∧
      (ob = s.objno ∨ ob = uadd s.objno 1)) ∧
    Grows Call.notRead sys (finfile_emit env s sys).2.2 := by
  unfold finfile_emit
  simp only
  obtain ⟨fl, off, h1⟩ := putfinfo_stream env { s with finfo := { s.finfo with eof := 1 } } sys
  have h2 := putfinfo_grows env { s with finfo := { s.finfo with eof := 1 } } sys
  split_ifs
  · rw [h1]
    exact ⟨⟨_, _, _, _, rfl, Or.inl rfl⟩, h2⟩
  · rw [h1]
    exact ⟨⟨_, _, _, _, rfl, Or.inl rfl⟩, h2⟩
  · exact ⟨⟨_, _, _, _, rfl, Or.inr rfl⟩, Grows.refl _ _⟩

theorem land_three (s : Nat) : s &&& 3 = s % 4 := Nat.and_pow_two_sub_one_eq_mod s 2

theorem completedState_fin (s : Nat) :
    completedState ((s &&& NOT_DATASTATE) ||| FTAG_FIN) = completedState s := by
  unfold completedState NOT_DATASTATE FTAG_FIN FTAG_COMP FTAG_READABLE
  apply Nat.eq_of_testBit_eq
  intro i
  simp only [Nat.testBit_lor, Nat.testBit_land]
  rcases i with _ | _ | i <;> simp [Nat.testBit_succ]

theorem writeable_fin (s : Nat) :
    ((s &&& NOT_DATASTATE) ||| FTAG_FIN) &&& FTAG_WRITEABLE = s &&& FTAG_WRITEABLE := by
  unfold NOT_DATASTATE FTAG_FIN FTAG_WRITEABLE
  apply Nat.eq_of_testBit_eq
  intro i
  simp only [Nat.testBit_lor, Nat.testBit_land]
  rcases i with _ | _ | _ | i <;> simp [Nat.testBit_succ]

/-- What `finfile` changes: the data handle, the recovery-info buffer, the
cursor within the stream's objects, and the state of the current file, whose
completed form stays the same. -/
theorem finfile_spec (env : Env) (s : DATASTREAM) (sys : Sys) :
    (∃ dh fl off ob fi fls, (finfile env s sys).2.1 =
      { s with datahandle := dh, finfostrlen := fl, offset := off, objno := ob, finfo := fi,
               files := fls } ∧ (ob = s.objno ∨ ob = uadd s.objno 1)) ∧
    (∀ j, j ≠ s.curfile → getfile (finfile env s sys).2.1.files j = getfile s.files j) ∧
    (∃ st, getfile (finfile env s sys).2.1.files s.curfile = { s.cur with ftag.state := st } ∧
      completedState st = completedState s.cur.ftag.state ∧
      st &&& FTAG_WRITEABLE = s.cur.ftag.state &&& FTAG_WRITEABLE) ∧
    Grows Call.notRead sys (finfile env s sys).2.2 := by
  obtain ⟨⟨dh, h1⟩, g1⟩ := finfile_open_spec env s sys
  obtain ⟨⟨fl, off, ob, fi, h2, hob⟩, g2⟩ := finfile_emit_spec env
    (finfile_open env s sys).2.1 (finfile_open env s sys).2.2
  have h2' : (finfile_emit env (finfile_open env s sys).2.1 (finfile_open env s sys).2.2).2.1 =
      { s with datahandle := dh, finfostrlen := fl, offset := off, objno := ob, finfo := fi } := by
    rw [h2, h1]
  rw [h1] at hob
  simp only at hob
  clear h2
  have hsame : ∃ st, getfile s.files s.curfile = { s.cur with ftag.state := st } ∧
      completedState st = completedState s.cur.ftag.state ∧
      st &&& FTAG_WRITEABLE = s.cur.ftag.state &&& FTAG_WRITEABLE := ⟨_, rfl, rfl, rfl⟩
  unfold finfile
  simp only
  split_ifs
  · rw [h1]
    exact ⟨⟨_, _, _, _, _, _, rfl, Or.inl rfl⟩, fun _ _ => rfl, hsame, g1⟩
  · rw [h2']
    exact ⟨⟨_, _, _, _, _, _, rfl, hob⟩, fun _ _ => rfl, hsame, g1.trans g2⟩
  · rw [h2']
    refine ⟨⟨_, _, _, _, _, _, rfl, hob⟩, ?_, ?_, g1.trans g2⟩
    · intro j hj
      exact setstate_files_ne _ _ _ _ hj
    · refine ⟨_, setstate_files_same _ _ _, ?_, ?_⟩
      · exact completedState_fin _
      · exact writeable_fin _
  · exact ⟨⟨_, _, _, _, _, _, rfl, Or.inl rfl⟩, fun _ _ => rfl, hsame, Grows.refl _ _⟩

theorem edit_putfinfo_spec (env : Env) (s : DATASTREAM) (sys : Sys) :
    (∃ fl off, (edit_putfinfo env s sys).2.1 = { s with finfostrlen := fl, offset := off }) ∧
    Grows Call.notRead sys (edit_putfinfo env s sys).2.2 := by
  unfold edit_putfinfo
  split_ifs
  · exact ⟨putfinfo_stream env s sys, putfinfo_grows env s sys⟩
  · exact ⟨⟨_, _, rfl⟩, Grows.refl _ _⟩

/-- The first part of `datastream_close`, when it lets the close go on. -/
theorem datastream_close_prepare_spec {env : Env} {s : DATASTREAM} {sys : Sys}
    {s1 : DATASTREAM} {sys1 : Sys}
    (h : datastream_close_prepare env s sys = (Exit.done, s1, sys1)) :
    s1.type = s.type ∧ s1.curfile = s.curfile ∧
    (∀ j, j ≠ s.curfile → getfile s1.files j = getfile s.files j) ∧
    (∃ st, getfile s1.files s.curfile = { s.cur with ftag.state := st } ∧
      completedState st = completedState s.cur.ftag.state ∧
      st &&& FTAG_WRITEABLE = s.cur.ftag.state &&& FTAG_WRITEABLE) ∧
    (s.type = EDIT_STREAM → s.cur.ftag.state &&& FTAG_WRITEABLE ≠ 0) ∧
    (s.type = CREATE_STREAM → s.cur.ftag.state &&& FTAG_WRITEABLE = 0) ∧
    Grows Call.notRead sys sys1 := by
  have hsame : ∃ st, getfile s.files s.curfile = { s.cur with ftag.state := st } ∧
      completedState st = completedState s.cur.ftag.state ∧
      st &&& FTAG_WRITEABLE = s.cur.ftag.state &&& FTAG_WRITEABLE := ⟨_, rfl, rfl, rfl⟩
  unfold datastream_close_prepare at h
  simp only at h
  split_ifs at h
  all_goals simp only [Prod.mk.injEq] at h
  all_goals try (exact absurd h.1 (by decide))
  · obtain ⟨-, rfl, rfl⟩ := h
    obtain ⟨⟨dh, fl, off, ob, fi, fls, h1, -⟩, h2, h3, g⟩ := finfile_spec env s sys
    refine ⟨by rw [h1], by rw [h1], h2, h3, fun he => ?_,
      fun _ => by simpa using ‹¬ s.cur.ftag.state &&& FTAG_WRITEABLE ≠ 0›, g⟩
    rw [‹s.type = CREATE_STREAM›] at he
    cases he
  · obtain ⟨-, rfl, rfl⟩ := h
    obtain ⟨⟨fl, off, h1⟩, g⟩ := edit_putfinfo_spec env s sys
    rw [h1]
    refine ⟨rfl, rfl, fun _ _ => rfl, hsame, fun _ => ?_,
      fun hc => absurd hc ‹¬ s.type = CREATE_STREAM›, g⟩
    intro h0
    exact ‹¬ (s.cur.ftag.state &&& FTAG_WRITEABLE = 0 ∨
      s.cur.ftag.state &&& FTAG_DATASTATE ≠ FTAG_FIN)› (Or.inl h0)
  · obtain ⟨-, rfl, rfl⟩ := h
    exact ⟨rfl, rfl, fun _ _ => rfl, hsame, fun he => absurd he ‹¬ s.type = EDIT_STREAM›,
      fun hc => absurd hc ‹¬ s.type = CREATE_STREAM›, Grows.refl _ _⟩

/-! ## `datastream_close` -/

theorem completedState_datastate (s : Nat) : completedState s &&& FTAG_DATASTATE = FTAG_COMP := by
  unfold completedState NOT_DATASTATE FTAG_COMP FTAG_READABLE FTAG_DATASTATE FTAG_COMP
  apply Nat.eq_of_testBit_eq
  intro i
  simp only [Nat.testBit_lor, Nat.testBit_land]
  rcases i with _ | _ | i <;> simp [Nat.testBit_succ]

theorem completedState_readable (s : Nat) :
    completedState s &&& FTAG_READABLE = FTAG_READABLE := by
  unfold completedState NOT_DATASTATE FTAG_COMP FTAG_READABLE
  apply Nat.eq_of_testBit_eq
  intro i
  simp only [Nat.testBit_lor, Nat.testBit_land]
  rcases i with _ | _ | _ | _ | i <;> simp [Nat.testBit_succ]

theorem completedState_writeable (s : Nat) :
    completedState s &&& FTAG_WRITEABLE = s &&& FTAG_WRITEABLE := by
  unfold completedState NOT_DATASTATE FTAG_COMP FTAG_READABLE FTAG_WRITEABLE
  apply Nat.eq_of_testBit_eq
  intro i
  simp only [Nat.testBit_lor, Nat.testBit_land]
  rcases i with _ | _ | _ | i <;> simp [Nat.testBit_succ]

theorem completedState_exact (s : Nat) (hs : s < 16) (hw : s &&& FTAG_WRITEABLE = 0) :
    completedState s = FTAG_COMP ||| FTAG_READABLE := by
  unfold completedState NOT_DATASTATE FTAG_COMP FTAG_READABLE
  unfold FTAG_WRITEABLE at hw
  interval_cases s <;> first | rfl | (exact absurd hw (by decide))

theorem completedState_of_writeable (s : Nat) (hw : s &&& FTAG_WRITEABLE ≠ 0) :
    completedState s ≠ FTAG_COMP ||| FTAG_READABLE := by
  intro h
  have h1 := completedState_writeable s
  rw [h] at h1
  apply hw
  rw [← h1]
  decide

/-- The shape of a `datastream_close` that returns 0. -/
theorem datastream_close_done {env : Env} {tgtstream : DATASTREAM} {sys : Sys}
    (hret : (datastream_close env (some (some tgtstream)) sys).1 = 0) :
    (datastream_close env (some (some tgtstream)) sys).2.1 = none ∧
    ∃ s1 sys1 s2 rtagstr sys2 s3 sys3,
      datastream_close_prepare env tgtstream sys = (Exit.done, s1, sys1) ∧
      close_current_obj env s1 sys1 = (0, s2, rtagstr, sys2) ∧
      datastream_close_files env rtagstr s2.curfile s2 0 sys2 = (s3, 0, sys3) ∧
      datastream_close_body env tgtstream sys = (Exit.done, s3, sys3) := by
  obtain ⟨x, s3, sys3, hb⟩ : ∃ x s3 sys3, datastream_close_body env tgtstream sys = (x, s3, sys3) :=
    ⟨_, _, _, rfl⟩
  have hx : x = Exit.done := by
    unfold datastream_close at hret
    simp only [hb] at hret
    cases x <;> simp only [finish_exit] at hret <;> first | rfl | exact absurd hret (by decide)
  subst hx
  constructor
  · unfold datastream_close
    simp only [hb, finish_exit]
  have hb0 := hb
  unfold datastream_close_body at hb
  split_ifs at hb
  · simp only [Prod.mk.injEq] at hb
    exact absurd hb.1 (by decide)
  · obtain ⟨x1, s1, sys1, hp⟩ : ∃ x1 s1 sys1,
      datastream_close_prepare env tgtstream sys = (x1, s1, sys1) := ⟨_, _, _, rfl⟩
    rw [hp] at hb
    cases x1 <;> simp only [Prod.mk.injEq] at hb <;> try (exact absurd hb.1 (by decide))
    obtain ⟨cres, s2, rtagstr, sys2, hc⟩ : ∃ cres s2 rtagstr sys2,
      close_current_obj env s1 sys1 = (cres, s2, rtagstr, sys2) := ⟨_, _, _, _, rfl⟩
    rw [hc] at hb
    simp only at hb
    obtain ⟨s3', ab, sys3', hl⟩ : ∃ s3' ab sys3',
      datastream_close_files env rtagstr s2.curfile s2 0 sys2 = (s3', ab, sys3') :=
      ⟨_, _, _, rfl⟩
    rw [hl] at hb
    simp only at hb
    split_ifs at hb with hcres hab
    · simp only [Prod.mk.injEq] at hb
      exact absurd hb.1 (by decide)
    · simp only [Prod.mk.injEq] at hb
      exact absurd hb.1 (by decide)
    · simp only [Prod.mk.injEq] at hb
      obtain ⟨-, rfl, rfl⟩ := hb
      have hab0 : ab = 0 := by simpa using hab
      have hc0 : cres = 0 := by simpa using hcres
      subst hab0 hc0
      exact ⟨s1, sys1, s2, rtagstr, sys2, _, _, hp, hc, hl, hb0⟩

/-- C1 (amended). After a successful `datastream_close` on a `CREATE_STREAM` or
`EDIT_STREAM`, the caller's reference is `NULL` and every tracked file (index
`0..curfile` at entry) has been completed: its handle is closed, its reference
file was truncated to its `availbytes`, and its tag, in memory and as written to
the FTAG attribute, is the old tag with state
`(COMPLETE | READABLE) | (old state & ~DATASTATE)`: data-state COMPLETE,
READABLE set, WRITEABLE as before.  On a `CREATE_STREAM` no tracked file was
WRITEABLE, so a state without unknown bits becomes exactly `COMPLETE|READABLE`;
on an `EDIT_STREAM` the current file was WRITEABLE and stays so. -/
theorem datastream_close_completes (env : Env) (tgtstream : DATASTREAM) (sys : Sys)
    (htype : tgtstream.type = CREATE_STREAM ∨ tgtstream.type = EDIT_STREAM)
    (hret : (datastream_close env (some (some tgtstream)) sys).1 = 0) :
    (datastream_close env (some (some tgtstream)) sys).2.1 = none ∧
    ∃ s' sys' seg, datastream_close_body env tgtstream sys = (Exit.done, s', sys') ∧
      sys'.trace = sys.trace ++ seg ∧
      (∀ i, i ≤ tgtstream.curfile →
        (getfile s'.files i).metahandle = none ∧
        (getfile s'.files i).ftag = { (getfile tgtstream.files i).ftag with
          state := completedState (getfile tgtstream.files i).ftag.state } ∧
        (∃ r, (Call.ftruncate (getfile tgtstream.files i).metahandle
          (getfile tgtstream.files i).ftag.availbytes, r) ∈ seg ∧ r.ret = 0) ∧
        (∃ len r, (Call.fsetxattr (getfile tgtstream.files i).metahandle FTAG_NAME
          (.ftag { (getfile tgtstream.files i).ftag with
            state := completedState (getfile tgtstream.files i).ftag.state }) len, r) ∈ seg ∧
          r.ret = 0) ∧
        completedState (getfile tgtstream.files i).ftag.state &&& FTAG_DATASTATE = FTAG_COMP ∧
        completedState (getfile tgtstream.files i).ftag.state &&& FTAG_READABLE
          = FTAG_READABLE ∧
        completedState (getfile tgtstream.files i).ftag.state &&& FTAG_WRITEABLE
          = (getfile tgtstream.files i).ftag.state &&& FTAG_WRITEABLE ∧
        (tgtstream.type = CREATE_STREAM → (getfile tgtstream.files i).ftag.state < 16 →
          completedState (getfile tgtstream.files i).ftag.state
            = FTAG_COMP ||| FTAG_READABLE)) ∧
      (tgtstream.type = EDIT_STREAM →
        completedState tgtstream.cur.ftag.state ≠ FTAG_COMP ||| FTAG_READABLE) := by
  obtain ⟨href, s1, sys1, s2, rtagstr, sys2, s3, sys3, hp, hc, hl, hb⟩ :=
    datastream_close_done hret
  obtain ⟨hty1, hcur1, hfr1, ⟨st, hst, hcs, hws⟩, hedit, hcreate, g1⟩ :=
    datastream_close_prepare_spec hp
  have hs2 := close_current_obj_stream env s1 sys1
  have g2 := close_current_obj_grows env s1 sys1
  rw [hc] at hs2 g2
  simp only at hs2 g2
  have hcur2 : s2.curfile = tgtstream.curfile := by rw [hs2]; exact hcur1
  have hty2 : s2.type = tgtstream.type := by rw [hs2]; exact hty1
  have hfiles2 : s2.files = s1.files := by rw [hs2]
  obtain ⟨-, -, -, seg3, htr3, hcomp, -⟩ :=
    datastream_close_files_spec env rtagstr s2.curfile s2 0 sys2 s3 0 sys3 (le_refl _) hl
  obtain ⟨seg1, htr1, -⟩ := g1
  obtain ⟨seg2, htr2, -⟩ := g2
  have hnr : s2.type ≠ READ_STREAM := by
    rw [hty2]
    rcases htype with h | h <;> rw [h] <;> decide
  refine ⟨href, s3, sys3, seg1 ++ seg2 ++ seg3, hb,
    by rw [htr3, htr2, htr1]; simp, ?_, ?_⟩
  · intro i hi
    have hC := @Completed.mono _ _ _ _ (seg1 ++ seg2 ++ seg3)
      (hcomp rfl hnr i (by rw [hcur2]; exact hi)) (fun e he => List.mem_append_right _ he)
    rw [hfiles2, hty2] at hC
    -- relate the file as the loop found it to the file at entry
    have hfile : ∃ st', getfile s1.files i =
        { getfile tgtstream.files i with ftag.state := st' } ∧
        completedState st' = completedState (getfile tgtstream.files i).ftag.state ∧
        st' &&& FTAG_WRITEABLE = (getfile tgtstream.files i).ftag.state &&& FTAG_WRITEABLE := by
      by_cases hic : i = tgtstream.curfile
      · subst hic
        exact ⟨st, hst, hcs, hws⟩
      · exact ⟨_, by rw [hfr1 i hic], rfl, rfl⟩
    obtain ⟨st', hf, hcs', hws'⟩ := hfile
    rw [hf] at hC
    obtain ⟨⟨-, hadmC, -⟩, hm, hft, htrunc, hset⟩ := hC
    simp only [hcs'] at hft htrunc hset hadmC
    refine ⟨hm, hft, htrunc, hset, completedState_datastate _, completedState_readable _,
      completedState_writeable _, ?_⟩
    intro hct hlt
    apply completedState_exact _ hlt
    rw [← hws']
    exact hadmC hct
  · intro hty
    exact completedState_of_writeable _ (hedit hty)

/-- Closing a fresh `CREATE_STREAM` with one empty file. -/
theorem datastream_close_completes_witness :
    (firstCreated 0 0).type = CREATE_STREAM ∧
    (datastream_close (okEnv default) (some (some (firstCreated 0 0))) sampleSys).1 = 0 ∧
    (datastream_close (okEnv default) (some (some (firstCreated 0 0))) sampleSys).2.1 = none ∧
    ftagStates (datastream_close (okEnv default) (some (some (firstCreated 0 0)))
      sampleSys).2.2.trace = [FTAG_COMP ||| FTAG_READABLE] :=
  ⟨by decide!, by decide!,
    (datastream_close_completes (okEnv default) (firstCreated 0 0) sampleSys
      (Or.inl (by decide!)) (by decide!)).1, by decide!⟩

/-- C1 as stated fails on an `EDIT_STREAM`: closing the stream opened on a
finalized, WRITEABLE file succeeds and writes an FTAG whose state is
`COMPLETE|READABLE|WRITEABLE` (15), not `COMPLETE|READABLE` (11). -/
theorem datastream_close_edit_counterexample :
    editStream.type = EDIT_STREAM ∧
    (datastream_close (okEnv editTag) (some (some editStream)) sampleSys).1 = 0 ∧
    ftagStates (datastream_close (okEnv editTag) (some (some editStream)) sampleSys).2.2.trace
      = [FTAG_COMP ||| FTAG_READABLE ||| FTAG_WRITEABLE] ∧
    FTAG_COMP ||| FTAG_READABLE ||| FTAG_WRITEABLE ≠ FTAG_COMP ||| FTAG_READABLE := by
  decide!


/-! ## `datastream_close` on an `EDIT_STREAM` -/

/-- C11 (amended). `datastream_close` admits an `EDIT_STREAM` only if its
current file is WRITEABLE and in data-state FINALIZED.  A stream whose current
file is in data-state COMPLETE is rejected whatever the backend answers: the
call returns -1 with `errno = EINVAL`, the stream is freed and the caller's
reference is set to `NULL`, and apart from what `freestream` does no backend
call is made. -/
theorem datastream_close_edit_complete_rejected (env : Env) (tgtstream : DATASTREAM) (sys : Sys)
    (htype : tgtstream.type = EDIT_STREAM) :
    (tgtstream.cur.ftag.state &&& FTAG_DATASTATE = FTAG_COMP →
      datastream_close env (some (some tgtstream)) sys =
        (-1, none, { freestream env tgtstream sys with errno := EINVAL })) ∧
    ((datastream_close env (some (some tgtstream)) sys).1 = 0 →
      tgtstream.cur.ftag.state &&& FTAG_WRITEABLE ≠ 0 ∧
      tgtstream.cur.ftag.state &&& FTAG_DATASTATE = FTAG_FIN) := by
  have hne : ¬ (tgtstream.type ≠ EDIT_STREAM ∧ tgtstream.type ≠ CREATE_STREAM ∧
      tgtstream.type ≠ READ_STREAM) := fun h => h.1 htype
  have hnc : tgtstream.type ≠ CREATE_STREAM := by rw [htype]; decide
  have hrej : (tgtstream.cur.ftag.state &&& FTAG_WRITEABLE = 0 ∨
      tgtstream.cur.ftag.state &&& FTAG_DATASTATE ≠ FTAG_FIN) →
      datastream_close env (some (some tgtstream)) sys =
        (-1, none, { freestream env tgtstream sys with errno := EINVAL }) := by
    intro hg
    simp only [datastream_close, datastream_close_body, datastream_close_prepare, if_neg hne,
      if_neg hnc, if_pos htype, if_pos hg, finish_exit]
  constructor
  · intro hc
    apply hrej
    right
    rw [hc]
    decide
  · intro h0
    by_contra hcon
    have hg : tgtstream.cur.ftag.state &&& FTAG_WRITEABLE = 0 ∨
        tgtstream.cur.ftag.state &&& FTAG_DATASTATE ≠ FTAG_FIN := by
      by_cases hw : tgtstream.cur.ftag.state &&& FTAG_WRITEABLE = 0
      · exact Or.inl hw
      · right
        intro hf
        exact hcon ⟨hw, hf⟩
    rw [hrej hg] at h0
    have h1 : (-1 : Int) = 0 := h0
    exact absurd h1 (by decide)

/-- The rejection at the stream opened for editing on a COMPLETE file. -/
theorem datastream_close_edit_complete_rejected_witness :
    completeEditStream.type = EDIT_STREAM ∧
    completeEditStream.cur.ftag.state &&& FTAG_DATASTATE = FTAG_COMP ∧
    datastream_close (okEnv completeTag) (some (some completeEditStream)) sampleSys =
      (-1, none, { freestream (okEnv completeTag) completeEditStream sampleSys with
        errno := EINVAL }) :=
  ⟨by decide!, by decide!,
    (datastream_close_edit_complete_rejected (okEnv completeTag) completeEditStream sampleSys
      (by decide!)).1 (by decide!)⟩

/-- C11 as stated fails: a COMPLETE file is opened for editing (the open
succeeds), every backend call succeeds, and `datastream_close` on the stream
returns -1 with `errno = EINVAL`; the only backend call made is the `close` of
the metadata handle by `freestream`, so no FTAG is written and nothing is
truncated. -/
theorem datastream_close_edit_complete_counterexample :
    (datastream_open (okEnv completeTag) (some none) EDIT_STREAM (some "/a")
      (some (samplePos 0 8192)) "ctag" sampleSys).1 = 0 ∧
    completeEditStream.type = EDIT_STREAM ∧
    completeEditStream.cur.ftag.state = FTAG_COMP ||| FTAG_READABLE ∧
    (datastream_close (okEnv completeTag) (some (some completeEditStream)) sampleSys).1 = -1 ∧
    (datastream_close (okEnv completeTag) (some (some completeEditStream))
      sampleSys).2.2.errno = EINVAL ∧
    (datastream_close (okEnv completeTag) (some (some completeEditStream))
      sampleSys).2.2.trace.map (fun e => e.1) = [Call.mdclose (some 1)] := by
  decide!

/-! ## `EINVAL` from `datastream_close` and `datastream_release` -/

/-- C13 (amended). `datastream_close` and `datastream_release` set `EINVAL` on
two kinds of paths.  For a `NULL` reference, a reference to `NULL`, or a stream
of an unsupported type they return -1 at once: the reference designates what it
designated before, nothing is freed and no backend call is made.  For a stream
of a supported type that fails the state gate of the call they also return -1
with `EINVAL`, but the stream is freed and the reference is set to `NULL`.  On
every other path the reference ends up `NULL` as well, so the reference to a
stream survives the call only when the stream type is unsupported. -/
theorem close_release_einval_reference (env : Env) (t : DATASTREAM) (sys : Sys) :
    (datastream_close env none sys = (-1, none, { sys with errno := EINVAL }) ∧
      datastream_close env (some none) sys = (-1, none, { sys with errno := EINVAL }) ∧
      datastream_release env none sys = (-1, none, { sys with errno := EINVAL }) ∧
      datastream_release env (some none) sys = (-1, none, { sys with errno := EINVAL })) ∧
    (t.type = ERROR_STREAM →
      datastream_close env (some (some t)) sys = (-1, some t, { sys with errno := EINVAL }) ∧
      datastream_release env (some (some t)) sys =
        (-1, some t, { sys with errno := EINVAL })) ∧
    (closeRejects t → datastream_close env (some (some t)) sys =
        (-1, none, { freestream env t sys with errno := EINVAL })) ∧
    (releaseRejects t → datastream_release env (some (some t)) sys =
        (-1, none, { freestream env t sys with errno := EINVAL })) ∧
    (t.type ≠ ERROR_STREAM → (datastream_close env (some (some t)) sys).2.1 = none ∧
      (datastream_release env (some (some t)) sys).2.1 = none) := by
  refine ⟨⟨rfl, rfl, rfl, rfl⟩, ?_, ?_, ?_, ?_⟩
  · intro ht
    have hu : t.type ≠ EDIT_STREAM ∧ t.type ≠ CREATE_STREAM ∧ t.type ≠ READ_STREAM := by
      rw [ht]; decide
    simp only [datastream_close, datastream_close_body, datastream_release,
      datastream_release_body, if_pos hu, finish_exit, and_self]
  · intro hr
    rcases hr with ⟨hc, hw⟩ | ⟨he, hg⟩
    · have hu : ¬ (t.type ≠ EDIT_STREAM ∧ t.type ≠ CREATE_STREAM ∧ t.type ≠ READ_STREAM) :=
        fun h => h.2.1 hc
      simp only [datastream_close, datastream_close_body, datastream_close_prepare, if_neg hu,
        if_pos hc, if_pos hw, finish_exit]
    · have hu : ¬ (t.type ≠ EDIT_STREAM ∧ t.type ≠ CREATE_STREAM ∧ t.type ≠ READ_STREAM) :=
        fun h => h.1 he
      have hnc : t.type ≠ CREATE_STREAM := by rw [he]; decide
      simp only [datastream_close, datastream_close_body, datastream_close_prepare, if_neg hu,
        if_neg hnc, if_pos he, if_pos hg, finish_exit]
  · rintro ⟨hc, hg⟩
    have hu : ¬ (t.type ≠ EDIT_STREAM ∧ t.type ≠ CREATE_STREAM ∧ t.type ≠ READ_STREAM) :=
      fun h => h.2.1 hc
    simp only [datastream_release, datastream_release_body, datastream_release_prepare, if_neg hu,
      if_pos hc, if_pos hg,
      finish_exit]
  · intro ht
    have hu : ¬ (t.type ≠ EDIT_STREAM ∧ t.type ≠ CREATE_STREAM ∧ t.type ≠ READ_STREAM) := by
      intro h
      cases hty : t.type
      · exact h.2.1 hty
      · exact h.1 hty
      · exact h.2.2 hty
      · exact ht hty
    have hfin : ∀ x : Exit × DATASTREAM × Sys, x.1 ≠ Exit.unsupported →
        (finish_exit env t x).2.1 = none := by
      rintro ⟨x, s, sy⟩ hx
      cases x
      · exact absurd rfl hx
      all_goals rfl
    constructor
    · apply hfin
      unfold datastream_close_body
      rw [if_neg hu]
      have hp : (datastream_close_prepare env t sys).1 ≠ Exit.unsupported := by
        unfold datastream_close_prepare
        simp only
        split_ifs <;> simp
      generalize datastream_close_prepare env t sys = p at hp
      obtain ⟨x, s, sy⟩ := p
      cases x
      · exact absurd rfl hp
      · simp
      · simp
      · simp only
        split_ifs <;> simp
    · apply hfin
      unfold datastream_release_body
      rw [if_neg hu]
      have hp : (datastream_release_prepare env t sys).1 ≠ Exit.unsupported := by
        unfold datastream_release_prepare
        simp only
        split_ifs <;> simp
      generalize datastream_release_prepare env t sys = p at hp
      obtain ⟨x, s, sy⟩ := p
      cases x
      · exact absurd rfl hp
      · simp
      · simp
      · simp only [datastream_release_finish]
        split_ifs <;> simp

/-- C13 as stated fails: `datastream_release` on a fresh `CREATE_STREAM` (its one
file is not extended) returns -1 with `errno = EINVAL`, yet the stream has been
freed (its metadata handle closed) and the reference is `NULL`. -/
theorem datastream_release_einval_counterexample :
    (datastream_release (okEnv default) (some (some (firstCreated 0 0))) sampleSys).1 = -1 ∧
    (datastream_release (okEnv default) (some (some (firstCreated 0 0)))
      sampleSys).2.2.errno = EINVAL ∧
    (datastream_release (okEnv default) (some (some (firstCreated 0 0))) sampleSys).2.1
      ≠ some (firstCreated 0 0) ∧
    (datastream_release (okEnv default) (some (some (firstCreated 0 0)))
      sampleSys).2.2.trace.map (fun e => e.1) = [Call.mdclose (firstCreated 0 0).cur.metahandle]
      := by
  decide!

/-! ## `linkfile` -/

/-- C17. `linkfile` returns 0 exactly when the first `linkref` succeeds, or it
fails leaving `errno = EEXIST`, the `unlink` of the target then succeeds or
leaves `errno = ENOENT`, and the second `linkref` succeeds.  A run makes at most
two `linkref` calls and at most one `unlink` call and no other call; a first
`linkref` that fails with another errno ends the run at once with -1, the
target not unlinked. -/
theorem linkfile_succeeds_iff (env : Env) (refpath tgtpath : String) (ctxt : Nat) (sys : Sys) :
    ((linkfile env refpath tgtpath ctxt sys).1 = 0 ↔
      (call env sys (.linkref ctxt refpath tgtpath)).1.ret = 0 ∨
      ((call env sys (.linkref ctxt refpath tgtpath)).1.ret ≠ 0 ∧
        (call env sys (.linkref ctxt refpath tgtpath)).2.errno = EEXIST ∧
        ((call env (call env sys (.linkref ctxt refpath tgtpath)).2
            (.unlink ctxt tgtpath)).1.ret = 0 ∨
          (call env (call env sys (.linkref ctxt refpath tgtpath)).2
            (.unlink ctxt tgtpath)).2.errno = ENOENT) ∧
        (call env (call env (call env sys (.linkref ctxt refpath tgtpath)).2
            (.unlink ctxt tgtpath)).2 (.linkref ctxt refpath tgtpath)).1.ret = 0)) ∧
    (∃ seg, (linkfile env refpath tgtpath ctxt sys).2.trace = sys.trace ++ seg ∧
      linkrefCalls seg ≤ 2 ∧ unlinkCalls seg ≤ 1 ∧
      linkrefCalls seg + unlinkCalls seg = seg.length) ∧
    ((call env sys (.linkref ctxt refpath tgtpath)).1.ret ≠ 0 →
      (call env sys (.linkref ctxt refpath tgtpath)).2.errno ≠ EEXIST →
      linkfile env refpath tgtpath ctxt sys =
        (-1, (call env sys (.linkref ctxt refpath tgtpath)).2) ∧
      unlinkCalls (linkfile env refpath tgtpath ctxt sys).2.trace = unlinkCalls sys.trace) := by
  refine ⟨?_, ?_, ?_⟩
  · unfold linkfile
    simp only
    split_ifs <;> simp_all
    tauto
  · unfold linkfile
    simp only
    split_ifs <;> simp only [call_trace, List.append_assoc] <;>
      exact ⟨_, rfl, by simp [linkrefCalls, List.countP_cons, Call.isLinkref],
        by simp [unlinkCalls, List.countP_cons, Call.isUnlink],
        by simp [linkrefCalls, unlinkCalls, List.countP_cons, Call.isLinkref, Call.isUnlink]⟩
  · intro h1 h2
    unfold linkfile
    simp only [h1, h2, ne_eq, not_false_eq_true, if_true, true_and]
    rw [call_trace]
    simp [unlinkCalls, List.countP_append, List.countP_cons, Call.isUnlink]

/-! ## `datastream_setrecoverypath` -/

theorem setpath_self (s : DATASTREAM) : setpath s s.finfo.path = s := rfl

theorem setpath_setpath (s : DATASTREAM) (p q : Option String) :
    setpath (setpath s p) q = setpath s q := rfl

theorem setrecoverybytes_restore (s : DATASTREAM) (sz n : Nat) (i : Nat) :
    getfile (setrecoverybytes { setrecoverybytes s n with ftagstrsize := sz }
      s.cur.ftag.recoverybytes).files i = getfile s.files i := by
  unfold setrecoverybytes DATASTREAM.cur
  simp only
  by_cases h : i = s.curfile
  · subst h
    simp only [getfile_setfile_same]
  · rw [getfile_setfile_ne _ _ _ _ (Ne.symm h), getfile_setfile_ne _ _ _ _ (Ne.symm h)]

/-- C14. `datastream_setrecoverypath` (on a non-`NULL` stream and path) is
rejected with `EINVAL` on a `CREATE_STREAM` whose current file has
`bytes != 0`; on an `EDIT_STREAM` it fails, with `ENAMETOOLONG` once the path
has been duplicated, when the recovery info encoded with the new path is longer
than the file's `recoverybytes`; on an `EDIT_STREAM` the file list, and with it
`recoverybytes`, is never changed; and whenever the call fails, the staged
recovery info and every tracked file are what they were before the call. -/
theorem datastream_setrecoverypath_failures (env : Env) (stream : DATASTREAM)
    (recovpath : String) (sys : Sys) :
    (stream.type = CREATE_STREAM → stream.cur.ftag.bytes ≠ 0 →
      datastream_setrecoverypath env (some stream) (some recovpath) sys =
        (-1, some stream, { sys with errno := EINVAL })) ∧
    (stream.type = EDIT_STREAM →
      (env.recovery_finfotostr { stream.finfo with path := some recovpath }).length >
        stream.cur.ftag.recoverybytes →
      (datastream_setrecoverypath env (some stream) (some recovpath) sys).1 = -1 ∧
      (env.alloc sys.allocs = true →
        (datastream_setrecoverypath env (some stream) (some recovpath) sys).2.2.errno
          = ENAMETOOLONG)) ∧
    (stream.type = EDIT_STREAM →
      ∃ s', (datastream_setrecoverypath env (some stream) (some recovpath) sys).2.1 = some s' ∧
        s'.files = stream.files) ∧
    ((datastream_setrecoverypath env (some stream) (some recovpath) sys).1 ≠ 0 →
      ∃ s', (datastream_setrecoverypath env (some stream) (some recovpath) sys).2.1 = some s' ∧
        s'.finfo = stream.finfo ∧ ∀ i, getfile s'.files i = getfile stream.files i) := by
  refine ⟨?_, ?_, ?_, ?_⟩
  · intro hc hb
    have h1 : ¬ (stream.type ≠ CREATE_STREAM ∧ stream.type ≠ EDIT_STREAM) := fun h => h.1 hc
    simp only [datastream_setrecoverypath, if_neg h1, if_pos (And.intro hc hb)]
  · intro he hlen
    have h1 : ¬ (stream.type ≠ CREATE_STREAM ∧ stream.type ≠ EDIT_STREAM) := fun h => h.2 he
    have h2 : ¬ (stream.type = CREATE_STREAM ∧ stream.cur.ftag.bytes ≠ 0) := by
      rw [he]; simp
    have h3 : ¬ (env.recovery_finfotostr { stream.finfo with path := some recovpath }).length
        < 1 := by omega
    simp only [datastream_setrecoverypath, if_neg h1, if_neg h2, malloc]
    by_cases ha : env.alloc sys.allocs = true
    · simp [ha, setpath, he, DATASTREAM.cur, h3] at hlen ⊢
      simp [hlen]
    · simp [ha]
  · intro he
    have h1 : ¬ (stream.type ≠ CREATE_STREAM ∧ stream.type ≠ EDIT_STREAM) := fun h => h.2 he
    have h2 : ¬ (stream.type = CREATE_STREAM ∧ stream.cur.ftag.bytes ≠ 0) := by
      rw [he]; simp
    have h4 : (setpath stream (some recovpath)).type = EDIT_STREAM := he
    simp only [datastream_setrecoverypath, if_neg h1, if_neg h2, if_pos h4]
    split_ifs <;> exact ⟨_, rfl, rfl⟩
  · intro hfail
    unfold datastream_setrecoverypath at hfail ⊢
    simp only at hfail ⊢
    split_ifs at hfail ⊢ with c1 c2 c3 c4 c5 c6 c7
    all_goals try exact ⟨_, rfl, rfl, fun _ => rfl⟩
    all_goals try exact absurd rfl hfail
    obtain ⟨res, s3, sys2, hp⟩ : ∃ res s3 sys2, putftag env
        (setrecoverybytes (setpath stream (some recovpath))
          (env.recovery_finfotostr (setpath stream (some recovpath)).finfo).length)
        (setrecoverybytes (setpath stream (some recovpath))
          (env.recovery_finfotostr (setpath stream (some recovpath)).finfo).length).cur
        (malloc env sys).2 = (res, s3, sys2) := ⟨_, _, _, rfl⟩
    obtain ⟨⟨sz, hsz⟩, -⟩ := putftag_spec hp
    rw [hp]
    refine ⟨_, rfl, ?_, ?_⟩
    · rw [hsz]
      rfl
    · intro i
      rw [hsz]
      exact setrecoverybytes_restore (setpath stream (some recovpath)) sz _ i

/-- An `EDIT_STREAM` whose file reserves 128 bytes of recovery info, with an
encoder that needs 100 bytes plus the path: a path of 42 characters is refused
with `ENAMETOOLONG`, a path of 4 characters is accepted. -/
theorem datastream_setrecoverypath_failures_witness :
    (datastream_setrecoverypath { okEnv editTag with recovery_finfotostr := pathFinfo }
      (some editStream) (some "/a/very/long/path/that/needs/more/room.dat") sampleSys).1 = -1 ∧
    (datastream_setrecoverypath { okEnv editTag with recovery_finfotostr := pathFinfo }
      (some editStream) (some "/a/very/long/path/that/needs/more/room.dat")
      sampleSys).2.2.errno = ENAMETOOLONG ∧
    (datastream_setrecoverypath { okEnv editTag with recovery_finfotostr := pathFinfo }
      (some editStream) (some "/a/b") sampleSys).1 = 0 :=
  ⟨((datastream_setrecoverypath_failures
      { okEnv editTag with recovery_finfotostr := pathFinfo } editStream
      "/a/very/long/path/that/needs/more/room.dat" sampleSys).2.1
      (by decide!) (by decide!)).1,
    ((datastream_setrecoverypath_failures
      { okEnv editTag with recovery_finfotostr := pathFinfo } editStream
      "/a/very/long/path/that/needs/more/room.dat" sampleSys).2.1
      (by decide!) (by decide!)).2 (by decide!),
    by decide!⟩

/-! ## `datastream_truncate` -/

theorem setavail_files_ne (s : DATASTREAM) (i j n : Nat) (h : j ≠ i) :
    getfile (setavail s i n).files j = getfile s.files j := by
  unfold setavail
  exact getfile_setfile_ne _ _ _ _ (Ne.symm h)

theorem setavail_files_same (s : DATASTREAM) (i n : Nat) :
    getfile (setavail s i n).files i =
      { getfile s.files i with ftag.availbytes := n } := by
  unfold setavail
  exact getfile_setfile_same _ _ _

theorem datastream_truncate_adjust_spec (s : DATASTREAM) (i : Nat) (length : Int)
    (h0 : 0 ≤ length) (hlt : length < SIZE_MOD) :
    (∀ j, j ≠ i → getfile (datastream_truncate_adjust s i length).files j = getfile s.files j) ∧
    getfile (datastream_truncate_adjust s i length).files i =
      { getfile s.files i with
        ftag.availbytes := min (getfile s.files i).ftag.availbytes length.toNat } := by
  have hof : ofOff length = length.toNat := by
    unfold ofOff SIZE_MOD at *
    omega
  unfold datastream_truncate_adjust
  rw [hof]
  split_ifs with h
  · refine ⟨fun j hj => setavail_files_ne _ _ _ _ hj, ?_⟩
    rw [setavail_files_same, min_eq_right (le_of_lt h)]
  · refine ⟨fun j _ => rfl, ?_⟩
    rw [min_eq_left (not_lt.mp h)]

/-- C15. `datastream_truncate(L)`: on a stream that is not an `EDIT_STREAM`, or
tracks no file, or with `L < 0`, it fails with `EINVAL`; on an `EDIT_STREAM`
whose current file is not in data-state COMPLETE it fails with `EPERM`; in both
cases the stream is untouched.  On an `EDIT_STREAM` whose current file is
COMPLETE, with `L >= 0`: no other tracked file changes; the current file keeps
its handle, `bytes` and `state`, and its `availbytes` never grows; if the FTAG
rewrite fails the file is as before the call; otherwise (in particular when the
call succeeds) its `availbytes` is `min(old availbytes, L)`, which is what
`ftruncate` is asked for. -/
theorem datastream_truncate_shrinks (env : Env) (stream : DATASTREAM) (filecount : Nat)
    (length : Int) (sys : Sys) :
    (stream.type ≠ EDIT_STREAM ∨ filecount = 0 ∨ length < 0 →
      datastream_truncate env (some stream) filecount length sys =
        (-1, some stream, { sys with errno := EINVAL })) ∧
    (stream.type = EDIT_STREAM → filecount ≠ 0 → 0 ≤ length →
      (getfile stream.files (usub filecount 1)).ftag.state &&& FTAG_DATASTATE ≠ FTAG_COMP →
      datastream_truncate env (some stream) filecount length sys =
        (-1, some stream, { sys with errno := EPERM })) ∧
    (stream.type = EDIT_STREAM → filecount ≠ 0 → 0 ≤ length → length < SIZE_MOD →
      (getfile stream.files (usub filecount 1)).ftag.state &&& FTAG_DATASTATE = FTAG_COMP →
      ∃ s', (datastream_truncate env (some stream) filecount length sys).2.1 = some s' ∧
        (∀ j, j ≠ usub filecount 1 → getfile s'.files j = getfile stream.files j) ∧
        (getfile s'.files (usub filecount 1)).metahandle =
          (getfile stream.files (usub filecount 1)).metahandle ∧
        (getfile s'.files (usub filecount 1)).ftag.bytes =
          (getfile stream.files (usub filecount 1)).ftag.bytes ∧
        (getfile s'.files (usub filecount 1)).ftag.state =
          (getfile stream.files (usub filecount 1)).ftag.state ∧
        (getfile s'.files (usub filecount 1)).ftag.availbytes ≤
          (getfile stream.files (usub filecount 1)).ftag.availbytes ∧
        ((putftag env (datastream_truncate_adjust stream (usub filecount 1) length)
            (getfile (datastream_truncate_adjust stream (usub filecount 1) length).files
              (usub filecount 1)) sys).1 ≠ 0 →
          (datastream_truncate env (some stream) filecount length sys).1 = -1 ∧
          getfile s'.files (usub filecount 1) = getfile stream.files (usub filecount 1)) ∧
        ((putftag env (datastream_truncate_adjust stream (usub filecount 1) length)
            (getfile (datastream_truncate_adjust stream (usub filecount 1) length).files
              (usub filecount 1)) sys).1 = 0 →
          getfile s'.files (usub filecount 1) =
            { getfile stream.files (usub filecount 1) with
              ftag.availbytes :=
                min (getfile stream.files (usub filecount 1)).ftag.availbytes length.toNat } ∧
          ∃ r, (Call.ftruncate (getfile stream.files (usub filecount 1)).metahandle
              length.toNat, r) ∈
            (datastream_truncate env (some stream) filecount length sys).2.2.trace ∧
            ((datastream_truncate env (some stream) filecount length sys).1 = 0 ↔ r.ret = 0))) := by
  refine ⟨?_, ?_, ?_⟩
  · intro h
    unfold datastream_truncate
    simp only
    split_ifs with c1 c2 c3 c4 c5 <;> first | rfl | skip
    all_goals
      rcases h with h | h | h
      · exact absurd h c2
      · exact absurd h c3
      · exact absurd h c4
  · intro he hf h0 hds
    have c1 : ¬ stream.type = ERROR_STREAM := by rw [he]; decide
    have c4 : ¬ length < 0 := not_lt.mpr h0
    have c2 : ¬ stream.type ≠ EDIT_STREAM := not_not.mpr he
    simp only [datastream_truncate, if_neg c1, if_neg c2, if_neg hf, if_neg c4, if_pos hds]
  · intro he hf h0 hlt hds
    have c1 : ¬ stream.type = ERROR_STREAM := by rw [he]; decide
    have c4 : ¬ length < 0 := not_lt.mpr h0
    have hof : ofOff length = length.toNat := by
      unfold ofOff SIZE_MOD at *
      omega
    obtain ⟨hne, hsame⟩ := datastream_truncate_adjust_spec stream (usub filecount 1) length h0 hlt
    obtain ⟨res, s2, sys1, hp⟩ : ∃ res s2 sys1,
      putftag env (datastream_truncate_adjust stream (usub filecount 1) length)
        (getfile (datastream_truncate_adjust stream (usub filecount 1) length).files
          (usub filecount 1)) sys = (res, s2, sys1) := ⟨_, _, _, rfl⟩
    obtain ⟨⟨sz, hsz⟩, -⟩ := putftag_spec hp
    have hfl : s2.files = (datastream_truncate_adjust stream (usub filecount 1) length).files := by
      rw [hsz]
    have c2 : ¬ stream.type ≠ EDIT_STREAM := not_not.mpr he
    have c5 : ¬ (getfile stream.files (usub filecount 1)).ftag.state &&& FTAG_DATASTATE
        ≠ FTAG_COMP := not_not.mpr hds
    simp only [datastream_truncate, if_neg c1, if_neg c2, if_neg hf, if_neg c4, if_neg c5, hp]
    have hi2 : getfile s2.files (usub filecount 1) =
        { getfile stream.files (usub filecount 1) with
          ftag.availbytes :=
            min (getfile stream.files (usub filecount 1)).ftag.availbytes length.toNat } := by
      rw [hfl, hsame]
    by_cases hres : res ≠ 0
    · simp only [if_pos hres]
      refine ⟨_, rfl, ?_, ?_, ?_, ?_, ?_, ?_, ?_⟩
      · intro j hj
        rw [setavail_files_ne _ _ _ _ hj, hfl]
        exact hne j hj
      · rw [setavail_files_same, hi2]
      · rw [setavail_files_same, hi2]
      · rw [setavail_files_same, hi2]
      · rw [setavail_files_same, hi2]
      · intro _
        rw [setavail_files_same, hi2]
        exact ⟨trivial, rfl⟩
      · intro h
        exact absurd h hres
    · have hres0 : res = 0 := not_not.mp hres
      simp only [if_neg hres]
      refine ⟨s2, by split_ifs <;> rfl, ?_, ?_, ?_, ?_, ?_, ?_, ?_⟩
      · intro j hj
        rw [hfl]
        exact hne j hj
      · rw [hi2]
      · rw [hi2]
      · rw [hi2]
      · rw [hi2]
        exact min_le_left _ _
      · intro h
        exact absurd hres0 h
      · intro _
        refine ⟨hi2, (call env sys1 (.ftruncate
          (getfile s2.files (usub filecount 1)).metahandle (ofOff length))).1, ?_, ?_⟩
        · have hm : (getfile s2.files (usub filecount 1)).metahandle =
              (getfile stream.files (usub filecount 1)).metahandle := by rw [hi2]
          rw [← hm, ← hof]
          split_ifs <;> simp [call_trace]
        · split_ifs with ht
          · constructor
            · intro h
              have h1 : (-1 : Int) = 0 := h
              exact absurd h1 (by decide)
            · intro h
              exact absurd h ht
          · exact ⟨fun _ => not_not.mp ht, fun _ => rfl⟩

/-- The truncate-shrink scenario: a COMPLETE file with 10000 readable bytes is
truncated to 4096 on a backend that answers every call with success. -/
theorem datastream_truncate_shrinks_witness :
    (datastream_truncate (okEnv completeTag) (some shrinkStream) 1 4096 sampleSys).1 = 0 ∧
    ((datastream_truncate (okEnv completeTag) (some shrinkStream) 1 4096 sampleSys).2.1.map
      fun s => ((getfile s.files 0).ftag.availbytes, (getfile s.files 0).ftag.bytes)) =
      some (4096, 20000) ∧
    ∃ s', (datastream_truncate (okEnv completeTag) (some shrinkStream) 1 4096 sampleSys).2.1
        = some s' ∧
      (getfile s'.files 0).ftag.availbytes ≤ (getfile shrinkStream.files 0).ftag.availbytes :=
  ⟨by decide!, by decide!,
    ((datastream_truncate_shrinks (okEnv completeTag) shrinkStream 1 4096 sampleSys).2.2
      (by decide!) (by decide) (by decide) (by decide) (by decide!)).imp
      (fun _ h => ⟨h.1, h.2.2.2.2.2.1⟩)⟩

/-! ## What `create_new_file` leaves in the stream -/

theorem genrecoveryinfo_file (env : Env) (stream : DATASTREAM) (finfo : RECOVERY_FINFO)
    (file : STREAMFILE) (path : String) (sys : Sys) :
    ∃ ta tm rb, (genrecoveryinfo env stream finfo file path sys).2.2.1 =
      { file with atime := ta, mtime := tm, ftag := { file.ftag with recoverybytes := rb } } := by
  unfold genrecoveryinfo
  simp only [call, malloc]
  split_ifs <;> first
    | exact ⟨file.atime, file.mtime, file.ftag.recoverybytes, rfl⟩
    | exact ⟨_, _, _, rfl⟩

theorem create_new_file_install_spec {env : Env} {stream : DATASTREAM} {path : String}
    {ctxt : Nat} {rp : String} {newfile0 : STREAMFILE} {finfo : RECOVERY_FINFO} {sys : Sys}
    {res : Int} {s' : DATASTREAM} {sys' : Sys}
    (h : create_new_file_install env stream path ctxt rp newfile0 finfo sys = (res, s', sys')) :
    (res ≠ 0 → ∃ fl fa sz, s' = { stream with files := fl, filealloc := fa, ftagstrsize := sz }) ∧
    (res = 0 → ∃ fl fa sz, s' = { stream with
        files := setfile fl stream.curfile (create_new_file_place stream newfile0),
        filealloc := fa, ftagstrsize := sz, finfo := finfo,
        fileno := (create_new_file_place stream newfile0).ftag.fileno,
        objno := (create_new_file_place stream newfile0).ftag.objno,
        offset := (create_new_file_place stream newfile0).ftag.offset } ∧
      (fl = stream.files ∨ (stream.filealloc ≤ stream.curfile ∧ ∃ sysx,
        (allocfiles env stream.files stream.filealloc
          stream.ns.datascheme.objfiles sysx).1 ≠ 0 ∧
        fl = (allocfiles env stream.files stream.filealloc
          stream.ns.datascheme.objfiles sysx).2.1))) := by
  unfold create_new_file_install at h
  obtain ⟨pres, s1, sys1, hp⟩ : ∃ pres s1 sys1,
    putftag env stream (create_new_file_place stream newfile0) sys = (pres, s1, sys1) :=
    ⟨_, _, _, rfl⟩
  obtain ⟨⟨sz, hsz⟩, -⟩ := putftag_spec hp
  simp only [hp] at h
  subst hsz
  split_ifs at h with c1 c2 c3 c4
  all_goals simp only [Prod.mk.injEq] at h
  all_goals obtain ⟨rfl, rfl, rfl⟩ := h
  · exact ⟨fun _ => ⟨_, _, _, rfl⟩, fun h0 => absurd h0 (by decide)⟩
  · exact ⟨fun _ => ⟨_, _, _, rfl⟩, fun h0 => absurd h0 (by decide)⟩
  · exact ⟨fun _ => ⟨_, _, _, rfl⟩, fun h0 => absurd h0 (by decide)⟩
  · exact ⟨fun h0 => absurd rfl h0, fun _ => ⟨_, _, _, rfl, Or.inr ⟨c3, _, c4, rfl⟩⟩⟩
  · exact ⟨fun h0 => absurd rfl h0, fun _ => ⟨_, _, _, rfl, Or.inl rfl⟩⟩

theorem create_new_file_spec {env : Env} {stream : DATASTREAM} {path : String}
    {ctxt mode : Nat} {sys : Sys} {res : Int} {s' : DATASTREAM} {sys' : Sys}
    (h : create_new_file env stream path ctxt mode sys = (res, s', sys')) :
    CreateOutcome env stream res s' := by
  have hsame : ∀ r : Int, ∀ sy : Sys, (r, stream, sy) = (res, s', sys') → r ≠ 0 →
      CreateOutcome env stream res s' := by
    intro r sy he hr
    simp only [Prod.mk.injEq] at he
    obtain ⟨rfl, rfl, rfl⟩ := he
    exact ⟨fun _ => ⟨_, _, _, rfl⟩, fun h0 => absurd h0 hr⟩
  obtain ⟨orp, sys1, hrp⟩ : ∃ orp sys1,
    genrpath env (create_new_file_init stream) sys = (orp, sys1) := ⟨_, _, rfl⟩
  unfold create_new_file at h
  simp only [hrp] at h
  cases orp with
  | none => exact hsame _ _ h (by decide)
  | some rp =>
    simp only at h
    split at h
    · exact hsame _ _ h (by decide)
    · rename_i hd hhd
      obtain ⟨ta, tm, rb, hfile⟩ := genrecoveryinfo_file env stream default
        { create_new_file_init stream with metahandle := some hd } path
        (call env sys1 (.openref ctxt rp (O_CREAT ||| O_EXCL ||| O_WRONLY) mode)).2
      split_ifs at h with c1 c2
      · exact hsame _ _ h (by decide)
      · exact hsame _ _ h (by decide)
      · rw [hfile] at h
        obtain ⟨h1, h2⟩ := create_new_file_install_spec h
        refine ⟨h1, fun h0 => ?_⟩
        obtain ⟨fl, fa, sz, hs, hfl⟩ := h2 h0
        exact ⟨hd, ta, tm, rb, fl, fa, sz, _, hs, hfl⟩

/-! ## The state machine: `finfile` and `completefile` -/

theorem datastate_le (s : Nat) : datastate s ≤ FTAG_COMP := by
  unfold datastate FTAG_DATASTATE FTAG_COMP
  rw [land_three]
  omega

theorem datastate_finalized (s : Nat) : datastate ((s &&& NOT_DATASTATE) ||| FTAG_FIN) = FTAG_FIN := by
  unfold datastate NOT_DATASTATE FTAG_FIN FTAG_DATASTATE FTAG_COMP
  apply Nat.eq_of_testBit_eq
  intro i
  simp only [Nat.testBit_lor, Nat.testBit_land]
  rcases i with _ | _ | i <;> simp [Nat.testBit_succ]

theorem readable_finalized (s : Nat) :
    ((s &&& NOT_DATASTATE) ||| FTAG_FIN) &&& FTAG_READABLE = s &&& FTAG_READABLE := by
  unfold NOT_DATASTATE FTAG_FIN FTAG_READABLE
  apply Nat.eq_of_testBit_eq
  intro i
  simp only [Nat.testBit_lor, Nat.testBit_land]
  rcases i with _ | _ | _ | _ | i <;> simp [Nat.testBit_succ]

theorem finfile_state (env : Env) (s : DATASTREAM) (sys : Sys) (j : Nat) :
    (getfile (finfile env s sys).2.1.files j).ftag.state = (getfile s.files j).ftag.state ∨
    (j = s.curfile ∧ (finfile env s sys).1 = 0 ∧
      (getfile s.files j).ftag.state &&& FTAG_DATASTATE < FTAG_FIN ∧
      (getfile (finfile env s sys).2.1.files j).ftag.state =
        ((getfile s.files j).ftag.state &&& NOT_DATASTATE) ||| FTAG_FIN) := by
  obtain ⟨⟨dh, ho⟩, -⟩ := finfile_open_spec env s sys
  obtain ⟨⟨fl, off, ob, fi, he, -⟩, -⟩ :=
    finfile_emit_spec env (finfile_open env s sys).2.1 (finfile_open env s sys).2.2
  have hfo : (finfile_open env s sys).2.1.files = s.files := by rw [ho]
  have hfe : (finfile_emit env (finfile_open env s sys).2.1
      (finfile_open env s sys).2.2).2.1.files = s.files := by rw [he, ← hfo]
  have hce : (finfile_emit env (finfile_open env s sys).2.1
      (finfile_open env s sys).2.2).2.1.curfile = s.curfile := by rw [he, ho]
  unfold finfile
  simp only
  split_ifs with c1 c2 c3
  · left; rw [hfo]
  · left; rw [hfe]
  · by_cases hj : j = s.curfile
    · right
      subst hj
      refine ⟨rfl, rfl, c1, ?_⟩
      rw [hce, setstate_files_same]
      unfold DATASTREAM.cur
      rw [hce, hfe]
    · left
      rw [hce, setstate_files_ne _ _ _ _ hj, hfe]
  · left; rfl

theorem putftag_files (env : Env) (s : DATASTREAM) (f : STREAMFILE) (sys : Sys) :
    (putftag env s f sys).2.1.files = s.files := by
  obtain ⟨⟨sz, hsz⟩, -⟩ := putftag_spec (Prod.mk.eta (p := putftag env s f sys)).symm
  have h2 : (putftag env s f sys).2.1 = { s with ftagstrsize := sz } := by
    rw [← hsz]
  rw [h2]

theorem completefile_state (env : Env) (s : DATASTREAM) (i : Nat) (sys : Sys) (j : Nat) :
    (getfile (completefile env s i sys).2.1.files j).ftag.state = (getfile s.files j).ftag.state ∨
    (j = i ∧ (getfile (completefile env s i sys).2.1.files j).ftag.state =
      completedState (getfile s.files j).ftag.state) := by
  by_cases hj : j = i
  · subst hj
    unfold completefile
    simp only
    split_ifs
    all_goals first
      | (left; rfl)
      | (right
         refine ⟨trivial, ?_⟩
         rw [closeslot_files_same]
         first
           | (rw [putftag_files, setstate_files_same]; rfl)
           | (rw [setstate_files_same]; rfl))
  · left
    obtain ⟨-, h2, -⟩ := completefile_spec (Prod.mk.eta (p := completefile env s i sys)).symm
    rw [h2 j hj]

theorem createdFile_facts (stream : DATASTREAM) (hd : Nat) (ta tm : timespec) (rb : Nat) :
    (createdFile stream hd ta tm rb).ftag.state = FTAG_INIT ∧
    (createdFile stream hd ta tm rb).ftag.fileno = stream.fileno ∧
    (createdFile stream hd ta tm rb).ftag.bytes = 0 ∧
    (createdFile stream hd ta tm rb).metahandle = some hd ∧
    (createdFile stream hd ta tm rb).ftag.objfiles = stream.ns.datascheme.objfiles ∧
    (createdFile stream hd ta tm rb).ftag.streamid = stream.streamid ∧
    ((createdFile stream hd ta tm rb).ftag.objno = stream.objno ∨
      (createdFile stream hd ta tm rb).ftag.objno = uadd stream.objno 1) := by
  unfold createdFile create_new_file_place create_new_file_init
  simp only
  split_ifs <;> simp

theorem create_new_file_cur {env : Env} {stream : DATASTREAM} {path : String}
    {ctxt mode : Nat} {sys : Sys}
    (h : (create_new_file env stream path ctxt mode sys).1 = 0) :
    ∃ hd ta tm rb, (create_new_file env stream path ctxt mode sys).2.1.cur =
        createdFile stream hd ta tm rb ∧
      (create_new_file env stream path ctxt mode sys).2.1.curfile = stream.curfile ∧
      (create_new_file env stream path ctxt mode sys).2.1.objno =
        (createdFile stream hd ta tm rb).ftag.objno ∧
      (create_new_file env stream path ctxt mode sys).2.1.fileno = stream.fileno ∧
      (create_new_file env stream path ctxt mode sys).2.1.streamid = stream.streamid := by
  obtain ⟨-, h2⟩ := create_new_file_spec
    (Prod.mk.eta (p := create_new_file env stream path ctxt mode sys)).symm
  obtain ⟨hd, ta, tm, rb, fl, fa, sz, finfo, hs, -⟩ := h2 h
  refine ⟨hd, ta, tm, rb, ?_, ?_, ?_, ?_, ?_⟩
  · unfold DATASTREAM.cur
    rw [hs]
    exact getfile_setfile_same _ _ _
  · rw [hs]
  · rw [hs]
  · rw [hs]
    exact (createdFile_facts stream hd ta tm rb).2.1
  · rw [hs]

/-- C16. The state-machine invariant of a file, READABLE implies data-state
FINALIZED or COMPLETE: the file that a successful `create_new_file` installs
as current file is in state INIT with no flag, which satisfies it; `finfile`
and `completefile` (whatever they return) preserve it for every tracked file
and never lower the data-state of a file. -/
theorem state_invariant_preserved (env : Env) (stream : DATASTREAM) (path : String)
    (ctxt mode i j : Nat) (sys : Sys) :
    ((create_new_file env stream path ctxt mode sys).1 = 0 →
      (create_new_file env stream path ctxt mode sys).2.1.cur.ftag.state = FTAG_INIT ∧
      stateInv (create_new_file env stream path ctxt mode sys).2.1.cur.ftag.state) ∧
    ((stateInv (getfile stream.files j).ftag.state →
        stateInv (getfile (finfile env stream sys).2.1.files j).ftag.state) ∧
      datastate (getfile stream.files j).ftag.state ≤
        datastate (getfile (finfile env stream sys).2.1.files j).ftag.state) ∧
    ((stateInv (getfile stream.files j).ftag.state →
        stateInv (getfile (completefile env stream i sys).2.1.files j).ftag.state) ∧
      datastate (getfile stream.files j).ftag.state ≤
        datastate (getfile (completefile env stream i sys).2.1.files j).ftag.state) := by
  refine ⟨?_, ?_, ?_⟩
  · intro h
    obtain ⟨hd, ta, tm, rb, hc, -⟩ := create_new_file_cur h
    rw [hc, (createdFile_facts stream hd ta tm rb).1]
    exact ⟨rfl, by decide⟩
  · rcases finfile_state env stream sys j with h | ⟨-, -, hlt, h⟩
    · rw [h]
      exact ⟨id, le_refl _⟩
    · rw [h, datastate_finalized]
      refine ⟨fun _ _ => ?_, le_of_lt hlt⟩
      left
      exact datastate_finalized _
  · rcases completefile_state env stream i sys j with h | ⟨-, h⟩
    · rw [h]
      exact ⟨id, le_refl _⟩
    · rw [h]
      refine ⟨fun _ _ => ?_, ?_⟩
      · right
        exact completedState_datastate _
      · have := completedState_datastate (getfile stream.files j).ftag.state
        unfold datastate
        rw [this]
        exact datastate_le _

/-! ## `finfile` -/

theorem open_current_obj_header_steps (env : Env) (s : DATASTREAM) (sys : Sys) :
    Grows (isHeaderStep (env.recovery_headertostr s.ctag s.streamid)) sys
      (open_current_obj_header env s sys).2.2 := by
  unfold open_current_obj_header
  simp only
  repeat' (first | split_ifs | split)
  all_goals
    repeat (first
      | exact Grows.refl _ _
      | refine Grows.step ?_ _ _ (by simp [isHeaderStep])
      | refine Grows.errno ?_ _
      | refine Grows.alloc ?_ _)

theorem open_current_obj_steps (env : Env) (s : DATASTREAM) (sys : Sys) :
    Grows (isHeaderStep (env.recovery_headertostr s.ctag s.streamid)) sys
      (open_current_obj env s sys).2.2 := by
  unfold open_current_obj
  simp only
  repeat' (first | split_ifs | split)
  all_goals
    repeat (first
      | exact Grows.refl _ _
      | refine Grows.trans ?_ (open_current_obj_header_steps env _ _)
      | refine Grows.step ?_ _ _ trivial
      | refine Grows.errno ?_ _
      | refine Grows.alloc ?_ _)

theorem open_current_obj_header_handle (env : Env) (s : DATASTREAM) (sys : Sys)
    (h : (open_current_obj_header env s sys).1 = 0) :
    (open_current_obj_header env s sys).2.1 = s := by
  unfold open_current_obj_header at h ⊢
  simp only at h ⊢
  split_ifs at h ⊢
  all_goals first
    | rfl
    | (have h1 : (-1 : Int) = 0 := h
       exact absurd h1 (by decide))

theorem open_current_obj_handle (env : Env) (s : DATASTREAM) (sys : Sys)
    (h : (open_current_obj env s sys).1 = 0) :
    (open_current_obj env s sys).2.1.datahandle ≠ none := by
  revert h
  unfold open_current_obj
  simp only
  repeat' (first | split_ifs | split)
  all_goals first
    | (intro h
       rw [open_current_obj_header_handle env _ _ h]
       simp)
    | simp

theorem putfinfo_success (env : Env) (s : DATASTREAM) (sys : Sys)
    (h : (putfinfo env s sys).1 = 0) :
    ∃ fl resp, (putfinfo env s sys).2.1 =
        { s with finfostrlen := fl, offset := uadd s.offset s.cur.ftag.recoverybytes } ∧
      (putfinfo env s sys).2.2.trace = sys.trace ++
        [(.ne_write s.datahandle (env.recovery_finfotostr s.finfo ++
          List.replicate (s.cur.ftag.recoverybytes - (env.recovery_finfotostr s.finfo).length) 0)
          s.cur.ftag.recoverybytes, resp)] := by
  revert h
  unfold putfinfo
  simp only [malloc]
  split_ifs
  all_goals first
    | (intro _
       exact ⟨_, _, rfl, rfl⟩)
    | simp

theorem finfile_noop (env : Env) (s : DATASTREAM) (sys : Sys)
    (h : ¬ s.cur.ftag.state &&& FTAG_DATASTATE < FTAG_FIN) : finfile env s sys = (0, s, sys) := by
  unfold finfile
  rw [if_neg h]

theorem finfile_success_shape (env : Env) (s : DATASTREAM) (sys : Sys)
    (hlt : s.cur.ftag.state &&& FTAG_DATASTATE < FTAG_FIN) (h : (finfile env s sys).1 = 0) :
    (finfile_open env s sys).1 = 0 ∧
    (finfile_emit env (finfile_open env s sys).2.1 (finfile_open env s sys).2.2).1 = 0 ∧
    finfile env s sys = (0,
      setstate (finfile_emit env (finfile_open env s sys).2.1 (finfile_open env s sys).2.2).2.1
        s.curfile ((s.cur.ftag.state &&& NOT_DATASTATE) ||| FTAG_FIN),
      (finfile_emit env (finfile_open env s sys).2.1 (finfile_open env s sys).2.2).2.2) := by
  obtain ⟨⟨dh, ho⟩, -⟩ := finfile_open_spec env s sys
  obtain ⟨⟨fl, off, ob, fi, he, -⟩, -⟩ :=
    finfile_emit_spec env (finfile_open env s sys).2.1 (finfile_open env s sys).2.2
  have hce : (finfile_emit env (finfile_open env s sys).2.1
      (finfile_open env s sys).2.2).2.1.curfile = s.curfile := by rw [he, ho]
  have hcu : (finfile_emit env (finfile_open env s sys).2.1
      (finfile_open env s sys).2.2).2.1.cur = s.cur := by
    unfold DATASTREAM.cur
    rw [he, ho]
  unfold finfile at h ⊢
  rw [if_pos hlt] at h ⊢
  simp only at h ⊢
  split_ifs at h ⊢ with c1 c2
  · have h1 : (-1 : Int) = 0 := h
    exact absurd h1 (by decide)
  · have h1 : (-1 : Int) = 0 := h
    exact absurd h1 (by decide)
  · rw [hce, hcu]
    exact ⟨not_not.mp c1, not_not.mp c2, rfl⟩

theorem finfile_emit_write (env : Env) (t : DATASTREAM) (sys : Sys) (hd : t.datahandle ≠ none)
    (h : (finfile_emit env t sys).1 = 0) :
    ∃ fl resp, (finfile_emit env t sys).2.1 =
        { t with finfostrlen := fl, offset := uadd t.offset t.cur.ftag.recoverybytes,
                 finfo := { t.finfo with eof := 1 } } ∧
      (finfile_emit env t sys).2.2.trace = sys.trace ++
        [(.ne_write t.datahandle (trailer env t) t.cur.ftag.recoverybytes, resp)] := by
  unfold finfile_emit at h ⊢
  rw [if_pos hd] at h ⊢
  simp only at h ⊢
  split_ifs at h ⊢ with c1
  · have h1 : (-1 : Int) = 0 := h
    exact absurd h1 (by decide)
  · obtain ⟨fl, resp, h1, h2⟩ := putfinfo_success env
      { t with finfo := { t.finfo with eof := 1 } } sys (not_not.mp c1)
    exact ⟨fl, resp, h1, h2⟩

theorem finfile_emit_skip (env : Env) (t : DATASTREAM) (sys : Sys) (hd : t.datahandle = none) :
    finfile_emit env t sys =
      (0, { t with objno := uadd t.objno 1, offset := t.recoveryheaderlen }, sys) := by
  unfold finfile_emit
  rw [if_neg (not_not.mpr hd)]

theorem finfile_open_skip (env : Env) (s : DATASTREAM) (sys : Sys)
    (h : s.datahandle ≠ none ∨ s.cur.ftag.bytes ≠ 0) : finfile_open env s sys = (0, s, sys) := by
  unfold finfile_open
  rw [if_neg]
  rintro ⟨h1, h2⟩
  rcases h with h | h
  · exact h h2
  · exact h h1

theorem finfile_open_opens (env : Env) (s : DATASTREAM) (sys : Sys)
    (h : s.cur.ftag.bytes = 0 ∧ s.datahandle = none) :
    finfile_open env s sys = open_current_obj env s sys := by
  unfold finfile_open
  rw [if_pos h]

/-- C20. `finfile` on a current file whose data-state is below FINALIZED, when it
returns 0: the file's state becomes `(state & ~DATASTATE) | FINALIZED`, so the
data-state is FINALIZED and WRITEABLE / READABLE are as before, and nothing
else of the file changes.  If a data handle is open, or `bytes == 0` (then the
object is opened first, by calls that write nothing but the recovery header),
the last call of the run is the one write of the trailer, the recovery info
with `eof = 1` zero-filled to `recoverybytes`, `offset` advances by
`recoverybytes` and `objno` is unchanged.  With no data handle and
`bytes != 0` no call is made, `objno` becomes `objno + 1` and `offset` the
header length.  A failing `finfile` leaves every state unchanged; on a file
that is FINALIZED or COMPLETE `finfile` returns 0 and changes nothing, and so
does a second `finfile` after a successful one. -/
theorem finfile_finalizes (env : Env) (s : DATASTREAM) (sys : Sys) :
    (s.cur.ftag.state &&& FTAG_DATASTATE < FTAG_FIN → (finfile env s sys).1 = 0 →
      (finfile env s sys).2.1.curfile = s.curfile ∧
      (finfile env s sys).2.1.cur =
        { s.cur with ftag.state := (s.cur.ftag.state &&& NOT_DATASTATE) ||| FTAG_FIN } ∧
      datastate (finfile env s sys).2.1.cur.ftag.state = FTAG_FIN ∧
      (finfile env s sys).2.1.cur.ftag.state &&& FTAG_WRITEABLE =
        s.cur.ftag.state &&& FTAG_WRITEABLE ∧
      (finfile env s sys).2.1.cur.ftag.state &&& FTAG_READABLE =
        s.cur.ftag.state &&& FTAG_READABLE ∧
      (s.datahandle ≠ none ∨ s.cur.ftag.bytes = 0 →
        ∃ dh resp, dh ≠ none ∧
          (finfile env s sys).2.2.trace = (finfile_open env s sys).2.2.trace ++
            [(.ne_write dh (trailer env s) s.cur.ftag.recoverybytes, resp)] ∧
          Grows (isHeaderStep (env.recovery_headertostr s.ctag s.streamid)) sys
            (finfile_open env s sys).2.2 ∧
          (s.datahandle ≠ none → dh = s.datahandle ∧ (finfile_open env s sys).2.2 = sys) ∧
          (finfile env s sys).2.1.finfo.eof = 1 ∧
          (finfile env s sys).2.1.offset = uadd s.offset s.cur.ftag.recoverybytes ∧
          (finfile env s sys).2.1.objno = s.objno) ∧
      (s.datahandle = none ∧ s.cur.ftag.bytes ≠ 0 →
        (finfile env s sys).2.2 = sys ∧
        (finfile env s sys).2.1.objno = uadd s.objno 1 ∧
        (finfile env s sys).2.1.offset = s.recoveryheaderlen)) ∧
    ((finfile env s sys).1 ≠ 0 → ∀ j,
      (getfile (finfile env s sys).2.1.files j).ftag.state = (getfile s.files j).ftag.state) ∧
    (¬ s.cur.ftag.state &&& FTAG_DATASTATE < FTAG_FIN → finfile env s sys = (0, s, sys)) ∧
    ((finfile env s sys).1 = 0 →
      finfile env (finfile env s sys).2.1 (finfile env s sys).2.2 =
        (0, (finfile env s sys).2.1, (finfile env s sys).2.2)) := by
  have hmain : s.cur.ftag.state &&& FTAG_DATASTATE < FTAG_FIN → (finfile env s sys).1 = 0 →
      (finfile env s sys).2.1.curfile = s.curfile ∧
      (finfile env s sys).2.1.cur =
        { s.cur with ftag.state := (s.cur.ftag.state &&& NOT_DATASTATE) ||| FTAG_FIN } := by
    intro hlt h0
    obtain ⟨-, -, hshape⟩ := finfile_success_shape env s sys hlt h0
    obtain ⟨⟨dh, ho⟩, -⟩ := finfile_open_spec env s sys
    obtain ⟨⟨fl, off, ob, fi, he, -⟩, -⟩ :=
      finfile_emit_spec env (finfile_open env s sys).2.1 (finfile_open env s sys).2.2
    have hcf : (finfile env s sys).2.1.curfile = s.curfile := by
      rw [hshape]
      show (finfile_emit env (finfile_open env s sys).2.1
        (finfile_open env s sys).2.2).2.1.curfile = s.curfile
      rw [he, ho]
    refine ⟨hcf, ?_⟩
    unfold DATASTREAM.cur
    rw [hcf, hshape]
    have hfe : (finfile_emit env (finfile_open env s sys).2.1
        (finfile_open env s sys).2.2).2.1.files = s.files := by rw [he, ho]
    show getfile (setstate _ s.curfile _).files s.curfile = _
    rw [setstate_files_same, hfe]
    rfl
  refine ⟨?_, ?_, finfile_noop env s sys, ?_⟩
  · intro hlt h0
    obtain ⟨hcf, hcur⟩ := hmain hlt h0
    obtain ⟨ho0, he0, hshape⟩ := finfile_success_shape env s sys hlt h0
    obtain ⟨⟨dh, ho⟩, -⟩ := finfile_open_spec env s sys
    refine ⟨hcf, hcur, ?_, ?_, ?_, ?_, ?_⟩
    · rw [hcur]
      exact datastate_finalized _
    · rw [hcur]
      exact writeable_fin _
    · rw [hcur]
      exact readable_finalized _
    · intro hcase
      have htd : (finfile_open env s sys).2.1.datahandle ≠ none ∧
          Grows (isHeaderStep (env.recovery_headertostr s.ctag s.streamid)) sys
            (finfile_open env s sys).2.2 ∧
          (s.datahandle ≠ none → (finfile_open env s sys).2.1.datahandle = s.datahandle ∧
            (finfile_open env s sys).2.2 = sys) := by
        by_cases hd : s.datahandle ≠ none
        · rw [finfile_open_skip env s sys (Or.inl hd)]
          exact ⟨hd, Grows.refl _ _, fun _ => ⟨rfl, rfl⟩⟩
        · have hb : s.cur.ftag.bytes = 0 := by
            rcases hcase with h | h
            · exact absurd h hd
            · exact h
          have hopen := finfile_open_opens env s sys ⟨hb, not_not.mp hd⟩
          rw [hopen] at ho0 ⊢
          exact ⟨open_current_obj_handle env s sys ho0, open_current_obj_steps env s sys,
            fun h => absurd h hd⟩
      obtain ⟨hdh, hgrow, hkeep⟩ := htd
      obtain ⟨fl, resp, h1, h2⟩ := finfile_emit_write env (finfile_open env s sys).2.1
        (finfile_open env s sys).2.2 hdh he0
      have htr : trailer env (finfile_open env s sys).2.1 = trailer env s := by
        unfold trailer DATASTREAM.cur
        rw [ho]
      have hrb : (finfile_open env s sys).2.1.cur.ftag.recoverybytes = s.cur.ftag.recoverybytes := by
        unfold DATASTREAM.cur
        rw [ho]
      rw [htr, hrb] at h2
      rw [hrb] at h1
      refine ⟨(finfile_open env s sys).2.1.datahandle, resp, hdh, ?_, hgrow, hkeep, ?_, ?_, ?_⟩
      · rw [hshape]
        exact h2
      · rw [hshape]
        show (finfile_emit env (finfile_open env s sys).2.1
          (finfile_open env s sys).2.2).2.1.finfo.eof = 1
        rw [h1]
      · rw [hshape]
        show (finfile_emit env (finfile_open env s sys).2.1
          (finfile_open env s sys).2.2).2.1.offset = _
        rw [h1, ho]
      · rw [hshape]
        show (finfile_emit env (finfile_open env s sys).2.1
          (finfile_open env s sys).2.2).2.1.objno = _
        rw [h1, ho]
    · rintro ⟨hdn, hb⟩
      rw [hshape, finfile_open_skip env s sys (Or.inr hb), finfile_emit_skip env s sys hdn]
      exact ⟨rfl, rfl, rfl⟩
  · intro hne j
    rcases finfile_state env s sys j with h | ⟨-, h, -⟩
    · exact h
    · exact absurd h hne
  · intro h0
    by_cases hlt : s.cur.ftag.state &&& FTAG_DATASTATE < FTAG_FIN
    · apply finfile_noop
      rw [(hmain hlt h0).2]
      have := datastate_finalized s.cur.ftag.state
      unfold datastate at this
      show ¬ ((s.cur.ftag.state &&& NOT_DATASTATE) ||| FTAG_FIN) &&& FTAG_DATASTATE < FTAG_FIN
      rw [this]
      exact lt_irrefl _
    · rw [finfile_noop env s sys hlt]
      exact finfile_noop env s sys hlt

/-- A fresh `CREATE_STREAM` with an empty first file: `finfile` opens the
object, writes header and trailer, and finalizes the file. -/
theorem finfile_finalizes_witness :
    (finfile (okEnv default) (firstCreated 0 0) sampleSys).1 = 0 ∧
    datastate (finfile (okEnv default) (firstCreated 0 0) sampleSys).2.1.cur.ftag.state
      = FTAG_FIN ∧
    (finfile (okEnv default) (firstCreated 0 0) sampleSys).2.1.offset = 64 + 128 :=
  ⟨by decide!,
    ((finfile_finalizes (okEnv default) (firstCreated 0 0) sampleSys).1
      (by decide!) (by decide!)).2.2.1,
    by decide!⟩

/-! ## The stream ID minted by `genstream` -/

theorem ite_not_reserved {p : Prop} [Decidable p] {a b : Char}
    (ha : a ∉ FTAG_RESERVED_CHARS) (hb : b ∉ FTAG_RESERVED_CHARS) :
    (if p then a else b) ∉ FTAG_RESERVED_CHARS := by
  split <;> assumption

theorem digitChar_not_reserved (d : Nat) : Nat.digitChar d ∉ FTAG_RESERVED_CHARS := by
  unfold Nat.digitChar
  repeat' (first | apply ite_not_reserved | decide)

theorem toDigitsCore_not_reserved : ∀ (fuel n : Nat) (acc : List Char),
    (∀ c ∈ acc, c ∉ FTAG_RESERVED_CHARS) →
    ∀ c ∈ Nat.toDigitsCore 10 fuel n acc, c ∉ FTAG_RESERVED_CHARS := by
  intro fuel
  induction fuel with
  | zero =>
    intro n acc hacc c hc
    exact hacc c hc
  | succ fuel ih =>
    intro n acc hacc c hc
    unfold Nat.toDigitsCore at hc
    simp only at hc
    have hcons : ∀ c ∈ Nat.digitChar (n % 10) :: acc, c ∉ FTAG_RESERVED_CHARS := by
      intro c hc
      rcases List.mem_cons.mp hc with rfl | h
      · exact digitChar_not_reserved _
      · exact hacc c h
    split_ifs at hc
    · exact hcons c hc
    · exact ih _ _ hcons c hc

theorem natRepr_reservedFree (n : Nat) : reservedFree (toString n) := by
  intro c hc
  have h : (toString n).data = Nat.toDigits 10 n := rfl
  rw [h] at hc
  exact toDigitsCore_not_reserved _ _ [] (by simp) c hc

theorem intRepr_reservedFree (i : Int) : reservedFree (toString i) := by
  cases i with
  | ofNat m => exact natRepr_reservedFree m
  | negSucc m =>
    intro c hc
    have h : (toString (Int.negSucc m)).data = '-' :: (toString (m + 1)).data := rfl
    rw [h] at hc
    rcases List.mem_cons.mp hc with rfl | h
    · decide
    · exact natRepr_reservedFree _ c h

theorem genstream_streamid_data (nsrepo nspath : String) (t : timespec) :
    (genstream_streamid nsrepo nspath t).data =
      nsrepo.data ++ '|' :: ((nspath.data.map fun c => if c = '/' then '#' else c) ++
        '|' :: ((toString t.tv_sec).data ++ '.' :: (toString t.tv_nsec).data)) := by
  unfold genstream_streamid
  simp [String.data_append]

theorem escaped_not_reserved (nspath : String) (h : reservedFree nspath) :
    ∀ c ∈ nspath.data.map (fun c => if c = '/' then '#' else c), c ∉ FTAG_RESERVED_CHARS := by
  intro c hc
  obtain ⟨a, ha, rfl⟩ := List.mem_map.mp hc
  exact ite_not_reserved (by decide) (h a ha)

theorem not_reserved_iff (c : Char) :
    c ∉ FTAG_RESERVED_CHARS ↔ c ≠ '(' ∧ c ≠ ')' ∧ c ≠ '|' := by
  unfold FTAG_RESERVED_CHARS
  simp

theorem genstream_streamid_chars (nsrepo nspath : String) (t : timespec)
    (hr : reservedFree nsrepo) (hp : reservedFree nspath) :
    (∀ c ∈ (genstream_streamid nsrepo nspath t).data, c ≠ '(' ∧ c ≠ ')') ∧
    (genstream_streamid nsrepo nspath t).data.count '|' = 2 := by
  have hbar : ∀ l : List Char, (∀ c ∈ l, c ∉ FTAG_RESERVED_CHARS) → l.count '|' = 0 := by
    intro l hl
    apply List.count_eq_zero.mpr
    intro hm
    exact ((not_reserved_iff _).mp (hl _ hm)).2.2 rfl
  have h1 := hbar _ hr
  have h2 := hbar _ (escaped_not_reserved nspath hp)
  have h3 := hbar _ (intRepr_reservedFree t.tv_sec)
  have h4 := hbar _ (intRepr_reservedFree t.tv_nsec)
  rw [genstream_streamid_data]
  constructor
  · intro c hc
    simp only [List.mem_append, List.mem_cons] at hc
    have hn : c ∉ FTAG_RESERVED_CHARS ∨ c = '|' ∨ c = '.' := by
      rcases hc with h | rfl | h | rfl | h | rfl | h
      · exact Or.inl (hr c h)
      · exact Or.inr (Or.inl rfl)
      · exact Or.inl (escaped_not_reserved nspath hp c h)
      · exact Or.inr (Or.inl rfl)
      · exact Or.inl (intRepr_reservedFree t.tv_sec c h)
      · exact Or.inr (Or.inr rfl)
      · exact Or.inl (intRepr_reservedFree t.tv_nsec c h)
    rcases hn with h | rfl | rfl
    · exact ⟨((not_reserved_iff c).mp h).1, ((not_reserved_iff c).mp h).2.1⟩
    · decide
    · decide
  · simp only [List.count_append, List.count_cons, h1, h2, h3, h4]
    decide

theorem genstream_create_mints {env : Env} {stream : DATASTREAM} {path : String}
    {pos : marfs_position} {mode : Nat} {ctag : String} {sys : Sys} {s : DATASTREAM} {sys' : Sys}
    (h : genstream_create env stream path pos mode ctag sys = (some s, sys')) :
    ∃ nsrepo nspath t, env.config_nsinfo stream.ns.idstr = some (nsrepo, nspath) ∧
      s.streamid = some (genstream_streamid nsrepo nspath t) := by
  unfold genstream_create at h
  simp only at h
  repeat' (first | split_ifs at h | split at h)
  all_goals try (simp only [Prod.mk.injEq, reduceCtorEq, false_and] at h)
  rename_i a1 a2 a3 x nsrepo nspath hcfg a4 a5 hres
  refine ⟨nsrepo, nspath, (call env (malloc env sys).2 Call.clock_gettime).1.time, hcfg, ?_⟩
  obtain ⟨hs, -⟩ := h
  obtain ⟨hd, ta, tm, rb, -, -, -, -, hsid⟩ := create_new_file_cur (not_not.mp hres)
  rw [← Option.some.inj hs, hsid]

theorem genstream_mints {env : Env} {path : String} {pos : marfs_position} {mode : Nat}
    {ctag : String} {sys : Sys} {s : DATASTREAM} {sys' : Sys}
    (h : genstream env CREATE_STREAM path pos mode ctag sys = (some s, sys')) :
    ∃ nsrepo nspath t, env.config_nsinfo pos.ns.idstr = some (nsrepo, nspath) ∧
      s.streamid = some (genstream_streamid nsrepo nspath t) := by
  unfold genstream at h
  simp only at h
  split_ifs at h with c1 c2 c3 c4 c5
  all_goals try (simp only [Prod.mk.injEq, reduceCtorEq, false_and] at h)
  all_goals exact genstream_create_mints h

/-- C18 (amended). A stream ID minted by `genstream` for a `CREATE_STREAM` is
`<repo>|<path>|<tv_sec>.<tv_nsec>`, the namespace path with `/` rewritten to
`#`.  For a repo name and namespace path free of the reserved characters it
contains no `(` and no `)`, and it contains `|` exactly twice: the two
separators of the format. -/
theorem genstream_streamid_reserved (env : Env) (path : String) (pos : marfs_position)
    (mode : Nat) (ctag : String) (sys : Sys) (s : DATASTREAM) (sys' : Sys)
    (h : genstream env CREATE_STREAM path pos mode ctag sys = (some s, sys')) :
    ∃ nsrepo nspath t, env.config_nsinfo pos.ns.idstr = some (nsrepo, nspath) ∧
      s.streamid = some (genstream_streamid nsrepo nspath t) ∧
      (reservedFree nsrepo → reservedFree nspath →
        (∀ c ∈ (genstream_streamid nsrepo nspath t).data, c ≠ '(' ∧ c ≠ ')') ∧
        (genstream_streamid nsrepo nspath t).data.count '|' = 2) := by
  obtain ⟨nsrepo, nspath, t, h1, h2⟩ := genstream_mints h
  exact ⟨nsrepo, nspath, t, h1, h2, genstream_streamid_chars nsrepo nspath t⟩

/-- The stream minted on `okEnv` for the namespace `repo`, `/ns`. -/
theorem genstream_streamid_reserved_witness :
    ∃ nsrepo nspath t, (okEnv default).config_nsinfo (samplePos 0 0).ns.idstr
        = some (nsrepo, nspath) ∧
      (firstCreated 0 0).streamid = some (genstream_streamid nsrepo nspath t) ∧
      (reservedFree nsrepo → reservedFree nspath →
        (∀ c ∈ (genstream_streamid nsrepo nspath t).data, c ≠ '(' ∧ c ≠ ')') ∧
        (genstream_streamid nsrepo nspath t).data.count '|' = 2) :=
  genstream_streamid_reserved (okEnv default) "/a" (samplePos 0 0) 0 "ctag" sampleSys
    (firstCreated 0 0)
    (genstream (okEnv default) CREATE_STREAM "/a" (samplePos 0 0) 0 "ctag" sampleSys).2
    (by decide!)

/-- C18 as stated fails: the stream ID minted for the repo `repo` and the
namespace path `/ns`, both free of reserved characters, is `repo|#ns|1700000000.5`, which
contains the reserved character `|`. -/
theorem genstream_streamid_counterexample :
    (okEnv default).config_nsinfo (samplePos 0 0).ns.idstr = some ("repo", "/ns") ∧
    reservedFree "repo" ∧ reservedFree "/ns" ∧
    ((genstream (okEnv default) CREATE_STREAM "/a" (samplePos 0 0) 0 "ctag" sampleSys).1.map
      fun s => s.streamid) = some (some "repo|#ns|1700000000.5") ∧
    '|' ∈ "repo|#ns|1700000000.5".data ∧ '|' ∈ FTAG_RESERVED_CHARS ∧ ¬ reservedFree "repo|#ns|1700000000.5" := by
  decide!

/-! ## `datastream_create` on a stream whose current file is extended -/

/-- C12 (the code at the failing input). `datastream_create` is handed the
`CREATE_STREAM` `extendedStream` of the same namespace, whose current file is
WRITEABLE (extended to 1 MiB), on a backend that answers every call with
success.  The stream is continued, not released: no new stream is minted (no
`clock_gettime`), the new reference file is created and linked as file number 1
of the old stream, and then the completion of the extended file is refused, so
the call fails with `EBADFD` and the stream is destroyed. -/
theorem datastream_create_continues_extended :
    extendedStream.type = CREATE_STREAM ∧
    extendedStream.ns.addr = (samplePos 0 0).ns.addr ∧
    extendedStream.cur.ftag.state &&& FTAG_WRITEABLE ≠ 0 ∧
    (datastream_create (okEnv default) (some (some extendedStream)) (some "/b")
      (some (samplePos 0 0)) 0 "ctag" sampleSys).1 = -1 ∧
    (datastream_create (okEnv default) (some (some extendedStream)) (some "/b")
      (some (samplePos 0 0)) 0 "ctag" sampleSys).2.1 = none ∧
    (datastream_create (okEnv default) (some (some extendedStream)) (some "/b")
      (some (samplePos 0 0)) 0 "ctag" sampleSys).2.2.errno = EBADFD ∧
    ((datastream_create (okEnv default) (some (some extendedStream)) (some "/b")
      (some (samplePos 0 0)) 0 "ctag" sampleSys).2.2.trace.countP fun e => e.1.isClock) = 0 ∧
    ((datastream_create (okEnv default) (some (some extendedStream)) (some "/b")
      (some (samplePos 0 0)) 0 "ctag" sampleSys).2.2.trace.countP fun e => e.1.isOpenref) = 1 ∧
    linkrefCalls (datastream_create (okEnv default) (some (some extendedStream)) (some "/b")
      (some (samplePos 0 0)) 0 "ctag" sampleSys).2.2.trace = 1 ∧
    ((datastream_create (okEnv default) (some (some extendedStream)) (some "/b")
      (some (samplePos 0 0)) 0 "ctag" sampleSys).2.2.trace.filterMap fun e =>
        match e.1 with
        | .fsetxattr _ _ (.ftag t) _ => some (t.fileno, t.streamid)
        | _ => none) = [(1, extendedStream.streamid)] := by
  decide!

/-! ## The completion loop of `datastream_create` -/

theorem datastream_create_files_spec (env : Env) (rtagstr : Option String) :
    ∀ (fuel : Nat) (stream : DATASTREAM) (ab : Nat) (sys : Sys) (s' : DATASTREAM) (ab' : Nat)
      (sys' : Sys), stream.curfile ≤ fuel →
      datastream_create_files env rtagstr fuel stream ab sys = (s', ab', sys') →
      (∃ fl sz, s' = { stream with files := fl, ftagstrsize := sz, curfile := 0 }) ∧
      (∀ j, stream.curfile ≤ j → getfile s'.files j = getfile stream.files j) ∧
      (ab ≠ 0 → ab' ≠ 0) ∧
      ∃ seg, sys'.trace = sys.trace ++ seg ∧
        (ab' = 0 → ∀ i, i < stream.curfile →
          Completed stream.type (getfile stream.files i) (getfile s'.files i) seg) := by
  intro fuel
  induction fuel with
  | zero =>
    intro stream ab sys s' ab' sys' hcur h
    have hc0 : stream.curfile = 0 := by omega
    rw [datastream_create_files] at h
    simp only [Prod.mk.injEq] at h
    obtain ⟨rfl, rfl, rfl⟩ := h
    refine ⟨⟨_, _, by rw [← hc0]⟩, fun j _ => rfl, id, [], by simp, ?_⟩
    intro _ i hi
    omega
  | succ f ih =>
    intro stream ab sys s' ab' sys' hcur h
    rw [datastream_create_files] at h
    by_cases hc0 : stream.curfile = 0
    · rw [if_pos hc0] at h
      simp only [Prod.mk.injEq] at h
      obtain ⟨rfl, rfl, rfl⟩ := h
      refine ⟨⟨_, _, by rw [← hc0]⟩, fun j _ => rfl, id, [], by simp, ?_⟩
      intro _ i hi
      omega
    · rw [if_neg hc0] at h
      obtain ⟨s1, ab1, sys1, hb⟩ : ∃ s1 ab1 sys1, attach_and_complete env rtagstr true
        { stream with curfile := stream.curfile - 1 } ab sys = (s1, ab1, sys1) := ⟨_, _, _, rfl⟩
      rw [hb] at h
      obtain ⟨⟨fl, sz, hs1⟩, hfr, hmono, seg, htr, hcomp, -, -⟩ := attach_and_complete_spec hb
      simp only at h hfr hcomp
      have hcur1 : s1.curfile = stream.curfile - 1 := by rw [hs1]
      have hty1 : s1.type = stream.type := by rw [hs1]
      obtain ⟨⟨fl2, sz2, hs2⟩, hfr2, hmono2, seg2, htr2, hcomp2⟩ :=
        ih s1 ab1 sys1 s' ab' sys' (by omega) h
      refine ⟨⟨fl2, sz2, by rw [hs2, hs1]⟩, ?_, fun h => hmono2 (hmono h), seg ++ seg2,
        by rw [htr2, htr, List.append_assoc], ?_⟩
      · intro j hj
        rw [hfr2 j (by omega)]
        exact hfr j (by omega)
      · intro h0 i hi
        have hab1 : ab1 = 0 := by
          by_contra hne
          exact hmono2 hne h0
        by_cases hic : i = stream.curfile - 1
        · subst hic
          have hC := hcomp hab1 trivial
          have hkeep := hfr2 (stream.curfile - 1) (by omega)
          rw [hkeep]
          exact Completed.mono hC (fun e he => List.mem_append_left _ he)
        · have hC := hcomp2 h0 i (by omega)
          rw [hty1, hfr i hic] at hC
          exact Completed.mono hC (fun e he => List.mem_append_right _ he)

/-! ## What `datastream_create` does when it continues a stream -/

theorem allocfiles_getfile (env : Env) (files : List STREAMFILE) (current max : Nat) (sys : Sys)
    (i : Nat) (hok : (allocfiles env files current max sys).1 ≠ 0) (hi : i < current)
    (hsz : i < (allocfiles env files current max sys).1) :
    getfile (allocfiles env files current max sys).2.1 i = getfile files i := by
  unfold allocfiles at hok hsz ⊢
  simp only at hok hsz ⊢
  by_cases hm : (malloc env sys).1 = false
  · rw [if_pos hm] at hok
    exact absurd rfl hok
  · rw [if_neg hm] at hsz ⊢
    simp only at hsz ⊢
    generalize (if max ≠ 0 ∧ (if current < INITIAL_FILE_ALLOC then INITIAL_FILE_ALLOC
      else umul current FILE_ALLOC_MULT) > max then max
      else if current < INITIAL_FILE_ALLOC then INITIAL_FILE_ALLOC
      else umul current FILE_ALLOC_MULT) = A at hsz ⊢
    unfold getfile
    rw [List.getD_eq_getElem?_getD, List.getD_eq_getElem?_getD, List.getElem?_map,
      List.getElem?_enum]
    clear hok
    have hg : ¬ current ≤ i := by omega
    by_cases hl : i < files.length
    · rw [List.getElem?_append_left (by simp; omega), List.getElem?_take, if_pos hsz,
        List.getElem?_eq_getElem hl]
      simp [hg]
    · rw [List.getElem?_append_right (by simp; omega), List.getElem?_replicate,
        List.getElem?_eq_none (by omega)]
      have h1 : i - (List.take A files).length < A - files.length := by
        simp
        omega
      simp only [List.length_take] at h1
      simp [h1, hg]

theorem allocfiles_size (env : Env) (files : List STREAMFILE) (current max : Nat) (sys : Sys)
    (i : Nat) (hok : (allocfiles env files current max sys).1 ≠ 0) (hi : i < current)
    (hcur : current < OFF_NEG) (hmax : max ≠ 0 → i < max) :
    i < (allocfiles env files current max sys).1 := by
  unfold allocfiles at hok ⊢
  simp only at hok ⊢
  by_cases hm : (malloc env sys).1 = false
  · rw [if_pos hm] at hok
    exact absurd rfl hok
  · rw [if_neg hm]
    simp only
    unfold INITIAL_FILE_ALLOC FILE_ALLOC_MULT umul SIZE_MOD
    unfold OFF_NEG at hcur
    split_ifs with c1 c2 c3
    all_goals omega

theorem create_new_file_keeps {env : Env} {st : DATASTREAM} {path : String} {ctxt mode : Nat}
    {sys : Sys} (h0 : (create_new_file env st path ctxt mode sys).1 = 0) (i : Nat)
    (hi : i < st.curfile) (hfa : i < st.filealloc) (hcur : st.filealloc < OFF_NEG)
    (hmax : st.ns.datascheme.objfiles ≠ 0 → i < st.ns.datascheme.objfiles) :
    getfile (create_new_file env st path ctxt mode sys).2.1.files i = getfile st.files i := by
  obtain ⟨-, h2⟩ := create_new_file_spec
    (Prod.mk.eta (p := create_new_file env st path ctxt mode sys)).symm
  obtain ⟨hd, ta, tm, rb, fl, fa, sz, finfo, hs, hfl⟩ := h2 h0
  rw [hs]
  show getfile (setfile fl st.curfile _) i = _
  rw [getfile_setfile_ne _ _ _ _ (by omega)]
  rcases hfl with rfl | ⟨-, sysx, hok, rfl⟩
  · rfl
  · exact allocfiles_getfile env _ _ _ _ i hok hfa
      (allocfiles_size env _ _ _ _ i hok hfa hcur hmax)

theorem putftag_trace (env : Env) (s : DATASTREAM) (f : STREAMFILE) (sys : Sys) :
    ∃ seg, (putftag env s f sys).2.2.trace = sys.trace ++ seg := by
  obtain ⟨-, seg, h, -⟩ := putftag_spec (Prod.mk.eta (p := putftag env s f sys)).symm
  exact ⟨seg, h⟩

theorem mem_drop_of_append {α : Type} {t1 t2 seg : List α} {n : Nat} {x : α}
    (h : t2 = t1 ++ seg) (hx : x ∈ t1.drop n) : x ∈ t2.drop n := by
  rw [h, List.drop_append_eq_append_drop]
  exact List.mem_append_left _ hx

theorem mem_drop_of_le {α : Type} {t : List α} {n m : Nat} {x : α} (hnm : n ≤ m)
    (hx : x ∈ t.drop m) : x ∈ t.drop n := by
  have h : t.drop m = (t.drop n).drop (m - n) := by
    rw [List.drop_drop]
    congr 1
    omega
  rw [h] at hx
  exact List.mem_of_mem_drop hx

theorem completefile_closes (env : Env) (s : DATASTREAM) (i : Nat) (sys : Sys)
    (h : (completefile env s i sys).1 = 0) :
    ∃ r, (Call.mdclose (getfile s.files i).metahandle, r) ∈
      (completefile env s i sys).2.2.trace.drop sys.trace.length ∧ r.ret = 0 := by
  revert h
  unfold completefile
  simp only
  split_ifs with c1 c2 c3 c4 c5 c6 c7
  all_goals first
    | (intro h
       have h1 : (-1 : Int) = 0 := h
       exact absurd h1 (by decide))
    | (intro _
       refine ⟨_, ?_, not_not.mp c7⟩
       obtain ⟨segp, hp⟩ := putftag_trace env
         (setstate s i (FTAG_COMP ||| FTAG_READABLE ||| (getfile s.files i).ftag.state &&&
           NOT_DATASTATE))
         (getfile (setstate s i (FTAG_COMP ||| FTAG_READABLE |||
           (getfile s.files i).ftag.state &&& NOT_DATASTATE)).files i)
         (call env sys (.ftruncate (getfile (setstate s i (FTAG_COMP ||| FTAG_READABLE |||
           (getfile s.files i).ftag.state &&& NOT_DATASTATE)).files i).metahandle
           (getfile (setstate s i (FTAG_COMP ||| FTAG_READABLE |||
           (getfile s.files i).ftag.state &&& NOT_DATASTATE)).files i).ftag.availbytes)).2
       rw [call_trace, call_trace, hp, call_trace, setstate_files_same]
       simp [List.append_assoc])

theorem attach_and_complete_closes {env : Env} {rtagstr : Option String}
    {stream : DATASTREAM} {ab : Nat} {sys : Sys} {s' : DATASTREAM} {ab' : Nat} {sys' : Sys}
    (h : attach_and_complete env rtagstr true stream ab sys = (s', ab', sys')) (h0 : ab' = 0) :
    ∃ r, (Call.mdclose stream.cur.metahandle, r) ∈ sys'.trace.drop sys.trace.length ∧
      r.ret = 0 := by
  unfold attach_and_complete at h
  cases rtagstr with
  | none =>
    simp only [if_true] at h
    split_ifs at h with c1
    · simp only [Prod.mk.injEq] at h
      omega
    · simp only [Prod.mk.injEq] at h
      obtain ⟨-, -, hsys⟩ := h
      rw [← hsys]
      exact completefile_closes env stream stream.curfile sys (not_not.mp c1)
  | some rtag =>
    simp only [if_true] at h
    split_ifs at h with c1 c2
    · simp only [Prod.mk.injEq] at h
      omega
    · simp only [Prod.mk.injEq] at h
      omega
    · simp only [Prod.mk.injEq] at h
      obtain ⟨-, -, hsys⟩ := h
      rw [← hsys]
      obtain ⟨r, hr, hr0⟩ := completefile_closes env stream stream.curfile
        (call env sys (.fsetxattr stream.cur.metahandle RTAG_NAME (.rtag rtag) rtag.length)).2
        (not_not.mp c2)
      refine ⟨r, mem_drop_of_le ?_ hr, hr0⟩
      rw [call_trace]
      simp

theorem datastream_create_files_closes (env : Env) (rtagstr : Option String) :
    ∀ (fuel : Nat) (stream : DATASTREAM) (ab : Nat) (sys : Sys) (s' : DATASTREAM) (ab' : Nat)
      (sys' : Sys), stream.curfile ≤ fuel →
      datastream_create_files env rtagstr fuel stream ab sys = (s', ab', sys') → ab' = 0 →
      ∀ i, i < stream.curfile →
        ∃ r, (Call.mdclose (getfile stream.files i).metahandle, r) ∈
          sys'.trace.drop sys.trace.length ∧ r.ret = 0 := by
  intro fuel
  induction fuel with
  | zero =>
    intro stream ab sys s' ab' sys' hcur h h0 i hi
    omega
  | succ f ih =>
    intro stream ab sys s' ab' sys' hcur h h0 i hi
    rw [datastream_create_files] at h
    have hc0 : stream.curfile ≠ 0 := by omega
    rw [if_neg hc0] at h
    obtain ⟨s1, ab1, sys1, hb⟩ : ∃ s1 ab1 sys1, attach_and_complete env rtagstr true
      { stream with curfile := stream.curfile - 1 } ab sys = (s1, ab1, sys1) := ⟨_, _, _, rfl⟩
    rw [hb] at h
    obtain ⟨⟨fl, sz, hs1⟩, hfr, hmono, seg, htr, -⟩ := attach_and_complete_spec hb
    simp only at h hfr
    have hcur1 : s1.curfile = stream.curfile - 1 := by rw [hs1]
    obtain ⟨-, -, hmono2, seg2, htr2, -⟩ :=
      datastream_create_files_spec env rtagstr f s1 ab1 sys1 s' ab' sys' (by omega) h
    have hab1 : ab1 = 0 := by
      by_contra hne
      exact hmono2 hne h0
    by_cases hic : i = stream.curfile - 1
    · subst hic
      obtain ⟨r, hr, hr0⟩ := attach_and_complete_closes hb hab1
      exact ⟨r, mem_drop_of_append htr2 hr, hr0⟩
    · obtain ⟨r, hr, hr0⟩ := ih s1 ab1 sys1 s' ab' sys' (by omega) h h0 i (by omega)
      rw [hfr i hic] at hr
      refine ⟨r, mem_drop_of_le ?_ hr, hr0⟩
      rw [htr]
      simp

theorem datastream_create_continue_ok (env : Env) (s : DATASTREAM) (path : String)
    (pos : marfs_position) (mode : Nat) (sys : Sys)
    (h : (datastream_create_continue env s path pos mode sys).1 = 0) :
    (finfile env s sys).1 = 0 ∧ (continueCreate env s path pos mode sys).1 = 0 ∧
    ((continueCreate env s path pos mode sys).2.1.cur.ftag.objno ≠ s.objno →
      (continueClose env s path pos mode sys).1 = 0 ∧
      (continueLoop env s path pos mode sys).2.1 = 0 ∧
      datastream_create_continue env s path pos mode sys =
        (0, some { (continueLoop env s path pos mode sys).1 with
          files := setfile (continueLoop env s path pos mode sys).1.files 0
            (getfile (continueLoop env s path pos mode sys).1.files
              (continueCreate env s path pos mode sys).2.1.curfile) },
          (continueLoop env s path pos mode sys).2.2)) ∧
    ((continueCreate env s path pos mode sys).2.1.cur.ftag.objno = s.objno →
      (continuePut env s path pos mode sys).1 = 0 ∧
      datastream_create_continue env s path pos mode sys =
        (0, some (continuePut env s path pos mode sys).2.1,
          (continuePut env s path pos mode sys).2.2)) := by
  unfold datastream_create_continue at h ⊢
  unfold continuePut continueLoop continueClose continueCreate continueStart
  simp only at h ⊢
  split_ifs at h ⊢ with c1 c2 c3 c4 c5 c6
  all_goals first
    | (have h1 : (-1 : Int) = 0 := h
       exact absurd h1 (by decide))
    | exact ⟨not_not.mp c1, not_not.mp c2,
        fun _ => ⟨not_not.mp c4, not_not.mp c5, rfl⟩, fun hc => absurd hc c3⟩
    | exact ⟨not_not.mp c1, not_not.mp c2, fun hc => absurd hc c3,
        fun _ => ⟨not_not.mp (by assumption), rfl⟩⟩

theorem usub_uadd_one (c : Nat) (h : c < SIZE_MOD) : usub (uadd c 1) 1 = c := by
  unfold usub uadd SIZE_MOD at *
  omega

theorem continueStart_facts (env : Env) (s : DATASTREAM) (sys : Sys) :
    (continueStart env s sys).curfile = uadd s.curfile 1 ∧
    (continueStart env s sys).fileno = uadd s.fileno 1 ∧
    (continueStart env s sys).filealloc = s.filealloc ∧
    (continueStart env s sys).ns = s.ns ∧
    (continueStart env s sys).type = s.type ∧
    (continueStart env s sys).files = (finfile env s sys).2.1.files ∧
    ((continueStart env s sys).objno = s.objno ∨
      (continueStart env s sys).objno = uadd s.objno 1) := by
  obtain ⟨⟨dh, fl, off, ob, fi, fls, hs, hob⟩, -⟩ := finfile_spec env s sys
  refine ⟨?_, ?_, ?_, ?_, ?_, rfl, ?_⟩
  · show uadd (finfile env s sys).2.1.curfile 1 = uadd s.curfile 1
    rw [hs]
  · show uadd (finfile env s sys).2.1.fileno 1 = uadd s.fileno 1
    rw [hs]
  · show (finfile env s sys).2.1.filealloc = s.filealloc
    rw [hs]
  · show (finfile env s sys).2.1.ns = s.ns
    rw [hs]
  · show (finfile env s sys).2.1.type = s.type
    rw [hs]
  · show (finfile env s sys).2.1.objno = s.objno ∨ (finfile env s sys).2.1.objno = uadd s.objno 1
    rw [hs]
    exact hob

theorem continueCreate_facts (env : Env) (s : DATASTREAM) (path : String)
    (pos : marfs_position) (mode : Nat) (sys : Sys)
    (hc : (continueCreate env s path pos mode sys).1 = 0)
    (hcf : s.curfile + 1 < SIZE_MOD) (hroom : s.curfile < s.filealloc)
    (hfa : s.filealloc < OFF_NEG)
    (hobj : s.ns.datascheme.objfiles ≠ 0 → s.curfile < s.ns.datascheme.objfiles) :
    ∃ hd ta tm rb,
      (continueCreate env s path pos mode sys).2.1.cur =
        createdFile (continueStart env s sys) hd ta tm rb ∧
      (continueCreate env s path pos mode sys).2.1.curfile = s.curfile + 1 ∧
      (continueCreate env s path pos mode sys).2.1.type = s.type ∧
      (createdFile (continueStart env s sys) hd ta tm rb).ftag.fileno = uadd s.fileno 1 ∧
      ∀ i, i ≤ s.curfile →
        getfile (continueCreate env s path pos mode sys).2.1.files i = finalized env s sys i := by
  obtain ⟨h1, h2, h3, h4, h5, h6, -⟩ := continueStart_facts env s sys
  have hcur : (continueStart env s sys).curfile = s.curfile + 1 := by
    rw [h1]
    exact uadd_eq_add hcf
  obtain ⟨hd, ta, tm, rb, hcurf, hcfile, -, -, -⟩ := create_new_file_cur hc
  obtain ⟨-, hout⟩ := create_new_file_spec
    (Prod.mk.eta (p := continueCreate env s path pos mode sys)).symm
  refine ⟨hd, ta, tm, rb, hcurf, ?_, ?_, ?_, ?_⟩
  · unfold continueCreate
    rw [hcfile, hcur]
  · obtain ⟨_, _, _, _, _, _, _, _, hs, -⟩ := hout hc
    rw [hs]
    exact h5
  · rw [(createdFile_facts _ hd ta tm rb).2.1, h2]
  · intro i hi
    unfold finalized
    rw [← h6]
    exact create_new_file_keeps hc i (by omega) (by omega) (by rw [h3]; exact hfa)
      (by
        rw [h4]
        intro hne
        have := hobj hne
        omega)

theorem finalized_facts (env : Env) (s : DATASTREAM) (sys : Sys) (i : Nat) :
    (finalized env s sys i).metahandle = (getfile s.files i).metahandle ∧
    (i ≠ s.curfile → finalized env s sys i = getfile s.files i) ∧
    ((finfile env s sys).1 = 0 → datastate s.cur.ftag.state ≠ FTAG_COMP →
      datastate (finalized env s sys s.curfile).ftag.state = FTAG_FIN) := by
  obtain ⟨-, hne, ⟨st, hst, -⟩, -⟩ := finfile_spec env s sys
  unfold finalized
  refine ⟨?_, fun h => hne i h, ?_⟩
  · by_cases h : i = s.curfile
    · subst h
      rw [hst]
      rfl
    · rw [hne i h]
  · intro h0 hnc
    by_cases hlt : s.cur.ftag.state &&& FTAG_DATASTATE < FTAG_FIN
    · have := (finfile_finalizes env s sys).1 hlt h0
      obtain ⟨hcf, -, hds, -⟩ := this
      unfold DATASTREAM.cur at hds
      rw [hcf] at hds
      exact hds
    · rw [finfile_noop env s sys hlt]
      have hle := datastate_le s.cur.ftag.state
      unfold datastate FTAG_FIN FTAG_COMP at *
      show s.cur.ftag.state &&& FTAG_DATASTATE = 2
      omega

theorem continue_transition (env : Env) (s : DATASTREAM) (path : String)
    (pos : marfs_position) (mode : Nat) (sys : Sys)
    (hc : (continueCreate env s path pos mode sys).1 = 0)
    (hl : (continueLoop env s path pos mode sys).2.1 = 0)
    (htype : s.type = CREATE_STREAM)
    (hcf : s.curfile + 1 < SIZE_MOD) (hroom : s.curfile < s.filealloc)
    (hfa : s.filealloc < OFF_NEG)
    (hobj : s.ns.datascheme.objfiles ≠ 0 → s.curfile < s.ns.datascheme.objfiles)
    (s' : DATASTREAM)
    (hs' : s' = { (continueLoop env s path pos mode sys).1 with
      files := setfile (continueLoop env s path pos mode sys).1.files 0
        (getfile (continueLoop env s path pos mode sys).1.files
          (continueCreate env s path pos mode sys).2.1.curfile) }) :
    s'.curfile = 0 ∧ getfile s'.files 0 = (continueCreate env s path pos mode sys).2.1.cur ∧
    s'.datahandle = none ∧
    ∃ seg, (continueLoop env s path pos mode sys).2.2.trace =
        (continueCreate env s path pos mode sys).2.2.trace ++ seg ∧
      ∀ i, i ≤ s.curfile →
        CompletedIn (finalized env s sys i) seg ∧
        ((finalized env s sys i).ftag.state < 16 →
          completedState (finalized env s sys i).ftag.state = FTAG_COMP ||| FTAG_READABLE) ∧
        (0 < i → (getfile s'.files i).metahandle = none ∧
          (getfile s'.files i).ftag = { (finalized env s sys i).ftag with
            state := completedState (finalized env s sys i).ftag.state }) := by
  obtain ⟨hd, ta, tm, rb, hcur, hcfile, hcty, -, hkeepC⟩ :=
    continueCreate_facts env s path pos mode sys hc hcf hroom hfa hobj
  have hcls := close_current_obj_stream env (continueCreate env s path pos mode sys).2.1
    (continueCreate env s path pos mode sys).2.2
  obtain ⟨segc, htrc, -⟩ := close_current_obj_grows env
    (continueCreate env s path pos mode sys).2.1 (continueCreate env s path pos mode sys).2.2
  have hclf : (continueClose env s path pos mode sys).2.1.files =
      (continueCreate env s path pos mode sys).2.1.files := by
    unfold continueClose
    rw [hcls]
  have hclc : (continueClose env s path pos mode sys).2.1.curfile = s.curfile + 1 := by
    unfold continueClose
    rw [hcls]
    exact hcfile
  have hclt : (continueClose env s path pos mode sys).2.1.type = CREATE_STREAM := by
    unfold continueClose
    rw [hcls]
    exact hcty.trans htype
  have hcld : (continueClose env s path pos mode sys).2.1.datahandle = none := by
    unfold continueClose
    rw [hcls]
  have hL : datastream_create_files env (continueClose env s path pos mode sys).2.2.1
      (continueClose env s path pos mode sys).2.1.curfile
      (continueClose env s path pos mode sys).2.1 0
      (continueClose env s path pos mode sys).2.2.2 =
      ((continueLoop env s path pos mode sys).1, (continueLoop env s path pos mode sys).2.1,
        (continueLoop env s path pos mode sys).2.2) := rfl
  obtain ⟨⟨fl, sz, hs5⟩, hkeep, -, seg, htr, hcomp⟩ :=
    datastream_create_files_spec env _ _ _ _ _ _ _ _ (le_refl _) hL
  have hcl := datastream_create_files_closes env _ _ _ _ _ _ _ _ (le_refl _) hL hl
  have hdrop : (continueLoop env s path pos mode sys).2.2.trace.drop
      (continueClose env s path pos mode sys).2.2.2.trace.length = seg := by
    rw [htr]
    exact List.drop_left _ _
  rw [hdrop] at hcl
  have hnewslot : getfile (continueLoop env s path pos mode sys).1.files (s.curfile + 1) =
      (continueCreate env s path pos mode sys).2.1.cur := by
    rw [hkeep (s.curfile + 1) (by rw [hclc]), hclf]
    unfold DATASTREAM.cur
    rw [hcfile]
  refine ⟨?_, ?_, ?_, segc ++ seg, ?_, ?_⟩
  · rw [hs', hs5]
  · rw [hs']
    show getfile (setfile _ 0 _) 0 = _
    rw [getfile_setfile_same, hcfile, hnewslot]
  · rw [hs', hs5]
    exact hcld
  · rw [htr]
    have : (continueClose env s path pos mode sys).2.2.2.trace =
        (continueCreate env s path pos mode sys).2.2.trace ++ segc := htrc
    rw [this, List.append_assoc]
  · intro i hi
    have hfi : getfile (continueClose env s path pos mode sys).2.1.files i =
        finalized env s sys i := by
      rw [hclf]
      exact hkeepC i hi
    have hC := hcomp hl i (by rw [hclc]; omega)
    rw [hfi, hclt] at hC
    obtain ⟨⟨-, hw, -⟩, hmh, hft, ⟨r1, hr1, hr10⟩, ⟨len, r2, hr2, hr20⟩⟩ := hC
    obtain ⟨r3, hr3, hr30⟩ := hcl i (by rw [hclc]; omega)
    rw [hfi] at hr3
    refine ⟨⟨⟨r1, List.mem_append_right _ hr1, hr10⟩, ⟨len, r2, List.mem_append_right _ hr2, hr20⟩,
      ⟨r3, List.mem_append_right _ hr3, hr30⟩⟩, ?_, ?_⟩
    · intro hlt
      exact completedState_exact _ hlt (hw rfl)
    · intro hpos
      have hsl : getfile s'.files i = getfile (continueLoop env s path pos mode sys).1.files i := by
        rw [hs']
        show getfile (setfile _ 0 _) i = _
        rw [getfile_setfile_ne _ _ _ _ (by omega)]
      rw [hsl]
      exact ⟨hmh, hft⟩

theorem datastream_create_continues (env : Env) (s : DATASTREAM) (path : String)
    (pos : marfs_position) (mode : Nat) (ctag : String) (sys : Sys)
    (htype : s.type = CREATE_STREAM) (hns : s.ns.addr = pos.ns.addr) :
    datastream_create env (some (some s)) (some path) (some pos) mode ctag sys =
      datastream_create_continue env s path pos mode sys := by
  have h1 : ¬ s.type ≠ CREATE_STREAM := not_not.mpr htype
  have h2 : ¬ s.ns.addr ≠ pos.ns.addr := not_not.mpr hns
  simp only [datastream_create, if_neg h1, if_neg h2]

theorem datastream_create_continue_inside (env : Env) (s : DATASTREAM) (path : String)
    (pos : marfs_position) (mode : Nat) (sys : Sys)
    (hret : (datastream_create_continue env s path pos mode sys).1 = 0)
    (hin : storeInside env s path pos mode sys) :
    ∀ (t : DATASTREAM) (sy : Sys),
      datastream_create_continue env s path pos mode sys = (0, some t, sy) →
      t.curfile < t.filealloc := by
  obtain ⟨-, hc0, htrans, hsame⟩ := datastream_create_continue_ok env s path pos mode sys hret
  intro t sy ht
  have hin := hin hc0
  by_cases hobjno : (continueCreate env s path pos mode sys).2.1.cur.ftag.objno ≠ s.objno
  · obtain ⟨-, -, hres⟩ := htrans hobjno
    rw [hres] at ht
    simp only [Prod.mk.injEq, Option.some.injEq, true_and] at ht
    obtain ⟨rfl, -⟩ := ht
    have hcls := close_current_obj_stream env (continueCreate env s path pos mode sys).2.1
      (continueCreate env s path pos mode sys).2.2
    have hL : datastream_create_files env (continueClose env s path pos mode sys).2.2.1
        (continueClose env s path pos mode sys).2.1.curfile
        (continueClose env s path pos mode sys).2.1 0
        (continueClose env s path pos mode sys).2.2.2 =
        ((continueLoop env s path pos mode sys).1, (continueLoop env s path pos mode sys).2.1,
          (continueLoop env s path pos mode sys).2.2) := rfl
    obtain ⟨⟨fl, sz, hs5⟩, -, -⟩ :=
      datastream_create_files_spec env _ _ _ _ _ _ _ _ (le_refl _) hL
    have hcl1 : (continueClose env s path pos mode sys).2.1 =
        { (continueCreate env s path pos mode sys).2.1 with datahandle := none } := hcls
    show (continueLoop env s path pos mode sys).1.curfile <
      (continueLoop env s path pos mode sys).1.filealloc
    rw [hs5, hcl1]
    show 0 < (continueCreate env s path pos mode sys).2.1.filealloc
    omega
  · obtain ⟨-, hres⟩ := hsame (not_not.mp hobjno)
    rw [hres] at ht
    simp only [Prod.mk.injEq, Option.some.injEq, true_and] at ht
    obtain ⟨rfl, -⟩ := ht
    obtain ⟨⟨sz, hsz⟩, -⟩ := putftag_spec
      (Prod.mk.eta (p := continuePut env s path pos mode sys)).symm
    have hsz' : (continuePut env s path pos mode sys).2.1 =
        { (continueCreate env s path pos mode sys).2.1 with ftagstrsize := sz } := hsz
    rw [hsz']
    exact hin

theorem createdFile_objno (st : DATASTREAM) (hd : Nat) (ta tm : timespec) (rb : Nat)
    (hno : st.objno + 1 < SIZE_MOD) :
    ((createdFile st hd ta tm rb).ftag.objno = st.objno ∧
      (st.ns.datascheme.objfiles ≠ 0 → st.curfile < st.ns.datascheme.objfiles)) ∨
    (createdFile st hd ta tm rb).ftag.objno = st.objno + 1 := by
  unfold createdFile create_new_file_place create_new_file_init
  simp only
  split_ifs with c1 c2
  · right
    exact uadd_eq_add hno
  · right
    exact uadd_eq_add hno
  · left
    refine ⟨rfl, fun h => ?_⟩
    by_contra hge
    exact c2 ⟨h, by omega⟩

theorem continue_step (env : Env) (s : DATASTREAM) (path : String) (pos : marfs_position)
    (mode : Nat) (ctag : String) (sys : Sys) (k : Nat)
    (htype : s.type = CREATE_STREAM) (hns : s.ns.addr = pos.ns.addr)
    (hk : s.ns.datascheme.objfiles = k) (hk0 : 0 < k) (hkt : k < SIZE_MOD)
    (hcur : s.curfile < k) (hno : s.objno + 2 < SIZE_MOD)
    (hret : (datastream_create env (some (some s)) (some path) (some pos) mode ctag sys).1 = 0) :
    ∃ s' sys', datastream_create env (some (some s)) (some path) (some pos) mode ctag sys =
        (0, some s', sys') ∧
      s'.type = CREATE_STREAM ∧ s'.ns = s.ns ∧ s'.cur.ftag.objno = s'.objno ∧
      ((s'.objno = s.objno ∧ s'.curfile = s.curfile + 1 ∧ s.curfile + 1 < k) ∨
        (s.objno < s'.objno ∧ s'.objno ≤ s.objno + 2 ∧ s'.curfile = 0)) := by
  have hdc : datastream_create env (some (some s)) (some path) (some pos) mode ctag sys =
      datastream_create_continue env s path pos mode sys := by
    have h1 : ¬ s.type ≠ CREATE_STREAM := not_not.mpr htype
    have h2 : ¬ s.ns.addr ≠ pos.ns.addr := not_not.mpr hns
    simp only [datastream_create, if_neg h1, if_neg h2]
  rw [hdc] at hret ⊢
  obtain ⟨hf0, hc0, htrans, hsame⟩ := datastream_create_continue_ok env s path pos mode sys hret
  obtain ⟨h1, -, -, h4, h5, -, hob⟩ := continueStart_facts env s sys
  have hcf : uadd s.curfile 1 = s.curfile + 1 := uadd_eq_add (by omega)
  obtain ⟨hd, ta, tm, rb, hcurf, hcfile, hcobj, -, -⟩ := create_new_file_cur hc0
  obtain ⟨-, hout⟩ := create_new_file_spec
    (Prod.mk.eta (p := continueCreate env s path pos mode sys)).symm
  obtain ⟨_, _, _, _, fl0, fa0, sz0, fi0, hs3, -⟩ := hout hc0
  have hty3 : (continueCreate env s path pos mode sys).2.1.type = CREATE_STREAM := by
    rw [hs3]
    exact h5.trans htype
  have hns3 : (continueCreate env s path pos mode sys).2.1.ns = s.ns := by
    rw [hs3]
    exact h4
  have hcf3 : (continueCreate env s path pos mode sys).2.1.curfile = s.curfile + 1 := by
    unfold continueCreate
    rw [hcfile, h1, hcf]
  have hob3 : (continueCreate env s path pos mode sys).2.1.objno =
      (continueCreate env s path pos mode sys).2.1.cur.ftag.objno := by
    unfold continueCreate
    rw [hcobj, hcurf]
  -- where the new file lies
  have hplace : ((continueCreate env s path pos mode sys).2.1.cur.ftag.objno = s.objno ∧
        s.curfile + 1 < k) ∨
      (s.objno < (continueCreate env s path pos mode sys).2.1.cur.ftag.objno ∧
        (continueCreate env s path pos mode sys).2.1.cur.ftag.objno ≤ s.objno + 2) := by
    have hS0 : (continueStart env s sys).objno + 1 < SIZE_MOD := by
      rcases hob with h | h
      · rw [h]; omega
      · rw [h, uadd_eq_add (by omega)]; omega
    have hcr := createdFile_objno (continueStart env s sys) hd ta tm rb hS0
    have hcurf' : (continueCreate env s path pos mode sys).2.1.cur =
        createdFile (continueStart env s sys) hd ta tm rb := hcurf
    rw [hcurf']
    rw [h4, hk, h1, hcf] at hcr
    rcases hob with h | h
    · rw [h] at hcr
      rcases hcr with ⟨e, hlt⟩ | e
      · exact Or.inl ⟨e, hlt (by omega)⟩
      · right
        rw [e]
        omega
    · rw [h, uadd_eq_add (by omega)] at hcr
      right
      rcases hcr with ⟨e, -⟩ | e <;> rw [e] <;> omega
  by_cases hobjno : (continueCreate env s path pos mode sys).2.1.cur.ftag.objno ≠ s.objno
  · obtain ⟨hcl0, hl0, hres⟩ := htrans hobjno
    have hcls := close_current_obj_stream env (continueCreate env s path pos mode sys).2.1
      (continueCreate env s path pos mode sys).2.2
    have hL : datastream_create_files env (continueClose env s path pos mode sys).2.2.1
        (continueClose env s path pos mode sys).2.1.curfile
        (continueClose env s path pos mode sys).2.1 0
        (continueClose env s path pos mode sys).2.2.2 =
        ((continueLoop env s path pos mode sys).1, (continueLoop env s path pos mode sys).2.1,
          (continueLoop env s path pos mode sys).2.2) := rfl
    obtain ⟨⟨fl, sz, hs5⟩, hkeep, -⟩ :=
      datastream_create_files_spec env _ _ _ _ _ _ _ _ (le_refl _) hL
    have hcl1 : (continueClose env s path pos mode sys).2.1 =
        { (continueCreate env s path pos mode sys).2.1 with datahandle := none } := hcls
    have hslot : getfile (continueLoop env s path pos mode sys).1.files
        (continueCreate env s path pos mode sys).2.1.curfile =
        (continueCreate env s path pos mode sys).2.1.cur := by
      rw [hkeep _ (by rw [hcl1]), hcl1]
      rfl
    refine ⟨_, _, hres, ?_, ?_, ?_, Or.inr ?_⟩
    · rw [hs5, hcl1]
      exact hty3
    · rw [hs5, hcl1]
      exact hns3
    · have hcfL : (continueLoop env s path pos mode sys).1.curfile = 0 := by rw [hs5]
      have hobL : (continueLoop env s path pos mode sys).1.objno =
          (continueCreate env s path pos mode sys).2.1.objno := by rw [hs5, hcl1]
      show (getfile (setfile (continueLoop env s path pos mode sys).1.files 0
          (getfile (continueLoop env s path pos mode sys).1.files
            (continueCreate env s path pos mode sys).2.1.curfile))
          (continueLoop env s path pos mode sys).1.curfile).ftag.objno =
        (continueLoop env s path pos mode sys).1.objno
      rw [hcfL, getfile_setfile_same, hslot, hobL]
      exact hob3.symm
    · rw [hs5, hcl1]
      show _ < (continueCreate env s path pos mode sys).2.1.objno ∧
        (continueCreate env s path pos mode sys).2.1.objno ≤ _ ∧ 0 = 0
      rw [hob3]
      rcases hplace with ⟨e, -⟩ | ⟨e1, e2⟩
      · exact absurd e hobjno
      · exact ⟨e1, e2, rfl⟩
  · obtain ⟨hp0, hres⟩ := hsame (not_not.mp hobjno)
    obtain ⟨⟨sz, hsz⟩, -⟩ := putftag_spec
      (Prod.mk.eta (p := continuePut env s path pos mode sys)).symm
    have hsz' : (continuePut env s path pos mode sys).2.1 =
        { (continueCreate env s path pos mode sys).2.1 with ftagstrsize := sz } := hsz
    refine ⟨_, _, hres, ?_, ?_, ?_, Or.inl ?_⟩
    · rw [hsz']
      exact hty3
    · rw [hsz']
      exact hns3
    · rw [hsz']
      exact hob3.symm
    · rw [hsz']
      show (continueCreate env s path pos mode sys).2.1.objno = _ ∧
        (continueCreate env s path pos mode sys).2.1.curfile = _ ∧ _
      rw [hob3, hcf3]
      rcases hplace with ⟨e, hlt⟩ | ⟨e1, -⟩
      · exact ⟨e, rfl, hlt⟩
      · exact absurd (not_not.mp hobjno) (by omega)
theorem createRun_packing (env : Env) (pos : marfs_position) (ctag : String) (k : Nat)
    (hk0 : 0 < k) (hkt : k < SIZE_MOD) :
    ∀ (reqs : List (String × Nat)) (s : DATASTREAM) (sys : Sys) (objnos : List Nat)
      (fin : DATASTREAM × Sys),
      s.type = CREATE_STREAM → s.ns.addr = pos.ns.addr → s.ns.datascheme.objfiles = k →
      s.curfile < k → s.curfile < s.filealloc → s.objno + 2 * reqs.length < SIZE_MOD →
      runInside env pos ctag reqs s sys = true →
      createRun env pos ctag reqs s sys = some (objnos, fin) →
      (∀ o ∈ objnos, s.objno ≤ o) ∧ (∀ o, objnos.count o + trackedIn s o ≤ k) ∧
        fin.1.curfile < fin.1.filealloc ∧ fin.1.curfile < k := by
  intro reqs
  induction reqs with
  | nil =>
    intro s sys objnos fin _ _ _ hcur hroom _ _ h
    simp only [createRun, Option.some.injEq, Prod.mk.injEq] at h
    obtain ⟨rfl, rfl⟩ := h
    refine ⟨by simp, fun o => ?_, hroom, hcur⟩
    unfold trackedIn
    split_ifs <;> simp only [List.count_nil, zero_add, add_zero] <;> omega
  | cons rq rest ih =>
    obtain ⟨path, mode⟩ := rq
    intro s sys objnos fin htype hns hk hcur hroom hno hin h
    simp only [List.length_cons] at hno
    obtain ⟨res, os, sys1, hr⟩ : ∃ res os sys1,
      datastream_create env (some (some s)) (some path) (some pos) mode ctag sys =
        (res, os, sys1) := ⟨_, _, _, rfl⟩
    rw [createRun, hr] at h
    rw [runInside, hr] at hin
    cases os with
    | none => simp at h
    | some s1 =>
      simp only at h
      simp only [Bool.and_eq_true, decide_eq_true_eq] at hin
      obtain ⟨hin1, hinr⟩ := hin
      by_cases hres : res = 0
      · rw [if_pos hres] at h
        have hroom' : s1.curfile < s1.filealloc := by
          have hcont := datastream_create_continues env s path pos mode ctag sys htype hns
          refine datastream_create_continue_inside env s path pos mode sys ?_ hin1 s1 sys1 ?_
          · rw [← hcont, hr]
            exact hres
          · rw [← hcont, hr, hres]
        obtain ⟨s', sys', hdc, hty', hns', hob', hcase⟩ :=
          continue_step env s path pos mode ctag sys k htype hns hk hk0 hkt hcur (by omega)
            (by rw [hr]; exact hres)
        rw [hr] at hdc
        simp only [Prod.mk.injEq, Option.some.injEq] at hdc
        obtain ⟨-, rfl, rfl⟩ := hdc
        cases hrun : createRun env pos ctag rest s1 sys1 with
        | none => rw [hrun] at h; simp at h
        | some out =>
          obtain ⟨objnos', fin'⟩ := out
          rw [hrun] at h
          simp only [Option.some.injEq, Prod.mk.injEq] at h
          obtain ⟨rfl, rfl⟩ := h
          have hcur' : s1.curfile < k := by
            rcases hcase with ⟨-, e, hlt⟩ | ⟨-, -, e⟩ <;> omega
          have hno' : s1.objno + 2 * rest.length < SIZE_MOD := by
            rcases hcase with ⟨e, -, -⟩ | ⟨-, e, -⟩ <;> omega
          obtain ⟨hge, hcnt, hfin⟩ := ih s1 sys1 objnos' fin' hty' (by rw [hns']; exact hns)
            (by rw [hns']; exact hk) hcur' hroom' hno' hinr hrun
          refine ⟨?_, fun o => ?_, hfin⟩
          · intro o ho
            rcases List.mem_cons.mp ho with e | e
            · rw [e, hob']
              rcases hcase with ⟨e, -, -⟩ | ⟨e, -, -⟩ <;> omega
            · have := hge o e
              rcases hcase with ⟨e, -, -⟩ | ⟨e, -, -⟩ <;> omega
          · have hc := hcnt o
            rw [hob', List.count_cons]
            unfold trackedIn at hc ⊢
            rcases hcase with ⟨e1, e2, e3⟩ | ⟨e1, e2, e3⟩
            · rw [e1, e2] at hc
              rw [e1]
              by_cases ho : o = s.objno
              · rw [if_pos ho] at hc ⊢
                subst ho
                simp
                omega
              · rw [if_neg ho] at hc ⊢
                have : ¬ (s.objno == o) = true := by simpa using fun e => ho e.symm
                rw [if_neg this]
                omega
            · rw [e3] at hc
              by_cases ho : o = s1.objno
              · rw [if_pos ho] at hc
                have hne : ¬ o = s.objno := by omega
                rw [if_neg hne]
                subst ho
                simp
                omega
              · rw [if_neg ho] at hc
                have : ¬ (s1.objno == o) = true := by simpa using fun e => ho e.symm
                rw [if_neg this]
                by_cases ho2 : o = s.objno
                · rw [if_pos ho2]
                  have hz : List.count o objnos' = 0 := by
                    apply List.count_eq_zero_of_not_mem
                    intro hm
                    have := hge o hm
                    omega
                  omega
                · rw [if_neg ho2]
                  omega
      · rw [if_neg hres] at h
        simp at h

theorem putftag_attach_exact {env : Env} {s : DATASTREAM} {file : STREAMFILE} {n : Nat}
    {sy : Sys} {res : Int} {s' : DATASTREAM} {sys' : Sys}
    (h : putftag_attach env s file n sy = (res, s', sys')) :
    s' = s ∧ ∃ seg, sys'.trace = sy.trace ++ seg ∧
      ((seg = [] ∧ res ≠ 0) ∨
        ∃ len r, seg = [(Call.fsetxattr file.metahandle FTAG_NAME (.ftag file.ftag) len, r)] ∧
          (res = 0 ↔ r.ret = 0)) := by
  unfold putftag_attach at h
  simp only [call] at h
  split_ifs at h with h0 hr <;> simp only [Prod.mk.injEq] at h <;> obtain ⟨rfl, rfl, rfl⟩ := h
  · exact ⟨rfl, [], by simp, Or.inl ⟨rfl, by decide⟩⟩
  · exact ⟨rfl, [_], rfl, Or.inr ⟨n, _, rfl, by simpa using hr⟩⟩
  · exact ⟨rfl, [_], rfl, Or.inr ⟨n, _, rfl, by simpa using hr⟩⟩

theorem putftag_exact {env : Env} {stream : DATASTREAM} {file : STREAMFILE} {sys : Sys}
    {res : Int} {s' : DATASTREAM} {sys' : Sys}
    (h : putftag env stream file sys = (res, s', sys')) :
    (∃ sz, s' = { stream with ftagstrsize := sz }) ∧ ∃ seg, sys'.trace = sys.trace ++ seg ∧
      ((seg = [] ∧ res ≠ 0) ∨
        ∃ len r, seg = [(Call.fsetxattr file.metahandle FTAG_NAME (.ftag file.ftag) len, r)] ∧
          (res = 0 ↔ r.ret = 0)) := by
  unfold putftag at h
  simp only [malloc] at h
  by_cases h1 : env.ftag_tostr file.ftag ≥ stream.ftagstrsize
  · simp only [h1, if_true] at h
    cases ha : env.alloc sys.allocs
    · simp only [ha, Prod.mk.injEq] at h
      obtain ⟨rfl, rfl, rfl⟩ := h
      exact ⟨⟨0, rfl⟩, [], by simp, Or.inl ⟨rfl, by decide⟩⟩
    · simp only [ha] at h
      by_cases h2 : env.ftag_tostr file.ftag ≥ uadd (env.ftag_tostr file.ftag) 1
      · simp only [h2, if_true, Prod.mk.injEq] at h
        obtain ⟨rfl, rfl, rfl⟩ := h
        exact ⟨⟨_, rfl⟩, [], by simp, Or.inl ⟨rfl, by decide⟩⟩
      · simp only [h2, if_false] at h
        obtain ⟨hs, seg, h3, h4⟩ := putftag_attach_exact h
        exact ⟨⟨_, hs⟩, seg, h3, h4⟩
  · simp only [h1, if_false] at h
    obtain ⟨hs, seg, h3, h4⟩ := putftag_attach_exact h
    exact ⟨⟨stream.ftagstrsize, hs⟩, seg, h3, h4⟩

theorem completefile_refuses (env : Env) (stream : DATASTREAM) (i : Nat) (sys : Sys)
    (h : completeRefuses stream i) : completefile env stream i sys = (-1, stream, sys) := by
  unfold completeRefuses at h
  unfold completefile
  simp only
  by_cases c1 : (getfile stream.files i).metahandle = none
  · rw [if_pos c1]
  rw [if_neg c1]
  by_cases c2 : (getfile stream.files i).ftag.state &&& FTAG_WRITEABLE ≠ 0 ∧
      stream.type = CREATE_STREAM
  · rw [if_pos c2]
  rw [if_neg c2]
  by_cases c3 : (getfile stream.files i).ftag.state &&& FTAG_DATASTATE ≠ FTAG_FIN ∧
      stream.type = EDIT_STREAM
  · rw [if_pos c3]
  rcases h with h | h | h
  · exact absurd h c1
  · exact absurd h c2
  · exact absurd h c3

theorem completefile_passes (env : Env) (stream : DATASTREAM) (i : Nat) (sys : Sys)
    (h : ¬ completeRefuses stream i) :
    ∃ seg, (completefile env stream i sys).2.2.trace = sys.trace ++ seg ∧
      closeCalls (getfile stream.files i).metahandle seg = 1 ∧
      seg.countP (fun e => e.1.isMdclose) = 1 ∧
      (getfile (completefile env stream i sys).2.1.files i).metahandle = none ∧
      ((completefile env stream i sys).1 = 0 →
        ∃ t len r u c, seg =
          [(Call.ftruncate (getfile stream.files i).metahandle
              (getfile stream.files i).ftag.availbytes, t),
           (Call.fsetxattr (getfile stream.files i).metahandle FTAG_NAME
              (.ftag { (getfile stream.files i).ftag with
                state := completedState (getfile stream.files i).ftag.state }) len, r),
           (Call.futimens (getfile stream.files i).metahandle (getfile stream.files i).atime
              (getfile stream.files i).mtime, u),
           (Call.mdclose (getfile stream.files i).metahandle, c)] ∧
          t.ret = 0 ∧ r.ret = 0 ∧ u.ret = 0 ∧ c.ret = 0) := by
  have c1 : ¬ (getfile stream.files i).metahandle = none := fun e => h (Or.inl e)
  have c2 : ¬ ((getfile stream.files i).ftag.state &&& FTAG_WRITEABLE ≠ 0 ∧
      stream.type = CREATE_STREAM) := fun e => h (Or.inr (Or.inl e))
  have c3 : ¬ ((getfile stream.files i).ftag.state &&& FTAG_DATASTATE ≠ FTAG_FIN ∧
      stream.type = EDIT_STREAM) := fun e => h (Or.inr (Or.inr e))
  obtain ⟨res, s', sys', hc⟩ : ∃ res s' sys', completefile env stream i sys = (res, s', sys') :=
    ⟨_, _, _, rfl⟩
  rw [hc]
  simp only
  unfold completefile at hc
  simp only at hc
  rw [if_neg c1, if_neg c2, if_neg c3] at hc
  have hf1 := setstate_files_same stream i (completedState (getfile stream.files i).ftag.state)
  unfold completedState at hf1
  generalize setstate stream i (FTAG_COMP ||| FTAG_READABLE |||
    (getfile stream.files i).ftag.state &&& NOT_DATASTATE) = s1 at *
  generalize hfile1 : getfile s1.files i = file1 at *
  have hmh : file1.metahandle = (getfile stream.files i).metahandle := by rw [hf1]
  have hav : file1.ftag.availbytes = (getfile stream.files i).ftag.availbytes := by rw [hf1]
  have hat : file1.atime = (getfile stream.files i).atime := by rw [hf1]
  have hmt : file1.mtime = (getfile stream.files i).mtime := by rw [hf1]
  have hft : file1.ftag = { (getfile stream.files i).ftag with
      state := completedState (getfile stream.files i).ftag.state } := by rw [hf1]; rfl
  have hnull : ∀ s2 : DATASTREAM, (getfile (closeslot s2 i).files i).metahandle = none := by
    intro s2
    rw [closeslot_files_same]
  rw [hmh, hav] at hc
  have htr1 := call_trace env sys (.ftruncate (getfile stream.files i).metahandle
    (getfile stream.files i).ftag.availbytes)
  generalize call env sys (.ftruncate (getfile stream.files i).metahandle
    (getfile stream.files i).ftag.availbytes) = k1 at hc htr1
  by_cases ct : k1.1.ret ≠ 0
  · rw [if_pos ct] at hc
    simp only [Prod.mk.injEq] at hc
    obtain ⟨rfl, rfl, rfl⟩ := hc
    refine ⟨[(.ftruncate (getfile stream.files i).metahandle (getfile stream.files i).ftag.availbytes, k1.1),
        (.mdclose (getfile stream.files i).metahandle, (call env k1.2 (.mdclose (getfile stream.files i).metahandle)).1)],
      ?_, ?_, ?_, hnull _, by simp⟩
    · rw [call_trace, htr1, List.append_assoc]
      rfl
    · simp [closeCalls, List.countP_cons]
    · simp [List.countP_cons, Call.isMdclose]
  rw [if_neg ct] at hc
  obtain ⟨pres, s2, sys2, hp⟩ : ∃ pres s2 sys2, putftag env s1 file1 k1.2 = (pres, s2, sys2) :=
    ⟨_, _, _, rfl⟩
  rw [hp] at hc
  obtain ⟨-, segp, htr, hsegp⟩ := putftag_exact hp
  rw [htr1] at htr
  rw [hmh, hft] at hsegp
  simp only at hc
  by_cases cp : pres ≠ 0
  · rw [if_pos cp] at hc
    simp only [Prod.mk.injEq] at hc
    obtain ⟨rfl, rfl, rfl⟩ := hc
    refine ⟨(.ftruncate (getfile stream.files i).metahandle (getfile stream.files i).ftag.availbytes, k1.1) :: (segp ++
        [(.mdclose (getfile stream.files i).metahandle, (call env sys2 (.mdclose (getfile stream.files i).metahandle)).1)]), ?_, ?_, ?_, hnull _, by simp⟩
    · rw [call_trace, htr]
      simp
    · rcases hsegp with ⟨rfl, -⟩ | ⟨len, r, rfl, -⟩ <;> simp [closeCalls, List.countP_cons]
    · rcases hsegp with ⟨rfl, -⟩ | ⟨len, r, rfl, -⟩ <;>
        simp [List.countP_cons, Call.isMdclose]
  rw [if_neg cp] at hc
  have hp0 : pres = 0 := not_not.mp cp
  obtain ⟨len, r, rfl, hr⟩ : ∃ len r, segp = [(Call.fsetxattr (getfile stream.files i).metahandle
      FTAG_NAME (.ftag { (getfile stream.files i).ftag with
        state := completedState (getfile stream.files i).ftag.state }) len, r)] ∧
      (pres = 0 ↔ r.ret = 0) := by
    rcases hsegp with ⟨-, hne⟩ | hx
    · exact absurd hp0 hne
    · exact hx
  rw [hat, hmt] at hc
  have htr3 := call_trace env sys2 (.futimens (getfile stream.files i).metahandle
    (getfile stream.files i).atime (getfile stream.files i).mtime)
  generalize call env sys2 (.futimens (getfile stream.files i).metahandle
    (getfile stream.files i).atime (getfile stream.files i).mtime) = k3 at hc htr3
  by_cases cu : k3.1.ret ≠ 0
  · rw [if_pos cu] at hc
    simp only [Prod.mk.injEq] at hc
    obtain ⟨rfl, rfl, rfl⟩ := hc
    refine ⟨[(.ftruncate (getfile stream.files i).metahandle (getfile stream.files i).ftag.availbytes, k1.1),
        (.fsetxattr (getfile stream.files i).metahandle FTAG_NAME (.ftag { (getfile stream.files i).ftag with
          state := completedState (getfile stream.files i).ftag.state }) len, r),
        (.futimens (getfile stream.files i).metahandle (getfile stream.files i).atime (getfile stream.files i).mtime, k3.1),
        (.mdclose (getfile stream.files i).metahandle, (call env k3.2 (.mdclose (getfile stream.files i).metahandle)).1)], ?_, ?_, ?_, hnull _, by simp⟩
    · rw [call_trace, htr3, htr]
      simp
    · simp [closeCalls, List.countP_cons]
    · simp [List.countP_cons, Call.isMdclose]
  rw [if_neg cu] at hc
  have htr4 := call_trace env k3.2 (.mdclose (getfile stream.files i).metahandle)
  generalize call env k3.2 (.mdclose (getfile stream.files i).metahandle) = k4 at hc htr4
  have hseg : sys.trace ++ [(Call.ftruncate (getfile stream.files i).metahandle
        (getfile stream.files i).ftag.availbytes, k1.1),
      (.fsetxattr (getfile stream.files i).metahandle FTAG_NAME
        (.ftag { (getfile stream.files i).ftag with
          state := completedState (getfile stream.files i).ftag.state }) len, r),
      (.futimens (getfile stream.files i).metahandle (getfile stream.files i).atime
        (getfile stream.files i).mtime, k3.1),
      (.mdclose (getfile stream.files i).metahandle, k4.1)] = k4.2.trace := by
    rw [htr4, htr3, htr]
    simp
  by_cases cc : k4.1.ret ≠ 0
  · rw [if_pos cc] at hc
    simp only [Prod.mk.injEq] at hc
    obtain ⟨rfl, rfl, rfl⟩ := hc
    exact ⟨_, hseg.symm, by simp [closeCalls, List.countP_cons],
      by simp [List.countP_cons, Call.isMdclose], hnull _, by simp⟩
  · rw [if_neg cc] at hc
    simp only [Prod.mk.injEq] at hc
    obtain ⟨rfl, rfl, rfl⟩ := hc
    exact ⟨_, hseg.symm, by simp [closeCalls, List.countP_cons],
      by simp [List.countP_cons, Call.isMdclose], hnull _,
      fun _ => ⟨_, _, _, _, _, rfl, not_not.mp ct, hr.mp hp0, not_not.mp cu, not_not.mp cc⟩⟩

/-- C21. The function `completefile` on slot `i`: when one of its three checks
fires (NULL handle, WRITEABLE file on a CREATE stream, file not FINALIZED on an
EDIT stream) it returns -1 with the stream and the system state unchanged, so no
backend call is issued.  Past the checks, on success or failure, exactly one MDAL
`close` is issued, on the handle of the file, and the slot's handle is NULL afterwards;
on success the calls issued are exactly `ftruncate(availbytes)`, `fsetxattr` of
MARFS-FTAG with the tag in data-state COMPLETE with READABLE set, `futimens` with the
file's times, and `close`, in this order and all on the file's handle. -/
theorem completefile_order (env : Env) (stream : DATASTREAM) (i : Nat) (sys : Sys) :
    (completeRefuses stream i → completefile env stream i sys = (-1, stream, sys)) ∧
    (¬ completeRefuses stream i →
      ∃ seg, (completefile env stream i sys).2.2.trace = sys.trace ++ seg ∧
        closeCalls (getfile stream.files i).metahandle seg = 1 ∧
        seg.countP (fun e => e.1.isMdclose) = 1 ∧
        (getfile (completefile env stream i sys).2.1.files i).metahandle = none ∧
        ((completefile env stream i sys).1 = 0 →
          ∃ t len r u c, seg =
            [(Call.ftruncate (getfile stream.files i).metahandle
                (getfile stream.files i).ftag.availbytes, t),
             (Call.fsetxattr (getfile stream.files i).metahandle FTAG_NAME
                (.ftag { (getfile stream.files i).ftag with
                  state := completedState (getfile stream.files i).ftag.state }) len, r),
             (Call.futimens (getfile stream.files i).metahandle (getfile stream.files i).atime
                (getfile stream.files i).mtime, u),
             (Call.mdclose (getfile stream.files i).metahandle, c)] ∧
            t.ret = 0 ∧ r.ret = 0 ∧ u.ret = 0 ∧ c.ret = 0)) ∧
    (completedState (getfile stream.files i).ftag.state &&& FTAG_DATASTATE = FTAG_COMP ∧
      completedState (getfile stream.files i).ftag.state &&& FTAG_READABLE = FTAG_READABLE) :=
  ⟨completefile_refuses env stream i sys, completefile_passes env stream i sys,
    completedState_datastate _, completedState_readable _⟩
/-! ## `putfinfo`: the recovery trailer -/

theorem putfinfo_failure (env : Env) (s : DATASTREAM) (sys : Sys)
    (h : (putfinfo env s sys).1 ≠ 0) :
    (putfinfo env s sys).1 = -1 ∧ (putfinfo env s sys).2.1.offset = s.offset := by
  revert h
  unfold putfinfo
  simp only [malloc]
  split_ifs
  all_goals first
    | (intro _
       exact ⟨rfl, rfl⟩)
    | simp

theorem putfinfo_too_long (env : Env) (s : DATASTREAM) (sys : Sys)
    (h : (env.recovery_finfotostr s.finfo).length > s.cur.ftag.recoverybytes) :
    (putfinfo env s sys).1 = -1 ∧ (putfinfo env s sys).2.2.trace = sys.trace := by
  unfold putfinfo
  simp only [malloc]
  split_ifs
  all_goals exact ⟨rfl, rfl⟩

theorem putfinfo_short_write (env : Env) (s : DATASTREAM) (sys : Sys) :
    ∀ e ∈ (putfinfo env s sys).2.2.trace.drop sys.trace.length,
      ofOff e.2.ret ≠ s.cur.ftag.recoverybytes → (putfinfo env s sys).1 = -1 := by
  unfold putfinfo
  simp only [malloc, call]
  split_ifs
  all_goals first
    | (intro e he hne
       rfl)
    | (intro e he hne
       simp only [List.drop_left, List.drop_length, List.mem_singleton, List.not_mem_nil] at he
       subst he
       exfalso
       simp_all)

/-- C22. When `putfinfo` succeeds it has issued exactly one call, an object write of
exactly `ftag.recoverybytes` bytes on the data handle: the buffer has that length, its
first `genbytes` bytes are the serialized `RECOVERY_FINFO` and all bytes after them are
zero; the stream offset has grown by `recoverybytes` (in `size_t` arithmetic).  When
`putfinfo` fails the offset is unchanged; it fails without any call when the serialized
finfo is longer than `recoverybytes`, and it fails when the write it issued did not
report `recoverybytes` bytes. -/
theorem putfinfo_writes_trailer (env : Env) (s : DATASTREAM) (sys : Sys) :
    ((putfinfo env s sys).1 = 0 →
      ∃ buf resp, (putfinfo env s sys).2.2.trace = sys.trace ++
          [(.ne_write s.datahandle buf s.cur.ftag.recoverybytes, resp)] ∧
        buf.length = s.cur.ftag.recoverybytes ∧
        (env.recovery_finfotostr s.finfo).length ≤ s.cur.ftag.recoverybytes ∧
        buf.take (env.recovery_finfotostr s.finfo).length = env.recovery_finfotostr s.finfo ∧
        buf.drop (env.recovery_finfotostr s.finfo).length = List.replicate
          (s.cur.ftag.recoverybytes - (env.recovery_finfotostr s.finfo).length) 0 ∧
        (putfinfo env s sys).2.1.offset = uadd s.offset s.cur.ftag.recoverybytes ∧
        (s.offset + s.cur.ftag.recoverybytes < SIZE_MOD →
          (putfinfo env s sys).2.1.offset = s.offset + s.cur.ftag.recoverybytes)) ∧
    ((putfinfo env s sys).1 ≠ 0 →
      (putfinfo env s sys).1 = -1 ∧ (putfinfo env s sys).2.1.offset = s.offset) ∧
    ((env.recovery_finfotostr s.finfo).length > s.cur.ftag.recoverybytes →
      (putfinfo env s sys).1 = -1 ∧ (putfinfo env s sys).2.2.trace = sys.trace) ∧
    (∀ e ∈ (putfinfo env s sys).2.2.trace.drop sys.trace.length,
      ofOff e.2.ret ≠ s.cur.ftag.recoverybytes → (putfinfo env s sys).1 = -1) := by
  refine ⟨fun h => ?_, putfinfo_failure env s sys, putfinfo_too_long env s sys,
    putfinfo_short_write env s sys⟩
  obtain ⟨fl, resp, hs, htr⟩ := putfinfo_success env s sys h
  have hle : (env.recovery_finfotostr s.finfo).length ≤ s.cur.ftag.recoverybytes := by
    by_contra hgt
    have := (putfinfo_too_long env s sys (by omega)).1
    rw [h] at this
    exact absurd this (by decide)
  refine ⟨_, resp, htr, ?_, hle, ?_, ?_, ?_, ?_⟩
  · simp only [List.length_append, List.length_replicate]
    omega
  · simp
  · simp
  · rw [hs]
  · intro hlt
    rw [hs]
    exact uadd_eq_add hlt
/-! ## `allocfiles`: the capacity of the file list -/

theorem allocfiles_result (env : Env) (files : List STREAMFILE) (current max : Nat) (sys : Sys)
    (hmul : 2 * current < SIZE_MOD) (hok : (malloc env sys).1 = true) :
    (allocfiles env files current max sys).1 =
      if max = 0 then (if current < 64 then 64 else 2 * current)
      else min (if current < 64 then 64 else 2 * current) max := by
  unfold allocfiles
  simp only [hok, Bool.true_eq_false, if_false]
  unfold INITIAL_FILE_ALLOC FILE_ALLOC_MULT umul
  have hm : current * 2 % SIZE_MOD = 2 * current := by
    rw [Nat.mod_eq_of_lt (by omega)]
    omega
  rw [hm]
  split_ifs <;> omega

theorem allocfiles_null (env : Env) (files : List STREAMFILE) (current max : Nat) (sys : Sys)
    (i : Nat) (hok : (malloc env sys).1 = true) (hi : current ≤ i)
    (hsz : i < (allocfiles env files current max sys).1) :
    (getfile (allocfiles env files current max sys).2.1 i).metahandle = none := by
  unfold allocfiles at hsz ⊢
  simp only [hok, Bool.true_eq_false, if_false] at hsz ⊢
  generalize (if max ≠ 0 ∧ (if current < INITIAL_FILE_ALLOC then INITIAL_FILE_ALLOC
    else umul current FILE_ALLOC_MULT) > max then max
    else if current < INITIAL_FILE_ALLOC then INITIAL_FILE_ALLOC
    else umul current FILE_ALLOC_MULT) = A at hsz ⊢
  unfold getfile
  rw [List.getD_eq_getElem?_getD, List.getElem?_map, List.getElem?_enum]
  by_cases hl : i < files.length
  · rw [List.getElem?_append_left (by simp; omega), List.getElem?_take, if_pos hsz,
      List.getElem?_eq_getElem hl]
    simp [hi]
  · rw [List.getElem?_append_right (by simp; omega), List.getElem?_replicate]
    have h1 : i - (List.take A files).length < A - files.length := by
      simp
      omega
    simp only [List.length_take] at h1
    simp [h1, hi]

/-- C23. When the reallocation succeeds (and `2 * current` does not wrap around
`size_t`), `allocfiles(files, current, max)` returns `c` if `max = 0` and `min(c, max)`
otherwise, where `c = 64` if `current < 64` and `c = 2 * current` otherwise; every slot
with index in `[current, result)` has a NULL metadata handle, and every slot with index
below `min(current, result)` is unchanged. -/
theorem allocfiles_capacity (env : Env) (files : List STREAMFILE) (current max : Nat)
    (sys : Sys) (hmul : 2 * current < SIZE_MOD) (hok : (malloc env sys).1 = true) :
    ((allocfiles env files current max sys).1 =
      if max = 0 then (if current < 64 then 64 else 2 * current)
      else min (if current < 64 then 64 else 2 * current) max) ∧
    (∀ i, current ≤ i → i < (allocfiles env files current max sys).1 →
      (getfile (allocfiles env files current max sys).2.1 i).metahandle = none) ∧
    (∀ i, i < min current (allocfiles env files current max sys).1 →
      getfile (allocfiles env files current max sys).2.1 i = getfile files i) := by
  refine ⟨allocfiles_result env files current max sys hmul hok,
    fun i hi hsz => allocfiles_null env files current max sys i hok hi hsz, fun i hi => ?_⟩
  have hne : (allocfiles env files current max sys).1 ≠ 0 := by omega
  exact allocfiles_getfile env files current max sys i hne (by omega) (by omega)

/-- Witness for C23: growing a full list of 64 slots in a repo that packs at
most 100 files per object gives 100 slots. -/
theorem allocfiles_capacity_witness :
    (allocfiles (okEnv default) (List.replicate 64 default) 64 100 sampleSys).1 = 100 ∧
    (getfile (allocfiles (okEnv default) (List.replicate 64 default) 64 100 sampleSys).2.1
      99).metahandle = none := by
  have h := allocfiles_capacity (okEnv default) (List.replicate 64 default) 64 100 sampleSys
    (by decide) (by decide)
  refine ⟨h.1.trans (by decide), h.2.1 99 (by decide) ?_⟩
  rw [h.1]
  decide
/-! ## The slot that `create_new_file` stores to, against the allocated capacity -/

theorem allocfiles_le_max (env : Env) (files : List STREAMFILE) (current max : Nat) (sys : Sys)
    (hmax : max ≠ 0) : (allocfiles env files current max sys).1 ≤ max := by
  unfold allocfiles
  simp only
  split_ifs <;> simp only <;> omega

theorem create_new_file_install_alloc {env : Env} {stream : DATASTREAM} {path : String}
    {ctxt : Nat} {rp : String} {newfile0 : STREAMFILE} {finfo : RECOVERY_FINFO} {sys : Sys}
    {res : Int} {s' : DATASTREAM} {sys' : Sys}
    (h : create_new_file_install env stream path ctxt rp newfile0 finfo sys = (res, s', sys'))
    (h0 : res = 0) :
    s'.curfile = stream.curfile ∧
    ((stream.curfile < stream.filealloc ∧ s'.filealloc = stream.filealloc) ∨
      (stream.filealloc ≤ stream.curfile ∧ ∃ sysx,
        s'.filealloc = (allocfiles env stream.files stream.filealloc
          stream.ns.datascheme.objfiles sysx).1)) := by
  unfold create_new_file_install at h
  obtain ⟨pres, s1, sys1, hp⟩ : ∃ pres s1 sys1,
    putftag env stream (create_new_file_place stream newfile0) sys = (pres, s1, sys1) :=
    ⟨_, _, _, rfl⟩
  obtain ⟨⟨sz, hsz⟩, -⟩ := putftag_spec hp
  simp only [hp] at h
  subst hsz
  split_ifs at h with c1 c2 c3 c4
  all_goals simp only [Prod.mk.injEq] at h
  all_goals obtain ⟨rfl, rfl, rfl⟩ := h
  · exact absurd h0 (by decide)
  · exact absurd h0 (by decide)
  · exact absurd h0 (by decide)
  · exact ⟨rfl, Or.inr ⟨c3, _, rfl⟩⟩
  · exact ⟨rfl, Or.inl ⟨by simpa using c3, rfl⟩⟩

theorem create_new_file_alloc {env : Env} {stream : DATASTREAM} {path : String}
    {ctxt mode : Nat} {sys : Sys}
    (h0 : (create_new_file env stream path ctxt mode sys).1 = 0) :
    (create_new_file env stream path ctxt mode sys).2.1.curfile = stream.curfile ∧
    ((stream.curfile < stream.filealloc ∧
        (create_new_file env stream path ctxt mode sys).2.1.filealloc = stream.filealloc) ∨
      (stream.filealloc ≤ stream.curfile ∧ ∃ sysx,
        (create_new_file env stream path ctxt mode sys).2.1.filealloc =
          (allocfiles env stream.files stream.filealloc
            stream.ns.datascheme.objfiles sysx).1)) := by
  obtain ⟨res, s', sys', h⟩ : ∃ res s' sys',
    create_new_file env stream path ctxt mode sys = (res, s', sys') := ⟨_, _, _, rfl⟩
  rw [h] at h0 ⊢
  simp only at h0 ⊢
  obtain ⟨orp, sys1, hrp⟩ : ∃ orp sys1,
    genrpath env (create_new_file_init stream) sys = (orp, sys1) := ⟨_, _, rfl⟩
  unfold create_new_file at h
  simp only [hrp] at h
  have hbad : ∀ (sy : Sys), ((-1 : Int), stream, sy) = (res, s', sys') → False := by
    intro sy he
    simp only [Prod.mk.injEq] at he
    rw [← he.1] at h0
    exact absurd h0 (by decide)
  cases orp with
  | none => exact (hbad _ h).elim
  | some rp =>
    simp only at h
    split at h
    · exact (hbad _ h).elim
    · split_ifs at h with c1 c2
      · exact (hbad _ h).elim
      · exact (hbad _ h).elim
      · exact create_new_file_install_alloc h h0

/-- C24. The store `files[curfile] = newfile` of `create_new_file` can fall outside the
allocated list: on a stream whose repo packs `k = objfiles > 0` files per object, whose
list holds at most `k` slots and whose current index has reached `k` (the file is
shifted to a new object), a successful `create_new_file` regrows the list through
`allocfiles` capped at `k`, so the capacity stays at most `k` and the store goes to
index `curfile ≥ filealloc`. -/
theorem create_new_file_store_outside (env : Env) (st : DATASTREAM) (path : String)
    (ctxt mode : Nat) (sys : Sys)
    (hk : st.ns.datascheme.objfiles ≠ 0)
    (hcur : st.ns.datascheme.objfiles ≤ st.curfile)
    (hfa : st.filealloc ≤ st.ns.datascheme.objfiles)
    (h0 : (create_new_file env st path ctxt mode sys).1 = 0) :
    (create_new_file env st path ctxt mode sys).2.1.curfile = st.curfile ∧
    (create_new_file env st path ctxt mode sys).2.1.filealloc ≤
      (create_new_file env st path ctxt mode sys).2.1.curfile := by
  obtain ⟨hc, hcase⟩ := create_new_file_alloc h0
  refine ⟨hc, ?_⟩
  rw [hc]
  rcases hcase with ⟨hlt, -⟩ | ⟨-, sysx, hx⟩
  · omega
  · rw [hx]
    exact le_trans (allocfiles_le_max env _ _ _ sysx hk) hcur

/-- Witness for C24: the second file created on a stream of a repo with one file
per object is stored at index 1 of a list with capacity 1. -/
theorem create_new_file_store_outside_witness :
    (continueCreate (okEnv default) (firstCreated 1 0) "/b" (samplePos 1 0) 0 sampleSys).1 = 0 ∧
    (continueCreate (okEnv default) (firstCreated 1 0) "/b" (samplePos 1 0) 0
      sampleSys).2.1.curfile = 1 ∧
    (continueCreate (okEnv default) (firstCreated 1 0) "/b" (samplePos 1 0) 0
      sampleSys).2.1.filealloc ≤ 1 := by
  have h := create_new_file_store_outside (okEnv default)
    (continueStart (okEnv default) (firstCreated 1 0) sampleSys) "/b" 0 0
    (finfile (okEnv default) (firstCreated 1 0) sampleSys).2.2
    (by decide!) (by decide!) (by decide!) (by decide!)
  have hc : (continueStart (okEnv default) (firstCreated 1 0) sampleSys).curfile = 1 := by
    decide!
  rw [hc] at h
  refine ⟨by decide!, h.1, ?_⟩
  have h2 := h.2
  rw [h.1] at h2
  exact h2
/-! ## The stream that `genstream` builds for an existing file -/

theorem getftag_parse_frame (s : DATASTREAM) (f : STREAMFILE) (r : Resp) (sys : Sys) :
    (getftag_parse s f r sys).2.1 = s := by
  unfold getftag_parse
  split_ifs
  · rfl
  · split <;> rfl

theorem getftag_frame (env : Env) (s : DATASTREAM) (f : STREAMFILE) (sys : Sys) :
    ∃ sz, (getftag env s f sys).2.1 = { s with ftagstrsize := sz } := by
  unfold getftag
  simp only
  split_ifs
  · exact ⟨_, rfl⟩
  · exact ⟨_, rfl⟩
  · exact ⟨_, by rw [getftag_parse_frame]⟩
  · exact ⟨s.ftagstrsize, by rw [getftag_parse_frame]⟩

theorem open_existing_file_frame (env : Env) (s : DATASTREAM) (path : String) (ctxt : Nat)
    (sys : Sys) :
    ∃ fl fi ct sid sz, (open_existing_file env s path ctxt sys).2.1 =
      { s with files := fl, finfo := fi, ctag := ct, streamid := sid, ftagstrsize := sz } := by
  unfold open_existing_file
  simp only
  generalize call env sys (.mdopen ctxt path
    (if s.type = READ_STREAM then O_RDONLY else O_WRONLY)) = k
  split
  · exact ⟨_, _, _, _, _, rfl⟩
  · generalize hg : getftag env _ _ _ = g
    have hf : ∀ a b c, getftag env a b c = g → ∃ sz, g.2.1 = { a with ftagstrsize := sz } := by
      intro a b c h
      rw [← h]
      exact getftag_frame env a b c
    obtain ⟨sz, hsz⟩ := hf _ _ _ hg
    split_ifs
    all_goals simp only [hsz]
    all_goals exact ⟨_, _, _, _, _, rfl⟩

theorem genstream_existing_frame {env : Env} {type : STREAM_TYPE} {stream : DATASTREAM}
    {path : String} {pos : marfs_position} {sys : Sys} {s : DATASTREAM}
    (h : (genstream_existing env type stream path pos sys).1 = some s) :
    ∃ fl fi ct sid sz, s =
      { stream with files := fl, finfo := fi, ctag := ct, streamid := sid, ftagstrsize := sz } := by
  obtain ⟨fl, fi, ct, sid, sz, hf⟩ := open_existing_file_frame env stream path pos.ctxt sys
  unfold genstream_existing at h
  simp only at h
  split_ifs at h
  all_goals simp only [Option.some.injEq] at h
  rw [← h, hf]
  exact ⟨_, _, _, _, _, rfl⟩

theorem genstream_opened {env : Env} {type : STREAM_TYPE} {path : String}
    {pos : marfs_position} {mode : Nat} {ctag : String} {sys : Sys} {s : DATASTREAM}
    (hor : type = READ_STREAM ∨ type = EDIT_STREAM)
    (h : (genstream env type path pos mode ctag sys).1 = some s) :
    s.objno = 0 ∧ s.offset = 0 ∧ s.recoveryheaderlen = 0 ∧ s.curfile = 0 ∧ s.filealloc = 1 ∧
      s.type = type := by
  have ht : ¬ type = CREATE_STREAM := by
    rcases hor with e | e <;> rw [e] <;> decide
  unfold genstream at h
  simp only [hor, if_true, if_neg ht] at h
  split_ifs at h with c1 c2 c3
  · obtain ⟨fl, fi, ct, sid, sz, hs⟩ := genstream_existing_frame h
    have hle := allocfiles_le_max env [] 0 1 (malloc env (malloc env (malloc env sys).2).2).2
      (by decide)
    have h1 : (allocfiles env [] 0 1 (malloc env (malloc env (malloc env sys).2).2).2).1 = 1 := by
      omega
    rw [hs]
    exact ⟨rfl, rfl, rfl, rfl, h1, rfl⟩

/-! ## The slot used when a READ stream is re-targeted -/

theorem setfile_length_gt (fs : List STREAMFILE) (i : Nat) (f : STREAMFILE) :
    i < (setfile fs i f).length := by
  unfold setfile
  split_ifs with h
  · simpa using h
  · simp
    omega

theorem open_existing_file_stores (env : Env) (s : DATASTREAM) (path : String) (ctxt : Nat)
    (sys : Sys) :
    s.curfile < (open_existing_file env s path ctxt sys).2.1.files.length := by
  unfold open_existing_file
  simp only
  generalize call env sys (.mdopen ctxt path
    (if s.type = READ_STREAM then O_RDONLY else O_WRONLY)) = k
  split
  · exact setfile_length_gt _ _ _
  · generalize hg : getftag env _ _ _ = g
    have hf : ∀ a b c, getftag env a b c = g → ∃ sz, g.2.1 = { a with ftagstrsize := sz } := by
      intro a b c h
      rw [← h]
      exact getftag_frame env a b c
    obtain ⟨sz, hsz⟩ := hf _ _ _ hg
    split_ifs
    all_goals simp only [hsz]
    all_goals exact setfile_length_gt _ _ _

/-- C25. The slot that `datastream_open` uses when it re-targets a READ stream lies
outside the capacity that `genstream` allocated: a READ stream from `genstream` has
`curfile = 0` and `filealloc = 1`, so the index `curfile + 1` of the newly opened file
is not below `filealloc`, and `open_existing_file`, called on that index, leaves a file
list longer than `filealloc`. -/
theorem datastream_open_slot_outside (env : Env) (path : String) (pos : marfs_position)
    (mode : Nat) (ctag : String) (sys : Sys) (s : DATASTREAM)
    (hgen : (genstream env READ_STREAM path pos mode ctag sys).1 = some s) :
    s.curfile = 0 ∧ s.filealloc = 1 ∧ ¬ (uadd s.curfile 1 < s.filealloc) ∧
    ∀ (path' : String) (ctxt : Nat) (sys' : Sys),
      s.filealloc < (open_existing_file env { s with curfile := uadd s.curfile 1 } path' ctxt
        sys').2.1.files.length := by
  obtain ⟨-, -, -, hc, hfa, -⟩ := genstream_opened (Or.inl rfl) hgen
  refine ⟨hc, hfa, ?_, fun path' ctxt sys' => ?_⟩
  · rw [hc, hfa]
    decide
  · have h := open_existing_file_stores env { s with curfile := uadd s.curfile 1 } path' ctxt sys'
    have h1 : uadd s.curfile 1 = 1 := by rw [hc]; decide
    simp only [h1] at h ⊢
    omega

/-- Witness for C25: re-targeting the READ stream opened on `/a` at `/b` succeeds
and leaves a list of two slots in a stream whose capacity is one. -/
theorem datastream_open_slot_outside_witness :
    openedRead.filealloc = 1 ∧
    (datastream_open (okEnv completeTag) (some (some openedRead)) READ_STREAM (some "/b")
      (some (samplePos 0 8192)) "ctag" sampleSys).1 = 0 ∧
    ((datastream_open (okEnv completeTag) (some (some openedRead)) READ_STREAM (some "/b")
      (some (samplePos 0 8192)) "ctag" sampleSys).2.1.map
        fun t => (t.filealloc, t.files.length)) = some (1, 2) := by
  have h := datastream_open_slot_outside (okEnv completeTag) "/a" (samplePos 0 8192) 0 "ctag"
    sampleSys openedRead (by decide!)
  exact ⟨h.2.1, by decide!, by decide!⟩

/-! ## The cursor of a freshly opened stream -/

theorem datastream_open_fresh {env : Env} {type : STREAM_TYPE} {path : String}
    {pos : marfs_position} {ctag : String} {sys : Sys} {s : DATASTREAM}
    (hor : type = READ_STREAM ∨ type = EDIT_STREAM)
    (h : (datastream_open env (some none) type (some path) (some pos) ctag sys).2.1 = some s) :
    (genstream env type path pos 0 ctag sys).1 = some s := by
  have hne : ¬ (type ≠ EDIT_STREAM ∧ type ≠ READ_STREAM) := by
    rcases hor with e | e <;> rw [e] <;> decide
  unfold datastream_open at h
  rw [if_neg hne] at h
  simp only [replace_stream, Bool.false_eq_true, if_false, ne_eq, not_true_eq_false] at h
  cases hg : (genstream env type path pos 0 ctag sys).1 with
  | none =>
    rw [hg] at h
    simp at h
  | some n =>
    rw [hg] at h
    simpa using h

/-- C26. The cursor of a fresh READ or EDIT stream is not set to the opened file:
whatever the `objno` and `offset` of the file's FTAG, a stream that `datastream_open`
generates has `objno = 0`, `offset = 0` and `recoveryheaderlen = 0`, the values that
`genstream` stores before it opens the file. -/
theorem datastream_open_fresh_cursor (env : Env) (type : STREAM_TYPE) (path : String)
    (pos : marfs_position) (ctag : String) (sys : Sys) (s : DATASTREAM)
    (hor : type = READ_STREAM ∨ type = EDIT_STREAM)
    (h : (datastream_open env (some none) type (some path) (some pos) ctag sys).2.1 = some s) :
    s.objno = 0 ∧ s.offset = 0 ∧ s.recoveryheaderlen = 0 := by
  obtain ⟨h1, h2, h3, -⟩ := genstream_opened hor (datastream_open_fresh hor h)
  exact ⟨h1, h2, h3⟩

/-- Witness for C26: a file whose data starts at offset 500 of object 3 is opened
with the cursor at offset 0 of object 0, and the first read on the stream opens the
object named for object 0 without any seek. -/
theorem datastream_open_fresh_cursor_witness :
    (openedFar.cur.ftag.objno, openedFar.cur.ftag.offset) = (3, 500) ∧
    (openedFar.objno = 0 ∧ openedFar.offset = 0 ∧ openedFar.recoveryheaderlen = 0) ∧
    ((datastream_read (sizedEnv farTag 20000) (some openedFar) 10 sampleSys).map
      fun r => (r.ret, openedNames r.sys.trace, seekOffsets r.sys.trace)) =
        some (10, ["obj.0"], []) :=
  ⟨by decide!,
    datastream_open_fresh_cursor (sizedEnv farTag 20000) READ_STREAM "/a" (samplePos 0 8192)
      "ctag" sampleSys openedFar (Or.inl rfl) (by decide!),
    by decide!⟩

/-! ## `datastream_read` at the end of the file -/

/-- C27. A read at the end of the file does not return 0: when `gettargets` reports
no remaining bytes, `datastream_read` issues no backend call, leaves the stream where
it is and returns `min(count, finfo.size)` bytes, all of them zero. -/
theorem datastream_read_at_eof (env : Env) (stream : DATASTREAM) (count : Nat) (sys : Sys)
    (tgt : Targets) (htype : stream.type = READ_STREAM)
    (hg : gettargets stream 0 SEEK_CUR = .ok tgt) (hrem : tgt.remaining = 0)
    (hc : count < SIZE_MOD) (hs : stream.finfo.size < SIZE_MOD) :
    datastream_read env (some stream) count sys =
      some ⟨(min count stream.finfo.size : Nat),
        List.replicate (min count stream.finfo.size) 0, stream, sys⟩ := by
  have ht : ¬ stream.type ≠ READ_STREAM := not_not.mpr htype
  unfold datastream_read
  simp only [if_neg ht, hg, hrem]
  have hz : ∀ n, n < SIZE_MOD → usub n 0 = n := fun n hn => usub_eq_sub (Nat.zero_le n) hn
  have hu : ∀ n, n < SIZE_MOD → uadd ((0 : Nat) : Int).toNat n = n := by
    intro n hn
    rw [Int.toNat_ofNat, uadd_eq_add (by omega)]
    omega
  by_cases h1 : count > stream.finfo.size
  · rw [if_pos h1]
    have hm : min count stream.finfo.size = stream.finfo.size := by omega
    rw [hm]
    by_cases h2 : stream.finfo.size > 0
    · simp only [if_pos h2, datastream_read_loop, if_true, Bool.false_eq_true, if_false,
        hz _ hs]
      have h3 : stream.finfo.size ≠ 0 := by omega
      simp only [ne_eq, h3, not_false_eq_true, if_true]
      rw [hu _ hs, List.nil_append]
    · have h3 : stream.finfo.size = 0 := by omega
      simp [h3, datastream_read_loop]
  · rw [if_neg h1]
    have hm : min count stream.finfo.size = count := by omega
    rw [hm]
    by_cases h2 : count > 0
    · simp only [if_pos h2, datastream_read_loop, if_true, Bool.false_eq_true, if_false,
        hz _ hc]
      have h3 : count ≠ 0 := by omega
      simp only [ne_eq, h3, not_false_eq_true, if_true]
      rw [hu _ hc, List.nil_append]
    · have h3 : count = 0 := by omega
      simp [h3, datastream_read_loop]

/-- Witness for C27: a read of 50 bytes on a stream that stands at the end of its
file of 100 bytes returns 50 zero bytes and leaves the stream where it was, so that
every further read returns 50 again. -/
theorem datastream_read_at_eof_witness :
    (gettargets eofStream 0 SEEK_CUR).toOption.map (fun t => t.remaining) = some 0 ∧
    datastream_read (okEnv default) (some eofStream) 50 sampleSys =
      some ⟨50, List.replicate 50 0, eofStream, sampleSys⟩ :=
  ⟨by decide!,
    datastream_read_at_eof (okEnv default) eofStream 50 sampleSys
      ⟨0, 100, 0, 8000⟩ (by decide!) (by decide!) rfl (by decide) (by decide!)⟩

/-! ## `gettargets` on the data boundary of the first object -/

/-- C28. The offset that `gettargets` returns is not always below `maxobjdata`: an
accepted absolute offset `p` that falls exactly on the data boundary of the file's
first object, `(ftag.offset - recoveryheaderlen) + p = maxobjdata`, is reported as
offset `maxobjdata` of that first object, not as offset 0 of the next one. -/
theorem gettargets_first_boundary (stream : DATASTREAM) (p : Nat)
    (htyped : stream.typed)
    (hsize : stream.recoveryheaderlen + stream.cur.ftag.recoverybytes < stream.cur.ftag.objsize)
    (hoff : stream.recoveryheaderlen ≤ stream.cur.ftag.offset)
    (hp : p ≤ stream.cur.ftag.availbytes)
    (hpoff : p < OFF_NEG)
    (hb : (stream.cur.ftag.offset - stream.recoveryheaderlen) + p =
      stream.cur.ftag.objsize - stream.cur.ftag.recoverybytes - stream.recoveryheaderlen) :
    gettargets stream (p : Int) SEEK_SET = .ok
      { tgtobjno := stream.cur.ftag.objno,
        tgtoffset :=
          stream.cur.ftag.objsize - stream.cur.ftag.recoverybytes - stream.recoveryheaderlen,
        remaining := stream.cur.ftag.availbytes - p,
        maxobjdata :=
          stream.cur.ftag.objsize - stream.cur.ftag.recoverybytes - stream.recoveryheaderlen } := by
  obtain ⟨hh, _, _, _, hosz, _, hobjno, hoffs, _, havl, hrb⟩ := htyped
  have hD : usub stream.cur.ftag.objsize
      (uadd stream.cur.ftag.recoverybytes stream.recoveryheaderlen) =
      stream.cur.ftag.objsize - stream.cur.ftag.recoverybytes - stream.recoveryheaderlen := by
    rw [uadd_eq_add (by omega), usub_eq_sub (by omega) hosz]
    omega
  have hM : usub stream.cur.ftag.offset stream.recoveryheaderlen =
      stream.cur.ftag.offset - stream.recoveryheaderlen := usub_eq_sub hoff hoffs
  have hpp : p < SIZE_MOD := by unfold OFF_NEG SIZE_MOD at *; omega
  have habs : gettargets_abs stream (p : Int) SEEK_SET = some p := by
    unfold gettargets_abs
    have hne1 : SEEK_SET ≠ SEEK_END := by decide
    have hne2 : SEEK_SET ≠ SEEK_CUR := by decide
    simp only [hne1, hne2, if_false, ne_eq, not_true_eq_false, ofOff_natCast hpp]
  have hrem : usub stream.cur.ftag.availbytes p = stream.cur.ftag.availbytes - p :=
    usub_eq_sub hp havl
  generalize hDdef : stream.cur.ftag.objsize - stream.cur.ftag.recoverybytes -
    stream.recoveryheaderlen = D at *
  generalize hMdef : stream.cur.ftag.offset - stream.recoveryheaderlen = M at *
  have hpM : uadd p M = p + M := uadd_eq_add (by omega)
  have hMp : uadd M p = D := by
    rw [uadd_eq_add (by omega)]
    exact hb
  unfold gettargets
  simp only [habs, hD, hM, hrem, hpM]
  have h1 : ¬ p > stream.cur.ftag.availbytes := by omega
  have h2 : ¬ p ≥ OFF_NEG := by omega
  have hc : ¬ p + M > D := by omega
  simp only [h1, h2, hc, if_false, hMp]

/-- Witness for C28: in the striping scenario (`maxobjdata = 8000`, file data from
offset 0 of object 0) the absolute offset 8000 is located at offset 8000 of object 0,
while 16000 is located at offset 0 of object 2; and for a stream that stands at the
start of object 1, `gettargets(0, SEEK_CUR)` answers object 0, offset 8000. -/
theorem gettargets_first_boundary_witness :
    gettargets stripeStream ((8000 : Nat) : Int) SEEK_SET = .ok ⟨0, 8000, 12000, 8000⟩ ∧
    gettargets stripeStream 16000 SEEK_SET = .ok ⟨2, 0, 4000, 8000⟩ ∧
    gettargets { stripeStream with objno := 1, offset := 64 } 0 SEEK_CUR =
      .ok ⟨0, 8000, 12000, 8000⟩ :=
  ⟨gettargets_first_boundary stripeStream 8000 (by decide) (by decide) (by decide) (by decide)
    (by decide) (by decide), by decide, by decide⟩

/-! ## `datastream_setrecoverypath` against the object size -/

/-- C29. A successful `datastream_setrecoverypath` on a CREATE stream stores the length
of the recovery info encoded with the new path as the `recoverybytes` of the current
file, and nothing compares it with the object size: header length and object size
stay as they were, so a path that is long enough breaks
`recoveryheaderlen + recoverybytes < objsize`. -/
theorem datastream_setrecoverypath_unchecked (env : Env) (stream : DATASTREAM)
    (recovpath : String) (sys : Sys) (htype : stream.type = CREATE_STREAM)
    (h0 : (datastream_setrecoverypath env (some stream) (some recovpath) sys).1 = 0) :
    ∃ s', (datastream_setrecoverypath env (some stream) (some recovpath) sys).2.1 = some s' ∧
      s'.recoveryheaderlen = stream.recoveryheaderlen ∧
      s'.cur.ftag.objsize = stream.cur.ftag.objsize ∧
      s'.cur.ftag.recoverybytes =
        (env.recovery_finfotostr { stream.finfo with path := some recovpath }).length ∧
      (stream.cur.ftag.objsize > 0 →
        stream.recoveryheaderlen +
          (env.recovery_finfotostr { stream.finfo with path := some recovpath }).length ≥
            stream.cur.ftag.objsize → ¬ recoveryFits s') := by
  have key : ∃ s', (datastream_setrecoverypath env (some stream) (some recovpath) sys).2.1 =
      some s' ∧ s'.recoveryheaderlen = stream.recoveryheaderlen ∧
      s'.cur.ftag.objsize = stream.cur.ftag.objsize ∧
      s'.cur.ftag.recoverybytes =
        (env.recovery_finfotostr { stream.finfo with path := some recovpath }).length := by
    have h1 : ¬ (stream.type ≠ CREATE_STREAM ∧ stream.type ≠ EDIT_STREAM) :=
      fun h => h.1 htype
    have h4 : ¬ (setpath stream (some recovpath)).type = EDIT_STREAM := by
      show ¬ stream.type = EDIT_STREAM
      rw [htype]
      decide
    unfold datastream_setrecoverypath at h0 ⊢
    simp only at h0 ⊢
    rw [if_neg h1] at h0 ⊢
    split_ifs at h0 ⊢ with c2 c3 c5 c7
    all_goals try
      (have h0' : (-1 : Int) = 0 := h0
       exact absurd h0' (by decide))
    obtain ⟨res, s3, sys2, hp⟩ : ∃ res s3 sys2, putftag env
        (setrecoverybytes (setpath stream (some recovpath))
          (env.recovery_finfotostr (setpath stream (some recovpath)).finfo).length)
        (setrecoverybytes (setpath stream (some recovpath))
          (env.recovery_finfotostr (setpath stream (some recovpath)).finfo).length).cur
        (malloc env sys).2 = (res, s3, sys2) := ⟨_, _, _, rfl⟩
    obtain ⟨⟨sz, hsz⟩, -⟩ := putftag_spec hp
    rw [hp]
    refine ⟨_, rfl, ?_, ?_, ?_⟩
    · rw [hsz]
      rfl
    · rw [hsz]
      unfold setrecoverybytes DATASTREAM.cur
      simp only [getfile_setfile_same]
      rfl
    · rw [hsz]
      unfold setrecoverybytes DATASTREAM.cur
      simp only [getfile_setfile_same]
      rfl
  obtain ⟨s', hs, hr, ho, hb⟩ := key
  refine ⟨s', hs, hr, ho, hb, fun hpos hge hfit => ?_⟩
  unfold recoveryFits at hfit
  rw [hr, ho, hb] at hfit
  have := hfit hpos
  omega

/-- Witness for C29: the stream created for `/a` in a repo with objects of 200 bytes
satisfies the invariant (64 + 102 < 200); setting a recovery path of 42 characters
succeeds and leaves 64 + 142 against the object size 200. -/
theorem datastream_setrecoverypath_unchecked_witness :
    recoveryFits pathCreated ∧
    (datastream_setrecoverypath pathEnv (some pathCreated)
      (some "/a/very/long/path/that/needs/more/room.dat") sampleSys).1 = 0 ∧
    ∃ s', (datastream_setrecoverypath pathEnv (some pathCreated)
        (some "/a/very/long/path/that/needs/more/room.dat") sampleSys).2.1 = some s' ∧
      ¬ recoveryFits s' := by
  obtain ⟨s', h1, -, -, -, h5⟩ := datastream_setrecoverypath_unchecked pathEnv pathCreated
    "/a/very/long/path/that/needs/more/room.dat" sampleSys (by decide!) (by decide!)
  exact ⟨by decide!, by decide!, s', h1, h5 (by decide!) (by decide!)⟩

/-! ## `datastream_release` on a READ stream -/

theorem freestream_files_extends (env : Env) (files : List STREAMFILE) :
    ∀ (n i : Nat) (sys : Sys), ∃ seg,
      (freestream_files env files n i sys).trace = sys.trace ++ seg := by
  intro n
  induction n with
  | zero => exact fun i sys => ⟨[], by simp [freestream_files]⟩
  | succ n ih =>
    intro i sys
    unfold freestream_files
    split
    · obtain ⟨seg, h⟩ := ih (i + 1) (call env sys (.mdclose (some _))).2
      exact ⟨_, by rw [h, call_trace, List.append_assoc]⟩
    · exact ih (i + 1) sys

theorem freestream_extends (env : Env) (s : DATASTREAM) (sys : Sys) :
    ∃ seg, (freestream env s sys).trace = sys.trace ++ seg := by
  unfold freestream
  cases s.datahandle with
  | none =>
    simp only
    split_ifs
    · exact freestream_files_extends env s.files (uadd s.curfile 1) 0 sys
    · exact ⟨[], by simp⟩
  | some h =>
    simp only
    split_ifs
    · obtain ⟨seg2, h2⟩ := freestream_files_extends env s.files (uadd s.curfile 1) 0
        (call env sys (.ne_abort (some h))).2
      exact ⟨_, by rw [h2, call_trace, List.append_assoc]⟩
    · exact ⟨_, call_trace _ _ _⟩

theorem release_tail_extends (env : Env) (s2 : DATASTREAM) (f : STREAMFILE) (sys sys3 : Sys)
    (seg : Trace) (h : sys3.trace = sys.trace ++ seg) :
    ∃ seg', (match (if s2.type = CREATE_STREAM then putftag env s2 f sys3
        else (0, s2, sys3)) with
      | (pres2, stream3, sys4) =>
        if pres2 ≠ 0 then (Exit.failed, stream3, sys4)
        else if stream3.type = CREATE_STREAM ∨ f.dotimes ≠ 0 then
          match call env sys4 (.futimens f.metahandle f.atime f.mtime) with
          | (u, sys5) =>
            if u.ret ≠ 0 then (Exit.failed, stream3, sys5) else (Exit.done, stream3, sys5)
        else (Exit.done, stream3, sys4)).2.2.trace = sys.trace ++ seg' := by
  by_cases hc : s2.type = CREATE_STREAM
  · simp only [hc, if_true]
    obtain ⟨seg2, h2⟩ := putftag_trace env s2 f sys3
    split_ifs
    · exact ⟨_, by rw [h2, h, List.append_assoc]⟩
    · exact ⟨_, by rw [call_trace, h2, h, List.append_assoc, List.append_assoc]⟩
    · exact ⟨_, by rw [call_trace, h2, h, List.append_assoc, List.append_assoc]⟩
    · exact ⟨_, by rw [h2, h, List.append_assoc]⟩
  · simp only [hc, if_false]
    split_ifs with c1 c2 c3
    · exact absurd rfl c1
    · exact ⟨_, by rw [call_trace, h, List.append_assoc]⟩
    · exact ⟨_, by rw [call_trace, h, List.append_assoc]⟩
    · exact ⟨_, h⟩

theorem datastream_release_finish_extends (env : Env) (s : DATASTREAM) (sys : Sys) :
    ∃ seg, (datastream_release_finish env s sys).2.2.trace = sys.trace ++ seg := by
  obtain ⟨seg1, h1, -⟩ := close_current_obj_grows env s sys
  unfold datastream_release_finish
  simp only
  generalize close_current_obj env s sys = k at h1
  obtain ⟨cres, s2, rtag, sys2⟩ := k
  simp only at h1 ⊢
  by_cases c1 : cres ≠ 0
  · rw [if_pos c1]
    exact ⟨seg1, h1⟩
  · rw [if_neg c1]
    cases rtag with
    | none =>
      simp only [Bool.false_eq_true, if_false]
      exact release_tail_extends env s2 s.cur sys sys2 seg1 h1
    | some r =>
      simp only
      generalize hx : call env sys2 (.fsetxattr s.cur.metahandle RTAG_NAME (.rtag r) r.length) = x
      have hxt : x.2.trace = sys.trace ++ (seg1 ++
          [(.fsetxattr s.cur.metahandle RTAG_NAME (.rtag r) r.length, x.1)]) := by
        rw [← hx, call_trace, h1, List.append_assoc]
      by_cases c2 : decide (x.1.ret ≠ 0) = true
      · rw [if_pos c2]
        exact ⟨_, hxt⟩
      · rw [if_neg c2]
        exact release_tail_extends env s2 s.cur sys x.2 _ hxt

theorem putfinfo_issues_write (env : Env) (s : DATASTREAM) (sys : Sys)
    (hbuf : s.cur.ftag.recoverybytes ≤ s.finfostrlen)
    (hlen : (env.recovery_finfotostr s.finfo).length ≤ s.cur.ftag.recoverybytes) :
    ∃ w, (putfinfo env s sys).2.2.trace = sys.trace ++
      [(.ne_write s.datahandle (env.recovery_finfotostr s.finfo ++
        List.replicate (s.cur.ftag.recoverybytes - (env.recovery_finfotostr s.finfo).length) 0)
        s.cur.ftag.recoverybytes, w)] := by
  have h1 : ¬ s.cur.ftag.recoverybytes > s.finfostrlen := by omega
  have h2 : ¬ (env.recovery_finfotostr s.finfo).length > s.cur.ftag.recoverybytes := by omega
  unfold putfinfo
  simp only [if_neg h1, Bool.true_eq_false, if_false, if_neg h2]
  split_ifs <;> exact ⟨_, call_trace _ _ _⟩

theorem datastream_release_after_putfinfo (env : Env) (stream : DATASTREAM) (sys : Sys)
    (htype : stream.type = READ_STREAM) (hdh : stream.datahandle ≠ none) :
    ∃ post, (datastream_release env (some (some stream)) sys).2.2.trace =
      (putfinfo env stream sys).2.2.trace ++ post := by
  have hsup : ¬ (stream.type ≠ EDIT_STREAM ∧ stream.type ≠ CREATE_STREAM ∧
      stream.type ≠ READ_STREAM) := fun h => h.2.2 htype
  have hnc : ¬ stream.type = CREATE_STREAM := by rw [htype]; decide
  unfold datastream_release
  simp only
  unfold datastream_release_body
  rw [if_neg hsup]
  unfold datastream_release_prepare edit_putfinfo
  simp only [if_neg hnc, if_pos hdh]
  by_cases hp : (putfinfo env stream sys).1 ≠ 0
  · simp only [if_pos hp, finish_exit]
    exact freestream_extends env _ _
  · simp only [if_neg hp]
    obtain ⟨seg1, h1⟩ := datastream_release_finish_extends env (putfinfo env stream sys).2.1
      (putfinfo env stream sys).2.2
    generalize datastream_release_finish env (putfinfo env stream sys).2.1
      (putfinfo env stream sys).2.2 = k at h1 ⊢
    obtain ⟨x, s3, sys3⟩ := k
    simp only at h1
    cases x
    · exact ⟨seg1, h1⟩
    · obtain ⟨seg2, h2⟩ := freestream_extends env s3 sys3
      exact ⟨seg1 ++ seg2, by
        simp only [finish_exit]
        rw [h2, h1, List.append_assoc]⟩
    · obtain ⟨seg2, h2⟩ := freestream_extends env s3 sys3
      exact ⟨seg1 ++ seg2, by
        simp only [finish_exit]
        rw [h2, h1, List.append_assoc]⟩
    · obtain ⟨seg2, h2⟩ := freestream_extends env s3 sys3
      exact ⟨seg1 ++ seg2, by
        simp only [finish_exit]
        rw [h2, h1, List.append_assoc]⟩

/-- C30. On a READ stream with an open data handle `datastream_release` writes to the
data object: the first call it issues is the `ne_write` of `putfinfo`, the recovery
info of the current file zero-filled to `recoverybytes`, before the object is closed
(the staged recovery info is assumed to fit `recoverybytes` and the buffer). -/
theorem datastream_release_read_writes (env : Env) (stream : DATASTREAM) (sys : Sys)
    (htype : stream.type = READ_STREAM) (hdh : stream.datahandle ≠ none)
    (hbuf : stream.cur.ftag.recoverybytes ≤ stream.finfostrlen)
    (hlen : (env.recovery_finfotostr stream.finfo).length ≤ stream.cur.ftag.recoverybytes) :
    ∃ w post, (datastream_release env (some (some stream)) sys).2.2.trace = sys.trace ++
      (.ne_write stream.datahandle (env.recovery_finfotostr stream.finfo ++
        List.replicate
          (stream.cur.ftag.recoverybytes - (env.recovery_finfotostr stream.finfo).length) 0)
        stream.cur.ftag.recoverybytes, w) :: post := by
  obtain ⟨w, hw⟩ := putfinfo_issues_write env stream sys hbuf hlen
  obtain ⟨post, hp⟩ := datastream_release_after_putfinfo env stream sys htype hdh
  exact ⟨w, post, by rw [hp, hw, List.append_assoc, List.singleton_append]⟩

/-- Witness for C30: releasing the READ stream `readStarted`, whose data object was
opened by a read, succeeds after one object write, the close of the object and the
close of the file. -/
theorem datastream_release_read_writes_witness :
    readStarted.type = READ_STREAM ∧ readStarted.datahandle ≠ none ∧
    (datastream_release (sizedEnv farTag 20000) (some (some readStarted)) sampleSys).1 = 0 ∧
    ((datastream_release (sizedEnv farTag 20000) (some (some readStarted))
      sampleSys).2.2.trace.map fun e => e.1.isNeWrite) = [true, false, false] ∧
    ∃ w post, (datastream_release (sizedEnv farTag 20000) (some (some readStarted))
      sampleSys).2.2.trace =
        (.ne_write readStarted.datahandle (List.replicate 128 1) 128, w) :: post := by
  obtain ⟨w, post, h⟩ := datastream_release_read_writes (sizedEnv farTag 20000) readStarted
    sampleSys (by decide!) (by decide!) (by decide!) (by decide!)
  refine ⟨by decide!, by decide!, by decide!, by decide!, w, post, ?_⟩
  rw [h]
  have h1 : readStarted.cur.ftag.recoverybytes = 128 := by decide!
  have h2 : (sizedEnv farTag 20000).recovery_finfotostr readStarted.finfo =
      List.replicate 128 1 := rfl
  rw [h1, h2]
  rfl

/-! ## `datastream_read`: the bytes delivered -/

theorem readData_append (a b : Trace) : readData (a ++ b) = readData a ++ readData b := by
  induction a with
  | nil => rfl
  | cons e rest ih =>
    obtain ⟨c, r⟩ := e
    cases c <;> simp [readData, ih]

theorem readData_notRead (seg : Trace) (h : ∀ e ∈ seg, Call.notRead e.1) : readData seg = [] := by
  induction seg with
  | nil => rfl
  | cons e rest ih =>
    obtain ⟨c, r⟩ := e
    have h1 := h (c, r) (List.mem_cons_self _ _)
    have h2 := ih fun e he => h e (List.mem_cons_of_mem _ he)
    cases c <;> first | exact h2 | exact absurd h1 (by simp [Call.notRead])

theorem readData_grows {a b : Sys} (h : Grows Call.notRead a b) :
    readData b.trace = readData a.trace := by
  obtain ⟨seg, h1, h2⟩ := h
  rw [h1, readData_append, readData_notRead seg h2, List.append_nil]

theorem datastream_read_loop_succ (env : Env) (M fuel : Nat) (s : DATASTREAM)
    (count readbytes : Nat) (buf : List Nat) (sys : Sys) (hc : count ≠ 0) :
    datastream_read_loop env M (fuel + 1) s count readbytes buf sys =
      if (readOpen env (readAdvance env M s sys).2.1 (readAdvance env M s sys).2.2).1 ≠ 0 then
        some (true, ⟨if readbytes ≠ 0 then readbytes else -1, buf,
          (readOpen env (readAdvance env M s sys).2.1 (readAdvance env M s sys).2.2).2.1,
          (readOpen env (readAdvance env M s sys).2.1 (readAdvance env M s sys).2.2).2.2⟩)
      else if (call env
          (readOpen env (readAdvance env M s sys).2.1 (readAdvance env M s sys).2.2).2.2
          (.ne_read
            (readOpen env (readAdvance env M s sys).2.1
              (readAdvance env M s sys).2.2).2.1.datahandle
            (if (readAdvance env M s sys).1 > count then count
              else (readAdvance env M s sys).1))).1.ret ≤ 0 then
        some (true, ⟨if readbytes ≠ 0 then readbytes else -1, buf,
          (readOpen env (readAdvance env M s sys).2.1 (readAdvance env M s sys).2.2).2.1,
          (call env
            (readOpen env (readAdvance env M s sys).2.1 (readAdvance env M s sys).2.2).2.2
            (.ne_read
              (readOpen env (readAdvance env M s sys).2.1
                (readAdvance env M s sys).2.2).2.1.datahandle
              (if (readAdvance env M s sys).1 > count then count
                else (readAdvance env M s sys).1))).2⟩)
      else
        datastream_read_loop env M fuel
          { (readOpen env (readAdvance env M s sys).2.1 (readAdvance env M s sys).2.2).2.1 with
            offset := uadd
              (readOpen env (readAdvance env M s sys).2.1
                (readAdvance env M s sys).2.2).2.1.offset
              (ofOff (call env
                (readOpen env (readAdvance env M s sys).2.1 (readAdvance env M s sys).2.2).2.2
                (.ne_read
                  (readOpen env (readAdvance env M s sys).2.1
                    (readAdvance env M s sys).2.2).2.1.datahandle
                  (if (readAdvance env M s sys).1 > count then count
                    else (readAdvance env M s sys).1))).1.ret) }
          (usub count (ofOff (call env
            (readOpen env (readAdvance env M s sys).2.1 (readAdvance env M s sys).2.2).2.2
            (.ne_read
              (readOpen env (readAdvance env M s sys).2.1
                (readAdvance env M s sys).2.2).2.1.datahandle
              (if (readAdvance env M s sys).1 > count then count
                else (readAdvance env M s sys).1))).1.ret))
          (uadd readbytes (ofOff (call env
            (readOpen env (readAdvance env M s sys).2.1 (readAdvance env M s sys).2.2).2.2
            (.ne_read
              (readOpen env (readAdvance env M s sys).2.1
                (readAdvance env M s sys).2.2).2.1.datahandle
              (if (readAdvance env M s sys).1 > count then count
                else (readAdvance env M s sys).1))).1.ret))
          (buf ++ (call env
            (readOpen env (readAdvance env M s sys).2.1 (readAdvance env M s sys).2.2).2.2
            (.ne_read
              (readOpen env (readAdvance env M s sys).2.1
                (readAdvance env M s sys).2.2).2.1.datahandle
              (if (readAdvance env M s sys).1 > count then count
                else (readAdvance env M s sys).1))).1.data)
          (call env
            (readOpen env (readAdvance env M s sys).2.1 (readAdvance env M s sys).2.2).2.2
            (.ne_read
              (readOpen env (readAdvance env M s sys).2.1
                (readAdvance env M s sys).2.2).2.1.datahandle
              (if (readAdvance env M s sys).1 > count then count
                else (readAdvance env M s sys).1))).2 := by
  rw [datastream_read_loop, if_neg hc]
  rfl

theorem readAdvance_spec (env : Env) (M : Nat) (s : DATASTREAM) (sys : Sys)
    (hM : M ≠ 0) (hM2 : M < SIZE_MOD) (hrhl : s.recoveryheaderlen < SIZE_MOD)
    (hoff : s.offset < SIZE_MOD) :
    (readAdvance env M s sys).1 ≠ 0 ∧ (readAdvance env M s sys).1 < SIZE_MOD ∧
    (readAdvance env M s sys).2.1.type = s.type ∧
    (readAdvance env M s sys).2.1.offset < SIZE_MOD ∧
    (readAdvance env M s sys).2.1.recoveryheaderlen = s.recoveryheaderlen ∧
    Grows Call.notRead sys (readAdvance env M s sys).2.2 := by
  unfold readAdvance
  by_cases h0 : usub M (usub s.offset s.recoveryheaderlen) = 0
  · rw [if_pos h0]
    have hs := close_current_obj_stream env s sys
    have hg := close_current_obj_grows env s sys
    generalize close_current_obj env s sys = k at hs hg
    obtain ⟨cres, s1, rtag, sys1⟩ := k
    simp only at hs hg ⊢
    subst hs
    refine ⟨hM, hM2, rfl, hrhl, rfl, ?_⟩
    cases rtag with
    | none => exact hg
    | some r => exact Grows.step hg env _ trivial
  · rw [if_neg h0]
    exact ⟨h0, usub_lt _ _, rfl, hoff, rfl, Grows.refl _ _⟩

theorem readOpen_spec (env : Env) (s2 : DATASTREAM) (sys2 : Sys) (hopen : OpensObjects env)
    (ht : s2.type = READ_STREAM) (hoff : s2.offset < SIZE_MOD) :
    (readOpen env s2 sys2).1 = 0 ∧
    (∃ dh, (readOpen env s2 sys2).2.1 = { s2 with datahandle := dh }) ∧
    Grows Call.notRead sys2 (readOpen env s2 sys2).2.2 := by
  unfold readOpen
  split_ifs
  · exact ⟨hopen s2 sys2 ht hoff, open_current_obj_stream env s2 sys2,
      open_current_obj_grows env s2 sys2⟩
  · exact ⟨rfl, ⟨s2.datahandle, rfl⟩, Grows.refl _ _⟩

theorem datastream_read_loop_full (env : Env) (M : Nat) (hM : M ≠ 0) (hM2 : M < SIZE_MOD)
    (hread : ReadsInFull env) (hopen : OpensObjects env) :
    ∀ (fuel : Nat) (s : DATASTREAM) (count readbytes : Nat) (buf : List Nat) (sys : Sys),
      s.type = READ_STREAM → s.offset < SIZE_MOD → s.recoveryheaderlen < SIZE_MOD →
      count ≤ fuel → readbytes + count < SIZE_MOD →
      ∃ data s' sys', datastream_read_loop env M fuel s count readbytes buf sys =
          some (false, ⟨((readbytes + count : Nat) : Int), buf ++ data, s', sys'⟩) ∧
        data.length = count ∧ readData sys'.trace = readData sys.trace ++ data := by
  intro fuel
  induction fuel with
  | zero =>
    intro s count readbytes buf sys _ _ _ hc _
    have h0 : count = 0 := by omega
    subst h0
    exact ⟨[], s, sys, by simp [datastream_read_loop], rfl, by simp⟩
  | succ fuel ih =>
    intro s count readbytes buf sys ht hoff hrhl hc hsum
    by_cases h0 : count = 0
    · subst h0
      exact ⟨[], s, sys, by simp [datastream_read_loop], rfl, by simp⟩
    · obtain ⟨a1, a2, a3, a4, a5, a6⟩ := readAdvance_spec env M s sys hM hM2 hrhl hoff
      obtain ⟨o1, ⟨dh, o2⟩, o3⟩ := readOpen_spec env (readAdvance env M s sys).2.1
        (readAdvance env M s sys).2.2 hopen (a3.trans ht) a4
      rw [datastream_read_loop_succ env M fuel s count readbytes buf sys h0]
      have hno : ¬ (readOpen env (readAdvance env M s sys).2.1
          (readAdvance env M s sys).2.2).1 ≠ 0 := not_not.mpr o1
      rw [if_neg hno]
      generalize htr : (if (readAdvance env M s sys).1 > count then count
        else (readAdvance env M s sys).1) = toread
      have htr1 : 0 < toread ∧ toread ≤ count := by
        rw [← htr]
        split_ifs <;> omega
      obtain ⟨hret, hlen⟩ := hread
        (readOpen env (readAdvance env M s sys).2.1 (readAdvance env M s sys).2.2).2.2.trace
        (readOpen env (readAdvance env M s sys).2.1 (readAdvance env M s sys).2.2).2.1.datahandle
        toread
      have hcall : (call env
          (readOpen env (readAdvance env M s sys).2.1 (readAdvance env M s sys).2.2).2.2
          (.ne_read (readOpen env (readAdvance env M s sys).2.1
            (readAdvance env M s sys).2.2).2.1.datahandle toread)).1 =
          env.backend
            (readOpen env (readAdvance env M s sys).2.1 (readAdvance env M s sys).2.2).2.2.trace
            (.ne_read (readOpen env (readAdvance env M s sys).2.1
              (readAdvance env M s sys).2.2).2.1.datahandle toread) := rfl
      have hpos : ¬ (call env
          (readOpen env (readAdvance env M s sys).2.1 (readAdvance env M s sys).2.2).2.2
          (.ne_read (readOpen env (readAdvance env M s sys).2.1
            (readAdvance env M s sys).2.2).2.1.datahandle toread)).1.ret ≤ 0 := by
        rw [hcall, hret]
        omega
      rw [if_neg hpos]
      have hof : ofOff (call env
          (readOpen env (readAdvance env M s sys).2.1 (readAdvance env M s sys).2.2).2.2
          (.ne_read (readOpen env (readAdvance env M s sys).2.1
            (readAdvance env M s sys).2.2).2.1.datahandle toread)).1.ret = toread := by
        rw [hcall, hret]
        exact ofOff_natCast (by omega)
      rw [hof]
      have hsub : usub count toread = count - toread :=
        usub_eq_sub htr1.2 (by omega)
      have hadd : uadd readbytes toread = readbytes + toread := uadd_eq_add (by omega)
      rw [hsub, hadd]
      obtain ⟨data, s', sys', hrec, hdl, hrd⟩ := ih
        { (readOpen env (readAdvance env M s sys).2.1 (readAdvance env M s sys).2.2).2.1 with
          offset := uadd (readOpen env (readAdvance env M s sys).2.1
            (readAdvance env M s sys).2.2).2.1.offset toread }
        (count - toread) (readbytes + toread)
        (buf ++ (call env
          (readOpen env (readAdvance env M s sys).2.1 (readAdvance env M s sys).2.2).2.2
          (.ne_read (readOpen env (readAdvance env M s sys).2.1
            (readAdvance env M s sys).2.2).2.1.datahandle toread)).1.data)
        (call env
          (readOpen env (readAdvance env M s sys).2.1 (readAdvance env M s sys).2.2).2.2
          (.ne_read (readOpen env (readAdvance env M s sys).2.1
            (readAdvance env M s sys).2.2).2.1.datahandle toread)).2
        (by
          show (readOpen env (readAdvance env M s sys).2.1
            (readAdvance env M s sys).2.2).2.1.type = READ_STREAM
          rw [o2]
          exact a3.trans ht)
        (uadd_lt _ _)
        (by
          show (readOpen env (readAdvance env M s sys).2.1
            (readAdvance env M s sys).2.2).2.1.recoveryheaderlen < SIZE_MOD
          rw [o2]
          show (readAdvance env M s sys).2.1.recoveryheaderlen < SIZE_MOD
          rw [a5]
          exact hrhl)
        (by omega) (by omega)
      refine ⟨(call env
          (readOpen env (readAdvance env M s sys).2.1 (readAdvance env M s sys).2.2).2.2
          (.ne_read (readOpen env (readAdvance env M s sys).2.1
            (readAdvance env M s sys).2.2).2.1.datahandle toread)).1.data ++ data, s', sys', ?_, ?_, ?_⟩
      · rw [hrec]
        have e1 : readbytes + toread + (count - toread) = readbytes + count := by omega
        rw [e1, List.append_assoc]
      · rw [List.length_append, hdl, hcall, hlen]
        omega
      · rw [hrd, call_trace, readData_append, readData_grows (a6.trans o3)]
        simp [readData]

theorem gettargets_ok_bounds {stream : DATASTREAM} {offset whence : Int} {t : Targets}
    (h : gettargets stream offset whence = .ok t) :
    t.maxobjdata < SIZE_MOD ∧
    ∃ pos, gettargets_abs stream offset whence = some pos ∧ pos ≤ stream.cur.ftag.availbytes ∧
      t.remaining = usub stream.cur.ftag.availbytes pos := by
  unfold gettargets at h
  simp only at h
  split at h
  · cases h
  · rename_i off hoff
    split_ifs at h with c1 c2 c3
    all_goals
      injection h with h
      subst h
      exact ⟨usub_lt _ _, off, hoff, by omega, rfl⟩

/-- C2. For a READ stream on which `gettargets` succeeds (with a data capacity per
object that is not zero), every object open succeeds and every `ne_read` delivers the
full amount requested, `datastream_read(buf, count)` returns exactly
`min(count, finfo.size)` bytes: the first `min(min(count, finfo.size), availbytes - pos)`
of them are the bytes that the `ne_read` calls of this call delivered, in order (`pos`
being the file position that `gettargets` computes for the stream), and every byte
after them is zero. -/
theorem datastream_read_full (env : Env) (stream : DATASTREAM) (count : Nat) (sys : Sys)
    (tgt : Targets) (htype : stream.type = READ_STREAM)
    (hg : gettargets stream 0 SEEK_CUR = .ok tgt) (hM : tgt.maxobjdata ≠ 0)
    (hoff : stream.offset < SIZE_MOD) (hrhl : stream.recoveryheaderlen < SIZE_MOD)
    (havail : stream.cur.ftag.availbytes < SIZE_MOD)
    (hc : count < SIZE_MOD) (hs : stream.finfo.size < SIZE_MOD)
    (hread : ReadsInFull env) (hopen : OpensObjects env) :
    ∃ pos data s' sys',
      gettargets_abs stream 0 SEEK_CUR = some pos ∧ pos ≤ stream.cur.ftag.availbytes ∧
      datastream_read env (some stream) count sys =
        some ⟨((min count stream.finfo.size : Nat) : Int),
          data ++ List.replicate (min count stream.finfo.size - data.length) 0, s', sys'⟩ ∧
      data.length = min (min count stream.finfo.size) (stream.cur.ftag.availbytes - pos) ∧
      readData sys'.trace = readData sys.trace ++ data := by
  obtain ⟨hM2, pos, hpos, hle, hrem⟩ := gettargets_ok_bounds hg
  rw [usub_eq_sub hle havail] at hrem
  have ht : ¬ stream.type ≠ READ_STREAM := not_not.mpr htype
  have hc1 : (if count > stream.finfo.size then stream.finfo.size else count) =
      min count stream.finfo.size := by
    split_ifs <;> omega
  generalize hC : min count stream.finfo.size = C at *
  have hCl : C < SIZE_MOD := by omega
  have hc2 : (if C > tgt.remaining then tgt.remaining else C) = min C tgt.remaining := by
    split_ifs <;> omega
  have hz : (if C > tgt.remaining then usub C tgt.remaining else 0) =
      C - min C tgt.remaining := by
    split_ifs with hgt
    · rw [usub_eq_sub (by omega) hCl]
      omega
    · omega
  obtain ⟨data, s', sys', hloop, hdl, hrd⟩ := datastream_read_loop_full env tgt.maxobjdata hM hM2
    hread hopen (min C tgt.remaining) stream (min C tgt.remaining) 0 [] sys htype hoff hrhl
    (le_refl _) (by omega)
  refine ⟨pos, data, s', sys', hpos, hle, ?_, by rw [hdl, hrem], hrd⟩
  unfold datastream_read
  simp only [if_neg ht, hg, hc1, hc2, hz, hloop, Bool.false_eq_true, if_false, List.nil_append,
    Nat.zero_add]
  by_cases hzero : C - min C tgt.remaining ≠ 0
  · rw [if_pos hzero, hdl]
    have hu : uadd ((min C tgt.remaining : Nat) : Int).toNat (C - min C tgt.remaining) = C := by
      rw [Int.toNat_ofNat, uadd_eq_add (by omega)]
      omega
    rw [hu]
  · rw [if_neg hzero, hdl]
    have h0 : C - min C tgt.remaining = 0 := not_not.mp hzero
    have h1 : min C tgt.remaining = C := by omega
    rw [h0, h1]
    simp

theorem okEnv_readsInFull (t : FTAG) : ReadsInFull (okEnv t) := by
  intro tr h n
  simp [okEnv, okBackend, okResp]

theorem okEnv_opensObjects (t : FTAG) : OpensObjects (okEnv t) := by
  intro s sys ht hoff
  have hlen : ∀ f : FTAG, ¬ ((okEnv t).ftag_datatgt f).length ≤ 0 := by
    intro f
    show ¬ (if f.objno = 0 then "obj.0" else "obj.n").length ≤ 0
    split_ifs <;> decide
  have hloc : ∀ (tb : String → Option String) (nm : String), tb = (fun _ => some "0") →
      open_current_obj_locate (okEnv t) tb nm = some 0 := by
    intro tb nm htb
    subst htb
    simp [open_current_obj_locate, okEnv, INT_MAX]
  unfold open_current_obj
  simp only [if_neg (hlen _), malloc]
  have ha : (okEnv t).alloc sys.allocs = true := rfl
  simp only [ha, Bool.true_eq_false, if_false, ne_eq, not_true_eq_false,
    hloc (okEnv t).podtable _ rfl, hloc (okEnv t).captable _ rfl,
    hloc (okEnv t).scattertable _ rfl, if_pos ht]
  have hh : ∀ (sy : Sys) (c : Call), (∃ a b d e, c = .ne_open a b d e) →
      (call (okEnv t) sy c).1.handle = some 1 := by
    intro sy c hc
    obtain ⟨a, b, d, e, rfl⟩ := hc
    rfl
  split
  · rename_i hnone
    rw [hh _ _ ⟨_, _, _, _, rfl⟩] at hnone
    cases hnone
  · have hseek : ∀ (sy : Sys) (h : Option Nat),
        ofOff (call (okEnv t) sy (.ne_seek h s.offset)).1.ret = s.offset := by
      intro sy h
      show ofOff ((s.offset : Nat) : Int) = s.offset
      exact ofOff_natCast hoff
    by_cases c1 : s.offset ≠ 0
    · rw [if_pos c1]
      simp only [hseek, ne_eq, not_true_eq_false, if_false]
    · rw [if_neg c1]

/-- Witness for C2: a read of 70 bytes at position 60 of a file of 100 bytes returns
70 bytes, the 40 bytes that remain in the file followed by 30 zero bytes. -/
theorem datastream_read_full_witness :
    ∃ data s' sys', datastream_read (okEnv default) (some midStream) 70 sampleSys =
        some ⟨70, data ++ List.replicate 30 0, s', sys'⟩ ∧
      data.length = 40 ∧ readData sys'.trace = data := by
  obtain ⟨pos, data, s', sys', h1, -, h3, h4, h5⟩ := datastream_read_full (okEnv default)
    midStream 70 sampleSys ⟨0, 60, 40, 8000⟩ (by decide!) (by decide!) (by decide)
    (by decide!) (by decide!) (by decide!) (by decide) (by decide!)
    (okEnv_readsInFull default) (okEnv_opensObjects default)
  have hp : gettargets_abs midStream 0 SEEK_CUR = some 60 := by decide!
  rw [hp] at h1
  injection h1 with h1
  subst h1
  have h6 : min (min 70 midStream.finfo.size) (midStream.cur.ftag.availbytes - 60) = 40 := by
    decide!
  have h7 : min 70 midStream.finfo.size = 70 := by decide!
  rw [h6] at h4
  rw [h7, h4] at h3
  exact ⟨data, s', sys', h3, h4, h5⟩

/-! ## The completion loop of `datastream_close` with a rebuild tag -/

theorem attach_and_complete_round {env : Env} {rtag : String} {complete : Bool}
    {stream : DATASTREAM} {ab : Nat} {sys : Sys} {s' : DATASTREAM} {ab' : Nat} {sys' : Sys}
    (h : attach_and_complete env (some rtag) complete stream ab sys = (s', ab', sys')) :
    ∃ r rest, sys'.trace = sys.trace ++
        (Call.fsetxattr stream.cur.metahandle RTAG_NAME (.rtag rtag) rtag.length, r) :: rest ∧
      (ab' = 0 → r.ret = 0) ∧
      (r.ret ≠ 0 → rest = [] ∧ ab' ≠ 0) ∧
      (ab' = 0 → complete = true → ∃ t len w u c, rest =
        [(Call.ftruncate stream.cur.metahandle stream.cur.ftag.availbytes, t),
         (Call.fsetxattr stream.cur.metahandle FTAG_NAME
            (.ftag { stream.cur.ftag with state := completedState stream.cur.ftag.state })
            len, w),
         (Call.futimens stream.cur.metahandle stream.cur.atime stream.cur.mtime, u),
         (Call.mdclose stream.cur.metahandle, c)] ∧ w.ret = 0) := by
  unfold attach_and_complete at h
  simp only at h
  have htr1 := call_trace env sys
    (.fsetxattr stream.cur.metahandle RTAG_NAME (.rtag rtag) rtag.length)
  generalize call env sys
    (.fsetxattr stream.cur.metahandle RTAG_NAME (.rtag rtag) rtag.length) = c1 at h htr1
  by_cases cx : c1.1.ret ≠ 0
  · rw [if_pos cx] at h
    simp only [Prod.mk.injEq] at h
    obtain ⟨rfl, rfl, rfl⟩ := h
    exact ⟨c1.1, [], htr1, fun h0 => absurd h0 (by decide), fun _ => ⟨rfl, by decide⟩,
      fun h0 => absurd h0 (by decide)⟩
  · rw [if_neg cx] at h
    have hx0 : c1.1.ret = 0 := not_not.mp cx
    cases complete with
    | false =>
      simp only [Bool.false_eq_true, if_false, Prod.mk.injEq] at h
      obtain ⟨rfl, rfl, rfl⟩ := h
      exact ⟨c1.1, [], htr1, fun _ => hx0, fun h0 => absurd hx0 h0,
        fun _ h0 => absurd h0 (by decide)⟩
    | true =>
      simp only [if_true] at h
      by_cases href : completeRefuses stream stream.curfile
      · rw [completefile_refuses env stream stream.curfile c1.2 href] at h
        simp only [Prod.mk.injEq] at h
        obtain ⟨rfl, rfl, rfl⟩ := h
        exact ⟨c1.1, [], htr1, fun _ => hx0, fun h0 => absurd hx0 h0,
          fun h0 => absurd h0 (by simp)⟩
      · obtain ⟨seg, hseg, -, -, -, hok⟩ := completefile_passes env stream stream.curfile c1.2 href
        generalize completefile env stream stream.curfile c1.2 = k at h hseg hok
        obtain ⟨cres, s1, sys1⟩ := k
        simp only [Prod.mk.injEq] at h
        obtain ⟨rfl, rfl, rfl⟩ := h
        simp only at hseg hok
        refine ⟨c1.1, seg, by rw [hseg, htr1, List.append_assoc, List.singleton_append],
          fun _ => hx0, fun h0 => absurd hx0 h0, fun h0 _ => ?_⟩
        have hc0 : cres = 0 := by
          by_contra hne
          rw [if_pos hne] at h0
          exact absurd h0 (by decide)
        obtain ⟨t, len, w, u, c, hs, -, hw, -, -⟩ := hok hc0
        exact ⟨t, len, w, u, c, hs, hw⟩

theorem rtag_then_ftag (h : Option Nat) (rtag : String) (tag : FTAG) (r t w u c : Resp)
    (len av : Nat) (ta tm : timespec) (seg' : Trace) (hw : w.ret = 0) (hr : r.ret = 0) :
    ∃ pre r' len' w' post,
      (Call.fsetxattr h RTAG_NAME (.rtag rtag) rtag.length, r) ::
        [(Call.ftruncate h av, t), (Call.fsetxattr h FTAG_NAME (.ftag tag) len, w),
         (Call.futimens h ta tm, u), (Call.mdclose h, c)] ++ seg' =
        pre ++ (Call.fsetxattr h FTAG_NAME (.ftag tag) len', w') :: post ∧
      w'.ret = 0 ∧ r'.ret = 0 ∧
      (Call.fsetxattr h RTAG_NAME (.rtag rtag) rtag.length, r') ∈ pre :=
  ⟨[(Call.fsetxattr h RTAG_NAME (.rtag rtag) rtag.length, r), (Call.ftruncate h av, t)], r, len,
    w, [(Call.futimens h ta tm, u), (Call.mdclose h, c)] ++ seg', rfl, hw, hr,
    List.mem_cons_self _ _⟩

theorem datastream_close_files_attaches (env : Env) (rtag : String) :
    ∀ (fuel : Nat) (stream : DATASTREAM) (ab : Nat) (sys : Sys) (s' : DATASTREAM) (ab' : Nat)
      (sys' : Sys), stream.curfile ≤ fuel →
      datastream_close_files env (some rtag) fuel stream ab sys = (s', ab', sys') →
      ∃ seg, sys'.trace = sys.trace ++ seg ∧
        (∀ i, i ≤ stream.curfile → ∃ r,
          (Call.fsetxattr (getfile stream.files i).metahandle RTAG_NAME (.rtag rtag)
            rtag.length, r) ∈ seg) ∧
        (ab' = 0 → stream.type ≠ READ_STREAM → ∀ i, i ≤ stream.curfile →
          ∃ pre r len w post, seg = pre ++
              (Call.fsetxattr (getfile stream.files i).metahandle FTAG_NAME
                (.ftag { (getfile stream.files i).ftag with
                  state := completedState (getfile stream.files i).ftag.state }) len, w) ::
              post ∧
            w.ret = 0 ∧ r.ret = 0 ∧
            (Call.fsetxattr (getfile stream.files i).metahandle RTAG_NAME (.rtag rtag)
              rtag.length, r) ∈ pre) := by
  intro fuel
  induction fuel with
  | zero =>
    intro stream ab sys s' ab' sys' hcur h
    have hc0 : stream.curfile = 0 := by omega
    rw [datastream_close_files] at h
    obtain ⟨s1, ab1, sys1, hb⟩ : ∃ s1 ab1 sys1, attach_and_complete env (some rtag)
      (decide (stream.type ≠ READ_STREAM)) stream ab sys = (s1, ab1, sys1) := ⟨_, _, _, rfl⟩
    rw [hb] at h
    have hres : s' = s1 ∧ ab' = ab1 ∧ sys' = sys1 := by
      simp only at h
      split_ifs at h <;> simp only [Prod.mk.injEq] at h <;>
        exact ⟨h.1.symm, h.2.1.symm, h.2.2.symm⟩
    obtain ⟨rfl, rfl, rfl⟩ := hres
    obtain ⟨r, rest, htr, hr0, -, hcomp⟩ := attach_and_complete_round hb
    have hcurf : ∀ i, i ≤ stream.curfile → getfile stream.files i = stream.cur := by
      intro i hi
      have : i = stream.curfile := by omega
      rw [this]
      rfl
    refine ⟨_, htr, fun i hi => ⟨r, by rw [hcurf i hi]; exact List.mem_cons_self _ _⟩,
      fun h0 hty i hi => ?_⟩
    obtain ⟨t, len, w, u, c, hrest, hw⟩ := hcomp h0 (by simpa using hty)
    rw [hcurf i hi, hrest]
    simpa using rtag_then_ftag stream.cur.metahandle rtag _ r t w u c len _ _ _ [] hw (hr0 h0)
  | succ fuel ih =>
    intro stream ab sys s' ab' sys' hcur h
    rw [datastream_close_files] at h
    obtain ⟨s1, ab1, sys1, hb⟩ : ∃ s1 ab1 sys1, attach_and_complete env (some rtag)
      (decide (stream.type ≠ READ_STREAM)) stream ab sys = (s1, ab1, sys1) := ⟨_, _, _, rfl⟩
    rw [hb] at h
    obtain ⟨⟨fl, sz, hs1⟩, hfr, -, -⟩ := attach_and_complete_spec hb
    obtain ⟨r, rest, htr, hr0, -, hcomp⟩ := attach_and_complete_round hb
    have hc1 : s1.curfile = stream.curfile := by rw [hs1]
    have hty1 : s1.type = stream.type := by rw [hs1]
    simp only at h
    by_cases hz : s1.curfile = 0
    · rw [if_pos hz] at h
      simp only [Prod.mk.injEq] at h
      obtain ⟨rfl, rfl, rfl⟩ := h
      have hcurf : ∀ i, i ≤ stream.curfile → getfile stream.files i = stream.cur := by
        intro i hi
        have : i = stream.curfile := by omega
        rw [this]
        rfl
      refine ⟨_, htr, fun i hi => ⟨r, by rw [hcurf i hi]; exact List.mem_cons_self _ _⟩,
        fun h0 hty i hi => ?_⟩
      obtain ⟨t, len, w, u, c, hrest, hw⟩ := hcomp h0 (by simpa using hty)
      rw [hcurf i hi, hrest]
      simpa using rtag_then_ftag stream.cur.metahandle rtag _ r t w u c len _ _ _ [] hw (hr0 h0)
    · rw [if_neg hz] at h
      obtain ⟨seg', htr', hatt', hord'⟩ := ih { s1 with curfile := s1.curfile - 1 } ab1 sys1
        s' ab' sys' (by show s1.curfile - 1 ≤ fuel; omega) h
      obtain ⟨-, -, hmono, -⟩ := datastream_close_files_spec env (some rtag) fuel
        { s1 with curfile := s1.curfile - 1 } ab1 sys1 s' ab' sys'
        (by show s1.curfile - 1 ≤ fuel; omega) h
      have hlow : ∀ i, i ≤ s1.curfile - 1 → getfile s1.files i = getfile stream.files i := by
        intro i hi
        exact hfr i (by omega)
      refine ⟨(_ :: rest) ++ seg', by rw [htr', htr, List.append_assoc], fun i hi => ?_,
        fun h0 hty i hi => ?_⟩
      · by_cases hi2 : i = stream.curfile
        · rw [hi2]
          exact ⟨r, List.mem_append_left _ (List.mem_cons_self _ _)⟩
        · obtain ⟨r', hr'⟩ := hatt' i (by show i ≤ s1.curfile - 1; omega)
          have e : getfile ({ s1 with curfile := s1.curfile - 1 } : DATASTREAM).files i =
              getfile stream.files i := hlow i (by omega)
          rw [e] at hr'
          exact ⟨r', List.mem_append_right _ hr'⟩
      · have hab1 : ab1 = 0 := by
          by_contra hne
          exact hmono hne h0
        by_cases hi2 : i = stream.curfile
        · obtain ⟨t, len, w, u, c, hrest, hw⟩ := hcomp hab1 (by simpa using hty)
          rw [hi2, hrest]
          exact rtag_then_ftag stream.cur.metahandle rtag _ r t w u c len _ _ _ seg' hw (hr0 hab1)
        · obtain ⟨pre, r', len, w, post, hseg, hw, hr', hmem⟩ := hord' h0
            (by show s1.type ≠ READ_STREAM; rw [hty1]; exact hty) i
            (by show i ≤ s1.curfile - 1; omega)
          have e : getfile ({ s1 with curfile := s1.curfile - 1 } : DATASTREAM).files i =
              getfile stream.files i := hlow i (by omega)
          rw [e] at hseg hmem
          exact ⟨(_ :: rest) ++ pre, r', len, w, post, by rw [hseg, List.append_assoc], hw, hr',
            List.mem_append_right _ hmem⟩

/-- C5. In `datastream_close`, when closing the current object reports degradation and
yields a rebuild tag, the completion loop attempts to attach `MARFS-RTAG`, with that
tag, to the handle of every tracked file.  Every write of an FTAG to a handle (the
rewrite as COMPLETE) comes after a successful attachment of the rebuild tag to the same
handle, and when the close returns 0 on a stream that is not a READ stream, every
tracked file has its rebuild tag attached first and its FTAG, with the completed state,
written later.  A failed attachment is followed directly by the attachment attempt for
the next file or by the end of the loop (the file is not completed), and makes
`datastream_close` return -1. -/
theorem datastream_close_rtag_order (env : Env) (tgtstream : DATASTREAM) (sys : Sys)
    (s1 : DATASTREAM) (sys1 : Sys) (s2 : DATASTREAM) (rtag : String) (sys2 : Sys)
    (hsupp : tgtstream.type = EDIT_STREAM ∨ tgtstream.type = CREATE_STREAM ∨
      tgtstream.type = READ_STREAM)
    (hprep : datastream_close_prepare env tgtstream sys = (Exit.done, s1, sys1))
    (hclose : close_current_obj env s1 sys1 = (0, s2, some rtag, sys2)) :
    ∃ seg, (datastream_close_body env tgtstream sys).2.2.trace = sys2.trace ++ seg ∧
      (∀ i, i ≤ s2.curfile → ∃ r,
        (Call.fsetxattr (getfile s2.files i).metahandle RTAG_NAME (.rtag rtag)
          rtag.length, r) ∈ seg) ∧
      RtagBeforeFtag seg ∧ RtagFailureSkips seg ∧
      ((datastream_close env (some (some tgtstream)) sys).1 = 0 → s2.type ≠ READ_STREAM →
        ∀ i, i ≤ s2.curfile → ∃ pre r len w post, seg = pre ++
            (Call.fsetxattr (getfile s2.files i).metahandle FTAG_NAME
              (.ftag { (getfile s2.files i).ftag with
                state := completedState (getfile s2.files i).ftag.state }) len, w) :: post ∧
          w.ret = 0 ∧ r.ret = 0 ∧
          (Call.fsetxattr (getfile s2.files i).metahandle RTAG_NAME (.rtag rtag)
            rtag.length, r) ∈ pre) ∧
      ((∃ e ∈ seg, isRtagFailure e) →
        (datastream_close env (some (some tgtstream)) sys).1 = -1) := by
  obtain ⟨s3, ab, sys3, hl⟩ : ∃ s3 ab sys3,
    datastream_close_files env (some rtag) s2.curfile s2 0 sys2 = (s3, ab, sys3) :=
    ⟨_, _, _, rfl⟩
  obtain ⟨-, -, -, seg, htr, -, hrt⟩ :=
    datastream_close_files_spec env (some rtag) s2.curfile s2 0 sys2 s3 ab sys3 (le_refl _) hl
  obtain ⟨seg', htr', hatt, hord⟩ :=
    datastream_close_files_attaches env rtag s2.curfile s2 0 sys2 s3 ab sys3 (le_refl _) hl
  have hseg : seg' = seg := by
    have := htr'.symm.trans htr
    exact List.append_cancel_left this
  subst hseg
  obtain ⟨hB, hS, -, hfail⟩ := hrt rtag rfl
  have hns : ¬ (tgtstream.type ≠ EDIT_STREAM ∧ tgtstream.type ≠ CREATE_STREAM ∧
      tgtstream.type ≠ READ_STREAM) := by
    rintro ⟨h1, h2, h3⟩
    rcases hsupp with h | h | h
    · exact h1 h
    · exact h2 h
    · exact h3 h
  have hb : datastream_close_body env tgtstream sys =
      (if ab ≠ 0 then Exit.failed else Exit.done, s3, sys3) := by
    unfold datastream_close_body
    rw [if_neg hns, hprep]
    simp only [hclose, ne_eq, not_true_eq_false, if_false, hl]
    split_ifs <;> rfl
  refine ⟨seg', by rw [hb]; exact htr, hatt, hB, hS, ?_, ?_⟩
  · intro h0 hty
    have hab : ab = 0 := by
      by_contra hne
      unfold datastream_close at h0
      simp only [hb, if_pos hne, finish_exit] at h0
      exact absurd h0 (by decide)
    exact hord hab hty
  · intro hf
    have hab := hfail hf
    unfold datastream_close
    simp only [hb, if_pos hab, finish_exit]

/-- Witness for C5: closing the stream that tracks `/a` and `/b` when the object close
reports degradation.  With attachments that succeed the close returns 0 and sets, in
this order, RTAG and FTAG on the handle of `/b`, then RTAG and FTAG on the handle of
`/a`; with attachments that fail it returns -1 after the two attachment attempts and
writes no FTAG. -/
theorem datastream_close_rtag_order_witness :
    (datastream_close degradedEnv (some (some twoCreated)) (secondRun 2 0).2.2).1 = 0 ∧
    xattrWrites ((datastream_close degradedEnv (some (some twoCreated))
        (secondRun 2 0).2.2).2.2.trace.drop (secondRun 2 0).2.2.trace.length) =
      [(some 9, RTAG_NAME), (some 9, FTAG_NAME), (some 2, RTAG_NAME), (some 2, FTAG_NAME)] ∧
    (datastream_close rtagFailEnv (some (some twoCreated)) (secondRun 2 0).2.2).1 = -1 ∧
    xattrWrites ((datastream_close rtagFailEnv (some (some twoCreated))
        (secondRun 2 0).2.2).2.2.trace.drop (secondRun 2 0).2.2.trace.length) =
      [(some 9, RTAG_NAME), (some 2, RTAG_NAME)] ∧
    ∃ seg,
      (datastream_close_body degradedEnv twoCreated (secondRun 2 0).2.2).2.2.trace =
        (close_current_obj degradedEnv
          (datastream_close_prepare degradedEnv twoCreated (secondRun 2 0).2.2).2.1
          (datastream_close_prepare degradedEnv twoCreated
            (secondRun 2 0).2.2).2.2).2.2.2.trace ++ seg ∧
      (∀ i, i ≤ 1 → ∃ r,
        (Call.fsetxattr (getfile twoCreated.files i).metahandle RTAG_NAME (.rtag "rtag") 4, r)
          ∈ seg) ∧
      RtagBeforeFtag seg ∧ RtagFailureSkips seg := by
  obtain ⟨seg, h1, h2, h3, h4, -, -⟩ := datastream_close_rtag_order degradedEnv twoCreated
    (secondRun 2 0).2.2
    (datastream_close_prepare degradedEnv twoCreated (secondRun 2 0).2.2).2.1
    (datastream_close_prepare degradedEnv twoCreated (secondRun 2 0).2.2).2.2
    (close_current_obj degradedEnv
      (datastream_close_prepare degradedEnv twoCreated (secondRun 2 0).2.2).2.1
      (datastream_close_prepare degradedEnv twoCreated (secondRun 2 0).2.2).2.2).2.1
    "rtag"
    (close_current_obj degradedEnv
      (datastream_close_prepare degradedEnv twoCreated (secondRun 2 0).2.2).2.1
      (datastream_close_prepare degradedEnv twoCreated (secondRun 2 0).2.2).2.2).2.2.2
    (Or.inr (Or.inl (by decide!))) (by decide!) (by decide!)
  refine ⟨by decide!, by decide!, by decide!, by decide!, seg, h1, fun i hi => ?_, h3, h4⟩
  have hcf : (close_current_obj degradedEnv
      (datastream_close_prepare degradedEnv twoCreated (secondRun 2 0).2.2).2.1
      (datastream_close_prepare degradedEnv twoCreated (secondRun 2 0).2.2).2.2).2.1.curfile = 1 := by
    decide!
  have hf : ∀ j, j ≤ 1 → (getfile (close_current_obj degradedEnv
      (datastream_close_prepare degradedEnv twoCreated (secondRun 2 0).2.2).2.1
      (datastream_close_prepare degradedEnv twoCreated
        (secondRun 2 0).2.2).2.2).2.1.files j).metahandle =
      (getfile twoCreated.files j).metahandle := by decide!
  obtain ⟨r, hr⟩ := h2 i (by rw [hcf]; exact hi)
  rw [hf i hi] at hr
  exact ⟨r, hr⟩

end Marfs
